import Mathlib

/-!
# OpenTESArena software renderer: clipping and rasterization

A shallow embedding of `Rendering/SoftwareRenderer.cpp`.

`double` values are read in exact arithmetic: every definition is written over an
arbitrary linearly ordered field `K` (the rationals for evaluation, the reals for the
exact reading of `std::sqrt`).  The depth buffer, the only place where the code stores
`+infinity`, holds values of `WithTop K`.
-/

namespace OpenTESArena

/-! ## Vectors -/

/-- Modelled from the spec: `Double2` of Math/Vector2.h, which is not among the sources:
a pair of doubles (a UV pair, a screen-space point). -/
structure Double2 (K : Type) where
  x : K
  y : K
deriving DecidableEq, Repr

/-- Modelled from the spec: `Double3` of Math/Vector3.h, which is not among the sources:
a world-space point or direction. -/
structure Double3 (K : Type) where
  x : K
  y : K
  z : K
deriving DecidableEq, Repr

namespace Double2

variable {K : Type} [LinearOrderedField K]

instance : Add (Double2 K) := ⟨fun a b => ⟨a.x + b.x, a.y + b.y⟩⟩

instance : Sub (Double2 K) := ⟨fun a b => ⟨a.x - b.x, a.y - b.y⟩⟩

instance : HMul (Double2 K) K (Double2 K) := ⟨fun a m => ⟨a.x * m, a.y * m⟩⟩

/-- Modelled from the spec: `Double2::dot`. -/
def dot (a b : Double2 K) : K := a.x * b.x + a.y * b.y

/-- Modelled from the spec: `Double2::lerp`, linear interpolation from `a` towards `b`
("linear interpolation along clipped edges"). -/
def lerp (a b : Double2 K) (percent : K) : Double2 K :=
  ⟨a.x + (b.x - a.x) * percent, a.y + (b.y - a.y) * percent⟩

end Double2

namespace Double3

variable {K : Type} [LinearOrderedField K]

instance : Add (Double3 K) := ⟨fun a b => ⟨a.x + b.x, a.y + b.y, a.z + b.z⟩⟩

instance : Sub (Double3 K) := ⟨fun a b => ⟨a.x - b.x, a.y - b.y, a.z - b.z⟩⟩

instance : HMul (Double3 K) K (Double3 K) := ⟨fun a m => ⟨a.x * m, a.y * m, a.z * m⟩⟩

/-- Modelled from the spec: `Double3::dot`. -/
def dot (a b : Double3 K) : K := a.x * b.x + a.y * b.y + a.z * b.z

/-- Modelled from the spec: `Double3::cross` ("cross products of the forward/right/up basis"). -/
def cross (a b : Double3 K) : Double3 K :=
  ⟨a.y * b.z - a.z * b.y, a.z * b.x - a.x * b.z, a.x * b.y - a.y * b.x⟩

/-- Modelled from the spec: `Double3::lengthSquared`. -/
def lengthSquared (a : Double3 K) : K := a.x * a.x + a.y * a.y + a.z * a.z

/-- Modelled from the spec: `Double3::length`, the "3D Euclidean length"; `sqrt` stands for
`std::sqrt`. -/
def length (sqrt : K → K) (a : Double3 K) : K := sqrt a.lengthSquared

/-- Modelled from the spec: `Double3::normalized`, the vector scaled by the reciprocal of its
length. -/
def normalized (sqrt : K → K) (a : Double3 K) : Double3 K := a * (1 / a.length sqrt)

end Double3

/-! ## What the renderer takes from headers that are not among the sources -/

/-- The constants and library functions that `SoftwareRenderer.cpp` uses and whose definitions
are not among the sources, taken as parameters:
* `Epsilon` is `Constants::Epsilon` (Math/Constants.h), "a small positive epsilon";
* `sqrt` is `std::sqrt`;
* `chunkPointToNewPoint` is `VoxelUtils::chunkPointToNewPoint`, which turns the camera's
  integer chunk coordinate and local offset into a world-space point. -/
structure MathEnv (K : Type) where
  Epsilon : K
  sqrt : K → K
  chunkPointToNewPoint : Int × Int → Double3 K → Double3 K

namespace MathUtils

variable {K : Type} [LinearOrderedField K]

/-- Modelled from the spec: `MathUtils::distanceToPlane` (Math/MathUtils.h is not among the
sources): the signed distance of `point` to the plane through `planePoint` with normal
`planeNormal`, positive on the side the normal points to. -/
def distanceToPlane (point planePoint planeNormal : Double3 K) : K :=
  (point - planePoint).dot planeNormal

/-- Modelled from the spec: `MathUtils::rayPlaneIntersection` (Math/MathUtils.h is not among
the sources): the point where the ray from `rayStart` along `rayDirection` meets the plane.
`ClipTriangle` ignores the returned flag and reads only the out-parameter, which is what this
function returns.  The value only means something where `rayDirection . planeNormal` is not 0. -/
def rayPlaneIntersection (rayStart rayDirection planeOrigin planeNormal : Double3 K) : Double3 K :=
  let denominator := rayDirection.dot planeNormal
  let t := (planeOrigin - rayStart).dot planeNormal / denominator
  rayStart + rayDirection * t

end MathUtils

/-! ## Triangles and camera -/

/-- The fields of `RenderTriangle` (Rendering/RenderTriangle.h is not among the sources) that
`SoftwareRenderer.cpp` reads: three world-space vertices, the face normal, three UV pairs, the
material handle and the scalar parameter `param0` (the fade percent). -/
structure RenderTriangle (K : Type) where
  v0 : Double3 K
  v1 : Double3 K
  v2 : Double3 K
  normal : Double3 K
  uv0 : Double2 K
  uv1 : Double2 K
  uv2 : Double2 K
  materialID : Int
  param0 : K
deriving DecidableEq, Repr

namespace RenderTriangle

variable {K : Type} [LinearOrderedField K]

/-- Modelled from the spec: `RenderTriangle::init` (not among the sources): stores the vertices,
UVs, material and parameter and precomputes the face normal, the normalized cross product
`(v0 - v2) x (v1 - v0)`. -/
def init (sqrt : K → K) (v0 v1 v2 : Double3 K) (uv0 uv1 uv2 : Double2 K) (materialID : Int)
    (param0 : K) : RenderTriangle K :=
  { v0 := v0, v1 := v1, v2 := v2,
    normal := ((v0 - v2).cross (v1 - v0)).normalized sqrt,
    uv0 := uv0, uv1 := uv1, uv2 := uv2, materialID := materialID, param0 := param0 }

/-- The unnormalized normal of the vertex order of a triangle, `(v0 - v2) x (v1 - v0)`. -/
def crossNormal (t : RenderTriangle K) : Double3 K := (t.v0 - t.v2).cross (t.v1 - t.v0)

/-- The three vertices of a triangle, in order. -/
def vertices (t : RenderTriangle K) : List (Double3 K) := [t.v0, t.v1, t.v2]

/-- The three corners of a triangle, in order: each vertex with the UV stored for it. -/
def corners (t : RenderTriangle K) : List (Double3 K × Double2 K) :=
  [(t.v0, t.uv0), (t.v1, t.uv1), (t.v2, t.uv2)]

end RenderTriangle

/-- The fields of `RenderCamera` (Rendering/RenderCamera.h is not among the sources) that
`SoftwareRenderer.cpp` reads. -/
structure RenderCamera (K : Type) where
  chunk : Int × Int
  point : Double3 K
  forward : Double3 K
  forwardScaled : Double3 K
  right : Double3 K
  rightScaled : Double3 K
  up : Double3 K
  fovY : K
  aspectRatio : K

namespace swConstants

variable {K : Type} [LinearOrderedField K]

/-- The constant `swConstants::NEAR_PLANE = 0.001`. -/
def NEAR_PLANE : K := 1 / 1000

/-- The constant `swConstants::FAR_PLANE = 1000.0`. -/
def FAR_PLANE : K := 1000

/-- The constant `swConstants::PLAYER_LIGHT_DISTANCE = 3.0`. -/
def PLAYER_LIGHT_DISTANCE : K := 3

end swConstants

namespace swCamera

variable {K : Type} [LinearOrderedField K]

/-- The function `swCamera::GetCameraEye`. -/
def GetCameraEye (env : MathEnv K) (camera : RenderCamera K) : Double3 K :=
  env.chunkPointToNewPoint camera.chunk camera.point

end swCamera

/-! ## Geometry: clipping -/

namespace swGeometry

variable {K : Type} [LinearOrderedField K]

/-- The struct `TriangleClipResult`.  `triangles` holds the entries of the C++ array
`triangles[2]` that were assigned; callers read only the first `triangleCount` of them. -/
structure TriangleClipResult (K : Type) where
  triangleCount : Nat
  triangles : List (RenderTriangle K)

namespace TriangleClipResult

/-- The factory `TriangleClipResult::zero`. -/
def zero : TriangleClipResult K := { triangleCount := 0, triangles := [] }

/-- The factory `TriangleClipResult::one`. -/
def one (triangle : RenderTriangle K) : TriangleClipResult K :=
  { triangleCount := 1, triangles := [triangle] }

/-- The factory `TriangleClipResult::two`. -/
def two (triangleA triangleB : RenderTriangle K) : TriangleClipResult K :=
  { triangleCount := 2, triangles := [triangleA, triangleB] }

end TriangleClipResult

/-- The first loop of `ClipTriangle`: walks the vertices in order and appends each one, with
its UV, to `insidePoints` when `distanceToPlane >= 0` and to `outsidePoints` otherwise.
Returns `(insidePoints, outsidePoints)`. -/
def classifyVertices (planePoint planeNormal : Double3 K) :
    List (Double3 K × Double2 K) → List (Double3 K × Double2 K) × List (Double3 K × Double2 K)
  | [] => ([], [])
  | vertex :: rest =>
    let r := classifyVertices planePoint planeNormal rest
    if MathUtils.distanceToPlane vertex.1 planePoint planeNormal ≥ 0 then (vertex :: r.1, r.2)
    else (r.1, vertex :: r.2)

/-- The one-inside branch of `ClipTriangle` (`becomesSmallerTriangle`). -/
def clipSmallerTriangle (env : MathEnv K) (triangle : RenderTriangle K)
    (eye planePoint planeNormal : Double3 K)
    (inside outside0 outside1 : Double3 K × Double2 K) : RenderTriangle K :=
  let insidePoint := inside.1
  let insideUV := inside.2
  let outsidePoint0 := outside0.1
  let outsidePoint1 := outside1.1
  let newInsidePoint1 := MathUtils.rayPlaneIntersection insidePoint
    ((outsidePoint0 - insidePoint).normalized env.sqrt) planePoint planeNormal
  let newInsidePoint2 := MathUtils.rayPlaneIntersection insidePoint
    ((outsidePoint1 - insidePoint).normalized env.sqrt) planePoint planeNormal
  let t0 := (outsidePoint0 - insidePoint).length env.sqrt
  let t1 := (outsidePoint1 - insidePoint).length env.sqrt
  let newT0 := (newInsidePoint1 - insidePoint).length env.sqrt
  let newT1 := (newInsidePoint2 - insidePoint).length env.sqrt
  let outsideUV0 := outside0.2
  let outsideUV1 := outside1.2
  let newInsideUV0 := insideUV.lerp outsideUV0 (newT0 / t0)
  let newInsideUV1 := insideUV.lerp outsideUV1 (newT1 / t1)
  let unormal := (insidePoint - newInsidePoint2).cross (newInsidePoint1 - insidePoint)
  if (eye - insidePoint).dot unormal ≥ env.Epsilon then
    RenderTriangle.init env.sqrt insidePoint newInsidePoint1 newInsidePoint2 insideUV newInsideUV0
      newInsideUV1 triangle.materialID triangle.param0
  else
    RenderTriangle.init env.sqrt newInsidePoint2 newInsidePoint1 insidePoint newInsideUV1
      newInsideUV0 insideUV triangle.materialID triangle.param0

/-- The two-inside branch of `ClipTriangle` (`becomesQuad`): the two triangles it builds. -/
def clipQuad (env : MathEnv K) (triangle : RenderTriangle K)
    (eye planePoint planeNormal : Double3 K)
    (inside0 inside1 outside0 : Double3 K × Double2 K) : RenderTriangle K × RenderTriangle K :=
  let insidePoint0 := inside0.1
  let insidePoint1 := inside1.1
  let outsidePoint0 := outside0.1
  let insideUV0 := inside0.2
  let insideUV1 := inside1.2
  let outsideUV0 := outside0.2
  let newTriangle0V0 := insidePoint0
  let newTriangle0V1 := insidePoint1
  let newTriangle0UV0 := insideUV0
  let newTriangle0UV1 := insideUV1
  let t0 := (outsidePoint0 - newTriangle0V0).length env.sqrt
  let newTriangle0V2 := MathUtils.rayPlaneIntersection newTriangle0V0
    ((outsidePoint0 - newTriangle0V0).normalized env.sqrt) planePoint planeNormal
  let newTriangle0T := (newTriangle0V2 - newTriangle0V0).length env.sqrt
  let newTriangle0UV2 := newTriangle0UV0.lerp outsideUV0 (newTriangle0T / t0)
  let newTriangle1V0 := insidePoint1
  let newTriangle1V1 := newTriangle0V2
  let newTriangle1UV0 := insideUV1
  let newTriangle1UV1 := newTriangle0UV2
  let t1 := (outsidePoint0 - newTriangle1V0).length env.sqrt
  let newTriangle1V2 := MathUtils.rayPlaneIntersection newTriangle1V0
    ((outsidePoint0 - newTriangle1V0).normalized env.sqrt) planePoint planeNormal
  let newTriangle1T := (newTriangle1V2 - newTriangle1V0).length env.sqrt
  let newTriangle1UV2 := newTriangle1UV0.lerp outsideUV0 (newTriangle1T / t1)
  let unormal0 := (newTriangle0V0 - newTriangle0V2).cross (newTriangle0V1 - newTriangle0V0)
  let newTriangle0 :=
    if (eye - newTriangle0V0).dot unormal0 ≥ env.Epsilon then
      RenderTriangle.init env.sqrt newTriangle0V0 newTriangle0V1 newTriangle0V2 newTriangle0UV0
        newTriangle0UV1 newTriangle0UV2 triangle.materialID triangle.param0
    else
      RenderTriangle.init env.sqrt newTriangle0V2 newTriangle0V1 newTriangle0V0 newTriangle0UV2
        newTriangle0UV1 newTriangle0UV0 triangle.materialID triangle.param0
  let unormal1 := (newTriangle1V0 - newTriangle1V2).cross (newTriangle1V1 - newTriangle1V0)
  let newTriangle1 :=
    if (eye - newTriangle1V0).dot unormal1 ≥ env.Epsilon then
      RenderTriangle.init env.sqrt newTriangle1V0 newTriangle1V1 newTriangle1V2 newTriangle1UV0
        newTriangle1UV1 newTriangle1UV2 triangle.materialID triangle.param0
    else
      RenderTriangle.init env.sqrt newTriangle1V2 newTriangle1V1 newTriangle1V0 newTriangle1UV2
        newTriangle1UV1 newTriangle1UV0 triangle.materialID triangle.param0
  (newTriangle0, newTriangle1)

/-- The function `swGeometry::ClipTriangle`.  The four handled cases are told apart by the
number of inside points; the last alternative is the `DebugUnhandledReturnMsg` branch, which
hands back a default-constructed result. -/
def ClipTriangle (env : MathEnv K) (triangle : RenderTriangle K)
    (eye planePoint planeNormal : Double3 K) : TriangleClipResult K :=
  let classified := classifyVertices planePoint planeNormal
    [(triangle.v0, triangle.uv0), (triangle.v1, triangle.uv1), (triangle.v2, triangle.uv2)]
  match classified.1, classified.2 with
  | [], _ => TriangleClipResult.zero
  | [_, _, _], _ => TriangleClipResult.one triangle
  | [inside], outside0 :: outside1 :: _ =>
    TriangleClipResult.one
      (clipSmallerTriangle env triangle eye planePoint planeNormal inside outside0 outside1)
  | [inside0, inside1], outside0 :: _ =>
    let r := clipQuad env triangle eye planePoint planeNormal inside0 inside1 outside0
    TriangleClipResult.two r.1 r.2
  | _, _ => { triangleCount := 0, triangles := [] }

/-- The local struct `ClippingPlane` of `ProcessTrianglesForRasterization`. -/
structure ClippingPlane (K : Type) where
  point : Double3 K
  normal : Double3 K

/-- The array `clippingPlanes` of `ProcessTrianglesForRasterization`: near, left, right,
bottom, top, in this order, in world space. -/
def clippingPlanes (env : MathEnv K) (camera : RenderCamera K) : List (ClippingPlane K) :=
  let eye := swCamera.GetCameraEye env camera
  let leftFrustumDir := (camera.forwardScaled - camera.rightScaled).normalized env.sqrt
  let rightFrustumDir := (camera.forwardScaled + camera.rightScaled).normalized env.sqrt
  let bottomFrustumDir := (camera.forwardScaled - camera.up).normalized env.sqrt
  let topFrustumDir := (camera.forwardScaled + camera.up).normalized env.sqrt
  let leftFrustumNormal := (leftFrustumDir.cross camera.up).normalized env.sqrt
  let rightFrustumNormal := (camera.up.cross rightFrustumDir).normalized env.sqrt
  let bottomFrustumNormal := (camera.right.cross bottomFrustumDir).normalized env.sqrt
  let topFrustumNormal := (topFrustumDir.cross camera.right).normalized env.sqrt
  [ { point := eye + camera.forward * (swConstants.NEAR_PLANE : K), normal := camera.forward },
    { point := eye, normal := leftFrustumNormal },
    { point := eye, normal := rightFrustumNormal },
    { point := eye, normal := bottomFrustumNormal },
    { point := eye, normal := topFrustumNormal } ]

/-- The triangles a clip result hands to its caller: the first `triangleCount` entries. -/
def TriangleClipResult.emitted (r : TriangleClipResult K) : List (RenderTriangle K) :=
  r.triangles.take r.triangleCount

/-- The loop `for (int j = size; j > 0; j--)` of `ProcessTrianglesForRasterization` for one
plane: clips the front triangle of `outClipList`, appends the results at the back and erases
the front.  The first argument is `j`; it starts at the size of the list, so the list is never
empty while `j > 0`. -/
def clipListAgainstPlane (env : MathEnv K) (eye : Double3 K) (plane : ClippingPlane K) :
    Nat → List (RenderTriangle K) → List (RenderTriangle K)
  | 0, outClipList => outClipList
  | _ + 1, [] => []
  | j + 1, clipListTriangle :: rest =>
    let clipResult := ClipTriangle env clipListTriangle eye plane.point plane.normal
    clipListAgainstPlane env eye plane j (rest ++ clipResult.emitted)

/-- The loop over the clipping planes for one triangle that survived back-face culling:
`outClipList` is cleared, seeded with the triangle and run through every plane. -/
def clipTriangleAgainstPlanes (env : MathEnv K) (eye : Double3 K)
    (planes : List (ClippingPlane K)) (triangle : RenderTriangle K) : List (RenderTriangle K) :=
  planes.foldl
    (fun outClipList plane => clipListAgainstPlane env eye plane outClipList.length outClipList)
    [triangle]

/-- What `ProcessTrianglesForRasterization` leaves behind: the two cache vectors and the
counter written through `outTotalTriangleCount`.  The returned view is `outVisibleTriangles`. -/
structure ProcessedTriangles (K : Type) where
  outVisibleTriangles : List (RenderTriangle K)
  outClipList : List (RenderTriangle K)
  outTotalTriangleCount : Nat

/-- The body of the loop over the input triangles of `ProcessTrianglesForRasterization`; the
state is `(outVisibleTriangles, outClipList)`. -/
def processTriangle (env : MathEnv K) (eye : Double3 K) (planes : List (ClippingPlane K))
    (state : List (RenderTriangle K) × List (RenderTriangle K)) (triangle : RenderTriangle K) :
    List (RenderTriangle K) × List (RenderTriangle K) :=
  let v0ToEye := eye - triangle.v0
  if v0ToEye.dot triangle.normal < env.Epsilon then state
  else
    let outClipList := clipTriangleAgainstPlanes env eye planes triangle
    (state.1 ++ outClipList, outClipList)

/-- The function `swGeometry::ProcessTrianglesForRasterization`.  The last two arguments are
the contents of the cache vectors when the function is entered; `cleared` is
`outVisibleTriangles` after `clear()`. -/
def ProcessTrianglesForRasterization (env : MathEnv K) (triangles : List (RenderTriangle K))
    (camera : RenderCamera K) (outVisibleTriangles outClipList : List (RenderTriangle K)) :
    ProcessedTriangles K :=
  let eye := swCamera.GetCameraEye env camera
  let planes := clippingPlanes env camera
  let cleared : List (RenderTriangle K) := outVisibleTriangles.drop outVisibleTriangles.length
  let final := triangles.foldl (processTriangle env eye planes) (cleared, outClipList)
  { outVisibleTriangles := final.1, outClipList := final.2,
    outTotalTriangleCount := triangles.length }

/-- What one plane does to one triangle of the clip list: the triangles `ClipTriangle` emits. -/
def clipStep (env : MathEnv K) (eye : Double3 K) (plane : ClippingPlane K)
    (t : RenderTriangle K) : List (RenderTriangle K) :=
  (ClipTriangle env t eye plane.point plane.normal).emitted

/-- The number of vertices of a triangle with signed distance `>= 0` to a plane. -/
def insideCount (triangle : RenderTriangle K) (planePoint planeNormal : Double3 K) : Nat :=
  triangle.vertices.countP (fun v => MathUtils.distanceToPlane v planePoint planeNormal ≥ 0)

/-- The point where the edge from the inside vertex `a` to the outside vertex `b` crosses the
plane: `a + (b - a) * s` with `s = dist a / (dist a - dist b)`. -/
def edgeCrossing (a b planePoint planeNormal : Double3 K) : Double3 K :=
  a + (b - a) * (MathUtils.distanceToPlane a planePoint planeNormal
    / (MathUtils.distanceToPlane a planePoint planeNormal
      - MathUtils.distanceToPlane b planePoint planeNormal))

/-- The parameter of the crossing point on the edge from the inside vertex `a` to the outside
vertex `b`: `s = dist a / (dist a - dist b)`. -/
def edgeParameter (a b planePoint planeNormal : Double3 K) : K :=
  MathUtils.distanceToPlane a planePoint planeNormal
    / (MathUtils.distanceToPlane a planePoint planeNormal
      - MathUtils.distanceToPlane b planePoint planeNormal)

/-- The corner on the edge from the inside corner `a` to the outside corner `b` where the edge
crosses the plane: the crossing point, with the UV of `a` interpolated towards the UV of `b`
by the parameter of the crossing point. -/
def crossingCorner (a b : Double3 K × Double2 K) (planePoint planeNormal : Double3 K) :
    Double3 K × Double2 K :=
  (edgeCrossing a.1 b.1 planePoint planeNormal,
    a.2.lerp b.2 (edgeParameter a.1 b.1 planePoint planeNormal))

/-- A vertex the clipper can emit for a triangle and a plane: a vertex of the triangle on the
inside of the plane, or the crossing point of an edge from an inside to an outside vertex. -/
def IsClipVertex (triangle : RenderTriangle K) (p n v : Double3 K) : Prop :=
  (v ∈ triangle.vertices ∧ MathUtils.distanceToPlane v p n ≥ 0)
  ∨ ∃ a ∈ triangle.vertices, ∃ b ∈ triangle.vertices,
      MathUtils.distanceToPlane a p n ≥ 0 ∧ MathUtils.distanceToPlane b p n < 0
        ∧ v = edgeCrossing a b p n

/-- Every vertex of every triangle of the list lies on or inside the plane. -/
def AllInside (plane : ClippingPlane K) (l : List (RenderTriangle K)) : Prop :=
  ∀ t ∈ l, ∀ v ∈ t.vertices, MathUtils.distanceToPlane v plane.point plane.normal ≥ 0

/-- The clip list of one triangle as the specification describes it: for each plane in turn,
every triangle currently in the list is replaced by the 0 to 2 triangles that `ClipTriangle`
emits for it, in order. -/
def specifiedClipList (env : MathEnv K) (eye : Double3 K) (planes : List (ClippingPlane K))
    (triangle : RenderTriangle K) : List (RenderTriangle K) :=
  planes.foldl
    (fun list plane =>
      list.flatMap (fun t => (ClipTriangle env t eye plane.point plane.normal).emitted))
    [triangle]

/-- The visible list as the specification describes it: the input triangles that survive
back-face culling, each replaced by its clip list against the five planes, concatenated in
input order. -/
def specifiedVisibleList (env : MathEnv K) (camera : RenderCamera K)
    (triangles : List (RenderTriangle K)) : List (RenderTriangle K) :=
  (triangles.filter (fun t =>
    ((swCamera.GetCameraEye env camera) - t.v0).dot t.normal ≥ env.Epsilon)).flatMap
    (specifiedClipList env (swCamera.GetCameraEye env camera) (clippingPlanes env camera))

end swGeometry

/-! ## Buffers, textures and materials -/

/-- Modelled from the spec: `Double4` of Math/Vector4.h, which is not among the sources. -/
structure Double4 (K : Type) where
  x : K
  y : K
  z : K
  w : K

/-- Modelled from the spec: `Matrix4d` of Math/Matrix4.h, which is not among the sources: four
columns. -/
structure Matrix4d (K : Type) where
  x : Double4 K
  y : Double4 K
  z : Double4 K
  w : Double4 K

/-- Modelled from the spec: `Buffer2D<T>` (components/utilities is not among the sources): an
owned grid of `width * height` cells in row-major order.  `data = none` is the state without
storage, in which `isValid()` is false. -/
structure Buffer2D (α : Type) where
  width : Int
  height : Int
  data : Option (List α)

/-- Modelled from the spec: `Buffer<T>` (components/utilities is not among the sources): an
owned array; `data = none` is the state without storage. -/
structure Buffer (α : Type) where
  data : Option (List α)

/-- Modelled from the spec: `BufferView2D<T>` (components/utilities is not among the sources): a
pointer to `width * height` cells in row-major order, with the dimensions. -/
structure BufferView2D (α : Type) where
  width : Int
  height : Int
  data : List α

namespace Buffer2D

/-- The pointer `Buffer2D::get()`, as the array it points to. -/
def get {α : Type} (b : Buffer2D α) : List α := b.data.getD []

end Buffer2D

namespace Buffer

/-- The pointer `Buffer::get()`, as the array it points to. -/
def get {α : Type} (b : Buffer α) : List α := b.data.getD []

end Buffer

namespace BufferView2D

/-- Modelled from the spec: `BufferView2D::fill`: every one of the `width * height` cells is set
to the value. -/
def fill {α : Type} (b : BufferView2D α) (value : α) : BufferView2D α :=
  { b with data := List.replicate (b.width * b.height).toNat value }

end BufferView2D

/-- The struct `SoftwareRenderer::ObjectTexture`: an 8-bit texel grid and a palette table.
Texels are `uint8_t` values, palette entries `uint32_t` colors. -/
structure ObjectTexture where
  texels : Buffer2D Nat
  paletteTexels : Buffer Nat

/-- The fields of `ObjectMaterial` (not among the sources) that the renderer reads: the base
texture handle `id0` and the layer texture handle `id1`, negative when there is no layer. -/
structure ObjectMaterial where
  id0 : Int
  id1 : Int

/-- The C++ read `ptr[index]`.  A read outside the array is undefined in C++; `dflt` stands for
its result. -/
def readAt {α : Type} (ptr : List α) (index : Int) (dflt : α) : α :=
  if index < 0 then dflt else ptr.getD index.toNat dflt

/-- The C++ write `ptr[index] = value`.  A write outside the array is undefined in C++; the
array is left as it is. -/
def writeAt {α : Type} (ptr : List α) (index : Int) (value : α) : List α :=
  if index < 0 then ptr else ptr.set index.toNat value

/-- The least value of the type `int` (32 bits, two's complement). -/
def INT_MIN : Int := -2147483648

/-- The greatest value of the type `int`. -/
def INT_MAX : Int := 2147483647

/-- The value of an `int` expression whose exact value is `value`: the exact value when it is in
the range of `int`, and its wrap-around modulo `2^32` otherwise.  Signed overflow is undefined in
C++; the wrap-around stands for what the compiled multiplication, addition and subtraction
give. -/
def wrapInt (value : Int) : Int := (value - INT_MIN) % 4294967296 + INT_MIN

/-- The integer part of a number: truncation towards zero, of any size. -/
def truncTowardZero {K : Type} [LinearOrderedField K] [FloorRing K] (value : K) : Int :=
  if 0 ≤ value then Int.floor value else Int.ceil value

/-- The conversion `static_cast<int>(double)`: truncation towards zero when the integer part is
in the range of `int`.  Outside that range the conversion is undefined in C++; `INT_MIN` stands
for what the compiled conversion gives there. -/
def staticCastInt {K : Type} [LinearOrderedField K] [FloorRing K] (value : K) : Int :=
  if INT_MIN ≤ truncTowardZero value ∧ truncTowardZero value ≤ INT_MAX then truncTowardZero value
  else INT_MIN

/-- The function `std::clamp(value, lo, hi)`. -/
def clamp {α : Type} [LinearOrder α] (value lo hi : α) : α :=
  if value < lo then lo else if hi < value then hi else value

/-- The rendering helpers that `RasterizeTriangles` calls and whose definitions are not among
the sources (Math/Matrix4.h, Rendering/RendererUtils.h), taken as parameters. -/
structure RendererUtils (K : Type) where
  view : Double3 K → Double3 K → Double3 K → Double3 K → Matrix4d K
  perspective : K → K → K → K → Matrix4d K
  worldSpaceToCameraSpace : Double4 K → Matrix4d K → Double4 K
  cameraSpaceToClipSpace : Double4 K → Matrix4d K → Double4 K
  clipSpaceToNDC : Double4 K → Double3 K
  ndcToScreenSpace : Double3 K → K → K → K → Double3 K
  getLowerBoundedPixel : K → Int → Int
  getUpperBoundedPixel : K → Int → Int

/-! ## Rendering: per-pixel work -/

namespace swRender

variable {K : Type} [LinearOrderedField K]

/-- Modelled from the spec: `Double2::rightPerp` (not among the sources), the edge vector turned
a quarter turn to the right. -/
def rightPerp (a : Double2 K) : Double2 K := ⟨a.y, -a.x⟩

/-- Modelled from the spec: `Double2::length`; `sqrt` stands for `std::sqrt`. -/
def length2D (sqrt : K → K) (a : Double2 K) : K := sqrt (a.x * a.x + a.y * a.y)

/-- Modelled from the spec: `MathUtils::isPointInHalfSpace` (not among the sources), the
"half-space (edge-function) test". -/
def isPointInHalfSpace (point planePoint planeNormal : Double2 K) : Bool :=
  decide ((point - planePoint).dot planeNormal ≥ 0)

/-- The color and depth buffers `colorBufferPtr` and `depthBufferPtr` that
`RasterizeTriangles` writes.  A depth cell holds a depth or `+infinity` (`⊤`). -/
structure FrameBuffers (K : Type) where
  colorBuffer : List Nat
  depthBuffer : List (WithTop K)

/-- The function `swRender::ClearFrameBuffers`. -/
def ClearFrameBuffers (clearColor : Nat) (colorBuffer : BufferView2D Nat)
    (depthBuffer : BufferView2D (WithTop K)) : BufferView2D Nat × BufferView2D (WithTop K) :=
  (colorBuffer.fill clearColor, depthBuffer.fill ⊤)

/-- The values `RasterizeTriangles` computes once per call, before the loop over the
triangles. -/
structure FrameConstants (K : Type) where
  frameBufferWidth : Int
  frameBufferHeight : Int
  eye2D : Double2 K
  paletteTexels : List Nat
  lightLevelTexelCount : Int
  lightLevelCount : Int
  lightLevelTexels : List Nat

/-- The textures of the material of a triangle, as `RasterizeTriangles` looks them up before
the pixel loops. -/
structure MaterialTextures where
  isMultiTextured : Bool
  texture0 : ObjectTexture
  texture1 : ObjectTexture

/-- The material lookup of `RasterizeTriangles`: `isMultiTextured` is `id1 >= 0`, `texture0` is
the texture of `id0` and `texture1` the texture of `id1`, or `texture0` again when there is no
layer. -/
def materialTextures (material : ObjectMaterial) (textures : Int → ObjectTexture) :
    MaterialTextures :=
  let isMultiTextured := decide (material.id1 ≥ 0)
  let texture0 := textures material.id0
  let texture1 := if isMultiTextured then textures material.id1 else texture0
  { isMultiTextured := isMultiTextured, texture0 := texture0, texture1 := texture1 }

/-- The values `RasterizeTriangles` computes once per triangle, before the pixel loops. -/
structure TriangleConstants (K : Type) where
  v0 : Double3 K
  v1 : Double3 K
  v2 : Double3 K
  screenSpace0_2D : Double2 K
  screenSpace1_2D : Double2 K
  screenSpace2_2D : Double2 K
  xStart : Int
  xEnd : Int
  yStart : Int
  yEnd : Int
  z0Recip : K
  z1Recip : K
  z2Recip : K
  uv0Perspective : Double2 K
  uv1Perspective : Double2 K
  uv2Perspective : Double2 K
  material : MaterialTextures
  fadePercent : K
  isFading : Bool

/-- The per-triangle setup of `RasterizeTriangles`: projection to screen space, bounding box,
reciprocal depths, perspective UVs, material lookup and fade flag. -/
def triangleConstants (env : MathEnv K) (utils : RendererUtils K)
    (materials : Int → ObjectMaterial) (textures : Int → ObjectTexture)
    (camera : RenderCamera K) (frameBufferWidth frameBufferHeight : Int)
    (triangle : RenderTriangle K) : TriangleConstants K :=
  let frameBufferWidthReal : K := (frameBufferWidth : K)
  let frameBufferHeightReal : K := (frameBufferHeight : K)
  let eye := swCamera.GetCameraEye env camera
  let viewMatrix := utils.view eye camera.forward camera.right camera.up
  let perspectiveMatrix := utils.perspective camera.fovY camera.aspectRatio
    swConstants.NEAR_PLANE swConstants.FAR_PLANE
  let yShear : K := 0
  let v0 := triangle.v0
  let v1 := triangle.v1
  let v2 := triangle.v2
  let view0 := utils.worldSpaceToCameraSpace ⟨v0.x, v0.y, v0.z, 1⟩ viewMatrix
  let view1 := utils.worldSpaceToCameraSpace ⟨v1.x, v1.y, v1.z, 1⟩ viewMatrix
  let view2 := utils.worldSpaceToCameraSpace ⟨v2.x, v2.y, v2.z, 1⟩ viewMatrix
  let clip0 := utils.cameraSpaceToClipSpace view0 perspectiveMatrix
  let clip1 := utils.cameraSpaceToClipSpace view1 perspectiveMatrix
  let clip2 := utils.cameraSpaceToClipSpace view2 perspectiveMatrix
  let ndc0 := utils.clipSpaceToNDC clip0
  let ndc1 := utils.clipSpaceToNDC clip1
  let ndc2 := utils.clipSpaceToNDC clip2
  let screenSpace0 := utils.ndcToScreenSpace ndc0 yShear frameBufferWidthReal frameBufferHeightReal
  let screenSpace1 := utils.ndcToScreenSpace ndc1 yShear frameBufferWidthReal frameBufferHeightReal
  let screenSpace2 := utils.ndcToScreenSpace ndc2 yShear frameBufferWidthReal frameBufferHeightReal
  let xMin := min screenSpace0.x (min screenSpace1.x screenSpace2.x)
  let xMax := max screenSpace0.x (max screenSpace1.x screenSpace2.x)
  let yMin := min screenSpace0.y (min screenSpace1.y screenSpace2.y)
  let yMax := max screenSpace0.y (max screenSpace1.y screenSpace2.y)
  let z0Recip := 1 / view0.z
  let z1Recip := 1 / view1.z
  let z2Recip := 1 / view2.z
  let fadePercent := triangle.param0
  { v0 := v0, v1 := v1, v2 := v2,
    screenSpace0_2D := ⟨screenSpace0.x, screenSpace0.y⟩,
    screenSpace1_2D := ⟨screenSpace1.x, screenSpace1.y⟩,
    screenSpace2_2D := ⟨screenSpace2.x, screenSpace2.y⟩,
    xStart := utils.getLowerBoundedPixel xMin frameBufferWidth,
    xEnd := utils.getUpperBoundedPixel xMax frameBufferWidth,
    yStart := utils.getLowerBoundedPixel yMin frameBufferHeight,
    yEnd := utils.getUpperBoundedPixel yMax frameBufferHeight,
    z0Recip := z0Recip, z1Recip := z1Recip, z2Recip := z2Recip,
    uv0Perspective := triangle.uv0 * z0Recip,
    uv1Perspective := triangle.uv1 * z1Recip,
    uv2Perspective := triangle.uv2 * z2Recip,
    material := materialTextures (materials triangle.materialID) textures,
    fadePercent := fadePercent,
    isFading := decide (fadePercent > 0) }

/-- The barycentric weights `(u, v, w)` of a pixel center, from the dot products of the
screen-space edges. -/
def barycentricWeights (screenSpace0_2D screenSpace1_2D screenSpace2_2D pixelCenter : Double2 K) :
    K × K × K :=
  let ss0 := screenSpace1_2D - screenSpace0_2D
  let ss1 := screenSpace2_2D - screenSpace0_2D
  let ss2 := pixelCenter - screenSpace0_2D
  let dot00 := ss0.dot ss0
  let dot01 := ss0.dot ss1
  let dot11 := ss1.dot ss1
  let dot20 := ss2.dot ss0
  let dot21 := ss2.dot ss1
  let denominator := (dot00 * dot11) - (dot01 * dot01)
  let v := ((dot11 * dot20) - (dot01 * dot21)) / denominator
  let w := ((dot00 * dot21) - (dot01 * dot20)) / denominator
  let u := 1 - v - w
  (u, v, w)

/-- The depth of a fragment: the reciprocal of the weighted sum of the reciprocal view-space
depths. -/
def perspectiveDepth (z0Recip z1Recip z2Recip u v w : K) : K :=
  1 / ((u * z0Recip) + (v * z1Recip) + (w * z2Recip))

/-- The texel percentages `(texelPercentX, texelPercentY)` of a fragment. -/
def texelPercent (uv0Perspective uv1Perspective uv2Perspective : Double2 K)
    (z0Recip z1Recip z2Recip u v w : K) : Double2 K :=
  ⟨((u * uv0Perspective.x) + (v * uv1Perspective.x) + (w * uv2Perspective.x)) /
      ((u * z0Recip) + (v * z1Recip) + (w * z2Recip)),
   ((u * uv0Perspective.y) + (v * uv1Perspective.y) + (w * uv2Perspective.y)) /
      ((u * z0Recip) + (v * z1Recip) + (w * z2Recip))⟩

/-- The texel of a texture at the clamped coordinate derived from the texel percentages. -/
def textureTexel [FloorRing K] (texture : ObjectTexture) (texelPercentX texelPercentY : K) : Nat :=
  let textureWidth := texture.texels.width
  let textureHeight := texture.texels.height
  let texelX := clamp (staticCastInt (texelPercentX * (textureWidth : K))) 0 (textureWidth - 1)
  let texelY := clamp (staticCastInt (texelPercentY * (textureHeight : K))) 0 (textureHeight - 1)
  let texelIndex := texelX + (texelY * textureWidth)
  readAt texture.texels.get texelIndex 0

/-- The texture sampling of `RasterizeTriangles`: with two textures the layer `texture1` is read
first and, where its texel is 0, the base `texture0` is read instead. -/
def sampleTexel [FloorRing K] (material : MaterialTextures) (texelPercentX texelPercentY : K) :
    Nat :=
  if material.isMultiTextured then
    let texel := textureTexel material.texture1 texelPercentX texelPercentY
    let isTransparent := decide (texel = 0)
    if isTransparent then textureTexel material.texture0 texelPercentX texelPercentY
    else texel
  else
    textureTexel material.texture0 texelPercentX texelPercentY

/-- The shading of `RasterizeTriangles`: light level from the fade percent or from the distance
to the eye in the XZ plane, then the light table and the palette.  The value
`lightLevelPercent`, which the code computes and does not use, is left out. -/
def shadedTexelColor [FloorRing K] (env : MathEnv K) (frame : FrameConstants K)
    (tri : TriangleConstants K) (texel : Nat) (u v w : K) : Nat :=
  let lightLevelCountReal : K := (frame.lightLevelCount : K)
  let shadingPercent :=
    if tri.isFading then tri.fadePercent
    else
      let v2D : Double2 K :=
        ⟨(u * tri.v0.x) + (v * tri.v1.x) + (w * tri.v2.x),
         (u * tri.v0.z) + (v * tri.v1.z) + (w * tri.v2.z)⟩
      let distanceToLight := length2D env.sqrt (v2D - frame.eye2D)
      clamp (distanceToLight / swConstants.PLAYER_LIGHT_DISTANCE) 0 1
  let lightLevelValue := shadingPercent * lightLevelCountReal
  let lightLevelIndex := clamp (staticCastInt lightLevelValue) 0 (frame.lightLevelCount - 1)
  let shadedTexelIndex := (texel : Int) + (lightLevelIndex * frame.lightLevelTexelCount)
  let shadedTexel := readAt frame.lightLevelTexels shadedTexelIndex 0
  readAt frame.paletteTexels (shadedTexel : Int) 0

/-- The value `shadingPercent` of `RasterizeTriangles` for the weights `(u, v, w)`. -/
def shadingPercent (env : MathEnv K) (frame : FrameConstants K) (tri : TriangleConstants K)
    (u v w : K) : K :=
  if tri.isFading then tri.fadePercent
  else
    let v2D : Double2 K :=
      ⟨(u * tri.v0.x) + (v * tri.v1.x) + (w * tri.v2.x),
       (u * tri.v0.z) + (v * tri.v1.z) + (w * tri.v2.z)⟩
    let distanceToLight := length2D env.sqrt (v2D - frame.eye2D)
    clamp (distanceToLight / swConstants.PLAYER_LIGHT_DISTANCE) 0 1

/-- The value `lightLevelIndex` of `RasterizeTriangles` for a shading percent. -/
def lightLevelIndex [FloorRing K] (frame : FrameConstants K) (shadingPercent : K) : Int :=
  let lightLevelCountReal : K := (frame.lightLevelCount : K)
  let lightLevelValue := shadingPercent * lightLevelCountReal
  clamp (staticCastInt lightLevelValue) 0 (frame.lightLevelCount - 1)

/-- The value `shadedTexelIndex` of `RasterizeTriangles` for a texel and a light level. -/
def shadedTexelIndex (frame : FrameConstants K) (texel : Nat) (lightLevelIndex : Int) : Int :=
  (texel : Int) + (lightLevelIndex * frame.lightLevelTexelCount)

/-- The value `depth` of `RasterizeTriangles` for the weights `(u, v, w)`. -/
def fragmentDepth (tri : TriangleConstants K) (u v w : K) : K :=
  perspectiveDepth tri.z0Recip tri.z1Recip tri.z2Recip u v w

/-- The values `texelPercentX`, `texelPercentY` of `RasterizeTriangles` for the weights
`(u, v, w)`. -/
def fragmentTexelPercent (tri : TriangleConstants K) (u v w : K) : Double2 K :=
  texelPercent tri.uv0Perspective tri.uv1Perspective tri.uv2Perspective
    tri.z0Recip tri.z1Recip tri.z2Recip u v w

/-- The value `texel` of `RasterizeTriangles` for the weights `(u, v, w)`, after texture
sampling. -/
def fragmentTexel [FloorRing K] (tri : TriangleConstants K) (u v w : K) : Nat :=
  sampleTexel tri.material (fragmentTexelPercent tri u v w).x (fragmentTexelPercent tri u v w).y

/-- The value `shadedTexelColor` of `RasterizeTriangles` for the weights `(u, v, w)`. -/
def fragmentColor [FloorRing K] (env : MathEnv K) (frame : FrameConstants K)
    (tri : TriangleConstants K) (u v w : K) : Nat :=
  shadedTexelColor env frame tri (fragmentTexel tri u v w) u v w

/-- The work of `RasterizeTriangles` for a pixel center inside the triangle, with weights
`(u, v, w)`: depth, depth test, texture sampling, alpha test, shading and the two writes. -/
def shadeFragment [FloorRing K] (env : MathEnv K) (debug_alphaTest : Bool)
    (frame : FrameConstants K) (tri : TriangleConstants K) (x y : Int) (u v w : K)
    (buffers : FrameBuffers K) : FrameBuffers K :=
  let depth := fragmentDepth tri u v w
  let outputIndex := x + (y * frame.frameBufferWidth)
  if (depth : WithTop K) < readAt buffers.depthBuffer outputIndex ⊤ then
    let texel := fragmentTexel tri u v w
    if debug_alphaTest && decide (texel = 0) then buffers
    else
      let color := shadedTexelColor env frame tri texel u v w
      { colorBuffer := writeAt buffers.colorBuffer outputIndex color,
        depthBuffer := writeAt buffers.depthBuffer outputIndex (depth : WithTop K) }
  else buffers

/-- The body of the pixel loops of `RasterizeTriangles` for the pixel `(x, y)`. -/
def rasterizePixel [FloorRing K] (env : MathEnv K) (debug_alphaTest : Bool)
    (frame : FrameConstants K) (tri : TriangleConstants K) (x y : Int)
    (buffers : FrameBuffers K) : FrameBuffers K :=
  let frameBufferWidthReal : K := (frame.frameBufferWidth : K)
  let frameBufferHeightReal : K := (frame.frameBufferHeight : K)
  let yScreenPercent := ((y : K) + 1 / 2) / frameBufferHeightReal
  let xScreenPercent := ((x : K) + 1 / 2) / frameBufferWidthReal
  let pixelCenter : Double2 K :=
    ⟨xScreenPercent * frameBufferWidthReal, yScreenPercent * frameBufferHeightReal⟩
  let screenSpace01 := tri.screenSpace1_2D - tri.screenSpace0_2D
  let screenSpace12 := tri.screenSpace2_2D - tri.screenSpace1_2D
  let screenSpace20 := tri.screenSpace0_2D - tri.screenSpace2_2D
  let inHalfSpace0 := isPointInHalfSpace pixelCenter tri.screenSpace0_2D (rightPerp screenSpace01)
  let inHalfSpace1 := isPointInHalfSpace pixelCenter tri.screenSpace1_2D (rightPerp screenSpace12)
  let inHalfSpace2 := isPointInHalfSpace pixelCenter tri.screenSpace2_2D (rightPerp screenSpace20)
  if inHalfSpace0 && inHalfSpace1 && inHalfSpace2 then
    let weights := barycentricWeights tri.screenSpace0_2D tri.screenSpace1_2D
      tri.screenSpace2_2D pixelCenter
    shadeFragment env debug_alphaTest frame tri x y weights.1 weights.2.1 weights.2.2 buffers
  else buffers

/-- The integers `start, start + 1, ..., end - 1` of a loop `for (i = start; i < end; i++)`. -/
def loopRange (start stop : Int) : List Int :=
  (List.range (stop - start).toNat).map (fun i => start + (i : Int))

/-- The values `RasterizeTriangles` computes once per call, before the loop over the triangles,
from the palette, the light table, the camera and the color buffer view. -/
def frameConstants (env : MathEnv K) (paletteTexture lightTableTexture : ObjectTexture)
    (camera : RenderCamera K) (colorBuffer : BufferView2D Nat) : FrameConstants K :=
  let eye := swCamera.GetCameraEye env camera
  { frameBufferWidth := colorBuffer.width, frameBufferHeight := colorBuffer.height,
    eye2D := ⟨eye.x, eye.z⟩,
    paletteTexels := paletteTexture.paletteTexels.get,
    lightLevelTexelCount := lightTableTexture.texels.width,
    lightLevelCount := lightTableTexture.texels.height,
    lightLevelTexels := lightTableTexture.texels.get }

/-- The function `swRender::RasterizeTriangles`: for every triangle, every row `y` and every
column `x` of its bounding box, the pixel body. -/
def RasterizeTriangles [FloorRing K] (env : MathEnv K) (utils : RendererUtils K)
    (triangles : List (RenderTriangle K)) (debug_alphaTest : Bool)
    (materials : Int → ObjectMaterial) (textures : Int → ObjectTexture)
    (paletteTexture lightTableTexture : ObjectTexture) (camera : RenderCamera K)
    (colorBuffer : BufferView2D Nat) (depthBuffer : BufferView2D (WithTop K)) :
    BufferView2D Nat × BufferView2D (WithTop K) :=
  let eye := swCamera.GetCameraEye env camera
  let frame : FrameConstants K :=
    { frameBufferWidth := colorBuffer.width, frameBufferHeight := colorBuffer.height,
      eye2D := ⟨eye.x, eye.z⟩,
      paletteTexels := paletteTexture.paletteTexels.get,
      lightLevelTexelCount := lightTableTexture.texels.width,
      lightLevelCount := lightTableTexture.texels.height,
      lightLevelTexels := lightTableTexture.texels.get }
  let final := triangles.foldl
    (fun buffers triangle =>
      let tri := triangleConstants env utils materials textures camera colorBuffer.width
        colorBuffer.height triangle
      (loopRange tri.yStart tri.yEnd).foldl
        (fun buffers y =>
          (loopRange tri.xStart tri.xEnd).foldl
            (fun buffers x => rasterizePixel env debug_alphaTest frame tri x y buffers) buffers)
        buffers)
    ({ colorBuffer := colorBuffer.data, depthBuffer := depthBuffer.data } : FrameBuffers K)
  ({ colorBuffer with data := final.colorBuffer }, { depthBuffer with data := final.depthBuffer })

/-- The center of the pixel `(x, y)`, as the pixel loops of `RasterizeTriangles` compute it. -/
def pixelCenter (frame : FrameConstants K) (x y : Int) : Double2 K :=
  let frameBufferWidthReal : K := (frame.frameBufferWidth : K)
  let frameBufferHeightReal : K := (frame.frameBufferHeight : K)
  let yScreenPercent := ((y : K) + 1 / 2) / frameBufferHeightReal
  let xScreenPercent := ((x : K) + 1 / 2) / frameBufferWidthReal
  ⟨xScreenPercent * frameBufferWidthReal, yScreenPercent * frameBufferHeightReal⟩

/-- The relation between the buffers before and after a run of depth-tested writes: both
lengths are kept, and every cell either holds a strictly lower depth and has its index in
`touched`, or keeps its depth and its color. -/
def LoweredWithin (touched : Int → Prop) (before after : FrameBuffers K) : Prop :=
  after.colorBuffer.length = before.colorBuffer.length
  ∧ after.depthBuffer.length = before.depthBuffer.length
  ∧ ∀ index : Int,
      (readAt after.depthBuffer index ⊤ < readAt before.depthBuffer index ⊤ ∧ touched index)
      ∨ (readAt after.depthBuffer index ⊤ = readAt before.depthBuffer index ⊤
          ∧ ∀ d : Nat, readAt after.colorBuffer index d = readAt before.colorBuffer index d)

end swRender
/-! ## Resource pools and the renderer object -/

namespace Buffer2D

/-- Modelled from the spec: `Buffer2D::init(width, height)`: new storage of `width * height`
cells; `fresh` is the value a new cell holds. -/
def init {α : Type} (width height : Int) (fresh : α) : Buffer2D α :=
  { width := width, height := height, data := some (List.replicate (width * height).toNat fresh) }

/-- Modelled from the spec: `Buffer2D::fill`: every cell of the storage is set to the value. -/
def fill {α : Type} (b : Buffer2D α) (value : α) : Buffer2D α :=
  { b with data := b.data.map (fun cells => cells.map (fun _ => value)) }

/-- Modelled from the spec: `Buffer2D::clear`: the storage is released and the dimensions are
0. -/
def clear {α : Type} : Buffer2D α := { width := 0, height := 0, data := none }

/-- Modelled from the spec: `Buffer2D::isValid`: whether the buffer has storage. -/
def isValid {α : Type} (b : Buffer2D α) : Bool := b.data.isSome

/-- The call `std::copy(srcBegin, srcEnd, buffer.get())` on the storage of a grid: the first
`src.length` cells are overwritten with `src`. -/
def copyFrom {α : Type} (b : Buffer2D α) (src : List α) : Buffer2D α :=
  { b with data := b.data.map (fun cells => src ++ cells.drop src.length) }

/-- Modelled from the spec: `Buffer2D::get(x, y)`: the cell of column `x` and row `y` of the
row-major storage.  `dflt` stands for a read outside the storage. -/
def getAt {α : Type} (b : Buffer2D α) (x y : Int) (dflt : α) : α :=
  readAt b.get (x + (y * b.width)) dflt

end Buffer2D

namespace Buffer

/-- Modelled from the spec: `Buffer::init(count)`: new storage of `count` values; `fresh` is the
value a new cell holds. -/
def init {α : Type} (count : Int) (fresh : α) : Buffer α :=
  { data := some (List.replicate count.toNat fresh) }

/-- Modelled from the spec: `Buffer::fill`: every value of the storage is set to the value. -/
def fill {α : Type} (b : Buffer α) (value : α) : Buffer α :=
  { data := b.data.map (fun cells => cells.map (fun _ => value)) }

/-- Modelled from the spec: `Buffer::clear`: the storage is released. -/
def clear {α : Type} : Buffer α := { data := none }

/-- Modelled from the spec: `Buffer::isValid`: whether the buffer has storage. -/
def isValid {α : Type} (b : Buffer α) : Bool := b.data.isSome

/-- Modelled from the spec: `Buffer::getCount`: the number of values of the storage. -/
def getCount {α : Type} (b : Buffer α) : Int := (b.get.length : Int)

/-- The call `std::copy(srcBegin, srcEnd, buffer.get())`: the first `src.length` values of the
storage are overwritten with `src`. -/
def copyFrom {α : Type} (b : Buffer α) (src : List α) : Buffer α :=
  { data := b.data.map (fun cells => src ++ cells.drop src.length) }

end Buffer

/-- The method `ObjectTexture::init8Bit`. -/
def ObjectTexture.init8Bit (texture : ObjectTexture) (width height : Int) : ObjectTexture :=
  { texture with texels := Buffer2D.init width height 0 }

/-- The method `ObjectTexture::initPalette`. -/
def ObjectTexture.initPalette (texture : ObjectTexture) (count : Int) : ObjectTexture :=
  { texture with paletteTexels := Buffer.init count 0 }

/-- The method `ObjectTexture::clear`. -/
def ObjectTexture.clear (_texture : ObjectTexture) : ObjectTexture :=
  { texels := Buffer2D.clear, paletteTexels := Buffer.clear }

/-- A default-constructed `ObjectTexture`: neither representation has storage. -/
def ObjectTexture.fresh : ObjectTexture :=
  { texels := Buffer2D.clear, paletteTexels := Buffer.clear }

/-- Modelled from the spec: a default-constructed `ObjectMaterial` (not among the sources): no
texture handles. -/
def ObjectMaterial.fresh : ObjectMaterial := { id0 := -1, id1 := -1 }

/-- Modelled from the spec: `ObjectMaterial::init(id0, id1)` (not among the sources): a
material of two texture handles. -/
def ObjectMaterial.init (_material : ObjectMaterial) (id0 id1 : Int) : ObjectMaterial :=
  { id0 := id0, id1 := id1 }

/-- Modelled from the spec: `ObjectMaterial::init(id)` (not among the sources): a material of
one texture handle; the layer handle is negative. -/
def ObjectMaterial.initSingle (_material : ObjectMaterial) (id : Int) : ObjectMaterial :=
  { id0 := id, id1 := -1 }

/-- Modelled from the spec: the enumeration `TextureBuilder::Type` (Media/TextureBuilder.h is
not among the sources): "8-bit-indexed or true-color source data". -/
inductive TextureBuilderType where
  | Paletted
  | TrueColor
deriving DecidableEq, Repr

/-- Modelled from the spec: what `tryCreateObjectTexture` reads of a `TextureBuilder`
(Media/TextureBuilder.h is not among the sources): the dimensions `getWidth()` and
`getHeight()`, the type `getType()`, and the texel grids `getPaletted().texels` (8-bit) and
`getTrueColor().texels` (32-bit). -/
structure TextureBuilder where
  width : Int
  height : Int
  type : TextureBuilderType
  palettedTexels : Buffer2D Nat
  trueColorTexels : Buffer2D Nat

/-- The struct `SoftwareRenderer::VertexBuffer`. -/
structure VertexBuffer (K : Type) where
  vertices : Buffer K

/-- The struct `SoftwareRenderer::AttributeBuffer`. -/
structure AttributeBuffer (K : Type) where
  attributes : Buffer K

/-- The struct `SoftwareRenderer::IndexBuffer`; the indices are `int32_t` values. -/
structure IndexBuffer where
  indices : Buffer Int

/-- The method `VertexBuffer::init`. -/
def VertexBuffer.init {K : Type} [LinearOrderedField K] (_buffer : VertexBuffer K)
    (vertexCount componentsPerVertex : Int) : VertexBuffer K :=
  let valueCount := wrapInt (vertexCount * componentsPerVertex)
  { vertices := Buffer.init valueCount 0 }

/-- The method `AttributeBuffer::init`. -/
def AttributeBuffer.init {K : Type} [LinearOrderedField K] (_buffer : AttributeBuffer K)
    (vertexCount componentsPerVertex : Int) : AttributeBuffer K :=
  let valueCount := wrapInt (vertexCount * componentsPerVertex)
  { attributes := Buffer.init valueCount 0 }

/-- The method `IndexBuffer::init`. -/
def IndexBuffer.init (_buffer : IndexBuffer) (indexCount : Int) : IndexBuffer :=
  { indices := Buffer.init indexCount 0 }

/-- A default-constructed `VertexBuffer`: no storage. -/
def VertexBuffer.fresh {K : Type} : VertexBuffer K := { vertices := Buffer.clear }

/-- A default-constructed `AttributeBuffer`: no storage. -/
def AttributeBuffer.fresh {K : Type} : AttributeBuffer K := { attributes := Buffer.clear }

/-- A default-constructed `IndexBuffer`: no storage. -/
def IndexBuffer.fresh : IndexBuffer := { indices := Buffer.clear }

/-- Modelled from the spec: the pools of the renderer (components/utilities/RecyclablePool.h is
not among the sources): "indexed, generation-free allocators" with "stable integer handles".
`elements id` is the element of an allocated handle and `none` for a handle that is not
allocated. -/
structure RecyclablePool (ElementT : Type) where
  elements : Int → Option ElementT

namespace RecyclablePool

variable {ElementT : Type}

/-- Modelled from the spec: a pool without allocated handles, also the result of
`RecyclablePool::clear`. -/
def clear : RecyclablePool ElementT := { elements := fun _ => none }

/-- Modelled from the spec: `RecyclablePool::get(id)`: the element of an allocated handle.
`none` stands for a handle that is not allocated, which is outside the contract of `get`. -/
def get (pool : RecyclablePool ElementT) (id : Int) : Option ElementT := pool.elements id

/-- A write through the reference that `get(id)` returned. -/
def set (pool : RecyclablePool ElementT) (id : Int) (element : ElementT) :
    RecyclablePool ElementT :=
  { elements := fun i => if i = id then some element else pool.elements i }

/-- Modelled from the spec: `RecyclablePool::free(id)`: "releases the slot for reuse". -/
def free (pool : RecyclablePool ElementT) (id : Int) : RecyclablePool ElementT :=
  { elements := fun i => if i = id then none else pool.elements i }

/-- Modelled from the spec: `RecyclablePool::tryAlloc(outID)`.  `choose` is the allocation
policy, which is not among the sources: the handle the pool hands out next, or `none` when the
allocation fails ("pool exhausted").  A failed allocation leaves the pool as it is; a successful
one returns the handle and the pool in which that handle holds a default-constructed element
`fresh`. -/
def tryAlloc (choose : RecyclablePool ElementT → Option Int) (fresh : ElementT)
    (pool : RecyclablePool ElementT) : Option (Int × RecyclablePool ElementT) :=
  match choose pool with
  | none => none
  | some id => some (id, pool.set id fresh)

end RecyclablePool

/-- The allocation policies of the five pools of the renderer (`RecyclablePool::tryAlloc` is not
among the sources), taken as parameters. -/
structure PoolPolicy (K : Type) where
  vertexBuffers : RecyclablePool (VertexBuffer K) → Option Int
  attributeBuffers : RecyclablePool (AttributeBuffer K) → Option Int
  indexBuffers : RecyclablePool IndexBuffer → Option Int
  objectTextures : RecyclablePool ObjectTexture → Option Int
  objectMaterials : RecyclablePool ObjectMaterial → Option Int

/-- The data members of `SoftwareRenderer` (Rendering/SoftwareRenderer.h is not among the
sources) that `SoftwareRenderer.cpp` uses: the depth buffer and the five pools. -/
structure SoftwareRenderer (K : Type) where
  depthBuffer : Buffer2D (WithTop K)
  vertexBuffers : RecyclablePool (VertexBuffer K)
  attributeBuffers : RecyclablePool (AttributeBuffer K)
  indexBuffers : RecyclablePool IndexBuffer
  objectTextures : RecyclablePool ObjectTexture
  objectMaterials : RecyclablePool ObjectMaterial

/-- What a `tryCreate...` method hands back when it returns: the returned flag, the handle
written through `outID` (if one was written) and the renderer afterwards. -/
structure TryCreateResult (K : Type) where
  success : Bool
  outID : Option Int
  renderer : SoftwareRenderer K

namespace SoftwareRenderer

variable {K : Type} [LinearOrderedField K]

/-- The renderer after its constructor, which does nothing: no depth storage, empty pools. -/
def constructed : SoftwareRenderer K :=
  { depthBuffer := Buffer2D.clear, vertexBuffers := RecyclablePool.clear,
    attributeBuffers := RecyclablePool.clear, indexBuffers := RecyclablePool.clear,
    objectTextures := RecyclablePool.clear, objectMaterials := RecyclablePool.clear }

/-- The method `SoftwareRenderer::init`; `width` and `height` are the fields of
`RenderInitSettings` that it reads.  New depth cells hold `0.0`. -/
def init (r : SoftwareRenderer K) (width height : Int) : SoftwareRenderer K :=
  { r with depthBuffer := Buffer2D.init width height ((0 : K) : WithTop K) }

/-- The method `SoftwareRenderer::shutdown`. -/
def shutdown (r : SoftwareRenderer K) : SoftwareRenderer K :=
  { r with depthBuffer := Buffer2D.clear, vertexBuffers := RecyclablePool.clear,
           attributeBuffers := RecyclablePool.clear, indexBuffers := RecyclablePool.clear,
           objectTextures := RecyclablePool.clear }

/-- The method `SoftwareRenderer::isInited`. -/
def isInited (r : SoftwareRenderer K) : Bool := r.depthBuffer.isValid

/-- The method `SoftwareRenderer::resize`. -/
def resize (r : SoftwareRenderer K) (width height : Int) : SoftwareRenderer K :=
  { r with depthBuffer := (Buffer2D.init width height ((0 : K) : WithTop K)).fill ⊤ }

/-- The method `SoftwareRenderer::tryCreateVertexBuffer`.  The macros `DebugAssert` and
`DebugLogError` (components/debug/Debug.h) are not among the sources; following the spec, a
failed assertion is fatal and logging leaves the state alone.  The result `none` stands for a
call that halts; this holds for every method below. -/
def tryCreateVertexBuffer (policy : PoolPolicy K) (r : SoftwareRenderer K)
    (vertexCount componentsPerVertex : Int) : Option (TryCreateResult K) :=
  if ¬ (vertexCount > 0) then none
  else if ¬ (componentsPerVertex ≥ 2) then none
  else
    match r.vertexBuffers.tryAlloc policy.vertexBuffers VertexBuffer.fresh with
    | none => some { success := false, outID := none, renderer := r }
    | some (outID, pool) =>
      match pool.get outID with
      | none => none
      | some buffer =>
        let buffer := buffer.init vertexCount componentsPerVertex
        some { success := true, outID := some outID,
               renderer := { r with vertexBuffers := pool.set outID buffer } }

/-- The method `SoftwareRenderer::tryCreateAttributeBuffer`. -/
def tryCreateAttributeBuffer (policy : PoolPolicy K) (r : SoftwareRenderer K)
    (vertexCount componentsPerVertex : Int) : Option (TryCreateResult K) :=
  if ¬ (vertexCount > 0) then none
  else if ¬ (componentsPerVertex ≥ 2) then none
  else
    match r.attributeBuffers.tryAlloc policy.attributeBuffers AttributeBuffer.fresh with
    | none => some { success := false, outID := none, renderer := r }
    | some (outID, pool) =>
      match pool.get outID with
      | none => none
      | some buffer =>
        let buffer := buffer.init vertexCount componentsPerVertex
        some { success := true, outID := some outID,
               renderer := { r with attributeBuffers := pool.set outID buffer } }

/-- The method `SoftwareRenderer::tryCreateIndexBuffer`. -/
def tryCreateIndexBuffer (policy : PoolPolicy K) (r : SoftwareRenderer K)
    (indexCount : Int) : Option (TryCreateResult K) :=
  if ¬ (indexCount > 0) then none
  else if ¬ (indexCount % 3 = 0) then none
  else
    match r.indexBuffers.tryAlloc policy.indexBuffers IndexBuffer.fresh with
    | none => some { success := false, outID := none, renderer := r }
    | some (outID, pool) =>
      match pool.get outID with
      | none => none
      | some buffer =>
        let buffer := buffer.init indexCount
        some { success := true, outID := some outID,
               renderer := { r with indexBuffers := pool.set outID buffer } }

/-- The method `SoftwareRenderer::populateVertexBuffer`; `vertices` is the array the view
points to.  With a handle that is not allocated the call is outside the contract of the pool
(`none`). -/
def populateVertexBuffer (r : SoftwareRenderer K) (id : Int) (vertices : List K) :
    Option (SoftwareRenderer K) :=
  match r.vertexBuffers.get id with
  | none => none
  | some buffer =>
    let srcCount : Int := (vertices.length : Int)
    let dstCount := buffer.vertices.getCount
    if srcCount ≠ dstCount then some r
    else
      let buffer : VertexBuffer K := { buffer with vertices := buffer.vertices.copyFrom vertices }
      some { r with vertexBuffers := r.vertexBuffers.set id buffer }

/-- The method `SoftwareRenderer::populateAttributeBuffer`. -/
def populateAttributeBuffer (r : SoftwareRenderer K) (id : Int) (attributes : List K) :
    Option (SoftwareRenderer K) :=
  match r.attributeBuffers.get id with
  | none => none
  | some buffer =>
    let srcCount : Int := (attributes.length : Int)
    let dstCount := buffer.attributes.getCount
    if srcCount ≠ dstCount then some r
    else
      let buffer : AttributeBuffer K :=
        { buffer with attributes := buffer.attributes.copyFrom attributes }
      some { r with attributeBuffers := r.attributeBuffers.set id buffer }

/-- The method `SoftwareRenderer::populateIndexBuffer`. -/
def populateIndexBuffer (r : SoftwareRenderer K) (id : Int) (indices : List Int) :
    Option (SoftwareRenderer K) :=
  match r.indexBuffers.get id with
  | none => none
  | some buffer =>
    let srcCount : Int := (indices.length : Int)
    let dstCount := buffer.indices.getCount
    if srcCount ≠ dstCount then some r
    else
      let buffer : IndexBuffer := { buffer with indices := buffer.indices.copyFrom indices }
      some { r with indexBuffers := r.indexBuffers.set id buffer }

/-- The method `SoftwareRenderer::freeVertexBuffer`. -/
def freeVertexBuffer (r : SoftwareRenderer K) (id : Int) : SoftwareRenderer K :=
  { r with vertexBuffers := r.vertexBuffers.free id }

/-- The method `SoftwareRenderer::freeAttributeBuffer`. -/
def freeAttributeBuffer (r : SoftwareRenderer K) (id : Int) : SoftwareRenderer K :=
  { r with attributeBuffers := r.attributeBuffers.free id }

/-- The method `SoftwareRenderer::freeIndexBuffer`. -/
def freeIndexBuffer (r : SoftwareRenderer K) (id : Int) : SoftwareRenderer K :=
  { r with indexBuffers := r.indexBuffers.free id }

/-- The method `SoftwareRenderer::tryCreateObjectTexture(width, height, isPalette, outID)`. -/
def tryCreateObjectTexture (policy : PoolPolicy K) (r : SoftwareRenderer K)
    (width height : Int) (isPalette : Bool) : Option (TryCreateResult K) :=
  match r.objectTextures.tryAlloc policy.objectTextures ObjectTexture.fresh with
  | none => some { success := false, outID := none, renderer := r }
  | some (outID, pool) =>
    match pool.get outID with
    | none => none
    | some texture =>
      let texture :=
        if ¬ isPalette then
          let texture := texture.init8Bit width height
          { texture with texels := texture.texels.fill 0 }
        else
          let texture := texture.initPalette (wrapInt (width * height))
          { texture with paletteTexels := texture.paletteTexels.fill 0 }
      some { success := true, outID := some outID,
             renderer := { r with objectTextures := pool.set outID texture } }

/-- The method `SoftwareRenderer::tryCreateObjectMaterial(id0, id1, outID)`. -/
def tryCreateObjectMaterial (policy : PoolPolicy K) (r : SoftwareRenderer K)
    (id0 id1 : Int) : Option (TryCreateResult K) :=
  if id0 < 0 then some { success := false, outID := none, renderer := r }
  else if id1 < 0 then some { success := false, outID := none, renderer := r }
  else
    match r.objectMaterials.tryAlloc policy.objectMaterials ObjectMaterial.fresh with
    | none => some { success := false, outID := none, renderer := r }
    | some (outID, pool) =>
      match pool.get outID with
      | none => none
      | some material =>
        let material := material.init id0 id1
        some { success := true, outID := some outID,
               renderer := { r with objectMaterials := pool.set outID material } }

/-- The method `SoftwareRenderer::tryCreateObjectMaterial(id, outID)`. -/
def tryCreateObjectMaterialSingle (policy : PoolPolicy K) (r : SoftwareRenderer K)
    (id : Int) : Option (TryCreateResult K) :=
  if id < 0 then some { success := false, outID := none, renderer := r }
  else
    match r.objectMaterials.tryAlloc policy.objectMaterials ObjectMaterial.fresh with
    | none => some { success := false, outID := none, renderer := r }
    | some (outID, pool) =>
      match pool.get outID with
      | none => none
      | some material =>
        let material := material.initSingle id
        some { success := true, outID := some outID,
               renderer := { r with objectMaterials := pool.set outID material } }

/-- The texture that `tryCreateObjectTexture(width, height, isPalette)` builds in a
default-constructed slot: a zero-filled texel grid, or a zero-filled palette table. -/
def createdTexture (width height : Int) (isPalette : Bool) : ObjectTexture :=
  if isPalette then
    { texels := Buffer2D.clear,
      paletteTexels := (Buffer.init (wrapInt (width * height)) 0).fill 0 }
  else
    { texels := (Buffer2D.init width height 0).fill 0, paletteTexels := Buffer.clear }

/-- The method `SoftwareRenderer::freeObjectTexture`. -/
def freeObjectTexture (r : SoftwareRenderer K) (id : Int) : SoftwareRenderer K :=
  { r with objectTextures := r.objectTextures.free id }

/-- The method `SoftwareRenderer::freeObjectMaterial`. -/
def freeObjectMaterial (r : SoftwareRenderer K) (id : Int) : SoftwareRenderer K :=
  { r with objectMaterials := r.objectMaterials.free id }

/-- The method `SoftwareRenderer::tryGetObjectTextureDims`: the outer `none` is a handle that is
not allocated, the inner value is the returned `std::optional<Int2>`. -/
def tryGetObjectTextureDims (r : SoftwareRenderer K) (id : Int) : Option (Option (Int × Int)) :=
  match r.objectTextures.get id with
  | none => none
  | some texture => some (some (texture.texels.width, texture.texels.height))

/-- The method `SoftwareRenderer::tryCreateObjectTexture(textureBuilder, outID)`.  The last
alternative of the type dispatch in the source (`DebugUnhandledReturnMsg`) is for a value that
is neither `Paletted` nor `TrueColor`; the enumeration has no such value. -/
def tryCreateObjectTextureFromBuilder (policy : PoolPolicy K) (r : SoftwareRenderer K)
    (textureBuilder : TextureBuilder) : Option (TryCreateResult K) :=
  let width := textureBuilder.width
  let height := textureBuilder.height
  match tryCreateObjectTexture policy r width height false with
  | none => none
  | some created =>
    if ¬ created.success then
      some { success := false, outID := created.outID, renderer := created.renderer }
    else
      match created.outID with
      | none => none
      | some outID =>
        match created.renderer.objectTextures.get outID with
        | none => none
        | some texture =>
          let texture : ObjectTexture :=
            match textureBuilder.type with
            | TextureBuilderType.Paletted =>
              let srcTexels := textureBuilder.palettedTexels
              { texture with texels := texture.texels.copyFrom srcTexels.get }
            | TextureBuilderType.TrueColor =>
              { texture with texels := texture.texels.fill 0 }
          some { success := true, outID := some outID,
                 renderer := { created.renderer with
                               objectTextures := created.renderer.objectTextures.set outID texture } }

/-- The texture that `tryCreateObjectTexture(textureBuilder)` builds in a default-constructed
slot: the zero-filled grid of `createdTexture`, then the source texels copied over it for a
paletted builder, or filled with 0 again for a true-color builder. -/
def builtTexture (textureBuilder : TextureBuilder) : ObjectTexture :=
  let texture := createdTexture textureBuilder.width textureBuilder.height false
  match textureBuilder.type with
  | TextureBuilderType.Paletted =>
    { texture with texels := texture.texels.copyFrom textureBuilder.palettedTexels.get }
  | TextureBuilderType.TrueColor => { texture with texels := texture.texels.fill 0 }

/-- What `tryGetObjectMaterialTextures` hands back: the returned flag and the handles written
through `outID0` and `outID1`. -/
structure MaterialTexturesResult where
  success : Bool
  outID0 : Int
  outID1 : Int
deriving DecidableEq, Repr

/-- The method `SoftwareRenderer::tryGetObjectMaterialTextures`; `none` is a handle that is not
allocated. -/
def tryGetObjectMaterialTextures (r : SoftwareRenderer K) (id : Int) :
    Option MaterialTexturesResult :=
  match r.objectMaterials.get id with
  | none => none
  | some material => some { success := true, outID0 := material.id0, outID1 := material.id1 }

/-- What `tryGetEntitySelectionData` hands back: the returned flag and the value of
`*outIsSelected` afterwards. -/
structure EntitySelectionResult where
  success : Bool
  outIsSelected : Bool
deriving DecidableEq, Repr

/-- The method `SoftwareRenderer::tryGetEntitySelectionData`.  The last argument is the value
`*outIsSelected` holds when the method is entered.  `none` is a texture handle that is not
allocated, which only the pixel-perfect branch looks up. -/
def tryGetEntitySelectionData [FloorRing K] (r : SoftwareRenderer K) (uv : Double2 K)
    (textureID : Int) (pixelPerfect : Bool) (outIsSelected : Bool) :
    Option EntitySelectionResult :=
  if pixelPerfect then
    match r.objectTextures.get textureID with
    | none => none
    | some texture =>
      let textureWidth := texture.texels.width
      let textureHeight := texture.texels.height
      let textureX := staticCastInt (uv.x * (textureWidth : K))
      let textureY := staticCastInt (uv.y * (textureHeight : K))
      if textureX < 0 ∨ textureX ≥ textureWidth ∨ textureY < 0 ∨ textureY ≥ textureHeight then
        some { success := false, outIsSelected := outIsSelected }
      else
        let texel := texture.texels.getAt textureX textureY 0
        some { success := true, outIsSelected := decide (texel ≠ 0) }
  else
    let withinEntity :=
      decide (uv.x ≥ 0) && decide (uv.x ≤ 1) && decide (uv.y ≥ 0) && decide (uv.y ≤ 1)
    some { success := true, outIsSelected := withinEntity }

/-- What `lockObjectTexture` returns, `LockedTexture(texels, isTrueColor)` (not among the
sources): the array behind the pointer (`none` for `nullptr`) and the flag. -/
structure LockedTexture where
  texels : Option (List Nat)
  isTrueColor : Bool

/-- The method `SoftwareRenderer::lockObjectTexture`; `none` is a handle that is not allocated.
The macro `DebugNotImplemented` is not among the sources; the branch for a texture without
storage is the value the source returns after it, a null pointer. -/
def lockObjectTexture (r : SoftwareRenderer K) (id : Int) : Option LockedTexture :=
  match r.objectTextures.get id with
  | none => none
  | some texture =>
    if texture.texels.isValid then some { texels := some texture.texels.get, isTrueColor := false }
    else if texture.paletteTexels.isValid then
      some { texels := some texture.paletteTexels.get, isTrueColor := true }
    else some { texels := none, isTrueColor := false }

/-- The writes of a caller through the pointer that `lockObjectTexture(id)` returned: the
storage the pointer refers to holds `cells` afterwards, as many values as before.  Without a
change for a handle that is not allocated, a texture without storage or a different count. -/
def writeLockedTexture (r : SoftwareRenderer K) (id : Int) (cells : List Nat) :
    SoftwareRenderer K :=
  match r.objectTextures.get id with
  | none => r
  | some texture =>
    if texture.texels.isValid then
      if cells.length = texture.texels.get.length then
        let written : ObjectTexture :=
          { texture with texels := { texture.texels with data := some cells } }
        { r with objectTextures := r.objectTextures.set id written }
      else r
    else if texture.paletteTexels.isValid then
      if cells.length = texture.paletteTexels.get.length then
        let written : ObjectTexture := { texture with paletteTexels := { data := some cells } }
        { r with objectTextures := r.objectTextures.set id written }
      else r
    else r

end SoftwareRenderer

/-! ## Frame submission -/

/-- Modelled from the spec: `Color` of Media/Color.h, which is not among the sources: four
8-bit channels. -/
structure Color where
  r : Nat
  g : Nat
  b : Nat
  a : Nat

namespace Color

/-- Modelled from the spec: the constant `Color::Black`, opaque black. -/
def Black : Color := { r := 0, g := 0, b := 0, a := 255 }

/-- Modelled from the spec: `Color::toARGB`, the 32-bit color with alpha in the top byte. -/
def toARGB (c : Color) : Nat := c.a * 2 ^ 24 + c.r * 2 ^ 16 + c.g * 2 ^ 8 + c.b

end Color

/-- The fields of `RenderFrameSettings` (not among the sources) that `submitFrame` reads. -/
structure RenderFrameSettings where
  paletteTextureID : Int
  lightTableTextureID : Int

namespace swGeometry

/-- The global caches of namespace `swGeometry`: the visible list and the clip list of each
triangle class, and the three counters. -/
structure Caches (K : Type) where
  g_visibleOpaqueVoxelTriangles : List (RenderTriangle K)
  g_visibleOpaqueVoxelClipList : List (RenderTriangle K)
  g_visibleAlphaTestedVoxelTriangles : List (RenderTriangle K)
  g_visibleAlphaTestedVoxelClipList : List (RenderTriangle K)
  g_visibleEntityTriangles : List (RenderTriangle K)
  g_visibleEntityClipList : List (RenderTriangle K)
  g_totalOpaqueVoxelTriangleCount : Nat
  g_totalAlphaTestedVoxelTriangleCount : Nat
  g_totalEntityTriangleCount : Nat

end swGeometry

/-- What `submitFrame` leaves behind: the renderer, the global caches and the array behind
`outputBuffer`. -/
structure SubmittedFrame (K : Type) where
  renderer : SoftwareRenderer K
  caches : swGeometry.Caches K
  outputBuffer : List Nat

namespace SoftwareRenderer

variable {K : Type} [LinearOrderedField K]

/-- The material lookup `materials.get(id)` inside `RasterizeTriangles`.  A handle that is not
allocated is outside the contract of the pool; a default-constructed material stands for its
result. -/
def materialOf (r : SoftwareRenderer K) (id : Int) : ObjectMaterial :=
  (r.objectMaterials.get id).getD ObjectMaterial.fresh

/-- The texture lookup `textures.get(id)` inside `RasterizeTriangles`.  A handle that is not
allocated is outside the contract of the pool; a default-constructed texture stands for its
result. -/
def textureOf (r : SoftwareRenderer K) (id : Int) : ObjectTexture :=
  (r.objectTextures.get id).getD ObjectTexture.fresh

/-- The method `SoftwareRenderer::submitFrame`.  `outputBuffer` is the array the pointer of that
name points to, `caches` the global caches when the method is entered.  The result is `none`
when the palette or the light table handle is not allocated. -/
def submitFrame [FloorRing K] (env : MathEnv K) (utils : RendererUtils K)
    (r : SoftwareRenderer K) (caches : swGeometry.Caches K) (camera : RenderCamera K)
    (opaqueVoxelTriangles alphaTestedVoxelTriangles entityTriangles : List (RenderTriangle K))
    (settings : RenderFrameSettings) (outputBuffer : List Nat) : Option (SubmittedFrame K) :=
  let frameBufferWidth := r.depthBuffer.width
  let frameBufferHeight := r.depthBuffer.height
  let colorBufferView : BufferView2D Nat :=
    { width := frameBufferWidth, height := frameBufferHeight, data := outputBuffer }
  let depthBufferView : BufferView2D (WithTop K) :=
    { width := frameBufferWidth, height := frameBufferHeight, data := r.depthBuffer.get }
  match r.objectTextures.get settings.paletteTextureID with
  | none => none
  | some paletteTexture =>
    match r.objectTextures.get settings.lightTableTextureID with
    | none => none
    | some lightTableTexture =>
      let clearColor := Color.Black.toARGB
      let cleared := swRender.ClearFrameBuffers clearColor colorBufferView depthBufferView
      let clippedOpaqueVoxelTriangles := swGeometry.ProcessTrianglesForRasterization env
        opaqueVoxelTriangles camera caches.g_visibleOpaqueVoxelTriangles
        caches.g_visibleOpaqueVoxelClipList
      let clippedAlphaTestedVoxelTriangles := swGeometry.ProcessTrianglesForRasterization env
        alphaTestedVoxelTriangles camera caches.g_visibleAlphaTestedVoxelTriangles
        caches.g_visibleAlphaTestedVoxelClipList
      let clippedEntityTriangles := swGeometry.ProcessTrianglesForRasterization env
        entityTriangles camera caches.g_visibleEntityTriangles caches.g_visibleEntityClipList
      let opaquePass := swRender.RasterizeTriangles env utils
        clippedOpaqueVoxelTriangles.outVisibleTriangles false r.materialOf r.textureOf
        paletteTexture lightTableTexture camera cleared.1 cleared.2
      let alphaTestedPass := swRender.RasterizeTriangles env utils
        clippedAlphaTestedVoxelTriangles.outVisibleTriangles true r.materialOf r.textureOf
        paletteTexture lightTableTexture camera opaquePass.1 opaquePass.2
      let entityPass := swRender.RasterizeTriangles env utils
        clippedEntityTriangles.outVisibleTriangles true r.materialOf r.textureOf
        paletteTexture lightTableTexture camera alphaTestedPass.1 alphaTestedPass.2
      let depthBuffer : Buffer2D (WithTop K) :=
        { r.depthBuffer with data := r.depthBuffer.data.map (fun _ => entityPass.2.data) }
      let newCaches : swGeometry.Caches K :=
        { g_visibleOpaqueVoxelTriangles := clippedOpaqueVoxelTriangles.outVisibleTriangles,
          g_visibleOpaqueVoxelClipList := clippedOpaqueVoxelTriangles.outClipList,
          g_visibleAlphaTestedVoxelTriangles :=
            clippedAlphaTestedVoxelTriangles.outVisibleTriangles,
          g_visibleAlphaTestedVoxelClipList := clippedAlphaTestedVoxelTriangles.outClipList,
          g_visibleEntityTriangles := clippedEntityTriangles.outVisibleTriangles,
          g_visibleEntityClipList := clippedEntityTriangles.outClipList,
          g_totalOpaqueVoxelTriangleCount := clippedOpaqueVoxelTriangles.outTotalTriangleCount,
          g_totalAlphaTestedVoxelTriangleCount :=
            clippedAlphaTestedVoxelTriangles.outTotalTriangleCount,
          g_totalEntityTriangleCount := clippedEntityTriangles.outTotalTriangleCount }
      some { renderer := { r with depthBuffer := depthBuffer }, caches := newCaches,
             outputBuffer := entityPass.1.data }

/-- Modelled from the spec: `RendererSystem3D::ProfilerData` (not among the sources), the
"profiling counters (render width/height, worker-thread count, pre-clip triangle count,
post-clip visible triangle count, visible light count"; the fields are in the order of the
constructor arguments. -/
structure ProfilerData where
  width : Int
  height : Int
  threadCount : Int
  potentiallyVisTriangleCount : Int
  visTriangleCount : Int
  visLightCount : Int
deriving DecidableEq, Repr

/-- The method `SoftwareRenderer::getProfilerData`; `caches` is the state of the global caches
of namespace `swGeometry`. -/
def getProfilerData (r : SoftwareRenderer K) (caches : swGeometry.Caches K) : ProfilerData :=
  let renderWidth := r.depthBuffer.width
  let renderHeight := r.depthBuffer.height
  let threadCount : Int := 1
  let potentiallyVisTriangleCount : Int :=
    (caches.g_totalOpaqueVoxelTriangleCount : Int)
      + (caches.g_totalAlphaTestedVoxelTriangleCount : Int)
      + (caches.g_totalEntityTriangleCount : Int)
  let visTriangleCount : Int :=
    ((caches.g_visibleOpaqueVoxelTriangles.length
      + caches.g_visibleAlphaTestedVoxelTriangles.length
      + caches.g_visibleEntityTriangles.length : Nat) : Int)
  let visLightCount : Int := 0
  { width := renderWidth, height := renderHeight, threadCount := threadCount,
    potentiallyVisTriangleCount := potentiallyVisTriangleCount,
    visTriangleCount := visTriangleCount, visLightCount := visLightCount }

/-- The visible list of a triangle class as the specification describes it: the triangles that
pass the back-face test, each clipped against the five planes, concatenated in order. -/
def visibleTriangles (env : MathEnv K) (camera : RenderCamera K)
    (triangles : List (RenderTriangle K)) : List (RenderTriangle K) :=
  (triangles.filter (fun t =>
    ((swCamera.GetCameraEye env camera) - t.v0).dot t.normal ≥ env.Epsilon)).flatMap
    (swGeometry.clipTriangleAgainstPlanes env (swCamera.GetCameraEye env camera)
      (swGeometry.clippingPlanes env camera))

/-- The frame as the specification describes it, from the dimensions of the frame buffer, the
material and texture lookups, the palette, the light table, the camera and the three triangle
lists alone: both buffers are cleared to `Color::Black` and `+infinity`; each class is
back-face culled and clipped on its own; then the opaque voxels are rasterized without the
alpha test, after them the alpha-tested voxels with the alpha test, and last the entities with
the alpha test, all three into the same pair of buffers. -/
def specifiedFrame [FloorRing K] (env : MathEnv K) (utils : RendererUtils K)
    (width height : Int) (materials : Int → ObjectMaterial) (textures : Int → ObjectTexture)
    (paletteTexture lightTableTexture : ObjectTexture) (camera : RenderCamera K)
    (opaqueVoxelTriangles alphaTestedVoxelTriangles entityTriangles : List (RenderTriangle K)) :
    BufferView2D Nat × BufferView2D (WithTop K) :=
  let eye := swCamera.GetCameraEye env camera
  let visible := fun (triangles : List (RenderTriangle K)) =>
    (triangles.filter (fun t => (eye - t.v0).dot t.normal ≥ env.Epsilon)).flatMap
      (swGeometry.clipTriangleAgainstPlanes env eye (swGeometry.clippingPlanes env camera))
  let clearedColor : BufferView2D Nat :=
    { width := width, height := height,
      data := List.replicate (width * height).toNat Color.Black.toARGB }
  let clearedDepth : BufferView2D (WithTop K) :=
    { width := width, height := height, data := List.replicate (width * height).toNat ⊤ }
  let opaquePass := swRender.RasterizeTriangles env utils (visible opaqueVoxelTriangles) false
    materials textures paletteTexture lightTableTexture camera clearedColor clearedDepth
  let alphaTestedPass := swRender.RasterizeTriangles env utils
    (visible alphaTestedVoxelTriangles) true materials textures paletteTexture
    lightTableTexture camera opaquePass.1 opaquePass.2
  swRender.RasterizeTriangles env utils (visible entityTriangles) true materials textures
    paletteTexture lightTableTexture camera alphaTestedPass.1 alphaTestedPass.2

/-- The renderer with the given cells as the contents of its depth buffer storage. -/
def withDepthContents (r : SoftwareRenderer K) (cells : List (WithTop K)) :
    SoftwareRenderer K :=
  { r with depthBuffer := { r.depthBuffer with data := some cells } }

/-- The renderer states that calls of the methods above can produce, starting from the
constructed renderer; a call that halts produces no state. -/
inductive Reachable [FloorRing K] (policy : PoolPolicy K) : SoftwareRenderer K → Prop
  | constructed : Reachable policy constructed
  | init (r : SoftwareRenderer K) (width height : Int) :
      Reachable policy r → Reachable policy (r.init width height)
  | shutdown (r : SoftwareRenderer K) : Reachable policy r → Reachable policy r.shutdown
  | resize (r : SoftwareRenderer K) (width height : Int) :
      Reachable policy r → Reachable policy (r.resize width height)
  | tryCreateVertexBuffer (r : SoftwareRenderer K) (vertexCount componentsPerVertex : Int)
      (result : TryCreateResult K) : Reachable policy r →
      tryCreateVertexBuffer policy r vertexCount componentsPerVertex = some result →
      Reachable policy result.renderer
  | tryCreateAttributeBuffer (r : SoftwareRenderer K) (vertexCount componentsPerVertex : Int)
      (result : TryCreateResult K) : Reachable policy r →
      tryCreateAttributeBuffer policy r vertexCount componentsPerVertex = some result →
      Reachable policy result.renderer
  | tryCreateIndexBuffer (r : SoftwareRenderer K) (indexCount : Int)
      (result : TryCreateResult K) : Reachable policy r →
      tryCreateIndexBuffer policy r indexCount = some result →
      Reachable policy result.renderer
  | populateVertexBuffer (r : SoftwareRenderer K) (id : Int) (vertices : List K)
      (r2 : SoftwareRenderer K) : Reachable policy r →
      populateVertexBuffer r id vertices = some r2 → Reachable policy r2
  | populateAttributeBuffer (r : SoftwareRenderer K) (id : Int) (attributes : List K)
      (r2 : SoftwareRenderer K) : Reachable policy r →
      populateAttributeBuffer r id attributes = some r2 → Reachable policy r2
  | populateIndexBuffer (r : SoftwareRenderer K) (id : Int) (indices : List Int)
      (r2 : SoftwareRenderer K) : Reachable policy r →
      populateIndexBuffer r id indices = some r2 → Reachable policy r2
  | freeVertexBuffer (r : SoftwareRenderer K) (id : Int) :
      Reachable policy r → Reachable policy (r.freeVertexBuffer id)
  | freeAttributeBuffer (r : SoftwareRenderer K) (id : Int) :
      Reachable policy r → Reachable policy (r.freeAttributeBuffer id)
  | freeIndexBuffer (r : SoftwareRenderer K) (id : Int) :
      Reachable policy r → Reachable policy (r.freeIndexBuffer id)
  | tryCreateObjectTexture (r : SoftwareRenderer K) (width height : Int) (isPalette : Bool)
      (result : TryCreateResult K) : Reachable policy r →
      tryCreateObjectTexture policy r width height isPalette = some result →
      Reachable policy result.renderer
  | tryCreateObjectTextureFromBuilder (r : SoftwareRenderer K) (textureBuilder : TextureBuilder)
      (result : TryCreateResult K) : Reachable policy r →
      tryCreateObjectTextureFromBuilder policy r textureBuilder = some result →
      Reachable policy result.renderer
  | writeLockedTexture (r : SoftwareRenderer K) (id : Int) (cells : List Nat) :
      Reachable policy r → Reachable policy (r.writeLockedTexture id cells)
  | tryCreateObjectMaterial (r : SoftwareRenderer K) (id0 id1 : Int)
      (result : TryCreateResult K) : Reachable policy r →
      tryCreateObjectMaterial policy r id0 id1 = some result →
      Reachable policy result.renderer
  | tryCreateObjectMaterialSingle (r : SoftwareRenderer K) (id : Int)
      (result : TryCreateResult K) : Reachable policy r →
      tryCreateObjectMaterialSingle policy r id = some result →
      Reachable policy result.renderer
  | freeObjectTexture (r : SoftwareRenderer K) (id : Int) :
      Reachable policy r → Reachable policy (r.freeObjectTexture id)
  | freeObjectMaterial (r : SoftwareRenderer K) (id : Int) :
      Reachable policy r → Reachable policy (r.freeObjectMaterial id)
  | submitFrame (env : MathEnv K) (utils : RendererUtils K) (r : SoftwareRenderer K)
      (caches : swGeometry.Caches K) (camera : RenderCamera K)
      (opaqueVoxelTriangles alphaTestedVoxelTriangles entityTriangles : List (RenderTriangle K))
      (settings : RenderFrameSettings) (outputBuffer : List Nat) (frame : SubmittedFrame K) :
      Reachable policy r →
      submitFrame env utils r caches camera opaqueVoxelTriangles alphaTestedVoxelTriangles
        entityTriangles settings outputBuffer = some frame →
      Reachable policy frame.renderer

/-- Every index buffer of the pool holds a positive multiple of 3 indices. -/
def IndexBuffersWellFormed (r : SoftwareRenderer K) : Prop :=
  ∀ (id : Int) (buffer : IndexBuffer), r.indexBuffers.get id = some buffer →
    0 < buffer.indices.getCount ∧ buffer.indices.getCount % 3 = 0

/-- Every material of the pool references texture handles that are non-negative and allocated
in the object texture pool. -/
def MaterialsReferenceAllocatedTextures (r : SoftwareRenderer K) : Prop :=
  ∀ (id : Int) (material : ObjectMaterial), r.objectMaterials.get id = some material →
    (0 ≤ material.id0 ∧ (r.objectTextures.get material.id0).isSome)
      ∧ (0 ≤ material.id1 ∧ (r.objectTextures.get material.id1).isSome)

end SoftwareRenderer

/-! ## The province map panel -/

namespace ProvinceMapPanel

/-- Modelled from the spec: the class `Int2` (not among the sources), a pair of `int`
coordinates. -/
structure Int2 where
  x : Int
  y : Int
deriving DecidableEq, Repr

/-- Modelled from the spec: `Int2::operator-`, the difference by coordinates, computed in
`int`. -/
instance : Sub Int2 := ⟨fun a b => ⟨wrapInt (a.x - b.x), wrapInt (a.y - b.y)⟩⟩

/-- What `updateHoveredLocationID` reads of a `LocationInstance` (not among the sources). -/
structure LocationInstance where
  isVisible : Bool
  getLocationDefIndex : Int

/-- What `updateHoveredLocationID` reads of a `LocationDefinition` (not among the sources). -/
structure LocationDefinition where
  getScreenX : Int
  getScreenY : Int

/-- What `updateHoveredLocationID` reads of the `ProvinceInstance` of the panel (not among the
sources). -/
structure ProvinceInstance where
  getLocationCount : Int
  getLocationInstance : Int → LocationInstance

/-- What `updateHoveredLocationID` reads of the `ProvinceDefinition` of the panel (not among the
sources). -/
structure ProvinceDefinition where
  getLocationDef : Int → LocationDefinition

/-- The members of `ProvinceMapPanel` that `updateHoveredLocationID` writes: the hovered
location and the text of `hoveredLocationTextBox`. -/
structure PanelState where
  hoveredLocationID : Int
  hoveredLocationTextBox : String
deriving DecidableEq, Repr

variable {K : Type} [LinearOrderedField K]

/-- The call `std::sqrt(value)` on an `int` expression: the value is converted to `double` and
`sqrt` stands for `std::sqrt` on the numbers from 0 on; the root of a negative number is NaN,
for which `none` stands. -/
def sqrtOfInt (sqrt : K → K) (value : Int) : Option K :=
  if value < 0 then none else some (sqrt (value : K))

/-- The comparison `a < b` of two values of type `double`: false when either is NaN. -/
def doubleLess (a b : Option K) : Bool :=
  match a, b with
  | some x, some y => decide (x < y)
  | _, _ => false

/-- The lambda `closerThanCurrentClosest` of `updateHoveredLocationID`.  The squares and their
sum are `int` expressions. -/
def closerThanCurrentClosest (sqrt : K → K) (originalPosition : Int2)
    (closestPosition : Option Int2) (point : Int2) : Bool :=
  match closestPosition with
  | none => true
  | some closest =>
    let diff := point - originalPosition
    let closestDiff := closest - originalPosition
    let distance :=
      sqrtOfInt sqrt (wrapInt (wrapInt (diff.x * diff.x) + wrapInt (diff.y * diff.y)))
    let closestDistance :=
      sqrtOfInt sqrt
        (wrapInt (wrapInt (closestDiff.x * closestDiff.x)
          + wrapInt (closestDiff.y * closestDiff.y)))
    doubleLess distance closestDistance

/-- The body of the loop of `updateHoveredLocationID` for the index `i`; the state is
`(closestPosition, closestIndex)`. -/
def visitLocation (sqrt : K → K) (provinceInst : ProvinceInstance)
    (provinceDef : ProvinceDefinition) (originalPosition : Int2)
    (state : Option Int2 × Option Int) (i : Int) : Option Int2 × Option Int :=
  let locationInst := provinceInst.getLocationInstance i
  if locationInst.isVisible then
    let locationDefIndex := locationInst.getLocationDefIndex
    let locationDef := provinceDef.getLocationDef locationDefIndex
    let point : Int2 := ⟨locationDef.getScreenX, locationDef.getScreenY⟩
    if closerThanCurrentClosest sqrt originalPosition state.1 point then (some point, some i)
    else state
  else state

/-- The loop `for (int i = 0; i < count; i++)` of `updateHoveredLocationID`, from the state
`(closestPosition, closestIndex) = (nullopt, nullopt)`. -/
def scanLocations (sqrt : K → K) (provinceInst : ProvinceInstance)
    (provinceDef : ProvinceDefinition) (originalPosition : Int2) (count : Nat) :
    Option Int2 × Option Int :=
  (List.range count).foldl
    (fun state i => visitLocation sqrt provinceInst provinceDef originalPosition state (i : Int))
    (none, none)

/-- The method `ProvinceMapPanel::updateHoveredLocationID`.  The province instance and the
province definition are the ones the method looks up in the game state; `getLocationName`
stands for `ProvinceMapUiModel::getLocationName(game, provinceID, id)` (not among the sources).
`none` is the failed assertion `DebugAssertMsg(closestIndex.has_value(), ...)`. -/
def updateHoveredLocationID (sqrt : K → K) (getLocationName : Int → String)
    (provinceInst : ProvinceInstance) (provinceDef : ProvinceDefinition) (panel : PanelState)
    (originalPosition : Int2) : Option PanelState :=
  let final := scanLocations sqrt provinceInst provinceDef originalPosition
    provinceInst.getLocationCount.toNat
  match final.2 with
  | none => none
  | some closestIndex =>
    if panel.hoveredLocationID ≠ closestIndex then
      some { hoveredLocationID := closestIndex,
             hoveredLocationTextBox := getLocationName closestIndex }
    else some panel

/-- The screen point of the location instance `i`: the point the loop body builds from the
location definition of the instance. -/
def locationPoint (provinceInst : ProvinceInstance) (provinceDef : ProvinceDefinition)
    (i : Int) : Int2 :=
  ⟨(provinceDef.getLocationDef (provinceInst.getLocationInstance i).getLocationDefIndex).getScreenX,
   (provinceDef.getLocationDef (provinceInst.getLocationInstance i).getLocationDefIndex).getScreenY⟩

/-- The Euclidean distance of the screen point of the location instance `i` to a position:
`sqrt(dx * dx + dy * dy)`. -/
def locationDistance (sqrt : K → K) (provinceInst : ProvinceInstance)
    (provinceDef : ProvinceDefinition) (originalPosition : Int2) (i : Int) : K :=
  sqrt (((((locationPoint provinceInst provinceDef i).x - originalPosition.x)
        * ((locationPoint provinceInst provinceDef i).x - originalPosition.x)
      + ((locationPoint provinceInst provinceDef i).y - originalPosition.y)
        * ((locationPoint provinceInst provinceDef i).y - originalPosition.y) : Int)) : K)

/-- The squared Euclidean distance of a point to a position is at most `INT_MAX`, so that the
`int` expressions of `closerThanCurrentClosest` hold their exact values. -/
def squaredDistanceFits (originalPosition point : Int2) : Prop :=
  (point.x - originalPosition.x) * (point.x - originalPosition.x)
    + (point.y - originalPosition.y) * (point.y - originalPosition.y) ≤ INT_MAX

end ProvinceMapPanel

/-! ## Concrete inputs -/

/-- An instance of the parameters over the rationals: `Epsilon = 1.0e-5`, Mathlib's rational
square root (exact on squares of rationals) and chunks 64 units wide. -/
def exampleEnv : MathEnv ℚ :=
  { Epsilon := 1 / 100000, sqrt := Rat.sqrt,
    chunkPointToNewPoint := fun chunk point =>
      ⟨point.x + (chunk.1 : ℚ) * 64, point.y, point.z + (chunk.2 : ℚ) * 64⟩ }

/-- A camera at the origin that looks along `+x`, with `right = +z` and `up = +y`. -/
def exampleCamera : RenderCamera ℚ :=
  { chunk := (0, 0), point := ⟨0, 0, 0⟩,
    forward := ⟨1, 0, 0⟩, forwardScaled := ⟨4 / 3, 0, 0⟩,
    right := ⟨0, 0, 1⟩, rightScaled := ⟨0, 0, 1⟩,
    up := ⟨0, 1, 0⟩, fovY := 7374 / 100, aspectRatio := 1 }

/-- A triangle two units in front of `exampleCamera`, facing it, inside the frustum. -/
def insideTriangle : RenderTriangle ℚ :=
  { v0 := ⟨2, 0, 0⟩, v1 := ⟨2, 0, 1⟩, v2 := ⟨2, 1, 0⟩, normal := ⟨-1, 0, 0⟩,
    uv0 := ⟨0, 0⟩, uv1 := ⟨1, 0⟩, uv2 := ⟨0, 1⟩, materialID := 0, param0 := 0 }

/-- A camera at `(0, 1, 0)` that looks along `+z`, with `up = +y`; its near plane is
`z = 1/1000`. -/
def cornerCamera : RenderCamera ℚ :=
  { chunk := (0, 0), point := ⟨0, 1, 0⟩,
    forward := ⟨0, 0, 1⟩, forwardScaled := ⟨0, 0, 4 / 3⟩,
    right := ⟨-1, 0, 0⟩, rightScaled := ⟨-1, 0, 0⟩,
    up := ⟨0, 1, 0⟩, fovY := 7374 / 100, aspectRatio := 1 }

/-- A triangle in the plane `y = 0` with normal `+y`, one unit below the eye of `cornerCamera`
and facing it.  Its corner `v0` reaches `1/1000` beyond the near plane of `cornerCamera`, while
`v1` and `v2` lie far behind that plane. -/
def cornerTriangle : RenderTriangle ℚ :=
  { v0 := ⟨0, 0, 2 / 1000⟩, v1 := ⟨3, 0, -3998 / 1000⟩, v2 := ⟨-3, 0, -3998 / 1000⟩,
    normal := ⟨0, 1, 0⟩, uv0 := ⟨0, 0⟩, uv1 := ⟨1, 0⟩, uv2 := ⟨0, 1⟩,
    materialID := 0, param0 := 0 }

/-- A texture of one texel with the given value. -/
def singleTexelTexture (texel : Nat) : ObjectTexture :=
  { texels := { width := 1, height := 1, data := some [texel] },
    paletteTexels := { data := none } }

/-- The frame constants of a frame buffer of one pixel, with a light table of one light level
and four texel values and a palette of four colors. -/
def exampleFrame : swRender.FrameConstants ℚ :=
  { frameBufferWidth := 1, frameBufferHeight := 1, eye2D := ⟨0, 0⟩,
    paletteTexels := [0xFF000000, 0xFFFF0000, 0xFF00FF00, 0xFF0000FF],
    lightLevelTexelCount := 4, lightLevelCount := 1, lightLevelTexels := [0, 1, 2, 3] }

/-- The per-triangle constants of a triangle that covers the pixel `(0, 0)`, with all three
vertices at view-space depth `z` and a single texture of one texel. -/
def exampleTriangleConstants (z : ℚ) (texel : Nat) : swRender.TriangleConstants ℚ :=
  { v0 := ⟨z, -1, -1⟩, v1 := ⟨z, -1, 3⟩, v2 := ⟨z, 3, -1⟩,
    screenSpace0_2D := ⟨0, 0⟩, screenSpace1_2D := ⟨2, 0⟩, screenSpace2_2D := ⟨0, 2⟩,
    xStart := 0, xEnd := 1, yStart := 0, yEnd := 1,
    z0Recip := 1 / z, z1Recip := 1 / z, z2Recip := 1 / z,
    uv0Perspective := ⟨0, 0⟩, uv1Perspective := ⟨1 / z, 0⟩, uv2Perspective := ⟨0, 1 / z⟩,
    material := { isMultiTextured := false, texture0 := singleTexelTexture texel,
                  texture1 := singleTexelTexture texel },
    fadePercent := 0, isFading := false }

/-- A cleared frame buffer of one pixel: black, depth `+infinity`. -/
def clearedBuffers : swRender.FrameBuffers ℚ :=
  { colorBuffer := [0xFF000000], depthBuffer := [⊤] }

/-- An allocation policy that hands out the lowest handle below 16 that is not allocated. -/
def firstFreeHandle {ElementT : Type} (pool : RecyclablePool ElementT) : Option Int :=
  ((List.range 16).map (fun i => (i : Int))).find? (fun id => (pool.get id).isNone)

/-- The allocation policy `firstFreeHandle` for all five pools. -/
def examplePolicy : PoolPolicy ℚ :=
  { vertexBuffers := firstFreeHandle, attributeBuffers := firstFreeHandle,
    indexBuffers := firstFreeHandle, objectTextures := firstFreeHandle,
    objectMaterials := firstFreeHandle }

/-- An allocation policy whose pools are exhausted: every allocation fails. -/
def exhaustedPolicy : PoolPolicy ℚ :=
  { vertexBuffers := fun _ => none, attributeBuffers := fun _ => none,
    indexBuffers := fun _ => none, objectTextures := fun _ => none,
    objectMaterials := fun _ => none }

/-- A palette texture of four colors. -/
def examplePaletteTexture : ObjectTexture :=
  { texels := Buffer2D.clear,
    paletteTexels := { data := some [0xFF000000, 0xFFFF0000, 0xFF00FF00, 0xFF0000FF] } }

/-- A light table of one light level and four texel values. -/
def exampleLightTableTexture : ObjectTexture :=
  { texels := { width := 4, height := 1, data := some [0, 1, 2, 3] },
    paletteTexels := Buffer.clear }

/-- A renderer with a depth buffer of 2 x 1 cells that hold depths 5 and 7, a vertex buffer and
an attribute buffer of two values and an index buffer of three indices at handle 0, the palette
at texture handle 0 and the light table at texture handle 1. -/
def exampleRenderer : SoftwareRenderer ℚ :=
  { depthBuffer := { width := 2, height := 1, data := some [((5 : ℚ) : WithTop ℚ), ((7 : ℚ) : WithTop ℚ)] },
    vertexBuffers := RecyclablePool.clear.set 0 { vertices := { data := some [0, 0] } },
    attributeBuffers := RecyclablePool.clear.set 0 { attributes := { data := some [0, 0] } },
    indexBuffers := RecyclablePool.clear.set 0 { indices := { data := some [0, 0, 0] } },
    objectTextures :=
      (RecyclablePool.clear.set 0 examplePaletteTexture).set 1 exampleLightTableTexture,
    objectMaterials := RecyclablePool.clear }

/-- The renderer `exampleRenderer` after an 8-bit texture of 2 x 3 texels was created at texture
handle 2. -/
def exampleRendererWithTexture : SoftwareRenderer ℚ :=
  { exampleRenderer with
    objectTextures := exampleRenderer.objectTextures.set 2 (SoftwareRenderer.createdTexture 2 3 false) }

/-- Global caches that hold nothing. -/
def emptyCaches : swGeometry.Caches ℚ :=
  { g_visibleOpaqueVoxelTriangles := [], g_visibleOpaqueVoxelClipList := [],
    g_visibleAlphaTestedVoxelTriangles := [], g_visibleAlphaTestedVoxelClipList := [],
    g_visibleEntityTriangles := [], g_visibleEntityClipList := [],
    g_totalOpaqueVoxelTriangleCount := 0, g_totalAlphaTestedVoxelTriangleCount := 0,
    g_totalEntityTriangleCount := 0 }

/-- Rendering helpers that send every point to the origin; they stand in where the triangle
lists are empty and no helper is called. -/
def exampleUtils : RendererUtils ℚ :=
  { view := fun _ _ _ _ => ⟨⟨1, 0, 0, 0⟩, ⟨0, 1, 0, 0⟩, ⟨0, 0, 1, 0⟩, ⟨0, 0, 0, 1⟩⟩,
    perspective := fun _ _ _ _ => ⟨⟨1, 0, 0, 0⟩, ⟨0, 1, 0, 0⟩, ⟨0, 0, 1, 0⟩, ⟨0, 0, 0, 1⟩⟩,
    worldSpaceToCameraSpace := fun p _ => p,
    cameraSpaceToClipSpace := fun p _ => p,
    clipSpaceToNDC := fun p => ⟨p.x, p.y, p.z⟩,
    ndcToScreenSpace := fun p _ _ _ => p,
    getLowerBoundedPixel := fun _ _ => 0,
    getUpperBoundedPixel := fun _ _ => 0 }

/-- The constructed renderer after an index buffer of six indices was created at handle 0. -/
def rendererWithIndexBuffer : SoftwareRenderer ℚ :=
  { (SoftwareRenderer.constructed : SoftwareRenderer ℚ) with
    indexBuffers := (SoftwareRenderer.constructed : SoftwareRenderer ℚ).indexBuffers.set 0
      (IndexBuffer.fresh.init 6) }

/-- Frame settings with the palette at texture handle 0 and the light table at handle 1. -/
def exampleSettings : RenderFrameSettings := { paletteTextureID := 0, lightTableTextureID := 1 }

/-- A paletted texture builder of 2 x 2 texels. -/
def examplePalettedBuilder : TextureBuilder :=
  { width := 2, height := 2, type := TextureBuilderType.Paletted,
    palettedTexels := { width := 2, height := 2, data := some [1, 2, 3, 4] },
    trueColorTexels := Buffer2D.clear }

/-- A true-color texture builder of 2 x 1 texels, red and green. -/
def exampleTrueColorBuilder : TextureBuilder :=
  { width := 2, height := 1, type := TextureBuilderType.TrueColor,
    palettedTexels := Buffer2D.clear,
    trueColorTexels := { width := 2, height := 1, data := some [0xFFFF0000, 0xFF00FF00] } }

/-- The renderer `exampleRenderer` after a material of the texture handles 0 and 1 was created
at material handle 0. -/
def exampleRendererWithMaterial : SoftwareRenderer ℚ :=
  { exampleRenderer with
    objectMaterials := exampleRenderer.objectMaterials.set 0 { id0 := 0, id1 := 1 } }

/-- The constructed renderer after a material of the texture handles 5 and 7 was created at
material handle 0; it holds no texture. -/
def rendererWithDanglingMaterial : SoftwareRenderer ℚ :=
  { (SoftwareRenderer.constructed : SoftwareRenderer ℚ) with
    objectMaterials := RecyclablePool.clear.set 0 { id0 := 5, id1 := 7 } }

/-- The constructed renderer after an 8-bit texture of one texel was created at texture
handle 0. -/
def rendererWithOneTexture : SoftwareRenderer ℚ :=
  { (SoftwareRenderer.constructed : SoftwareRenderer ℚ) with
    objectTextures := RecyclablePool.clear.set 0 (SoftwareRenderer.createdTexture 1 1 false) }

/-- The renderer `rendererWithOneTexture` after a material whose two handles are the texture
handle 0 was created at material handle 0. -/
def rendererWithOneMaterial : SoftwareRenderer ℚ :=
  { rendererWithOneTexture with
    objectMaterials := RecyclablePool.clear.set 0 { id0 := 0, id1 := 0 } }

/-- A right triangle in the plane `z = 0` with legs 3 and 4 along `x` and `y`, so that all three
edge lengths are rational. -/
def clipExampleTriangle : RenderTriangle ℚ :=
  { v0 := ⟨0, 0, 0⟩, v1 := ⟨3, 0, 0⟩, v2 := ⟨0, 4, 0⟩, normal := ⟨0, 0, 1⟩,
    uv0 := ⟨0, 0⟩, uv1 := ⟨1, 0⟩, uv2 := ⟨0, 1⟩, materialID := 0, param0 := 0 }

/-- A light table of two light levels and four texel values: the second level reverses the
first. -/
def twoLevelLightTable : ObjectTexture :=
  { texels := { width := 4, height := 2, data := some [0, 1, 2, 3, 3, 2, 1, 0] },
    paletteTexels := Buffer.clear }

/-- A triangle at `z = 3/2` in front of a camera at the origin; the midpoint of its edge from
`v0` to `v1` is `(0, 0, 3/2)`. -/
def shadedTriangle (param0 : ℚ) : RenderTriangle ℚ :=
  { v0 := ⟨-1, 0, 3 / 2⟩, v1 := ⟨1, 0, 3 / 2⟩, v2 := ⟨0, 1, 3 / 2⟩, normal := ⟨0, 0, -1⟩,
    uv0 := ⟨0, 0⟩, uv1 := ⟨1, 0⟩, uv2 := ⟨0, 1⟩, materialID := 0, param0 := param0 }

/-- A color buffer view of one black pixel. -/
def onePixelColorBuffer : BufferView2D Nat := { width := 1, height := 1, data := [0xFF000000] }

/-- The triangle `clipExampleTriangle` with material handle 7 and fade percent `1/2`. -/
def fadedClipTriangle : RenderTriangle ℚ :=
  { clipExampleTriangle with materialID := 7, param0 := 1 / 2 }

/-- Frame constants with a light table of two light levels and 256 texel values per level. -/
def wideLightTableFrame : swRender.FrameConstants ℚ :=
  { frameBufferWidth := 1, frameBufferHeight := 1, eye2D := ⟨0, 0⟩,
    paletteTexels := [0xFF000000], lightLevelTexelCount := 256, lightLevelCount := 2,
    lightLevelTexels := List.replicate 512 0 }

/-- A depth buffer view of one pixel at depth `+infinity`. -/
def onePixelDepthBuffer : BufferView2D (WithTop ℚ) := { width := 1, height := 1, data := [⊤] }

/-- The per-triangle constants `exampleTriangleConstants` with the second and third screen
corners exchanged, so that the centre of the pixel `(0, 0)` passes the three half-space tests. -/
def coveringTriangleConstants (z : ℚ) (texel : Nat) : swRender.TriangleConstants ℚ :=
  { exampleTriangleConstants z texel with
    screenSpace1_2D := ⟨0, 2⟩, screenSpace2_2D := ⟨2, 0⟩ }

/-- A province of three locations: location 0 at `(0, 0)`, not visible; location 1 at `(3, 4)`
and location 2 at `(4, 3)`, both visible.  The location definition of an instance has the index
of the instance. -/
def exampleProvinceInstance : ProvinceMapPanel.ProvinceInstance :=
  { getLocationCount := 3,
    getLocationInstance := fun i => { isVisible := decide (i ≠ 0), getLocationDefIndex := i } }

/-- The location definitions of `exampleProvinceInstance`. -/
def exampleProvinceDefinition : ProvinceMapPanel.ProvinceDefinition :=
  { getLocationDef := fun i =>
      if i = 0 then ⟨0, 0⟩ else if i = 1 then ⟨3, 4⟩ else ⟨4, 3⟩ }

/-- A panel that hovers over location 0. -/
def examplePanel : ProvinceMapPanel.PanelState :=
  { hoveredLocationID := 0, hoveredLocationTextBox := "" }

/-- The location names of `exampleProvinceInstance`. -/
def exampleLocationName (id : Int) : String :=
  if id = 1 then "Second" else if id = 2 then "Third" else "First"

/-- A province of two visible locations: location 0 at `(46342, 0)` and location 1 at `(1, 0)`.
The location definition of an instance has the index of the instance. -/
def farProvinceInstance : ProvinceMapPanel.ProvinceInstance :=
  { getLocationCount := 2,
    getLocationInstance := fun i => { isVisible := true, getLocationDefIndex := i } }

/-- The location definitions of `farProvinceInstance`. -/
def farProvinceDefinition : ProvinceMapPanel.ProvinceDefinition :=
  { getLocationDef := fun i => if i = 0 then ⟨46342, 0⟩ else ⟨1, 0⟩ }

/-- A panel that hovers over location 1. -/
def farPanel : ProvinceMapPanel.PanelState :=
  { hoveredLocationID := 1, hoveredLocationTextBox := "Second" }


section IntLemmas

theorem wrapInt_of_fits (value : Int) (h0 : INT_MIN ≤ value) (h1 : value ≤ INT_MAX) :
    wrapInt value = value := by
  unfold wrapInt
  unfold INT_MIN INT_MAX at *
  omega

theorem wrapInt_bounds (value : Int) : INT_MIN ≤ wrapInt value ∧ wrapInt value ≤ INT_MAX := by
  unfold wrapInt
  unfold INT_MIN INT_MAX
  omega

theorem clamp_bounds {α : Type} [LinearOrder α] (value lo hi : α) (h : lo ≤ hi) :
    lo ≤ clamp value lo hi ∧ clamp value lo hi ≤ hi := by
  unfold clamp
  split_ifs with h1 h2
  · exact ⟨le_refl _, h⟩
  · exact ⟨h, le_refl _⟩
  · exact ⟨not_lt.mp h1, not_lt.mp h2⟩

variable {K : Type} [LinearOrderedField K] [FloorRing K]

theorem staticCastInt_bounds (value : K) :
    INT_MIN ≤ staticCastInt value ∧ staticCastInt value ≤ INT_MAX := by
  unfold staticCastInt
  split_ifs with h
  · exact h
  · exact ⟨le_refl _, by decide⟩

theorem staticCastInt_of_nonneg_result (value : K) (h : 0 ≤ staticCastInt value) :
    staticCastInt value = truncTowardZero value := by
  unfold staticCastInt at h ⊢
  split_ifs with hfit
  · rfl
  · rw [if_neg hfit] at h
    exact absurd h (by decide)

theorem truncTowardZero_of_nonneg (value : K) (h : 0 ≤ value) :
    truncTowardZero value = Int.floor value := by
  unfold truncTowardZero
  rw [if_pos h]

theorem truncTowardZero_nonneg (value : K) (h : 0 ≤ value) : 0 ≤ truncTowardZero value := by
  rw [truncTowardZero_of_nonneg value h]
  exact Int.floor_nonneg.mpr h

end IntLemmas

/-! ## Theorems: vectors -/

section VectorLemmas

variable {K : Type} [LinearOrderedField K]

theorem Double2_add_def (a b : Double2 K) : a + b = ⟨a.x + b.x, a.y + b.y⟩ := rfl

theorem Double2_sub_def (a b : Double2 K) : a - b = ⟨a.x - b.x, a.y - b.y⟩ := rfl

theorem Double2_mul_def (a : Double2 K) (m : K) : a * m = ⟨a.x * m, a.y * m⟩ := rfl

theorem Double3_add_def (a b : Double3 K) : a + b = ⟨a.x + b.x, a.y + b.y, a.z + b.z⟩ := rfl

theorem Double3_sub_def (a b : Double3 K) : a - b = ⟨a.x - b.x, a.y - b.y, a.z - b.z⟩ := rfl

theorem Double3_mul_def (a : Double3 K) (m : K) : a * m = ⟨a.x * m, a.y * m, a.z * m⟩ := rfl

theorem Double3_lengthSquared_pos_of_dot_ne_zero (d n : Double3 K) (h : d.dot n ≠ 0) :
    0 < d.lengthSquared := by
  unfold Double3.lengthSquared
  rcases d with ⟨dx, dy, dz⟩
  simp only [Double3.dot] at h
  by_contra hle
  have hx : dx = 0 := by nlinarith [mul_self_nonneg dx, mul_self_nonneg dy, mul_self_nonneg dz]
  have hy : dy = 0 := by nlinarith [mul_self_nonneg dx, mul_self_nonneg dy, mul_self_nonneg dz]
  have hz : dz = 0 := by nlinarith [mul_self_nonneg dx, mul_self_nonneg dy, mul_self_nonneg dz]
  apply h
  simp [hx, hy, hz]

theorem MathUtils_distanceToPlane_segmentPoint (a b p n : Double3 K) (s : K) :
    MathUtils.distanceToPlane (a + (b - a) * s) p n
      = (1 - s) * MathUtils.distanceToPlane a p n + s * MathUtils.distanceToPlane b p n := by
  simp only [MathUtils.distanceToPlane, Double3.dot, Double3_sub_def, Double3_add_def,
    Double3_mul_def]
  ring

theorem Double3_mul_mul (v : Double3 K) (m1 m2 : K) : (v * m1) * m2 = v * (m1 * m2) := by
  simp only [Double3_mul_def, mul_assoc]

theorem Double3_dot_mul_left (v n : Double3 K) (m : K) : (v * m).dot n = v.dot n * m := by
  simp only [Double3.dot, Double3_mul_def]
  ring

theorem MathUtils_rayPlaneIntersection_normalized (sqrt : K → K)
    (hsqrt : ∀ x : K, 0 < x → 0 < sqrt x) (a b p n : Double3 K)
    (ha : MathUtils.distanceToPlane a p n ≥ 0) (hb : MathUtils.distanceToPlane b p n < 0) :
    MathUtils.rayPlaneIntersection a ((b - a).normalized sqrt) p n
      = a + (b - a) * (MathUtils.distanceToPlane a p n
          / (MathUtils.distanceToPlane a p n - MathUtils.distanceToPlane b p n)) := by
  have hdn : (b - a).dot n
      = MathUtils.distanceToPlane b p n - MathUtils.distanceToPlane a p n := by
    simp only [MathUtils.distanceToPlane, Double3.dot, Double3_sub_def]
    ring
  have hpa : (p - a).dot n = - MathUtils.distanceToPlane a p n := by
    simp only [MathUtils.distanceToPlane, Double3.dot, Double3_sub_def]
    ring
  have hdn0 : (b - a).dot n ≠ 0 := by rw [hdn]; linarith
  have hL : 0 < sqrt (b - a).lengthSquared :=
    hsqrt _ (Double3_lengthSquared_pos_of_dot_ne_zero _ _ hdn0)
  have hL0 : sqrt (b - a).lengthSquared ≠ 0 := ne_of_gt hL
  simp only [MathUtils.rayPlaneIntersection, Double3.normalized, Double3.length]
  rw [Double3_mul_mul, Double3_dot_mul_left, hdn, hpa]
  generalize sqrt (b - a).lengthSquared = L at hL0
  generalize MathUtils.distanceToPlane a p n = da at ha
  generalize MathUtils.distanceToPlane b p n = db at hb
  have h1 : da - db ≠ 0 := by linarith
  have h2 : db - da ≠ 0 := by linarith
  have hs : 1 / L * (-da / ((db - da) * (1 / L))) = da / (da - db) := by
    field_simp
    ring
  rw [hs]

theorem rat_sqrt_of_sq (q r : ℚ) (hr : 0 ≤ r) (h : r * r = q) : Rat.sqrt q = r := by
  rw [← h, Rat.sqrt_eq, abs_of_nonneg hr]

theorem rat_sqrt_pos (x : ℚ) (hx : 0 < x) : 0 < Rat.sqrt x := by
  have hnum : 0 < x.num := Rat.num_pos.mpr hx
  have hden : 0 < x.den := x.den_pos
  have h1 : Nat.sqrt x.den ≠ 0 := by
    have := Nat.sqrt_pos.mpr hden
    omega
  have h2 : Int.sqrt x.num ≠ 0 := by
    unfold Int.sqrt
    have : 0 < x.num.toNat := by omega
    have := Nat.sqrt_pos.mpr this
    omega
  have h3 : Rat.sqrt x ≠ 0 := by
    unfold Rat.sqrt
    rw [Ne, Rat.mkRat_eq_zero h1]
    exact h2
  exact lt_of_le_of_ne (Rat.sqrt_nonneg x) (Ne.symm h3)

end VectorLemmas

/-! ## Theorems: clipping -/

namespace swGeometry

variable {K : Type} [LinearOrderedField K]

theorem clipListAgainstPlane_eq (env : MathEnv K) (eye : Double3 K) (plane : ClippingPlane K) :
    ∀ (j : Nat) (l : List (RenderTriangle K)), j ≤ l.length →
      clipListAgainstPlane env eye plane j l
        = l.drop j ++ (l.take j).flatMap (clipStep env eye plane) := by
  intro j
  induction j with
  | zero => intro l _; simp [clipListAgainstPlane]
  | succ j ih =>
    intro l hl
    cases l with
    | nil => simp at hl
    | cons t rest =>
      have hj : j ≤ rest.length := by simpa using hl
      have hj2 : j ≤ (rest ++ (ClipTriangle env t eye plane.point plane.normal).emitted).length := by
        simp only [List.length_append]; omega
      simp only [clipListAgainstPlane]
      rw [ih _ hj2, List.drop_append_of_le_length hj, List.take_append_of_le_length hj]
      simp [clipStep, List.flatMap_cons]

theorem clipListAgainstPlane_length (env : MathEnv K) (eye : Double3 K)
    (plane : ClippingPlane K) (l : List (RenderTriangle K)) :
    clipListAgainstPlane env eye plane l.length l = l.flatMap (clipStep env eye plane) := by
  rw [clipListAgainstPlane_eq env eye plane l.length l (le_refl _)]
  simp

theorem ClipTriangle_all_inside (env : MathEnv K) (triangle : RenderTriangle K)
    (eye planePoint planeNormal : Double3 K)
    (h : ∀ v ∈ triangle.vertices, MathUtils.distanceToPlane v planePoint planeNormal ≥ 0) :
    ClipTriangle env triangle eye planePoint planeNormal = TriangleClipResult.one triangle := by
  have h0 := h triangle.v0 (by simp [RenderTriangle.vertices])
  have h1 := h triangle.v1 (by simp [RenderTriangle.vertices])
  have h2 := h triangle.v2 (by simp [RenderTriangle.vertices])
  simp [ClipTriangle, classifyVertices, h0, h1, h2]

theorem ProcessTrianglesForRasterization_visible (env : MathEnv K) (camera : RenderCamera K)
    (triangles outVisibleTriangles outClipList : List (RenderTriangle K)) :
    (ProcessTrianglesForRasterization env triangles camera outVisibleTriangles
      outClipList).outVisibleTriangles
      = (triangles.filter (fun t =>
          ((swCamera.GetCameraEye env camera) - t.v0).dot t.normal ≥ env.Epsilon)).flatMap
          (clipTriangleAgainstPlanes env (swCamera.GetCameraEye env camera)
            (clippingPlanes env camera)) := by
  have hfold : ∀ (ts : List (RenderTriangle K))
      (state : List (RenderTriangle K) × List (RenderTriangle K)),
      (ts.foldl (processTriangle env (swCamera.GetCameraEye env camera)
        (clippingPlanes env camera)) state).1
        = state.1 ++ (ts.filter (fun t =>
          ((swCamera.GetCameraEye env camera) - t.v0).dot t.normal ≥ env.Epsilon)).flatMap
          (clipTriangleAgainstPlanes env (swCamera.GetCameraEye env camera)
            (clippingPlanes env camera)) := by
    intro ts
    induction ts with
    | nil => intro state; simp
    | cons t ts ih =>
      intro state
      rw [List.foldl_cons, ih]
      by_cases h : ((swCamera.GetCameraEye env camera) - t.v0).dot t.normal < env.Epsilon
      · have h2 : ¬ (env.Epsilon ≤ ((swCamera.GetCameraEye env camera) - t.v0).dot t.normal) :=
          not_le.mpr h
        simp [processTriangle, h, List.filter_cons, h2]
      · have h2 : env.Epsilon ≤ ((swCamera.GetCameraEye env camera) - t.v0).dot t.normal :=
          not_lt.mp h
        simp [processTriangle, h, List.filter_cons, h2]
  simp [ProcessTrianglesForRasterization, hfold]

theorem clipSmallerTriangle_vertices (env : MathEnv K)
    (hsqrt : ∀ x : K, 0 < x → 0 < env.sqrt x) (triangle : RenderTriangle K)
    (eye p n : Double3 K) (inside outside0 outside1 : Double3 K × Double2 K)
    (hi : MathUtils.distanceToPlane inside.1 p n ≥ 0)
    (ho0 : MathUtils.distanceToPlane outside0.1 p n < 0)
    (ho1 : MathUtils.distanceToPlane outside1.1 p n < 0) :
    ∀ v ∈ (clipSmallerTriangle env triangle eye p n inside outside0 outside1).vertices,
      v = inside.1 ∨ v = edgeCrossing inside.1 outside0.1 p n
        ∨ v = edgeCrossing inside.1 outside1.1 p n := by
  intro v hv
  simp only [clipSmallerTriangle,
    MathUtils_rayPlaneIntersection_normalized env.sqrt hsqrt _ _ p n hi ho0,
    MathUtils_rayPlaneIntersection_normalized env.sqrt hsqrt _ _ p n hi ho1] at hv
  split at hv <;>
  · simp only [RenderTriangle.init, RenderTriangle.vertices, List.mem_cons, List.mem_singleton,
      List.not_mem_nil, or_false] at hv
    unfold edgeCrossing
    tauto

theorem clipQuad_vertices (env : MathEnv K)
    (hsqrt : ∀ x : K, 0 < x → 0 < env.sqrt x) (triangle : RenderTriangle K)
    (eye p n : Double3 K) (inside0 inside1 outside0 : Double3 K × Double2 K)
    (hi0 : MathUtils.distanceToPlane inside0.1 p n ≥ 0)
    (hi1 : MathUtils.distanceToPlane inside1.1 p n ≥ 0)
    (ho0 : MathUtils.distanceToPlane outside0.1 p n < 0) :
    ∀ v, (v ∈ (clipQuad env triangle eye p n inside0 inside1 outside0).1.vertices
        ∨ v ∈ (clipQuad env triangle eye p n inside0 inside1 outside0).2.vertices) →
      v = inside0.1 ∨ v = inside1.1 ∨ v = edgeCrossing inside0.1 outside0.1 p n
        ∨ v = edgeCrossing inside1.1 outside0.1 p n := by
  intro v hv
  simp only [clipQuad,
    MathUtils_rayPlaneIntersection_normalized env.sqrt hsqrt _ _ p n hi0 ho0,
    MathUtils_rayPlaneIntersection_normalized env.sqrt hsqrt _ _ p n hi1 ho0] at hv
  unfold edgeCrossing
  rcases hv with hv | hv <;> split at hv <;>
  · simp only [RenderTriangle.init, RenderTriangle.vertices, List.mem_cons, List.mem_singleton,
      List.not_mem_nil, or_false] at hv
    tauto

theorem ClipTriangle_emitted_vertex (env : MathEnv K)
    (hsqrt : ∀ x : K, 0 < x → 0 < env.sqrt x) (triangle : RenderTriangle K)
    (eye p n : Double3 K) (t : RenderTriangle K)
    (ht : t ∈ (ClipTriangle env triangle eye p n).emitted) (v : Double3 K)
    (hv : v ∈ t.vertices) : IsClipVertex triangle p n v := by
  have m0 : triangle.v0 ∈ triangle.vertices := by simp [RenderTriangle.vertices]
  have m1 : triangle.v1 ∈ triangle.vertices := by simp [RenderTriangle.vertices]
  have m2 : triangle.v2 ∈ triangle.vertices := by simp [RenderTriangle.vertices]
  by_cases h0 : MathUtils.distanceToPlane triangle.v0 p n ≥ 0 <;>
  by_cases h1 : MathUtils.distanceToPlane triangle.v1 p n ≥ 0 <;>
  by_cases h2 : MathUtils.distanceToPlane triangle.v2 p n ≥ 0 <;>
  simp only [ClipTriangle, classifyVertices, h0, h1, h2, if_true, if_false,
    TriangleClipResult.zero, TriangleClipResult.one, TriangleClipResult.two,
    TriangleClipResult.emitted, List.take, List.mem_cons, List.mem_singleton,
    List.not_mem_nil, or_false] at ht
  · subst ht
    simp only [RenderTriangle.vertices, List.mem_cons, List.mem_singleton, List.not_mem_nil,
      or_false] at hv
    rcases hv with rfl | rfl | rfl
    · exact Or.inl ⟨m0, h0⟩
    · exact Or.inl ⟨m1, h1⟩
    · exact Or.inl ⟨m2, h2⟩
  · have o2 := not_le.mp h2
    have hq := clipQuad_vertices env hsqrt triangle eye p n (triangle.v0, triangle.uv0)
      (triangle.v1, triangle.uv1) (triangle.v2, triangle.uv2) h0 h1 o2 v
      (by rcases ht with rfl | rfl; exact Or.inl hv; exact Or.inr hv)
    rcases hq with rfl | rfl | rfl | rfl
    · exact Or.inl ⟨m0, h0⟩
    · exact Or.inl ⟨m1, h1⟩
    · exact Or.inr ⟨_, m0, _, m2, h0, o2, rfl⟩
    · exact Or.inr ⟨_, m1, _, m2, h1, o2, rfl⟩
  · have o1 := not_le.mp h1
    have hq := clipQuad_vertices env hsqrt triangle eye p n (triangle.v0, triangle.uv0)
      (triangle.v2, triangle.uv2) (triangle.v1, triangle.uv1) h0 h2 o1 v
      (by rcases ht with rfl | rfl; exact Or.inl hv; exact Or.inr hv)
    rcases hq with rfl | rfl | rfl | rfl
    · exact Or.inl ⟨m0, h0⟩
    · exact Or.inl ⟨m2, h2⟩
    · exact Or.inr ⟨_, m0, _, m1, h0, o1, rfl⟩
    · exact Or.inr ⟨_, m2, _, m1, h2, o1, rfl⟩
  · have o1 := not_le.mp h1
    have o2 := not_le.mp h2
    subst ht
    have hq := clipSmallerTriangle_vertices env hsqrt triangle eye p n
      (triangle.v0, triangle.uv0) (triangle.v1, triangle.uv1) (triangle.v2, triangle.uv2)
      h0 o1 o2 v hv
    rcases hq with rfl | rfl | rfl
    · exact Or.inl ⟨m0, h0⟩
    · exact Or.inr ⟨_, m0, _, m1, h0, o1, rfl⟩
    · exact Or.inr ⟨_, m0, _, m2, h0, o2, rfl⟩
  · have o0 := not_le.mp h0
    have hq := clipQuad_vertices env hsqrt triangle eye p n (triangle.v1, triangle.uv1)
      (triangle.v2, triangle.uv2) (triangle.v0, triangle.uv0) h1 h2 o0 v
      (by rcases ht with rfl | rfl; exact Or.inl hv; exact Or.inr hv)
    rcases hq with rfl | rfl | rfl | rfl
    · exact Or.inl ⟨m1, h1⟩
    · exact Or.inl ⟨m2, h2⟩
    · exact Or.inr ⟨_, m1, _, m0, h1, o0, rfl⟩
    · exact Or.inr ⟨_, m2, _, m0, h2, o0, rfl⟩
  · have o0 := not_le.mp h0
    have o2 := not_le.mp h2
    subst ht
    have hq := clipSmallerTriangle_vertices env hsqrt triangle eye p n
      (triangle.v1, triangle.uv1) (triangle.v0, triangle.uv0) (triangle.v2, triangle.uv2)
      h1 o0 o2 v hv
    rcases hq with rfl | rfl | rfl
    · exact Or.inl ⟨m1, h1⟩
    · exact Or.inr ⟨_, m1, _, m0, h1, o0, rfl⟩
    · exact Or.inr ⟨_, m1, _, m2, h1, o2, rfl⟩
  · have o0 := not_le.mp h0
    have o1 := not_le.mp h1
    subst ht
    have hq := clipSmallerTriangle_vertices env hsqrt triangle eye p n
      (triangle.v2, triangle.uv2) (triangle.v0, triangle.uv0) (triangle.v1, triangle.uv1)
      h2 o0 o1 v hv
    rcases hq with rfl | rfl | rfl
    · exact Or.inl ⟨m2, h2⟩
    · exact Or.inr ⟨_, m2, _, m0, h2, o0, rfl⟩
    · exact Or.inr ⟨_, m2, _, m1, h2, o1, rfl⟩

theorem edgeCrossing_on_plane (a b p n : Double3 K)
    (ha : MathUtils.distanceToPlane a p n ≥ 0) (hb : MathUtils.distanceToPlane b p n < 0) :
    MathUtils.distanceToPlane (edgeCrossing a b p n) p n = 0 := by
  unfold edgeCrossing
  rw [MathUtils_distanceToPlane_segmentPoint]
  have h1 : MathUtils.distanceToPlane a p n - MathUtils.distanceToPlane b p n ≠ 0 := by linarith
  field_simp
  ring

theorem edgeCrossing_inside (a b p n q m : Double3 K)
    (ha : MathUtils.distanceToPlane a p n ≥ 0) (hb : MathUtils.distanceToPlane b p n < 0)
    (hqa : MathUtils.distanceToPlane a q m ≥ 0) (hqb : MathUtils.distanceToPlane b q m ≥ 0) :
    MathUtils.distanceToPlane (edgeCrossing a b p n) q m ≥ 0 := by
  unfold edgeCrossing
  rw [MathUtils_distanceToPlane_segmentPoint]
  have hd : 0 < MathUtils.distanceToPlane a p n - MathUtils.distanceToPlane b p n := by linarith
  have hs0 : 0 ≤ MathUtils.distanceToPlane a p n
      / (MathUtils.distanceToPlane a p n - MathUtils.distanceToPlane b p n) :=
    div_nonneg ha (le_of_lt hd)
  have hs1 : MathUtils.distanceToPlane a p n
      / (MathUtils.distanceToPlane a p n - MathUtils.distanceToPlane b p n) ≤ 1 := by
    rw [div_le_one hd]
    linarith
  have h1 := mul_nonneg (sub_nonneg.mpr hs1) hqa
  have h2 := mul_nonneg hs0 hqb
  linarith

theorem IsClipVertex.on_or_inside {triangle : RenderTriangle K} {p n v : Double3 K}
    (h : IsClipVertex triangle p n v) : MathUtils.distanceToPlane v p n ≥ 0 := by
  rcases h with ⟨_, h⟩ | ⟨a, _, b, _, ha, hb, rfl⟩
  · exact h
  · exact le_of_eq (edgeCrossing_on_plane a b p n ha hb).symm

theorem IsClipVertex.stays_inside {triangle : RenderTriangle K} {p n v : Double3 K}
    (h : IsClipVertex triangle p n v) (q m : Double3 K)
    (hq : ∀ w ∈ triangle.vertices, MathUtils.distanceToPlane w q m ≥ 0) :
    MathUtils.distanceToPlane v q m ≥ 0 := by
  rcases h with ⟨hv, _⟩ | ⟨a, hma, b, hmb, ha, hb, rfl⟩
  · exact hq v hv
  · exact edgeCrossing_inside a b p n q m ha hb (hq a hma) (hq b hmb)

theorem clipListAgainstPlane_inside (env : MathEnv K)
    (hsqrt : ∀ x : K, 0 < x → 0 < env.sqrt x) (eye : Double3 K) (plane : ClippingPlane K)
    (l : List (RenderTriangle K)) :
    AllInside plane (clipListAgainstPlane env eye plane l.length l) := by
  rw [clipListAgainstPlane_length]
  intro t ht v hv
  rw [List.mem_flatMap] at ht
  obtain ⟨t0, _, ht⟩ := ht
  exact (ClipTriangle_emitted_vertex env hsqrt t0 eye _ _ t ht v hv).on_or_inside

theorem clipListAgainstPlane_stays_inside (env : MathEnv K)
    (hsqrt : ∀ x : K, 0 < x → 0 < env.sqrt x) (eye : Double3 K) (plane q : ClippingPlane K)
    (l : List (RenderTriangle K)) (hl : AllInside q l) :
    AllInside q (clipListAgainstPlane env eye plane l.length l) := by
  rw [clipListAgainstPlane_length]
  intro t ht v hv
  rw [List.mem_flatMap] at ht
  obtain ⟨t0, ht0, ht⟩ := ht
  exact (ClipTriangle_emitted_vertex env hsqrt t0 eye _ _ t ht v hv).stays_inside _ _
    (hl t0 ht0)

theorem clipTriangleAgainstPlanes_inside (env : MathEnv K)
    (hsqrt : ∀ x : K, 0 < x → 0 < env.sqrt x) (eye : Double3 K)
    (planes : List (ClippingPlane K)) (triangle : RenderTriangle K) :
    ∀ q ∈ planes, AllInside q (clipTriangleAgainstPlanes env eye planes triangle) := by
  unfold clipTriangleAgainstPlanes
  have key : ∀ (ps : List (ClippingPlane K)) (l : List (RenderTriangle K))
      (done : List (ClippingPlane K)), (∀ q ∈ done, AllInside q l) →
      ∀ q, (q ∈ done ∨ q ∈ ps) → AllInside q (ps.foldl
        (fun outClipList plane =>
          clipListAgainstPlane env eye plane outClipList.length outClipList) l) := by
    intro ps
    induction ps with
    | nil =>
      intro l done hdone q hq
      rcases hq with hq | hq
      · exact hdone q hq
      · simp at hq
    | cons p ps ih =>
      intro l done hdone q hq
      rw [List.foldl_cons]
      apply ih _ (p :: done)
      · intro r hr
        rcases List.mem_cons.mp hr with rfl | hr
        · exact clipListAgainstPlane_inside env hsqrt eye _ l
        · exact clipListAgainstPlane_stays_inside env hsqrt eye p r l (hdone r hr)
      · rcases hq with hq | hq
        · exact Or.inl (List.mem_cons_of_mem _ hq)
        · rcases List.mem_cons.mp hq with rfl | hq
          · exact Or.inl (List.mem_cons_self _ _)
          · exact Or.inr hq
  intro q hq
  exact key planes [triangle] [] (by simp) q (Or.inr hq)

/-! ### The claims about clipping -/

/-- C1: a triangle that passes the back-face test and whose three vertices have signed
distance `>= 0` to each of the five clipping planes comes back from
`ProcessTrianglesForRasterization`, applied to the one-element list, as the only visible
triangle, with the same vertices and UVs in the same order (the whole triangle is unchanged). -/
theorem ProcessTriangles_inside_unchanged (env : MathEnv K) (camera : RenderCamera K)
    (triangle : RenderTriangle K) (outVisibleTriangles outClipList : List (RenderTriangle K))
    (hfacing : ((swCamera.GetCameraEye env camera) - triangle.v0).dot triangle.normal
      ≥ env.Epsilon)
    (hinside : ∀ plane ∈ clippingPlanes env camera, ∀ v ∈ triangle.vertices,
      MathUtils.distanceToPlane v plane.point plane.normal ≥ 0) :
    (ProcessTrianglesForRasterization env [triangle] camera outVisibleTriangles
      outClipList).outVisibleTriangles = [triangle] := by
  have hplanes : ∀ planes : List (ClippingPlane K),
      (∀ plane ∈ planes, ∀ v ∈ triangle.vertices,
        MathUtils.distanceToPlane v plane.point plane.normal ≥ 0) →
      clipTriangleAgainstPlanes env (swCamera.GetCameraEye env camera) planes triangle
        = [triangle] := by
    intro planes
    unfold clipTriangleAgainstPlanes
    induction planes with
    | nil => intro _; rfl
    | cons p ps ih =>
      intro hp
      have h1 := ClipTriangle_all_inside env triangle (swCamera.GetCameraEye env camera)
        p.point p.normal (hp p (List.mem_cons_self _ _))
      have hstep : clipListAgainstPlane env (swCamera.GetCameraEye env camera) p
          [triangle].length [triangle] = [triangle] := by
        rw [clipListAgainstPlane_length]
        simp [clipStep, h1, TriangleClipResult.emitted, TriangleClipResult.one]
      rw [List.foldl_cons, hstep]
      exact ih (fun q hq => hp q (List.mem_cons_of_mem _ hq))
  have hnot : ¬ ((swCamera.GetCameraEye env camera) - triangle.v0).dot triangle.normal
      < env.Epsilon := not_lt.mpr hfacing
  simp [ProcessTrianglesForRasterization, processTriangle, hnot, hplanes _ hinside]

theorem exampleCamera_clippingPlanes :
    clippingPlanes exampleEnv exampleCamera
      = [ { point := ⟨1 / 1000, 0, 0⟩, normal := ⟨1, 0, 0⟩ },
          { point := ⟨0, 0, 0⟩, normal := ⟨3 / 5, 0, 4 / 5⟩ },
          { point := ⟨0, 0, 0⟩, normal := ⟨3 / 5, 0, -4 / 5⟩ },
          { point := ⟨0, 0, 0⟩, normal := ⟨3 / 5, 4 / 5, 0⟩ },
          { point := ⟨0, 0, 0⟩, normal := ⟨3 / 5, -4 / 5, 0⟩ } ] := by
  have s1 : Rat.sqrt 1 = 1 := rat_sqrt_of_sq _ _ (by norm_num) (by norm_num)
  have s2 : Rat.sqrt (25 / 9) = 5 / 3 := rat_sqrt_of_sq _ _ (by norm_num) (by norm_num)
  norm_num [clippingPlanes, exampleEnv, exampleCamera, swCamera.GetCameraEye,
    swConstants.NEAR_PLANE, Double3.normalized, Double3.length, Double3.lengthSquared,
    Double3.cross, Double3_sub_def, Double3_add_def, Double3_mul_def, s1, s2]

/-- Witness for C1: `insideTriangle` in front of `exampleCamera`. -/
theorem ProcessTriangles_inside_unchanged_witness :
    ((swCamera.GetCameraEye exampleEnv exampleCamera) - insideTriangle.v0).dot
        insideTriangle.normal ≥ exampleEnv.Epsilon
    ∧ (∀ plane ∈ clippingPlanes exampleEnv exampleCamera, ∀ v ∈ insideTriangle.vertices,
        MathUtils.distanceToPlane v plane.point plane.normal ≥ 0)
    ∧ (ProcessTrianglesForRasterization exampleEnv [insideTriangle] exampleCamera [] []
        ).outVisibleTriangles = [insideTriangle] := by
  have hfacing : ((swCamera.GetCameraEye exampleEnv exampleCamera) - insideTriangle.v0).dot
      insideTriangle.normal ≥ exampleEnv.Epsilon := by
    norm_num [swCamera.GetCameraEye, exampleEnv, exampleCamera, insideTriangle, Double3.dot,
      Double3_sub_def]
  have hinside : ∀ plane ∈ clippingPlanes exampleEnv exampleCamera,
      ∀ v ∈ insideTriangle.vertices,
        MathUtils.distanceToPlane v plane.point plane.normal ≥ 0 := by
    intro plane hplane v hv
    rw [exampleCamera_clippingPlanes] at hplane
    simp only [List.mem_cons, List.mem_singleton, List.not_mem_nil, or_false] at hplane
    simp only [RenderTriangle.vertices, insideTriangle, List.mem_cons, List.mem_singleton,
      List.not_mem_nil, or_false] at hv
    rcases hplane with rfl | rfl | rfl | rfl | rfl <;> rcases hv with rfl | rfl | rfl <;>
      norm_num [MathUtils.distanceToPlane, Double3.dot, Double3_sub_def]
  exact ⟨hfacing, hinside,
    ProcessTriangles_inside_unchanged exampleEnv exampleCamera insideTriangle [] [] hfacing
      hinside⟩

/-- C2: when all three vertices have negative signed distance to the plane, `ClipTriangle`
returns the empty result, with `triangleCount = 0`. -/
theorem ClipTriangle_all_outside (env : MathEnv K) (triangle : RenderTriangle K)
    (eye planePoint planeNormal : Double3 K)
    (h : ∀ v ∈ triangle.vertices, MathUtils.distanceToPlane v planePoint planeNormal < 0) :
    (ClipTriangle env triangle eye planePoint planeNormal).triangleCount = 0
      ∧ (ClipTriangle env triangle eye planePoint planeNormal).emitted = [] := by
  have h0 := not_le.mpr (h triangle.v0 (by simp [RenderTriangle.vertices]))
  have h1 := not_le.mpr (h triangle.v1 (by simp [RenderTriangle.vertices]))
  have h2 := not_le.mpr (h triangle.v2 (by simp [RenderTriangle.vertices]))
  simp [ClipTriangle, classifyVertices, h0, h1, h2, TriangleClipResult.zero,
    TriangleClipResult.emitted]

/-- Witness for C2: `cornerTriangle` lies behind the plane `z = 1`. -/
theorem ClipTriangle_all_outside_witness :
    (∀ v ∈ cornerTriangle.vertices,
        MathUtils.distanceToPlane v (⟨0, 0, 1⟩ : Double3 ℚ) ⟨0, 0, 1⟩ < 0)
    ∧ (ClipTriangle exampleEnv cornerTriangle ⟨0, 1, 0⟩ ⟨0, 0, 1⟩ ⟨0, 0, 1⟩).triangleCount = 0
    ∧ (ClipTriangle exampleEnv cornerTriangle ⟨0, 1, 0⟩ ⟨0, 0, 1⟩ ⟨0, 0, 1⟩).emitted = [] := by
  have h : ∀ v ∈ cornerTriangle.vertices,
      MathUtils.distanceToPlane v (⟨0, 0, 1⟩ : Double3 ℚ) ⟨0, 0, 1⟩ < 0 := by
    intro v hv
    simp only [RenderTriangle.vertices, cornerTriangle, List.mem_cons, List.mem_singleton,
      List.not_mem_nil, or_false] at hv
    rcases hv with rfl | rfl | rfl <;>
      norm_num [MathUtils.distanceToPlane, Double3.dot, Double3_sub_def]
  exact ⟨h, ClipTriangle_all_outside exampleEnv cornerTriangle ⟨0, 1, 0⟩ ⟨0, 0, 1⟩ ⟨0, 0, 1⟩ h⟩

/-- C3: `ClipTriangle` returns exactly one triangle when exactly one of the three vertices has
signed distance `>= 0` to the plane, and exactly two triangles when exactly two of them do. -/
theorem ClipTriangle_count (env : MathEnv K) (triangle : RenderTriangle K)
    (eye planePoint planeNormal : Double3 K) :
    (insideCount triangle planePoint planeNormal = 1 →
      (ClipTriangle env triangle eye planePoint planeNormal).triangleCount = 1
        ∧ (ClipTriangle env triangle eye planePoint planeNormal).emitted.length = 1)
    ∧ (insideCount triangle planePoint planeNormal = 2 →
      (ClipTriangle env triangle eye planePoint planeNormal).triangleCount = 2
        ∧ (ClipTriangle env triangle eye planePoint planeNormal).emitted.length = 2) := by
  unfold insideCount RenderTriangle.vertices
  by_cases h0 : MathUtils.distanceToPlane triangle.v0 planePoint planeNormal ≥ 0 <;>
  by_cases h1 : MathUtils.distanceToPlane triangle.v1 planePoint planeNormal ≥ 0 <;>
  by_cases h2 : MathUtils.distanceToPlane triangle.v2 planePoint planeNormal ≥ 0 <;>
  simp [ClipTriangle, classifyVertices, h0, h1, h2, TriangleClipResult.zero,
    TriangleClipResult.one, TriangleClipResult.two, TriangleClipResult.emitted, List.countP_cons]

/-- Witness for C3: `cornerTriangle` has one vertex on the side `z >= 0` of the plane `z = 0` and
two on the side `z <= 0`. -/
theorem ClipTriangle_count_witness :
    (insideCount cornerTriangle (⟨0, 0, 0⟩ : Double3 ℚ) ⟨0, 0, 1⟩ = 1
      ∧ (ClipTriangle exampleEnv cornerTriangle ⟨0, 1, 0⟩ ⟨0, 0, 0⟩ ⟨0, 0, 1⟩).triangleCount = 1
      ∧ (ClipTriangle exampleEnv cornerTriangle ⟨0, 1, 0⟩ ⟨0, 0, 0⟩ ⟨0, 0, 1⟩).emitted.length = 1)
    ∧ (insideCount cornerTriangle (⟨0, 0, 0⟩ : Double3 ℚ) ⟨0, 0, -1⟩ = 2
      ∧ (ClipTriangle exampleEnv cornerTriangle ⟨0, 1, 0⟩ ⟨0, 0, 0⟩ ⟨0, 0, -1⟩).triangleCount = 2
      ∧ (ClipTriangle exampleEnv cornerTriangle ⟨0, 1, 0⟩ ⟨0, 0, 0⟩ ⟨0, 0, -1⟩).emitted.length
          = 2) := by
  have h1 : insideCount cornerTriangle (⟨0, 0, 0⟩ : Double3 ℚ) ⟨0, 0, 1⟩ = 1 := by
    norm_num [insideCount, RenderTriangle.vertices, cornerTriangle, MathUtils.distanceToPlane,
      Double3.dot, Double3_sub_def, List.countP_cons]
  have h2 : insideCount cornerTriangle (⟨0, 0, 0⟩ : Double3 ℚ) ⟨0, 0, -1⟩ = 2 := by
    norm_num [insideCount, RenderTriangle.vertices, cornerTriangle, MathUtils.distanceToPlane,
      Double3.dot, Double3_sub_def, List.countP_cons]
  exact ⟨⟨h1, (ClipTriangle_count exampleEnv cornerTriangle ⟨0, 1, 0⟩ ⟨0, 0, 0⟩ ⟨0, 0, 1⟩).1 h1⟩,
    ⟨h2, (ClipTriangle_count exampleEnv cornerTriangle ⟨0, 1, 0⟩ ⟨0, 0, 0⟩ ⟨0, 0, -1⟩).2 h2⟩⟩

/-- C4: every vertex of every triangle in the visible list returned by
`ProcessTrianglesForRasterization` lies on or inside all five clipping planes: its
signed distance to the near, left, right, bottom and top plane is `>= 0`.  `std::sqrt` is taken to
be positive on positive arguments. -/
theorem ProcessTriangles_visible_inside (env : MathEnv K)
    (hsqrt : ∀ x : K, 0 < x → 0 < env.sqrt x) (camera : RenderCamera K)
    (triangles outVisibleTriangles outClipList : List (RenderTriangle K)) :
    ∀ t ∈ (ProcessTrianglesForRasterization env triangles camera outVisibleTriangles
        outClipList).outVisibleTriangles,
      ∀ v ∈ t.vertices, ∀ plane ∈ clippingPlanes env camera,
        MathUtils.distanceToPlane v plane.point plane.normal ≥ 0 := by
  intro t ht v hv plane hplane
  rw [ProcessTrianglesForRasterization_visible, List.mem_flatMap] at ht
  obtain ⟨t0, _, ht⟩ := ht
  exact clipTriangleAgainstPlanes_inside env hsqrt _ _ t0 plane hplane t ht v hv

/-- Witness for C4: the rational square root is positive on positive arguments. -/
theorem ProcessTriangles_visible_inside_witness :
    (∀ x : ℚ, 0 < x → 0 < exampleEnv.sqrt x)
    ∧ ∀ t ∈ (ProcessTrianglesForRasterization exampleEnv [insideTriangle, cornerTriangle]
          exampleCamera [] []).outVisibleTriangles,
        ∀ v ∈ t.vertices, ∀ plane ∈ clippingPlanes exampleEnv exampleCamera,
          MathUtils.distanceToPlane v plane.point plane.normal ≥ 0 :=
  ⟨rat_sqrt_pos,
    ProcessTriangles_visible_inside exampleEnv rat_sqrt_pos exampleCamera
      [insideTriangle, cornerTriangle] [] []⟩

/-- C5: `ClipTriangle` can emit a triangle that faces away from the eye.  `cornerTriangle` faces
the eye of `cornerCamera` and passes the back-face test with `(eye - v0) . normal = 1`.  The
first plane it is clipped against is the near plane of that camera, and one vertex is inside.
The corner that is left is small: the unnormalized normal of its vertex order gives
`(eye - insidePoint) . unormal = 3/2000000`, positive and below `Epsilon`, so the winding is
reversed, and the one emitted triangle has `(eye - v0) . crossNormal = -3/2000000 < 0`. -/
theorem ClipTriangle_emits_back_facing :
    swCamera.GetCameraEye exampleEnv cornerCamera = ⟨0, 1, 0⟩
    ∧ (clippingPlanes exampleEnv cornerCamera).head?
        = some { point := ⟨0, 1, 1 / 1000⟩, normal := ⟨0, 0, 1⟩ }
    ∧ ((⟨0, 1, 0⟩ : Double3 ℚ) - cornerTriangle.v0).dot cornerTriangle.normal = 1
    ∧ (1 : ℚ) ≥ exampleEnv.Epsilon
    ∧ insideCount cornerTriangle (⟨0, 1, 1 / 1000⟩ : Double3 ℚ) ⟨0, 0, 1⟩ = 1
    ∧ (ClipTriangle exampleEnv cornerTriangle ⟨0, 1, 0⟩ ⟨0, 1, 1 / 1000⟩ ⟨0, 0, 1⟩).emitted.map
        (fun t => (t.v0, t.v1, t.v2, ((⟨0, 1, 0⟩ : Double3 ℚ) - t.v0).dot t.crossNormal))
      = [(⟨-3 / 4000, 0, 1 / 1000⟩, ⟨3 / 4000, 0, 1 / 1000⟩, ⟨0, 0, 2 / 1000⟩, -3 / 2000000)] := by
  have s25 : Rat.sqrt 25 = 5 := rat_sqrt_of_sq _ _ (by norm_num) (by norm_num)
  refine ⟨?_, ?_, ?_, ?_, ?_, ?_⟩
  · norm_num [swCamera.GetCameraEye, exampleEnv, cornerCamera]
  · norm_num [clippingPlanes, swCamera.GetCameraEye, exampleEnv, cornerCamera,
      swConstants.NEAR_PLANE, Double3_add_def, Double3_mul_def]
  · norm_num [cornerTriangle, Double3.dot, Double3_sub_def]
  · norm_num [exampleEnv]
  · norm_num [insideCount, RenderTriangle.vertices, cornerTriangle, MathUtils.distanceToPlane,
      Double3.dot, Double3_sub_def, List.countP_cons]
  · norm_num [ClipTriangle, classifyVertices, MathUtils.distanceToPlane, cornerTriangle,
      exampleEnv, Double3.dot, TriangleClipResult.emitted, TriangleClipResult.one,
      clipSmallerTriangle, MathUtils.rayPlaneIntersection, Double3.normalized, Double3.length,
      Double3.lengthSquared, Double3.cross, RenderTriangle.init, RenderTriangle.crossNormal,
      Double3_sub_def, Double3_add_def, Double3_mul_def, s25]

/-- C6: `ProcessTrianglesForRasterization` drops every input triangle with
`(eye - v0) . normal < Epsilon` and passes exactly the others on to plane clipping: the visible
list is the concatenation, in input order, of the five-plane clip results of the triangles
whose dot product is `>= Epsilon`. -/
theorem ProcessTriangles_backface_cull (env : MathEnv K) (camera : RenderCamera K)
    (triangles outVisibleTriangles outClipList : List (RenderTriangle K)) :
    (ProcessTrianglesForRasterization env triangles camera outVisibleTriangles
      outClipList).outVisibleTriangles
      = (triangles.filter (fun t =>
          ((swCamera.GetCameraEye env camera) - t.v0).dot t.normal ≥ env.Epsilon)).flatMap
          (clipTriangleAgainstPlanes env (swCamera.GetCameraEye env camera)
            (clippingPlanes env camera)) :=
  ProcessTrianglesForRasterization_visible env camera triangles outVisibleTriangles outClipList

end swGeometry

/-! ## Theorems: rasterization -/

namespace swRender

variable {K : Type} [LinearOrderedField K]

theorem writeAt_length {α : Type} (l : List α) (i : Int) (v : α) :
    (writeAt l i v).length = l.length := by
  unfold writeAt
  split <;> simp

theorem readAt_writeAt_same {α : Type} (l : List α) (i : Int) (v d : α) (h0 : 0 ≤ i)
    (h : i.toNat < l.length) : readAt (writeAt l i v) i d = v := by
  have hn : ¬ i < 0 := not_lt.mpr h0
  simp [readAt, writeAt, hn, List.getD_eq_getElem?_getD, List.getElem?_set, h]

theorem shadeFragment_of_not_lt [FloorRing K] (env : MathEnv K) (debug_alphaTest : Bool)
    (frame : FrameConstants K) (tri : TriangleConstants K) (x y : Int) (u v w : K)
    (buffers : FrameBuffers K)
    (h : ¬ (((fragmentDepth tri u v w : K) : WithTop K)
      < readAt buffers.depthBuffer (x + (y * frame.frameBufferWidth)) ⊤)) :
    shadeFragment env debug_alphaTest frame tri x y u v w buffers = buffers := by
  simp [shadeFragment, h]

theorem shadeFragment_of_lt [FloorRing K] (env : MathEnv K) (debug_alphaTest : Bool)
    (frame : FrameConstants K) (tri : TriangleConstants K) (x y : Int) (u v w : K)
    (buffers : FrameBuffers K)
    (h : ((fragmentDepth tri u v w : K) : WithTop K)
      < readAt buffers.depthBuffer (x + (y * frame.frameBufferWidth)) ⊤)
    (hkeep : ¬ (debug_alphaTest = true ∧ fragmentTexel tri u v w = 0)) :
    shadeFragment env debug_alphaTest frame tri x y u v w buffers
      = { colorBuffer := writeAt buffers.colorBuffer (x + (y * frame.frameBufferWidth))
            (fragmentColor env frame tri u v w),
          depthBuffer := writeAt buffers.depthBuffer (x + (y * frame.frameBufferWidth))
            ((fragmentDepth tri u v w : K) : WithTop K) } := by
  have hk : (debug_alphaTest && decide (fragmentTexel tri u v w = 0)) = false := by
    cases debug_alphaTest <;> simp_all
  simp [shadeFragment, h, hk, fragmentColor]

/-- C8: starting from a pixel whose stored depth is `+infinity`, two fragments that cover the
pixel with distinct depths and are not discarded by the alpha test leave, in either order, the
color of the fragment with the smaller depth in the color buffer and the smaller depth in the
depth buffer. -/
theorem depth_test_order_independent [FloorRing K] (env : MathEnv K)
    (frame : FrameConstants K) (alphaTest1 alphaTest2 : Bool) (tri1 tri2 : TriangleConstants K)
    (x y : Int) (u1 v1 w1 u2 v2 w2 : K) (buffers : FrameBuffers K)
    (hindex : 0 ≤ x + (y * frame.frameBufferWidth))
    (hcolor : (x + (y * frame.frameBufferWidth)).toNat < buffers.colorBuffer.length)
    (hdepth : (x + (y * frame.frameBufferWidth)).toNat < buffers.depthBuffer.length)
    (hcleared : readAt buffers.depthBuffer (x + (y * frame.frameBufferWidth)) ⊤ = ⊤)
    (hdistinct : fragmentDepth tri1 u1 v1 w1 ≠ fragmentDepth tri2 u2 v2 w2)
    (hkeep1 : ¬ (alphaTest1 = true ∧ fragmentTexel tri1 u1 v1 w1 = 0))
    (hkeep2 : ¬ (alphaTest2 = true ∧ fragmentTexel tri2 u2 v2 w2 = 0)) :
    (readAt (shadeFragment env alphaTest2 frame tri2 x y u2 v2 w2
        (shadeFragment env alphaTest1 frame tri1 x y u1 v1 w1 buffers)).colorBuffer
        (x + (y * frame.frameBufferWidth)) 0
      = if fragmentDepth tri1 u1 v1 w1 < fragmentDepth tri2 u2 v2 w2
        then fragmentColor env frame tri1 u1 v1 w1 else fragmentColor env frame tri2 u2 v2 w2)
    ∧ (readAt (shadeFragment env alphaTest2 frame tri2 x y u2 v2 w2
        (shadeFragment env alphaTest1 frame tri1 x y u1 v1 w1 buffers)).depthBuffer
        (x + (y * frame.frameBufferWidth)) ⊤
      = ((min (fragmentDepth tri1 u1 v1 w1) (fragmentDepth tri2 u2 v2 w2) : K) : WithTop K))
    ∧ (readAt (shadeFragment env alphaTest1 frame tri1 x y u1 v1 w1
        (shadeFragment env alphaTest2 frame tri2 x y u2 v2 w2 buffers)).colorBuffer
        (x + (y * frame.frameBufferWidth)) 0
      = if fragmentDepth tri1 u1 v1 w1 < fragmentDepth tri2 u2 v2 w2
        then fragmentColor env frame tri1 u1 v1 w1 else fragmentColor env frame tri2 u2 v2 w2)
    ∧ (readAt (shadeFragment env alphaTest1 frame tri1 x y u1 v1 w1
        (shadeFragment env alphaTest2 frame tri2 x y u2 v2 w2 buffers)).depthBuffer
        (x + (y * frame.frameBufferWidth)) ⊤
      = ((min (fragmentDepth tri1 u1 v1 w1) (fragmentDepth tri2 u2 v2 w2) : K) : WithTop K)) := by
  have hlt1 : ((fragmentDepth tri1 u1 v1 w1 : K) : WithTop K)
      < readAt buffers.depthBuffer (x + (y * frame.frameBufferWidth)) ⊤ := by
    rw [hcleared]; exact WithTop.coe_lt_top _
  have hlt2 : ((fragmentDepth tri2 u2 v2 w2 : K) : WithTop K)
      < readAt buffers.depthBuffer (x + (y * frame.frameBufferWidth)) ⊤ := by
    rw [hcleared]; exact WithTop.coe_lt_top _
  rw [shadeFragment_of_lt env alphaTest1 frame tri1 x y u1 v1 w1 buffers hlt1 hkeep1,
    shadeFragment_of_lt env alphaTest2 frame tri2 x y u2 v2 w2 buffers hlt2 hkeep2]
  have hd : (x + (y * frame.frameBufferWidth)).toNat
      < (writeAt buffers.depthBuffer (x + (y * frame.frameBufferWidth))
          ((fragmentDepth tri1 u1 v1 w1 : K) : WithTop K)).length := by
    rw [writeAt_length]; exact hdepth
  have hd2 : (x + (y * frame.frameBufferWidth)).toNat
      < (writeAt buffers.depthBuffer (x + (y * frame.frameBufferWidth))
          ((fragmentDepth tri2 u2 v2 w2 : K) : WithTop K)).length := by
    rw [writeAt_length]; exact hdepth
  have hc : (x + (y * frame.frameBufferWidth)).toNat
      < (writeAt buffers.colorBuffer (x + (y * frame.frameBufferWidth))
          (fragmentColor env frame tri1 u1 v1 w1)).length := by
    rw [writeAt_length]; exact hcolor
  have hc2 : (x + (y * frame.frameBufferWidth)).toNat
      < (writeAt buffers.colorBuffer (x + (y * frame.frameBufferWidth))
          (fragmentColor env frame tri2 u2 v2 w2)).length := by
    rw [writeAt_length]; exact hcolor
  rcases lt_or_gt_of_ne hdistinct with h12 | h21
  · have hn21 : ¬ (((fragmentDepth tri2 u2 v2 w2 : K) : WithTop K)
        < readAt (writeAt buffers.depthBuffer (x + (y * frame.frameBufferWidth))
          ((fragmentDepth tri1 u1 v1 w1 : K) : WithTop K)) (x + (y * frame.frameBufferWidth)) ⊤) := by
      rw [readAt_writeAt_same _ _ _ _ hindex hdepth, WithTop.coe_lt_coe]
      exact not_lt.mpr (le_of_lt h12)
    have h12b : ((fragmentDepth tri1 u1 v1 w1 : K) : WithTop K)
        < readAt (writeAt buffers.depthBuffer (x + (y * frame.frameBufferWidth))
          ((fragmentDepth tri2 u2 v2 w2 : K) : WithTop K)) (x + (y * frame.frameBufferWidth)) ⊤ := by
      rw [readAt_writeAt_same _ _ _ _ hindex hdepth, WithTop.coe_lt_coe]
      exact h12
    rw [shadeFragment_of_not_lt env alphaTest2 frame tri2 x y u2 v2 w2 _ hn21,
      shadeFragment_of_lt env alphaTest1 frame tri1 x y u1 v1 w1 _ h12b hkeep1]
    simp only [readAt_writeAt_same _ _ _ _ hindex hdepth,
      readAt_writeAt_same _ _ _ _ hindex hcolor, readAt_writeAt_same _ _ _ _ hindex hd2,
      readAt_writeAt_same _ _ _ _ hindex hc2, if_pos h12, min_eq_left (le_of_lt h12)]
    exact ⟨trivial, trivial, trivial, trivial⟩
  · have h21' : fragmentDepth tri2 u2 v2 w2 < fragmentDepth tri1 u1 v1 w1 := h21
    have hn12 : ¬ (((fragmentDepth tri1 u1 v1 w1 : K) : WithTop K)
        < readAt (writeAt buffers.depthBuffer (x + (y * frame.frameBufferWidth))
          ((fragmentDepth tri2 u2 v2 w2 : K) : WithTop K)) (x + (y * frame.frameBufferWidth)) ⊤) := by
      rw [readAt_writeAt_same _ _ _ _ hindex hdepth, WithTop.coe_lt_coe]
      exact not_lt.mpr (le_of_lt h21')
    have h21b : ((fragmentDepth tri2 u2 v2 w2 : K) : WithTop K)
        < readAt (writeAt buffers.depthBuffer (x + (y * frame.frameBufferWidth))
          ((fragmentDepth tri1 u1 v1 w1 : K) : WithTop K)) (x + (y * frame.frameBufferWidth)) ⊤ := by
      rw [readAt_writeAt_same _ _ _ _ hindex hdepth, WithTop.coe_lt_coe]
      exact h21'
    rw [shadeFragment_of_not_lt env alphaTest1 frame tri1 x y u1 v1 w1 _ hn12,
      shadeFragment_of_lt env alphaTest2 frame tri2 x y u2 v2 w2 _ h21b hkeep2]
    simp only [readAt_writeAt_same _ _ _ _ hindex hdepth,
      readAt_writeAt_same _ _ _ _ hindex hcolor, readAt_writeAt_same _ _ _ _ hindex hd,
      readAt_writeAt_same _ _ _ _ hindex hc, if_neg (not_lt.mpr (le_of_lt h21')),
      min_eq_right (le_of_lt h21')]
    exact ⟨trivial, trivial, trivial, trivial⟩

/-- Witness for C8: fragments of depth 5 and depth 3 on the cleared one-pixel buffer. -/
theorem depth_test_order_independent_witness :
    (0 ≤ (0 : Int) + (0 * exampleFrame.frameBufferWidth))
    ∧ ((0 : Int) + (0 * exampleFrame.frameBufferWidth)).toNat < clearedBuffers.colorBuffer.length
    ∧ ((0 : Int) + (0 * exampleFrame.frameBufferWidth)).toNat < clearedBuffers.depthBuffer.length
    ∧ readAt clearedBuffers.depthBuffer ((0 : Int) + (0 * exampleFrame.frameBufferWidth)) ⊤ = ⊤
    ∧ fragmentDepth (exampleTriangleConstants 5 1) (1 / 2) (1 / 4) (1 / 4)
        ≠ fragmentDepth (exampleTriangleConstants 3 2) (1 / 2) (1 / 4) (1 / 4)
    ∧ readAt (shadeFragment exampleEnv false exampleFrame (exampleTriangleConstants 3 2) 0 0
          (1 / 2) (1 / 4) (1 / 4)
          (shadeFragment exampleEnv false exampleFrame (exampleTriangleConstants 5 1) 0 0
            (1 / 2) (1 / 4) (1 / 4) clearedBuffers)).depthBuffer
        ((0 : Int) + (0 * exampleFrame.frameBufferWidth)) ⊤
      = ((min (fragmentDepth (exampleTriangleConstants 5 1) (1 / 2) (1 / 4) (1 / 4))
          (fragmentDepth (exampleTriangleConstants 3 2) (1 / 2) (1 / 4) (1 / 4)) : ℚ) : WithTop ℚ)
    ∧ readAt (shadeFragment exampleEnv false exampleFrame (exampleTriangleConstants 5 1) 0 0
          (1 / 2) (1 / 4) (1 / 4)
          (shadeFragment exampleEnv false exampleFrame (exampleTriangleConstants 3 2) 0 0
            (1 / 2) (1 / 4) (1 / 4) clearedBuffers)).depthBuffer
        ((0 : Int) + (0 * exampleFrame.frameBufferWidth)) ⊤
      = ((min (fragmentDepth (exampleTriangleConstants 5 1) (1 / 2) (1 / 4) (1 / 4))
          (fragmentDepth (exampleTriangleConstants 3 2) (1 / 2) (1 / 4) (1 / 4)) : ℚ)
            : WithTop ℚ) := by
  have hindex : 0 ≤ (0 : Int) + (0 * exampleFrame.frameBufferWidth) := by
    norm_num [exampleFrame]
  have hcolor : ((0 : Int) + (0 * exampleFrame.frameBufferWidth)).toNat
      < clearedBuffers.colorBuffer.length := by
    norm_num [exampleFrame, clearedBuffers]
  have hdepth : ((0 : Int) + (0 * exampleFrame.frameBufferWidth)).toNat
      < clearedBuffers.depthBuffer.length := by
    norm_num [exampleFrame, clearedBuffers]
  have hcleared : readAt clearedBuffers.depthBuffer
      ((0 : Int) + (0 * exampleFrame.frameBufferWidth)) ⊤ = ⊤ := by
    norm_num [exampleFrame, clearedBuffers, readAt]
  have hdistinct : fragmentDepth (exampleTriangleConstants 5 1) (1 / 2) (1 / 4) (1 / 4)
      ≠ fragmentDepth (exampleTriangleConstants 3 2) (1 / 2) (1 / 4) (1 / 4) := by
    norm_num [fragmentDepth, perspectiveDepth, exampleTriangleConstants]
  have h := depth_test_order_independent exampleEnv exampleFrame false false
    (exampleTriangleConstants 5 1) (exampleTriangleConstants 3 2) 0 0
    (1 / 2) (1 / 4) (1 / 4) (1 / 2) (1 / 4) (1 / 4) clearedBuffers hindex hcolor hdepth hcleared
    hdistinct (by simp) (by simp)
  exact ⟨hindex, hcolor, hdepth, hcleared, hdistinct, h.2.1, h.2.2.2⟩

/-- C9: a fragment whose depth equals the depth stored at its pixel leaves the color buffer and
the depth buffer as they are; the buffers change only when the depth of the fragment is
strictly less than the stored depth. -/
theorem shadeFragment_equal_depth_no_write [FloorRing K] (env : MathEnv K)
    (debug_alphaTest : Bool) (frame : FrameConstants K) (tri : TriangleConstants K)
    (x y : Int) (u v w : K) (buffers : FrameBuffers K) :
    (readAt buffers.depthBuffer (x + (y * frame.frameBufferWidth)) ⊤
        = ((fragmentDepth tri u v w : K) : WithTop K) →
      shadeFragment env debug_alphaTest frame tri x y u v w buffers = buffers)
    ∧ (shadeFragment env debug_alphaTest frame tri x y u v w buffers ≠ buffers →
      ((fragmentDepth tri u v w : K) : WithTop K)
        < readAt buffers.depthBuffer (x + (y * frame.frameBufferWidth)) ⊤) := by
  constructor
  · intro h
    apply shadeFragment_of_not_lt
    rw [h]
    exact lt_irrefl _
  · intro h
    by_contra hnot
    exact h (shadeFragment_of_not_lt env debug_alphaTest frame tri x y u v w buffers hnot)

/-- Witness for C9: a fragment of depth 3 on a pixel that stores depth 3. -/
theorem shadeFragment_equal_depth_no_write_witness :
    readAt [((3 : ℚ) : WithTop ℚ)] ((0 : Int) + (0 * exampleFrame.frameBufferWidth)) ⊤
        = ((fragmentDepth (exampleTriangleConstants 3 2) (1 / 2) (1 / 4) (1 / 4) : ℚ) : WithTop ℚ)
    ∧ shadeFragment exampleEnv false exampleFrame (exampleTriangleConstants 3 2) 0 0
          (1 / 2) (1 / 4) (1 / 4)
          { colorBuffer := [0xFFFF0000], depthBuffer := [((3 : ℚ) : WithTop ℚ)] }
        = { colorBuffer := [0xFFFF0000], depthBuffer := [((3 : ℚ) : WithTop ℚ)] } := by
  have h : readAt [((3 : ℚ) : WithTop ℚ)] ((0 : Int) + (0 * exampleFrame.frameBufferWidth)) ⊤
      = ((fragmentDepth (exampleTriangleConstants 3 2) (1 / 2) (1 / 4) (1 / 4) : ℚ)
          : WithTop ℚ) := by
    norm_num [readAt, exampleFrame, fragmentDepth, perspectiveDepth, exampleTriangleConstants]
  exact ⟨h, (shadeFragment_equal_depth_no_write exampleEnv false exampleFrame
    (exampleTriangleConstants 3 2) 0 0 (1 / 2) (1 / 4) (1 / 4)
    { colorBuffer := [0xFFFF0000], depthBuffer := [((3 : ℚ) : WithTop ℚ)] }).1 h⟩

end swRender

/-! ## Theorems: alpha test, resize and the resource pools -/

namespace swRender

variable {K : Type} [LinearOrderedField K]

/-- C11: with alpha testing enabled, a fragment whose sampled texel is 0 writes neither the
color buffer nor the depth buffer, whatever its depth: both buffers come back unchanged.  So the
pixel body of `RasterizeTriangles` leaves the buffers unchanged at every pixel of a triangle
whose fragments all sample texel 0. -/
theorem alpha_test_discards_texel_zero [FloorRing K] (env : MathEnv K)
    (frame : FrameConstants K) (tri : TriangleConstants K) (x y : Int)
    (buffers : FrameBuffers K) :
    (∀ u v w : K, fragmentTexel tri u v w = 0 →
      shadeFragment env true frame tri x y u v w buffers = buffers)
    ∧ ((∀ u v w : K, fragmentTexel tri u v w = 0) →
      rasterizePixel env true frame tri x y buffers = buffers) := by
  have hfragment : ∀ u v w : K, fragmentTexel tri u v w = 0 →
      shadeFragment env true frame tri x y u v w buffers = buffers := by
    intro u v w htexel
    simp [shadeFragment, htexel]
  refine ⟨hfragment, fun hall => ?_⟩
  unfold rasterizePixel
  simp only []
  split
  · exact hfragment _ _ _ (hall _ _ _)
  · rfl

/-- Witness for C11: a fragment of depth 3 with texel 0 on the cleared pixel, where the depth
test alone would pass. -/
theorem alpha_test_discards_texel_zero_witness :
    fragmentTexel (exampleTriangleConstants 3 0) (1 / 2 : ℚ) (1 / 4) (1 / 4) = 0
    ∧ ((fragmentDepth (exampleTriangleConstants 3 0) (1 / 2) (1 / 4) (1 / 4) : ℚ) : WithTop ℚ)
        < readAt clearedBuffers.depthBuffer ((0 : Int) + (0 * exampleFrame.frameBufferWidth)) ⊤
    ∧ shadeFragment exampleEnv true exampleFrame (exampleTriangleConstants 3 0) 0 0
        (1 / 2) (1 / 4) (1 / 4) clearedBuffers = clearedBuffers := by
  have h : fragmentTexel (exampleTriangleConstants 3 0) (1 / 2 : ℚ) (1 / 4) (1 / 4) = 0 := by
    norm_num [fragmentTexel, fragmentTexelPercent, texelPercent, sampleTexel,
      exampleTriangleConstants, textureTexel, singleTexelTexture, staticCastInt, truncTowardZero, INT_MIN, INT_MAX, clamp, readAt,
      Buffer2D.get]
  refine ⟨h, ?_, (alpha_test_discards_texel_zero exampleEnv exampleFrame
    (exampleTriangleConstants 3 0) 0 0 clearedBuffers).1 (1 / 2) (1 / 4) (1 / 4) h⟩
  norm_num [readAt, exampleFrame, clearedBuffers]

end swRender

namespace SoftwareRenderer

section Pools

variable {K : Type}

theorem RecyclablePool_get_set_same {ElementT : Type} (pool : RecyclablePool ElementT)
    (id : Int) (element : ElementT) : (pool.set id element).get id = some element := by
  simp [RecyclablePool.get, RecyclablePool.set]

theorem RecyclablePool_get_set_other {ElementT : Type} (pool : RecyclablePool ElementT)
    (id other : Int) (element : ElementT) (h : other ≠ id) :
    (pool.set id element).get other = pool.get other := by
  simp [RecyclablePool.get, RecyclablePool.set, h]

theorem RecyclablePool_set_set {ElementT : Type} (pool : RecyclablePool ElementT) (id : Int)
    (a b : ElementT) : (pool.set id a).set id b = pool.set id b := by
  simp only [RecyclablePool.set]
  congr 1
  funext i
  split <;> rfl

theorem Buffer_copyFrom_get {α : Type} (b : Buffer α) (src : List α)
    (h : (src.length : Int) = b.getCount) : (b.copyFrom src).get = src := by
  rcases b with ⟨data⟩
  cases data with
  | none =>
    have h0 : src.length = 0 := by
      simpa [Buffer.getCount, Buffer.get] using h
    simp [Buffer.copyFrom, Buffer.get, List.length_eq_zero.mp h0]
  | some cells =>
    have hl : src.length = cells.length := by
      simpa [Buffer.getCount, Buffer.get] using h
    simp [Buffer.copyFrom, Buffer.get, hl]

theorem populateVertexBuffer_of_eq (r : SoftwareRenderer K) (id : Int) (buffer : VertexBuffer K)
    (vertices : List K) (hget : r.vertexBuffers.get id = some buffer)
    (hcount : (vertices.length : Int) = buffer.vertices.getCount) :
    populateVertexBuffer r id vertices
      = some { r with vertexBuffers :=
          r.vertexBuffers.set id { vertices := buffer.vertices.copyFrom vertices } } := by
  simp [populateVertexBuffer, hget, hcount]

theorem populateVertexBuffer_of_ne (r : SoftwareRenderer K) (id : Int) (buffer : VertexBuffer K)
    (vertices : List K) (hget : r.vertexBuffers.get id = some buffer)
    (hcount : (vertices.length : Int) ≠ buffer.vertices.getCount) :
    populateVertexBuffer r id vertices = some r := by
  simp [populateVertexBuffer, hget, hcount]

theorem populateAttributeBuffer_of_eq (r : SoftwareRenderer K) (id : Int)
    (buffer : AttributeBuffer K) (attributes : List K)
    (hget : r.attributeBuffers.get id = some buffer)
    (hcount : (attributes.length : Int) = buffer.attributes.getCount) :
    populateAttributeBuffer r id attributes
      = some { r with attributeBuffers :=
          r.attributeBuffers.set id { attributes := buffer.attributes.copyFrom attributes } } := by
  simp [populateAttributeBuffer, hget, hcount]

theorem populateAttributeBuffer_of_ne (r : SoftwareRenderer K) (id : Int)
    (buffer : AttributeBuffer K) (attributes : List K)
    (hget : r.attributeBuffers.get id = some buffer)
    (hcount : (attributes.length : Int) ≠ buffer.attributes.getCount) :
    populateAttributeBuffer r id attributes = some r := by
  simp [populateAttributeBuffer, hget, hcount]

theorem populateIndexBuffer_of_eq (r : SoftwareRenderer K) (id : Int) (buffer : IndexBuffer)
    (indices : List Int) (hget : r.indexBuffers.get id = some buffer)
    (hcount : (indices.length : Int) = buffer.indices.getCount) :
    populateIndexBuffer r id indices
      = some { r with indexBuffers :=
          r.indexBuffers.set id { indices := buffer.indices.copyFrom indices } } := by
  simp [populateIndexBuffer, hget, hcount]

theorem populateIndexBuffer_of_ne (r : SoftwareRenderer K) (id : Int) (buffer : IndexBuffer)
    (indices : List Int) (hget : r.indexBuffers.get id = some buffer)
    (hcount : (indices.length : Int) ≠ buffer.indices.getCount) :
    populateIndexBuffer r id indices = some r := by
  simp [populateIndexBuffer, hget, hcount]

/-- C16: for `populateVertexBuffer`, `populateAttributeBuffer` and `populateIndexBuffer` on an
allocated handle: when the supplied count equals the count of the buffer, the call returns and
the contents of the buffer are the supplied data, element for element; when the counts differ,
the call returns and the renderer, and with it the buffer, is unchanged. -/
theorem populate_buffers (r : SoftwareRenderer K) (id : Int) :
    (∀ (buffer : VertexBuffer K) (vertices : List K), r.vertexBuffers.get id = some buffer →
      ((vertices.length : Int) = buffer.vertices.getCount →
        ∃ r2 buffer2, populateVertexBuffer r id vertices = some r2
          ∧ r2.vertexBuffers.get id = some buffer2 ∧ buffer2.vertices.get = vertices)
      ∧ ((vertices.length : Int) ≠ buffer.vertices.getCount →
        populateVertexBuffer r id vertices = some r))
    ∧ (∀ (buffer : AttributeBuffer K) (attributes : List K),
      r.attributeBuffers.get id = some buffer →
      ((attributes.length : Int) = buffer.attributes.getCount →
        ∃ r2 buffer2, populateAttributeBuffer r id attributes = some r2
          ∧ r2.attributeBuffers.get id = some buffer2 ∧ buffer2.attributes.get = attributes)
      ∧ ((attributes.length : Int) ≠ buffer.attributes.getCount →
        populateAttributeBuffer r id attributes = some r))
    ∧ (∀ (buffer : IndexBuffer) (indices : List Int), r.indexBuffers.get id = some buffer →
      ((indices.length : Int) = buffer.indices.getCount →
        ∃ r2 buffer2, populateIndexBuffer r id indices = some r2
          ∧ r2.indexBuffers.get id = some buffer2 ∧ buffer2.indices.get = indices)
      ∧ ((indices.length : Int) ≠ buffer.indices.getCount →
        populateIndexBuffer r id indices = some r)) := by
  refine ⟨?_, ?_, ?_⟩
  · intro buffer vertices hget
    refine ⟨fun hcount => ⟨_, _, populateVertexBuffer_of_eq r id buffer vertices hget hcount,
      RecyclablePool_get_set_same _ _ _, Buffer_copyFrom_get _ _ hcount⟩,
      populateVertexBuffer_of_ne r id buffer vertices hget⟩
  · intro buffer attributes hget
    refine ⟨fun hcount => ⟨_, _,
      populateAttributeBuffer_of_eq r id buffer attributes hget hcount,
      RecyclablePool_get_set_same _ _ _, Buffer_copyFrom_get _ _ hcount⟩,
      populateAttributeBuffer_of_ne r id buffer attributes hget⟩
  · intro buffer indices hget
    refine ⟨fun hcount => ⟨_, _, populateIndexBuffer_of_eq r id buffer indices hget hcount,
      RecyclablePool_get_set_same _ _ _, Buffer_copyFrom_get _ _ hcount⟩,
      populateIndexBuffer_of_ne r id buffer indices hget⟩

/-- Witness for C16: the vertex buffer of two values at handle 0 of `exampleRenderer`, populated
with two values and with one value. -/
theorem populate_buffers_witness :
    exampleRenderer.vertexBuffers.get 0 = some { vertices := { data := some [0, 0] } }
    ∧ (∃ r2 buffer2, populateVertexBuffer exampleRenderer 0 [3, 4] = some r2
        ∧ r2.vertexBuffers.get 0 = some buffer2 ∧ buffer2.vertices.get = [3, 4])
    ∧ populateVertexBuffer exampleRenderer 0 [3] = some exampleRenderer := by
  have hget : exampleRenderer.vertexBuffers.get 0
      = some { vertices := { data := some [0, 0] } } := by
    simp [exampleRenderer, RecyclablePool.get, RecyclablePool.set]
  have h := (populate_buffers exampleRenderer 0).1 { vertices := { data := some [0, 0] } }
  exact ⟨hget, (h [3, 4] hget).1 (by simp [Buffer.getCount, Buffer.get]),
    (h [3] hget).2 (by simp [Buffer.getCount, Buffer.get])⟩

/-- C17, counterexample: `populateVertexBuffer` on the vertex buffer of two values of
`exampleRenderer` with one value, a mismatched count, does not halt: it returns, with the
renderer unchanged. -/
theorem populate_mismatch_returns :
    exampleRenderer.vertexBuffers.get 0 = some { vertices := { data := some [0, 0] } }
    ∧ ((([3] : List ℚ).length : Int)
        ≠ ({ data := some [0, 0] } : Buffer ℚ).getCount)
    ∧ populateVertexBuffer exampleRenderer 0 [3] ≠ none
    ∧ populateVertexBuffer exampleRenderer 0 [3] = some exampleRenderer := by
  have hget : exampleRenderer.vertexBuffers.get 0
      = some { vertices := { data := some [0, 0] } } := by
    simp [exampleRenderer, RecyclablePool.get, RecyclablePool.set]
  have hne : ((([3] : List ℚ).length : Int)
      ≠ ({ data := some [0, 0] } : Buffer ℚ).getCount) := by
    simp [Buffer.getCount, Buffer.get]
  have hret : populateVertexBuffer exampleRenderer 0 [3] = some exampleRenderer :=
    populateVertexBuffer_of_ne exampleRenderer 0 _ [3] hget hne
  refine ⟨hget, hne, ?_, hret⟩
  rw [hret]
  exact Option.some_ne_none _

/-- C17, as amended: populating a buffer with a mismatched element count is not fatal.  On an
allocated handle `populateVertexBuffer`, `populateAttributeBuffer` and `populateIndexBuffer`
never halt, whatever the supplied count, and when the count differs from the count of the
buffer they return with the renderer unchanged. -/
theorem populate_mismatch_not_fatal (r : SoftwareRenderer K) (id : Int) :
    (∀ (buffer : VertexBuffer K) (vertices : List K), r.vertexBuffers.get id = some buffer →
      populateVertexBuffer r id vertices ≠ none
      ∧ ((vertices.length : Int) ≠ buffer.vertices.getCount →
        populateVertexBuffer r id vertices = some r))
    ∧ (∀ (buffer : AttributeBuffer K) (attributes : List K),
      r.attributeBuffers.get id = some buffer →
      populateAttributeBuffer r id attributes ≠ none
      ∧ ((attributes.length : Int) ≠ buffer.attributes.getCount →
        populateAttributeBuffer r id attributes = some r))
    ∧ (∀ (buffer : IndexBuffer) (indices : List Int), r.indexBuffers.get id = some buffer →
      populateIndexBuffer r id indices ≠ none
      ∧ ((indices.length : Int) ≠ buffer.indices.getCount →
        populateIndexBuffer r id indices = some r)) := by
  refine ⟨?_, ?_, ?_⟩
  · intro buffer vertices hget
    refine ⟨?_, populateVertexBuffer_of_ne r id buffer vertices hget⟩
    by_cases hcount : (vertices.length : Int) = buffer.vertices.getCount
    · rw [populateVertexBuffer_of_eq r id buffer vertices hget hcount]
      exact Option.some_ne_none _
    · rw [populateVertexBuffer_of_ne r id buffer vertices hget hcount]
      exact Option.some_ne_none _
  · intro buffer attributes hget
    refine ⟨?_, populateAttributeBuffer_of_ne r id buffer attributes hget⟩
    by_cases hcount : (attributes.length : Int) = buffer.attributes.getCount
    · rw [populateAttributeBuffer_of_eq r id buffer attributes hget hcount]
      exact Option.some_ne_none _
    · rw [populateAttributeBuffer_of_ne r id buffer attributes hget hcount]
      exact Option.some_ne_none _
  · intro buffer indices hget
    refine ⟨?_, populateIndexBuffer_of_ne r id buffer indices hget⟩
    by_cases hcount : (indices.length : Int) = buffer.indices.getCount
    · rw [populateIndexBuffer_of_eq r id buffer indices hget hcount]
      exact Option.some_ne_none _
    · rw [populateIndexBuffer_of_ne r id buffer indices hget hcount]
      exact Option.some_ne_none _

/-- Witness for C17 as amended: the index buffer of three indices at handle 0 of
`exampleRenderer`, populated with two indices. -/
theorem populate_mismatch_not_fatal_witness :
    exampleRenderer.indexBuffers.get 0 = some { indices := { data := some [0, 0, 0] } }
    ∧ populateIndexBuffer exampleRenderer 0 [1, 2] ≠ none
    ∧ populateIndexBuffer exampleRenderer 0 [1, 2] = some exampleRenderer := by
  have hget : exampleRenderer.indexBuffers.get 0
      = some { indices := { data := some [0, 0, 0] } } := by
    simp [exampleRenderer, RecyclablePool.get, RecyclablePool.set]
  have h := (populate_mismatch_not_fatal exampleRenderer 0).2.2
    { indices := { data := some [0, 0, 0] } } [1, 2] hget
  exact ⟨hget, h.1, h.2 (by simp [Buffer.getCount, Buffer.get])⟩

theorem tryCreateIndexBuffer_eq (policy : PoolPolicy K) (r : SoftwareRenderer K)
    (indexCount : Int) (hcount : indexCount > 0) (hthree : indexCount % 3 = 0) :
    tryCreateIndexBuffer policy r indexCount
      = match policy.indexBuffers r.indexBuffers with
        | none => some ⟨false, none, r⟩
        | some id =>
          some ⟨true, some id,
            { r with indexBuffers := r.indexBuffers.set id
                       (IndexBuffer.fresh.init indexCount) }⟩ := by
  cases h : policy.indexBuffers r.indexBuffers <;>
    simp [tryCreateIndexBuffer, RecyclablePool.tryAlloc, h, hcount, hthree,
      RecyclablePool_get_set_same, RecyclablePool_set_set]

theorem tryCreateObjectTexture_eq (policy : PoolPolicy K) (r : SoftwareRenderer K)
    (width height : Int) (isPalette : Bool) :
    tryCreateObjectTexture policy r width height isPalette
      = match policy.objectTextures r.objectTextures with
        | none => some ⟨false, none, r⟩
        | some id =>
          some ⟨true, some id,
            { r with objectTextures := r.objectTextures.set id
                       (createdTexture width height isPalette) }⟩ := by
  cases h : policy.objectTextures r.objectTextures <;> cases isPalette <;>
    simp [tryCreateObjectTexture, RecyclablePool.tryAlloc, h, RecyclablePool_get_set_same,
      RecyclablePool_set_set, ObjectTexture.fresh, ObjectTexture.init8Bit,
      ObjectTexture.initPalette, createdTexture]

theorem tryCreateObjectMaterial_eq (policy : PoolPolicy K) (r : SoftwareRenderer K)
    (id0 id1 : Int) (h0 : 0 ≤ id0) (h1 : 0 ≤ id1) :
    tryCreateObjectMaterial policy r id0 id1
      = match policy.objectMaterials r.objectMaterials with
        | none => some ⟨false, none, r⟩
        | some id =>
          some ⟨true, some id,
            { r with objectMaterials := r.objectMaterials.set id { id0 := id0, id1 := id1 } }⟩ := by
  cases h : policy.objectMaterials r.objectMaterials <;>
    simp [tryCreateObjectMaterial, RecyclablePool.tryAlloc, h, not_lt.mpr h0, not_lt.mpr h1,
      RecyclablePool_get_set_same, RecyclablePool_set_set, ObjectMaterial.init]

theorem tryCreateObjectMaterialSingle_eq (policy : PoolPolicy K) (r : SoftwareRenderer K)
    (id : Int) (h0 : 0 ≤ id) :
    tryCreateObjectMaterialSingle policy r id
      = match policy.objectMaterials r.objectMaterials with
        | none => some ⟨false, none, r⟩
        | some outID =>
          some ⟨true, some outID,
            { r with objectMaterials := r.objectMaterials.set outID { id0 := id, id1 := -1 } }⟩ := by
  cases h : policy.objectMaterials r.objectMaterials <;>
    simp [tryCreateObjectMaterialSingle, RecyclablePool.tryAlloc, h, not_lt.mpr h0,
      RecyclablePool_get_set_same, RecyclablePool_set_set, ObjectMaterial.initSingle]

/-- C20, the claim as stated fails: `tryCreateObjectTexture(65536, 65536, true)` on
`exampleRenderer` succeeds at texture handle 2, and the palette table it leaves there is valid
and has no entry: the `int` product `65536 * 65536` wraps to 0, where the claim has a table of
`65536 * 65536 = 4294967296` entries. -/
theorem tryCreateObjectTexture_palette_count_wraps :
    ∃ result texture,
      tryCreateObjectTexture examplePolicy exampleRenderer 65536 65536 true = some result
      ∧ result.success = true
      ∧ result.outID = some 2
      ∧ result.renderer.objectTextures.get 2 = some texture
      ∧ texture.paletteTexels.isValid = true
      ∧ texture.paletteTexels.get = []
      ∧ ((65536 : Int) * 65536).toNat = 4294967296
      ∧ texture.paletteTexels.get.length ≠ ((65536 : Int) * 65536).toNat := by
  have halloc : examplePolicy.objectTextures exampleRenderer.objectTextures = some 2 := by
    simp [examplePolicy, firstFreeHandle, exampleRenderer, RecyclablePool.get,
      RecyclablePool.set, RecyclablePool.clear, List.range, List.range.loop, List.find?]
  have hwrap : wrapInt 4294967296 = 0 := by decide
  have hget : (createdTexture 65536 65536 true).paletteTexels.get = [] := by
    simp [createdTexture, Buffer.init, Buffer.fill, Buffer.get, hwrap]
  have hcall : tryCreateObjectTexture examplePolicy exampleRenderer 65536 65536 true
      = some ⟨true, some 2,
          { exampleRenderer with
            objectTextures :=
              exampleRenderer.objectTextures.set 2 (createdTexture 65536 65536 true) }⟩ := by
    rw [tryCreateObjectTexture_eq, halloc]
  refine ⟨_, createdTexture 65536 65536 true, hcall, rfl, rfl,
    RecyclablePool_get_set_same _ _ _, ?_, hget, by decide, ?_⟩
  · simp [createdTexture, Buffer.isValid, Buffer.init, Buffer.fill]
  · rw [hget]
    decide

/-- C20, amended: after a successful `tryCreateObjectTexture(width, height, isPalette)` exactly
one representation of the texture at the returned handle is valid.  With `isPalette` false it
is the texel grid, of the given width and height, with `width * height` texels that are all 0,
the palette table is not valid and `tryGetObjectTextureDims` returns `(width, height)`; with
`isPalette` true it is the palette table, whose entries are all 0 and whose number of entries
is the `int` product `width * height`: `width * height` itself when that is in the range of
`int`; and the texel grid is not valid. -/
theorem tryCreateObjectTexture_one_representation (policy : PoolPolicy K)
    (r : SoftwareRenderer K) (width height : Int) (isPalette : Bool)
    (result : TryCreateResult K)
    (hcall : tryCreateObjectTexture policy r width height isPalette = some result)
    (hsuccess : result.success = true) :
    ∃ id texture, result.outID = some id
      ∧ result.renderer.objectTextures.get id = some texture
      ∧ (texture.texels.isValid = !texture.paletteTexels.isValid)
      ∧ (isPalette = false →
          texture.texels.isValid = true ∧ texture.paletteTexels.isValid = false
          ∧ texture.texels.width = width ∧ texture.texels.height = height
          ∧ texture.texels.get = List.replicate (width * height).toNat 0
          ∧ tryGetObjectTextureDims result.renderer id = some (some (width, height)))
      ∧ (isPalette = true →
          texture.paletteTexels.isValid = true ∧ texture.texels.isValid = false
          ∧ texture.paletteTexels.get = List.replicate (wrapInt (width * height)).toNat 0
          ∧ (INT_MIN ≤ width * height → width * height ≤ INT_MAX →
              texture.paletteTexels.get = List.replicate (width * height).toNat 0)) := by
  rw [tryCreateObjectTexture_eq] at hcall
  cases h : policy.objectTextures r.objectTextures with
  | none =>
    rw [h] at hcall
    simp only [Option.some.injEq] at hcall
    subst hcall
    simp at hsuccess
  | some id =>
    rw [h] at hcall
    simp only [Option.some.injEq] at hcall
    subst hcall
    refine ⟨id, createdTexture width height isPalette, rfl,
      RecyclablePool_get_set_same _ _ _, ?_, ?_, ?_⟩
    · cases isPalette <;>
        simp [createdTexture, Buffer2D.isValid, Buffer.isValid, Buffer2D.init, Buffer2D.fill,
          Buffer.init, Buffer.fill, Buffer2D.clear, Buffer.clear]
    · intro hp
      subst hp
      simp [createdTexture, Buffer2D.isValid, Buffer.isValid, Buffer2D.init, Buffer2D.fill,
        Buffer2D.clear, Buffer.clear, Buffer2D.get, tryGetObjectTextureDims,
        RecyclablePool_get_set_same]
    · intro hp
      subst hp
      have hget : (createdTexture width height true).paletteTexels.get
          = List.replicate (wrapInt (width * height)).toNat 0 := by
        simp [createdTexture, Buffer.init, Buffer.fill, Buffer.get]
      refine ⟨?_, ?_, hget, fun h0 h1 => ?_⟩
      · simp [createdTexture, Buffer.isValid, Buffer.init, Buffer.fill]
      · simp [createdTexture, Buffer2D.isValid, Buffer2D.clear]
      · rw [hget, wrapInt_of_fits _ h0 h1]

/-- Witness for C20: an 8-bit texture of 2 x 3 texels and a palette of `2 * 3` entries, each
created in `exampleRenderer`, whose lowest free texture handle is 2. -/
theorem tryCreateObjectTexture_one_representation_witness :
    tryCreateObjectTexture examplePolicy exampleRenderer 2 3 false
        = some ⟨true, some 2, exampleRendererWithTexture⟩
    ∧ (∃ id texture, some (2 : Int) = some id
      ∧ exampleRendererWithTexture.objectTextures.get id = some texture
      ∧ (texture.texels.isValid = !texture.paletteTexels.isValid)
      ∧ (false = false →
          texture.texels.isValid = true ∧ texture.paletteTexels.isValid = false
          ∧ texture.texels.width = 2 ∧ texture.texels.height = 3
          ∧ texture.texels.get = List.replicate ((2 : Int) * 3).toNat 0
          ∧ tryGetObjectTextureDims exampleRendererWithTexture id = some (some (2, 3)))
      ∧ (false = true →
          texture.paletteTexels.isValid = true ∧ texture.texels.isValid = false
          ∧ texture.paletteTexels.get = List.replicate (wrapInt ((2 : Int) * 3)).toNat 0
          ∧ (INT_MIN ≤ (2 : Int) * 3 → (2 : Int) * 3 ≤ INT_MAX →
              texture.paletteTexels.get = List.replicate ((2 : Int) * 3).toNat 0)))
    ∧ (INT_MIN ≤ (2 : Int) * 3 ∧ (2 : Int) * 3 ≤ INT_MAX)
    ∧ ∃ result texture,
        tryCreateObjectTexture examplePolicy exampleRenderer 2 3 true = some result
        ∧ result.success = true
        ∧ result.renderer.objectTextures.get 2 = some texture
        ∧ texture.paletteTexels.isValid = true ∧ texture.texels.isValid = false
        ∧ texture.paletteTexels.get = [0, 0, 0, 0, 0, 0] := by
  have halloc : examplePolicy.objectTextures exampleRenderer.objectTextures = some 2 := by
    simp [examplePolicy, firstFreeHandle, exampleRenderer, RecyclablePool.get,
      RecyclablePool.set, RecyclablePool.clear, List.range, List.range.loop, List.find?]
  have hcall : tryCreateObjectTexture examplePolicy exampleRenderer 2 3 false
      = some ⟨true, some 2, exampleRendererWithTexture⟩ := by
    rw [tryCreateObjectTexture_eq, halloc]
    rfl
  have hcall2 : tryCreateObjectTexture examplePolicy exampleRenderer 2 3 true
      = some ⟨true, some 2,
          { exampleRenderer with
            objectTextures := exampleRenderer.objectTextures.set 2 (createdTexture 2 3 true) }⟩ := by
    rw [tryCreateObjectTexture_eq, halloc]
  have hfit : INT_MIN ≤ (2 : Int) * 3 ∧ (2 : Int) * 3 ≤ INT_MAX := by decide
  obtain ⟨id, texture, hid, hget, _, _, hpalette⟩ :=
    tryCreateObjectTexture_one_representation examplePolicy exampleRenderer 2 3 true _ hcall2 rfl
  have hid2 : id = 2 := (Option.some.inj hid).symm
  subst hid2
  obtain ⟨hvalid, hinvalid, _, hentries⟩ := hpalette rfl
  refine ⟨hcall, tryCreateObjectTexture_one_representation examplePolicy exampleRenderer 2 3
    false _ hcall rfl, hfit, _, texture, hcall2, rfl, hget, hvalid, hinvalid, ?_⟩
  rw [hentries hfit.1 hfit.2]
  rfl

theorem Buffer_init_getCount {α : Type} (count : Int) (fresh : α) (h : 0 ≤ count) :
    (Buffer.init count fresh).getCount = count := by
  simp [Buffer.init, Buffer.getCount, Buffer.get, Int.toNat_of_nonneg h]

theorem tryCreateIndexBuffer_success (policy : PoolPolicy K) (r : SoftwareRenderer K)
    (indexCount : Int) (result : TryCreateResult K)
    (hcall : tryCreateIndexBuffer policy r indexCount = some result) :
    indexCount > 0 ∧ indexCount % 3 = 0
      ∧ (result = ⟨false, none, r⟩
        ∨ ∃ id, result = ⟨true, some id,
            { r with indexBuffers := r.indexBuffers.set id
                       (IndexBuffer.fresh.init indexCount) }⟩) := by
  by_cases h1 : indexCount > 0
  · by_cases h2 : indexCount % 3 = 0
    · refine ⟨h1, h2, ?_⟩
      rw [tryCreateIndexBuffer_eq policy r indexCount h1 h2] at hcall
      cases h : policy.indexBuffers r.indexBuffers with
      | none => rw [h] at hcall; exact Or.inl (Option.some.inj hcall).symm
      | some id => rw [h] at hcall; exact Or.inr ⟨id, (Option.some.inj hcall).symm⟩
    · simp [tryCreateIndexBuffer, h1, h2] at hcall
  · simp [tryCreateIndexBuffer, h1] at hcall

theorem tryCreateObjectTexture_indexBuffers (policy : PoolPolicy K) (r : SoftwareRenderer K)
    (width height : Int) (isPalette : Bool) (result : TryCreateResult K)
    (hcall : tryCreateObjectTexture policy r width height isPalette = some result) :
    result.renderer.indexBuffers = r.indexBuffers := by
  rw [tryCreateObjectTexture_eq] at hcall
  cases h : policy.objectTextures r.objectTextures <;> rw [h] at hcall <;> cases hcall <;> rfl

theorem tryCreateObjectMaterial_indexBuffers (policy : PoolPolicy K) (r : SoftwareRenderer K)
    (id0 id1 : Int) (result : TryCreateResult K)
    (hcall : tryCreateObjectMaterial policy r id0 id1 = some result) :
    result.renderer.indexBuffers = r.indexBuffers := by
  by_cases h0 : 0 ≤ id0
  · by_cases h1 : 0 ≤ id1
    · rw [tryCreateObjectMaterial_eq policy r id0 id1 h0 h1] at hcall
      cases h : policy.objectMaterials r.objectMaterials <;> rw [h] at hcall <;>
        cases hcall <;> rfl
    · have h1' : id1 < 0 := not_le.mp h1
      simp only [tryCreateObjectMaterial, not_lt.mpr h0, h1', if_true, if_false] at hcall
      cases hcall
      rfl
  · have h0' : id0 < 0 := not_le.mp h0
    simp only [tryCreateObjectMaterial, h0', if_true] at hcall
    cases hcall
    rfl

theorem tryCreateObjectMaterialSingle_indexBuffers (policy : PoolPolicy K)
    (r : SoftwareRenderer K) (id : Int) (result : TryCreateResult K)
    (hcall : tryCreateObjectMaterialSingle policy r id = some result) :
    result.renderer.indexBuffers = r.indexBuffers := by
  by_cases h0 : 0 ≤ id
  · rw [tryCreateObjectMaterialSingle_eq policy r id h0] at hcall
    cases h : policy.objectMaterials r.objectMaterials <;> rw [h] at hcall <;>
      cases hcall <;> rfl
  · have h0' : id < 0 := not_le.mp h0
    simp only [tryCreateObjectMaterialSingle, h0', if_true] at hcall
    cases hcall
    rfl

theorem populateVertexBuffer_indexBuffers (r r2 : SoftwareRenderer K) (id : Int)
    (vertices : List K) (hcall : populateVertexBuffer r id vertices = some r2) :
    r2.indexBuffers = r.indexBuffers := by
  cases hget : r.vertexBuffers.get id with
  | none => simp [populateVertexBuffer, hget] at hcall
  | some buffer =>
    by_cases hcount : (vertices.length : Int) = buffer.vertices.getCount
    · rw [populateVertexBuffer_of_eq r id buffer vertices hget hcount] at hcall
      cases hcall
      rfl
    · rw [populateVertexBuffer_of_ne r id buffer vertices hget hcount] at hcall
      cases hcall
      rfl

theorem populateAttributeBuffer_indexBuffers (r r2 : SoftwareRenderer K) (id : Int)
    (attributes : List K) (hcall : populateAttributeBuffer r id attributes = some r2) :
    r2.indexBuffers = r.indexBuffers := by
  cases hget : r.attributeBuffers.get id with
  | none => simp [populateAttributeBuffer, hget] at hcall
  | some buffer =>
    by_cases hcount : (attributes.length : Int) = buffer.attributes.getCount
    · rw [populateAttributeBuffer_of_eq r id buffer attributes hget hcount] at hcall
      cases hcall
      rfl
    · rw [populateAttributeBuffer_of_ne r id buffer attributes hget hcount] at hcall
      cases hcall
      rfl

theorem populateIndexBuffer_getCount (r r2 : SoftwareRenderer K) (id : Int)
    (indices : List Int) (hcall : populateIndexBuffer r id indices = some r2) :
    ∀ (other : Int) (buffer2 : IndexBuffer), r2.indexBuffers.get other = some buffer2 →
      ∃ buffer, r.indexBuffers.get other = some buffer
        ∧ buffer2.indices.getCount = buffer.indices.getCount := by
  intro other buffer2 hget2
  cases hget : r.indexBuffers.get id with
  | none => simp [populateIndexBuffer, hget] at hcall
  | some buffer =>
    by_cases hcount : (indices.length : Int) = buffer.indices.getCount
    · rw [populateIndexBuffer_of_eq r id buffer indices hget hcount] at hcall
      cases hcall
      by_cases hid : other = id
      · subst hid
        have h2 : (r.indexBuffers.set other { indices := buffer.indices.copyFrom indices }).get
            other = some buffer2 := hget2
        rw [RecyclablePool_get_set_same] at h2
        cases h2
        refine ⟨buffer, hget, ?_⟩
        simp only [Buffer.getCount, Buffer_copyFrom_get _ _ hcount]
        exact hcount
      · have h2 : (r.indexBuffers.set id { indices := buffer.indices.copyFrom indices }).get
            other = some buffer2 := hget2
        rw [RecyclablePool_get_set_other _ _ _ _ hid] at h2
        exact ⟨buffer2, h2, rfl⟩
    · rw [populateIndexBuffer_of_ne r id buffer indices hget hcount] at hcall
      cases hcall
      exact ⟨buffer2, hget2, rfl⟩

theorem IndexBuffersWellFormed_of_eq (r r2 : SoftwareRenderer K)
    (h : r2.indexBuffers = r.indexBuffers) (hr : IndexBuffersWellFormed r) :
    IndexBuffersWellFormed r2 := by
  intro id buffer hget
  rw [h] at hget
  exact hr id buffer hget

end Pools


section Builder

variable {K : Type}

theorem tryCreateObjectTextureFromBuilder_eq (policy : PoolPolicy K) (r : SoftwareRenderer K)
    (textureBuilder : TextureBuilder) :
    tryCreateObjectTextureFromBuilder policy r textureBuilder
      = match policy.objectTextures r.objectTextures with
        | none => some ⟨false, none, r⟩
        | some id =>
          some ⟨true, some id,
            { r with objectTextures := r.objectTextures.set id (builtTexture textureBuilder) }⟩ := by
  simp only [tryCreateObjectTextureFromBuilder, tryCreateObjectTexture_eq]
  cases h : policy.objectTextures r.objectTextures
  · simp
  · cases ht : textureBuilder.type <;>
      simp [RecyclablePool_get_set_same, RecyclablePool_set_set, builtTexture, ht]

theorem tryCreateObjectTextureFromBuilder_indexBuffers (policy : PoolPolicy K)
    (r : SoftwareRenderer K) (textureBuilder : TextureBuilder) (result : TryCreateResult K)
    (hcall : tryCreateObjectTextureFromBuilder policy r textureBuilder = some result) :
    result.renderer.indexBuffers = r.indexBuffers := by
  rw [tryCreateObjectTextureFromBuilder_eq] at hcall
  cases h : policy.objectTextures r.objectTextures <;> rw [h] at hcall <;> cases hcall <;> rfl

theorem tryCreateObjectTextureFromBuilder_objectMaterials (policy : PoolPolicy K)
    (r : SoftwareRenderer K) (textureBuilder : TextureBuilder) (result : TryCreateResult K)
    (hcall : tryCreateObjectTextureFromBuilder policy r textureBuilder = some result) :
    result.renderer.objectMaterials = r.objectMaterials := by
  rw [tryCreateObjectTextureFromBuilder_eq] at hcall
  cases h : policy.objectTextures r.objectTextures <;> rw [h] at hcall <;> cases hcall <;> rfl

theorem writeLockedTexture_indexBuffers (r : SoftwareRenderer K) (id : Int) (cells : List Nat) :
    (r.writeLockedTexture id cells).indexBuffers = r.indexBuffers := by
  unfold writeLockedTexture
  split
  · rfl
  · split
    · split <;> rfl
    · split
      · split <;> rfl
      · rfl

theorem writeLockedTexture_objectMaterials (r : SoftwareRenderer K) (id : Int)
    (cells : List Nat) :
    (r.writeLockedTexture id cells).objectMaterials = r.objectMaterials := by
  unfold writeLockedTexture
  split
  · rfl
  · split
    · split <;> rfl
    · split
      · split <;> rfl
      · rfl

/-- C21: `tryCreateObjectMaterial(id0, id1)` returns false and leaves the renderer, and with it
the material pool, as it is when `id0 < 0` or `id1 < 0`, and `tryCreateObjectMaterial(id)` does
the same when `id < 0`; the call always returns; and when `tryCreateObjectMaterial(id0, id1)`
returns true, a handle was written through `outID` and `tryGetObjectMaterialTextures` on that
handle returns true with `outID0 = id0` and `outID1 = id1`. -/
theorem tryCreateObjectMaterial_contract (policy : PoolPolicy K) (r : SoftwareRenderer K) :
    (∀ id0 id1 : Int, id0 < 0 ∨ id1 < 0 →
      tryCreateObjectMaterial policy r id0 id1 = some ⟨false, none, r⟩)
    ∧ (∀ id : Int, id < 0 →
      tryCreateObjectMaterialSingle policy r id = some ⟨false, none, r⟩)
    ∧ (∀ id0 id1 : Int, ∃ result, tryCreateObjectMaterial policy r id0 id1 = some result)
    ∧ (∀ (id0 id1 : Int) (result : TryCreateResult K),
        tryCreateObjectMaterial policy r id0 id1 = some result → result.success = true →
        ∃ outID, result.outID = some outID
          ∧ tryGetObjectMaterialTextures result.renderer outID = some ⟨true, id0, id1⟩) := by
  refine ⟨?_, ?_, ?_, ?_⟩
  · intro id0 id1 h
    by_cases h0 : id0 < 0
    · simp [tryCreateObjectMaterial, h0]
    · have h1 : id1 < 0 := by tauto
      simp [tryCreateObjectMaterial, h0, h1]
  · intro id h
    simp [tryCreateObjectMaterialSingle, h]
  · intro id0 id1
    by_cases h0 : id0 < 0
    · exact ⟨⟨false, none, r⟩, by simp [tryCreateObjectMaterial, h0]⟩
    · by_cases h1 : id1 < 0
      · exact ⟨⟨false, none, r⟩, by simp [tryCreateObjectMaterial, h0, h1]⟩
      · rw [tryCreateObjectMaterial_eq policy r id0 id1 (not_lt.mp h0) (not_lt.mp h1)]
        cases policy.objectMaterials r.objectMaterials <;> exact ⟨_, rfl⟩
  · intro id0 id1 result hcall hsuccess
    by_cases h0 : id0 < 0
    · simp [tryCreateObjectMaterial, h0] at hcall
      subst hcall
      simp at hsuccess
    · by_cases h1 : id1 < 0
      · simp [tryCreateObjectMaterial, h0, h1] at hcall
        subst hcall
        simp at hsuccess
      · rw [tryCreateObjectMaterial_eq policy r id0 id1 (not_lt.mp h0) (not_lt.mp h1)] at hcall
        cases h : policy.objectMaterials r.objectMaterials with
        | none =>
          rw [h] at hcall
          cases hcall
          simp at hsuccess
        | some outID =>
          rw [h] at hcall
          cases hcall
          exact ⟨outID, rfl, by simp [tryGetObjectMaterialTextures, RecyclablePool_get_set_same]⟩

/-- Witness for C21: in `exampleRenderer` a material of the handles `-1, 2`, of `2, -1` or of
the single handle `-1` is refused, and a material of the texture handles 0 and 1 is created at
material handle 0 and read back. -/
theorem tryCreateObjectMaterial_contract_witness :
    ((-1 : Int) < 0 ∨ (2 : Int) < 0)
    ∧ tryCreateObjectMaterial examplePolicy exampleRenderer (-1) 2
        = some ⟨false, none, exampleRenderer⟩
    ∧ tryCreateObjectMaterial examplePolicy exampleRenderer 2 (-1)
        = some ⟨false, none, exampleRenderer⟩
    ∧ tryCreateObjectMaterialSingle examplePolicy exampleRenderer (-1)
        = some ⟨false, none, exampleRenderer⟩
    ∧ tryCreateObjectMaterial examplePolicy exampleRenderer 0 1
        = some ⟨true, some 0, exampleRendererWithMaterial⟩
    ∧ ∃ outID, some (0 : Int) = some outID
      ∧ tryGetObjectMaterialTextures exampleRendererWithMaterial outID = some ⟨true, 0, 1⟩ := by
  have halloc : examplePolicy.objectMaterials exampleRenderer.objectMaterials = some 0 := by
    simp [examplePolicy, firstFreeHandle, exampleRenderer, RecyclablePool.get,
      RecyclablePool.clear, List.range, List.range.loop, List.find?]
  have hcall : tryCreateObjectMaterial examplePolicy exampleRenderer 0 1
      = some ⟨true, some 0, exampleRendererWithMaterial⟩ := by
    rw [tryCreateObjectMaterial_eq _ _ _ _ (by decide) (by decide), halloc]
    rfl
  exact ⟨by decide,
    (tryCreateObjectMaterial_contract examplePolicy exampleRenderer).1 (-1) 2 (by decide),
    (tryCreateObjectMaterial_contract examplePolicy exampleRenderer).1 2 (-1) (by decide),
    (tryCreateObjectMaterial_contract examplePolicy exampleRenderer).2.1 (-1) (by decide),
    hcall,
    (tryCreateObjectMaterial_contract examplePolicy exampleRenderer).2.2.2 0 1 _ hcall rfl⟩

theorem Buffer2D_copyFrom_get {α : Type} (b : Buffer2D α) (src : List α)
    (hvalid : b.isValid = true) (hlen : src.length = b.get.length) :
    (b.copyFrom src).get = src := by
  cases hdata : b.data with
  | none => simp [Buffer2D.isValid, hdata] at hvalid
  | some cells =>
    have hl : src.length = cells.length := by simpa [Buffer2D.get, hdata] using hlen
    simp [Buffer2D.copyFrom, Buffer2D.get, hdata, hl]

theorem builtTexture_facts (textureBuilder : TextureBuilder) :
    (builtTexture textureBuilder).texels.isValid = true
    ∧ (builtTexture textureBuilder).paletteTexels.isValid = false
    ∧ (builtTexture textureBuilder).texels.width = textureBuilder.width
    ∧ (builtTexture textureBuilder).texels.height = textureBuilder.height
    ∧ (textureBuilder.type = TextureBuilderType.Paletted →
        textureBuilder.palettedTexels.get.length
          = (textureBuilder.width * textureBuilder.height).toNat →
        (builtTexture textureBuilder).texels.get = textureBuilder.palettedTexels.get)
    ∧ (textureBuilder.type = TextureBuilderType.TrueColor →
        (builtTexture textureBuilder).texels.get
          = List.replicate (textureBuilder.width * textureBuilder.height).toNat 0) := by
  cases ht : textureBuilder.type
  · refine ⟨?_, ?_, ?_, ?_, ?_, ?_⟩
    · simp [builtTexture, ht, createdTexture, Buffer2D.copyFrom, Buffer2D.isValid,
        Buffer2D.init, Buffer2D.fill]
    · simp [builtTexture, ht, createdTexture, Buffer.isValid, Buffer.clear]
    · simp [builtTexture, ht, createdTexture, Buffer2D.copyFrom, Buffer2D.init, Buffer2D.fill]
    · simp [builtTexture, ht, createdTexture, Buffer2D.copyFrom, Buffer2D.init, Buffer2D.fill]
    · intro _ hlen
      simp only [builtTexture, ht]
      apply Buffer2D_copyFrom_get
      · simp [createdTexture, Buffer2D.isValid, Buffer2D.init, Buffer2D.fill]
      · rw [hlen]
        simp [createdTexture, Buffer2D.get, Buffer2D.init, Buffer2D.fill]
    · intro h
      cases h
  · refine ⟨?_, ?_, ?_, ?_, ?_, ?_⟩
    · simp [builtTexture, ht, createdTexture, Buffer2D.isValid, Buffer2D.init, Buffer2D.fill]
    · simp [builtTexture, ht, createdTexture, Buffer.isValid, Buffer.clear]
    · simp [builtTexture, ht, createdTexture, Buffer2D.init, Buffer2D.fill]
    · simp [builtTexture, ht, createdTexture, Buffer2D.init, Buffer2D.fill]
    · intro h
      cases h
    · intro _
      simp [builtTexture, ht, createdTexture, Buffer2D.get, Buffer2D.init, Buffer2D.fill]

/-- C23: when the allocation of the texture slot succeeds, `tryCreateObjectTexture(textureBuilder)`
returns true with the allocated handle, and the texture at that handle is an 8-bit texture
(the texel grid is valid, the palette table is not) with the width and height of the builder.
For a paletted builder whose source grid holds `width * height` texels, its texels are the
texels of the builder, element for element in the same order; for a true-color builder every
one of its `width * height` texels is 0. -/
theorem tryCreateObjectTextureFromBuilder_texels (policy : PoolPolicy K)
    (r : SoftwareRenderer K) (textureBuilder : TextureBuilder) (id : Int)
    (halloc : policy.objectTextures r.objectTextures = some id) :
    ∃ result texture, tryCreateObjectTextureFromBuilder policy r textureBuilder = some result
      ∧ result.success = true ∧ result.outID = some id
      ∧ result.renderer.objectTextures.get id = some texture
      ∧ texture.texels.isValid = true ∧ texture.paletteTexels.isValid = false
      ∧ texture.texels.width = textureBuilder.width
      ∧ texture.texels.height = textureBuilder.height
      ∧ (textureBuilder.type = TextureBuilderType.Paletted →
          textureBuilder.palettedTexels.get.length
            = (textureBuilder.width * textureBuilder.height).toNat →
          texture.texels.get = textureBuilder.palettedTexels.get)
      ∧ (textureBuilder.type = TextureBuilderType.TrueColor →
          texture.texels.get
            = List.replicate (textureBuilder.width * textureBuilder.height).toNat 0) := by
  rw [tryCreateObjectTextureFromBuilder_eq, halloc]
  obtain ⟨h1, h2, h3, h4, h5, h6⟩ := builtTexture_facts textureBuilder
  exact ⟨_, builtTexture textureBuilder, rfl, rfl, rfl, RecyclablePool_get_set_same _ _ _,
    h1, h2, h3, h4, h5, h6⟩

/-- Witness for C23: the paletted builder of 2 x 2 texels in `exampleRenderer`, whose lowest free
texture handle is 2. -/
theorem tryCreateObjectTextureFromBuilder_texels_witness :
    examplePolicy.objectTextures exampleRenderer.objectTextures = some 2
    ∧ examplePalettedBuilder.type = TextureBuilderType.Paletted
    ∧ examplePalettedBuilder.palettedTexels.get.length
        = (examplePalettedBuilder.width * examplePalettedBuilder.height).toNat
    ∧ ∃ result texture,
        tryCreateObjectTextureFromBuilder examplePolicy exampleRenderer examplePalettedBuilder
          = some result
      ∧ result.success = true ∧ result.outID = some 2
      ∧ result.renderer.objectTextures.get 2 = some texture
      ∧ texture.texels.width = 2 ∧ texture.texels.height = 2
      ∧ texture.texels.get = [1, 2, 3, 4] := by
  have halloc : examplePolicy.objectTextures exampleRenderer.objectTextures = some 2 := by
    simp [examplePolicy, firstFreeHandle, exampleRenderer, RecyclablePool.get,
      RecyclablePool.set, RecyclablePool.clear, List.range, List.range.loop, List.find?]
  have hlen : examplePalettedBuilder.palettedTexels.get.length
      = (examplePalettedBuilder.width * examplePalettedBuilder.height).toNat := by
    simp [examplePalettedBuilder, Buffer2D.get]
  obtain ⟨result, texture, hcall, hs, hid, hget, _, _, hw, hh, hp, _⟩ :=
    tryCreateObjectTextureFromBuilder_texels examplePolicy exampleRenderer
      examplePalettedBuilder 2 halloc
  exact ⟨halloc, rfl, hlen, result, texture, hcall, hs, hid, hget, hw, hh, hp rfl hlen⟩

/-- C24, as stated, fails: for the true-color builder `exampleTrueColorBuilder` in
`exampleRenderer`, `tryCreateObjectTexture(textureBuilder)` returns true, not false, with the
new handle 2. -/
theorem tryCreateObjectTextureFromBuilder_trueColor_returns_true :
    exampleTrueColorBuilder.type = TextureBuilderType.TrueColor
    ∧ ∃ result,
        tryCreateObjectTextureFromBuilder examplePolicy exampleRenderer exampleTrueColorBuilder
          = some result
      ∧ result.success = true ∧ result.success ≠ false ∧ result.outID = some 2 := by
  have halloc : examplePolicy.objectTextures exampleRenderer.objectTextures = some 2 := by
    simp [examplePolicy, firstFreeHandle, exampleRenderer, RecyclablePool.get,
      RecyclablePool.set, RecyclablePool.clear, List.range, List.range.loop, List.find?]
  refine ⟨rfl, ?_⟩
  rw [tryCreateObjectTextureFromBuilder_eq, halloc]
  exact ⟨_, rfl, rfl, by simp, rfl⟩

/-- C24, amended: for a true-color builder `tryCreateObjectTexture(textureBuilder)` returns true
whenever the texture slot is allocated, and the texture at the new handle holds
`width * height` texels that are all 0; it returns false, with the renderer as it was, exactly
when the allocation fails. -/
theorem tryCreateObjectTextureFromBuilder_trueColor (policy : PoolPolicy K)
    (r : SoftwareRenderer K) (textureBuilder : TextureBuilder)
    (htype : textureBuilder.type = TextureBuilderType.TrueColor) :
    (∀ id : Int, policy.objectTextures r.objectTextures = some id →
      ∃ result texture, tryCreateObjectTextureFromBuilder policy r textureBuilder = some result
        ∧ result.success = true ∧ result.outID = some id
        ∧ result.renderer.objectTextures.get id = some texture
        ∧ texture.texels.get
            = List.replicate (textureBuilder.width * textureBuilder.height).toNat 0)
    ∧ (policy.objectTextures r.objectTextures = none →
        tryCreateObjectTextureFromBuilder policy r textureBuilder = some ⟨false, none, r⟩) := by
  refine ⟨?_, ?_⟩
  · intro id halloc
    rw [tryCreateObjectTextureFromBuilder_eq, halloc]
    exact ⟨_, builtTexture textureBuilder, rfl, rfl, rfl, RecyclablePool_get_set_same _ _ _,
      (builtTexture_facts textureBuilder).2.2.2.2.2 htype⟩
  · intro halloc
    rw [tryCreateObjectTextureFromBuilder_eq, halloc]

/-- Witness for C24, amended: the true-color builder of 2 x 1 texels in `exampleRenderer`, and
the same builder with a policy whose pools are exhausted. -/
theorem tryCreateObjectTextureFromBuilder_trueColor_witness :
    exampleTrueColorBuilder.type = TextureBuilderType.TrueColor
    ∧ examplePolicy.objectTextures exampleRenderer.objectTextures = some 2
    ∧ (∃ result texture,
        tryCreateObjectTextureFromBuilder examplePolicy exampleRenderer exampleTrueColorBuilder
          = some result
        ∧ result.success = true ∧ result.outID = some 2
        ∧ result.renderer.objectTextures.get 2 = some texture
        ∧ texture.texels.get
            = List.replicate (exampleTrueColorBuilder.width * exampleTrueColorBuilder.height).toNat 0)
    ∧ exhaustedPolicy.objectTextures exampleRenderer.objectTextures = none
    ∧ tryCreateObjectTextureFromBuilder exhaustedPolicy exampleRenderer exampleTrueColorBuilder
        = some ⟨false, none, exampleRenderer⟩ := by
  have halloc : examplePolicy.objectTextures exampleRenderer.objectTextures = some 2 := by
    simp [examplePolicy, firstFreeHandle, exampleRenderer, RecyclablePool.get,
      RecyclablePool.set, RecyclablePool.clear, List.range, List.range.loop, List.find?]
  exact ⟨rfl, halloc,
    (tryCreateObjectTextureFromBuilder_trueColor examplePolicy exampleRenderer
      exampleTrueColorBuilder rfl).1 2 halloc,
    rfl,
    (tryCreateObjectTextureFromBuilder_trueColor exhaustedPolicy exampleRenderer
      exampleTrueColorBuilder rfl).2 rfl⟩

end Builder
section Renderer

variable {K : Type} [LinearOrderedField K]

/-- C12: after `resize(W, H)` with `W, H >= 1`, from any renderer state, the depth buffer has
width `W` and height `H`, and its storage is `W * H` cells that all hold `+infinity`. -/
theorem resize_depth_buffer (r : SoftwareRenderer K) (W H : Int) (hW : 1 ≤ W) (hH : 1 ≤ H) :
    (r.resize W H).depthBuffer.width = W
    ∧ (r.resize W H).depthBuffer.height = H
    ∧ (r.resize W H).depthBuffer.isValid = true
    ∧ (((r.resize W H).depthBuffer.get.length : Nat) : Int) = W * H
    ∧ (∀ cell ∈ (r.resize W H).depthBuffer.get, cell = ⊤)
    ∧ (r.resize W H).depthBuffer.get = List.replicate (W * H).toNat ⊤ := by
  have hpos : 0 ≤ W * H := mul_nonneg (by omega) (by omega)
  have hget : (r.resize W H).depthBuffer.get = List.replicate (W * H).toNat ⊤ := by
    simp [resize, Buffer2D.init, Buffer2D.fill, Buffer2D.get]
  refine ⟨rfl, rfl, rfl, ?_, ?_, hget⟩
  · rw [hget, List.length_replicate, Int.toNat_of_nonneg hpos]
  · intro cell hcell
    rw [hget] at hcell
    exact List.eq_of_mem_replicate hcell

/-- Witness for C12: `resize(3, 2)` on `exampleRenderer`. -/
theorem resize_depth_buffer_witness :
    (1 : Int) ≤ 3 ∧ (1 : Int) ≤ 2
    ∧ (exampleRenderer.resize 3 2).depthBuffer.width = 3
    ∧ (exampleRenderer.resize 3 2).depthBuffer.height = 2
    ∧ (exampleRenderer.resize 3 2).depthBuffer.isValid = true
    ∧ ((((exampleRenderer.resize 3 2).depthBuffer.get.length : Nat) : Int) = 3 * 2)
    ∧ (∀ cell ∈ (exampleRenderer.resize 3 2).depthBuffer.get, cell = ⊤)
    ∧ (exampleRenderer.resize 3 2).depthBuffer.get = List.replicate ((3 : Int) * 2).toNat ⊤ :=
  ⟨by decide, by decide, resize_depth_buffer exampleRenderer 3 2 (by decide) (by decide)⟩

theorem tryCreateVertexBuffer_eq (policy : PoolPolicy K) (r : SoftwareRenderer K)
    (vertexCount componentsPerVertex : Int) (hcount : vertexCount > 0)
    (hcomponents : componentsPerVertex ≥ 2) :
    tryCreateVertexBuffer policy r vertexCount componentsPerVertex
      = match policy.vertexBuffers r.vertexBuffers with
        | none => some ⟨false, none, r⟩
        | some id =>
          some ⟨true, some id,
            { r with vertexBuffers := r.vertexBuffers.set id
                       (VertexBuffer.fresh.init vertexCount componentsPerVertex) }⟩ := by
  cases h : policy.vertexBuffers r.vertexBuffers <;>
    simp [tryCreateVertexBuffer, RecyclablePool.tryAlloc, h, hcount, hcomponents,
      RecyclablePool_get_set_same, RecyclablePool_set_set]

theorem tryCreateAttributeBuffer_eq (policy : PoolPolicy K) (r : SoftwareRenderer K)
    (vertexCount componentsPerVertex : Int) (hcount : vertexCount > 0)
    (hcomponents : componentsPerVertex ≥ 2) :
    tryCreateAttributeBuffer policy r vertexCount componentsPerVertex
      = match policy.attributeBuffers r.attributeBuffers with
        | none => some ⟨false, none, r⟩
        | some id =>
          some ⟨true, some id,
            { r with attributeBuffers := r.attributeBuffers.set id
                       (AttributeBuffer.fresh.init vertexCount componentsPerVertex) }⟩ := by
  cases h : policy.attributeBuffers r.attributeBuffers <;>
    simp [tryCreateAttributeBuffer, RecyclablePool.tryAlloc, h, hcount, hcomponents,
      RecyclablePool_get_set_same, RecyclablePool_set_set]

/-- C18: each of `tryCreateVertexBuffer`, `tryCreateAttributeBuffer`, `tryCreateIndexBuffer`,
`tryCreateObjectTexture(width, height, isPalette)` and the two `tryCreateObjectMaterial`
overloads, called with arguments that meet its preconditions, returns false and leaves the
renderer, and so every pool element, as it was when `tryAlloc` of its pool fails, and returns
true with the handle of `tryAlloc` and the initialised element at that handle when `tryAlloc`
succeeds.  In neither case does the call halt. -/
theorem tryCreate_reports_allocation (policy : PoolPolicy K) (r : SoftwareRenderer K) :
    (∀ vertexCount componentsPerVertex : Int, vertexCount > 0 → componentsPerVertex ≥ 2 →
      (policy.vertexBuffers r.vertexBuffers = none →
        tryCreateVertexBuffer policy r vertexCount componentsPerVertex = some ⟨false, none, r⟩)
      ∧ (∀ id, policy.vertexBuffers r.vertexBuffers = some id →
        ∃ result, tryCreateVertexBuffer policy r vertexCount componentsPerVertex = some result
          ∧ result.success = true ∧ result.outID = some id
          ∧ result.renderer.vertexBuffers.get id
            = some (VertexBuffer.fresh.init vertexCount componentsPerVertex)))
    ∧ (∀ vertexCount componentsPerVertex : Int, vertexCount > 0 → componentsPerVertex ≥ 2 →
      (policy.attributeBuffers r.attributeBuffers = none →
        tryCreateAttributeBuffer policy r vertexCount componentsPerVertex
          = some ⟨false, none, r⟩)
      ∧ (∀ id, policy.attributeBuffers r.attributeBuffers = some id →
        ∃ result, tryCreateAttributeBuffer policy r vertexCount componentsPerVertex = some result
          ∧ result.success = true ∧ result.outID = some id
          ∧ result.renderer.attributeBuffers.get id
            = some (AttributeBuffer.fresh.init vertexCount componentsPerVertex)))
    ∧ (∀ indexCount : Int, indexCount > 0 → indexCount % 3 = 0 →
      (policy.indexBuffers r.indexBuffers = none →
        tryCreateIndexBuffer policy r indexCount = some ⟨false, none, r⟩)
      ∧ (∀ id, policy.indexBuffers r.indexBuffers = some id →
        ∃ result, tryCreateIndexBuffer policy r indexCount = some result
          ∧ result.success = true ∧ result.outID = some id
          ∧ result.renderer.indexBuffers.get id = some (IndexBuffer.fresh.init indexCount)))
    ∧ (∀ (width height : Int) (isPalette : Bool), 0 < width → 0 < height →
      (policy.objectTextures r.objectTextures = none →
        tryCreateObjectTexture policy r width height isPalette = some ⟨false, none, r⟩)
      ∧ (∀ id, policy.objectTextures r.objectTextures = some id →
        ∃ result, tryCreateObjectTexture policy r width height isPalette = some result
          ∧ result.success = true ∧ result.outID = some id
          ∧ result.renderer.objectTextures.get id
            = some (createdTexture width height isPalette)))
    ∧ (∀ id0 id1 : Int, 0 ≤ id0 → 0 ≤ id1 →
      (policy.objectMaterials r.objectMaterials = none →
        tryCreateObjectMaterial policy r id0 id1 = some ⟨false, none, r⟩)
      ∧ (∀ id, policy.objectMaterials r.objectMaterials = some id →
        ∃ result, tryCreateObjectMaterial policy r id0 id1 = some result
          ∧ result.success = true ∧ result.outID = some id
          ∧ result.renderer.objectMaterials.get id = some { id0 := id0, id1 := id1 }))
    ∧ (∀ id0 : Int, 0 ≤ id0 →
      (policy.objectMaterials r.objectMaterials = none →
        tryCreateObjectMaterialSingle policy r id0 = some ⟨false, none, r⟩)
      ∧ (∀ id, policy.objectMaterials r.objectMaterials = some id →
        ∃ result, tryCreateObjectMaterialSingle policy r id0 = some result
          ∧ result.success = true ∧ result.outID = some id
          ∧ result.renderer.objectMaterials.get id = some { id0 := id0, id1 := -1 })) := by
  refine ⟨?_, ?_, ?_, ?_, ?_, ?_⟩
  · intro vertexCount componentsPerVertex h1 h2
    rw [tryCreateVertexBuffer_eq policy r vertexCount componentsPerVertex h1 h2]
    refine ⟨fun h => by rw [h], fun id h => ?_⟩
    rw [h]
    exact ⟨_, rfl, rfl, rfl, RecyclablePool_get_set_same _ _ _⟩
  · intro vertexCount componentsPerVertex h1 h2
    rw [tryCreateAttributeBuffer_eq policy r vertexCount componentsPerVertex h1 h2]
    refine ⟨fun h => by rw [h], fun id h => ?_⟩
    rw [h]
    exact ⟨_, rfl, rfl, rfl, RecyclablePool_get_set_same _ _ _⟩
  · intro indexCount h1 h2
    rw [tryCreateIndexBuffer_eq policy r indexCount h1 h2]
    refine ⟨fun h => by rw [h], fun id h => ?_⟩
    rw [h]
    exact ⟨_, rfl, rfl, rfl, RecyclablePool_get_set_same _ _ _⟩
  · intro width height isPalette _ _
    rw [tryCreateObjectTexture_eq policy r width height isPalette]
    refine ⟨fun h => by rw [h], fun id h => ?_⟩
    rw [h]
    exact ⟨_, rfl, rfl, rfl, RecyclablePool_get_set_same _ _ _⟩
  · intro id0 id1 h0 h1
    rw [tryCreateObjectMaterial_eq policy r id0 id1 h0 h1]
    refine ⟨fun h => by rw [h], fun id h => ?_⟩
    rw [h]
    exact ⟨_, rfl, rfl, rfl, RecyclablePool_get_set_same _ _ _⟩
  · intro id0 h0
    rw [tryCreateObjectMaterialSingle_eq policy r id0 h0]
    refine ⟨fun h => by rw [h], fun id h => ?_⟩
    rw [h]
    exact ⟨_, rfl, rfl, rfl, RecyclablePool_get_set_same _ _ _⟩

/-- Witness for C18: in `exampleRenderer` with the policy `examplePolicy` the next vertex buffer
handle is 1, and with a policy whose pools are exhausted the call returns false. -/
theorem tryCreate_reports_allocation_witness :
    (3 : Int) > 0 ∧ (2 : Int) ≥ 2
    ∧ examplePolicy.vertexBuffers exampleRenderer.vertexBuffers = some 1
    ∧ (∃ result, tryCreateVertexBuffer examplePolicy exampleRenderer 3 2 = some result
        ∧ result.success = true ∧ result.outID = some 1
        ∧ result.renderer.vertexBuffers.get 1 = some (VertexBuffer.fresh.init 3 2))
    ∧ exhaustedPolicy.vertexBuffers exampleRenderer.vertexBuffers = none
    ∧ tryCreateVertexBuffer exhaustedPolicy exampleRenderer 3 2
        = some ⟨false, none, exampleRenderer⟩ := by
  have halloc : examplePolicy.vertexBuffers exampleRenderer.vertexBuffers = some 1 := by
    simp [examplePolicy, firstFreeHandle, exampleRenderer, RecyclablePool.get,
      RecyclablePool.set, RecyclablePool.clear, List.range, List.range.loop, List.find?]
  exact ⟨by decide, by decide, halloc,
    ((tryCreate_reports_allocation examplePolicy exampleRenderer).1 3 2 (by decide)
      (by decide)).2 1 halloc,
    rfl,
    ((tryCreate_reports_allocation exhaustedPolicy exampleRenderer).1 3 2 (by decide)
      (by decide)).1 rfl⟩

theorem tryCreateVertexBuffer_success (policy : PoolPolicy K) (r : SoftwareRenderer K)
    (vertexCount componentsPerVertex : Int) (result : TryCreateResult K)
    (hcall : tryCreateVertexBuffer policy r vertexCount componentsPerVertex = some result) :
    vertexCount > 0 ∧ componentsPerVertex ≥ 2
      ∧ (result = ⟨false, none, r⟩
        ∨ ∃ id, result = ⟨true, some id,
            { r with vertexBuffers := r.vertexBuffers.set id
                       (VertexBuffer.fresh.init vertexCount componentsPerVertex) }⟩) := by
  by_cases h1 : vertexCount > 0
  · by_cases h2 : componentsPerVertex ≥ 2
    · refine ⟨h1, h2, ?_⟩
      rw [tryCreateVertexBuffer_eq policy r vertexCount componentsPerVertex h1 h2] at hcall
      cases h : policy.vertexBuffers r.vertexBuffers with
      | none => rw [h] at hcall; exact Or.inl (Option.some.inj hcall).symm
      | some id => rw [h] at hcall; exact Or.inr ⟨id, (Option.some.inj hcall).symm⟩
    · simp [tryCreateVertexBuffer, h1, h2] at hcall
  · simp [tryCreateVertexBuffer, h1] at hcall

theorem tryCreateAttributeBuffer_success (policy : PoolPolicy K) (r : SoftwareRenderer K)
    (vertexCount componentsPerVertex : Int) (result : TryCreateResult K)
    (hcall : tryCreateAttributeBuffer policy r vertexCount componentsPerVertex = some result) :
    vertexCount > 0 ∧ componentsPerVertex ≥ 2
      ∧ (result = ⟨false, none, r⟩
        ∨ ∃ id, result = ⟨true, some id,
            { r with attributeBuffers := r.attributeBuffers.set id
                       (AttributeBuffer.fresh.init vertexCount componentsPerVertex) }⟩) := by
  by_cases h1 : vertexCount > 0
  · by_cases h2 : componentsPerVertex ≥ 2
    · refine ⟨h1, h2, ?_⟩
      rw [tryCreateAttributeBuffer_eq policy r vertexCount componentsPerVertex h1 h2] at hcall
      cases h : policy.attributeBuffers r.attributeBuffers with
      | none => rw [h] at hcall; exact Or.inl (Option.some.inj hcall).symm
      | some id => rw [h] at hcall; exact Or.inr ⟨id, (Option.some.inj hcall).symm⟩
    · simp [tryCreateAttributeBuffer, h1, h2] at hcall
  · simp [tryCreateAttributeBuffer, h1] at hcall

theorem submitFrame_pools [FloorRing K] (env : MathEnv K) (utils : RendererUtils K)
    (r : SoftwareRenderer K) (caches : swGeometry.Caches K) (camera : RenderCamera K)
    (opaqueVoxelTriangles alphaTestedVoxelTriangles entityTriangles : List (RenderTriangle K))
    (settings : RenderFrameSettings) (outputBuffer : List Nat) (frame : SubmittedFrame K)
    (hcall : submitFrame env utils r caches camera opaqueVoxelTriangles
      alphaTestedVoxelTriangles entityTriangles settings outputBuffer = some frame) :
    frame.renderer.vertexBuffers = r.vertexBuffers
      ∧ frame.renderer.attributeBuffers = r.attributeBuffers
      ∧ frame.renderer.indexBuffers = r.indexBuffers
      ∧ frame.renderer.objectTextures = r.objectTextures
      ∧ frame.renderer.objectMaterials = r.objectMaterials := by
  unfold submitFrame at hcall
  split at hcall
  · cases hcall
  · split at hcall
    · cases hcall
    · cases hcall
      exact ⟨rfl, rfl, rfl, rfl, rfl⟩

theorem IndexBuffersWellFormed_reachable [FloorRing K] (policy : PoolPolicy K)
    (r : SoftwareRenderer K) (hr : Reachable policy r) : IndexBuffersWellFormed r := by
  induction hr with
  | constructed =>
    intro id buffer hget
    simp [constructed, RecyclablePool.clear, RecyclablePool.get] at hget
  | init r width height _ ih => exact IndexBuffersWellFormed_of_eq r _ rfl ih
  | shutdown r _ _ =>
    intro id buffer hget
    simp [shutdown, RecyclablePool.clear, RecyclablePool.get] at hget
  | resize r width height _ ih => exact IndexBuffersWellFormed_of_eq r _ rfl ih
  | tryCreateVertexBuffer r vertexCount componentsPerVertex result _ hcall ih =>
    obtain ⟨_, _, h | ⟨id, h⟩⟩ := tryCreateVertexBuffer_success policy r _ _ result hcall <;>
      subst h <;> exact IndexBuffersWellFormed_of_eq r _ rfl ih
  | tryCreateAttributeBuffer r vertexCount componentsPerVertex result _ hcall ih =>
    obtain ⟨_, _, h | ⟨id, h⟩⟩ := tryCreateAttributeBuffer_success policy r _ _ result hcall <;>
      subst h <;> exact IndexBuffersWellFormed_of_eq r _ rfl ih
  | tryCreateIndexBuffer r indexCount result _ hcall ih =>
    obtain ⟨h1, h2, h | ⟨id, h⟩⟩ := tryCreateIndexBuffer_success policy r _ result hcall
    · subst h
      exact ih
    · subst h
      intro other buffer hget
      by_cases hid : other = id
      · subst hid
        have h3 : (r.indexBuffers.set other (IndexBuffer.fresh.init indexCount)).get other
            = some buffer := hget
        rw [RecyclablePool_get_set_same] at h3
        cases h3
        have hc : (IndexBuffer.fresh.init indexCount).indices.getCount = indexCount :=
          Buffer_init_getCount indexCount 0 (le_of_lt h1)
        rw [hc]
        exact ⟨h1, h2⟩
      · have h3 : (r.indexBuffers.set id (IndexBuffer.fresh.init indexCount)).get other
            = some buffer := hget
        rw [RecyclablePool_get_set_other _ _ _ _ hid] at h3
        exact ih other buffer h3
  | populateVertexBuffer r id vertices r2 _ hcall ih =>
    exact IndexBuffersWellFormed_of_eq r _ (populateVertexBuffer_indexBuffers r r2 id _ hcall) ih
  | populateAttributeBuffer r id attributes r2 _ hcall ih =>
    exact IndexBuffersWellFormed_of_eq r _
      (populateAttributeBuffer_indexBuffers r r2 id _ hcall) ih
  | populateIndexBuffer r id indices r2 _ hcall ih =>
    intro other buffer2 hget2
    obtain ⟨buffer, hget, hcount⟩ := populateIndexBuffer_getCount r r2 id indices hcall other
      buffer2 hget2
    rw [hcount]
    exact ih other buffer hget
  | freeVertexBuffer r id _ ih => exact IndexBuffersWellFormed_of_eq r _ rfl ih
  | freeAttributeBuffer r id _ ih => exact IndexBuffersWellFormed_of_eq r _ rfl ih
  | freeIndexBuffer r id _ ih =>
    intro other buffer hget
    by_cases hid : other = id
    · simp [freeIndexBuffer, RecyclablePool.free, RecyclablePool.get, hid] at hget
    · have h3 : r.indexBuffers.get other = some buffer := by
        simpa [freeIndexBuffer, RecyclablePool.free, RecyclablePool.get, hid] using hget
      exact ih other buffer h3
  | tryCreateObjectTexture r width height isPalette result _ hcall ih =>
    exact IndexBuffersWellFormed_of_eq r _
      (tryCreateObjectTexture_indexBuffers policy r _ _ _ result hcall) ih
  | tryCreateObjectTextureFromBuilder r textureBuilder result _ hcall ih =>
    exact IndexBuffersWellFormed_of_eq r _
      (tryCreateObjectTextureFromBuilder_indexBuffers policy r _ result hcall) ih
  | writeLockedTexture r id cells _ ih =>
    exact IndexBuffersWellFormed_of_eq r _ (writeLockedTexture_indexBuffers r id cells) ih
  | tryCreateObjectMaterial r id0 id1 result _ hcall ih =>
    exact IndexBuffersWellFormed_of_eq r _
      (tryCreateObjectMaterial_indexBuffers policy r _ _ result hcall) ih
  | tryCreateObjectMaterialSingle r id result _ hcall ih =>
    exact IndexBuffersWellFormed_of_eq r _
      (tryCreateObjectMaterialSingle_indexBuffers policy r _ result hcall) ih
  | freeObjectTexture r id _ ih => exact IndexBuffersWellFormed_of_eq r _ rfl ih
  | freeObjectMaterial r id _ ih => exact IndexBuffersWellFormed_of_eq r _ rfl ih
  | submitFrame env utils r caches camera o a e settings outputBuffer frame _ hcall ih =>
    exact IndexBuffersWellFormed_of_eq r _
      (submitFrame_pools env utils r caches camera o a e settings outputBuffer frame hcall).2.2.1
      ih

/-- C19, the claim as stated fails: `tryCreateVertexBuffer(65536, 65536)` and
`tryCreateAttributeBuffer(65536, 65536)` on the constructed renderer succeed at handle 0, and
the buffer they leave there holds no value: the `int` product `65536 * 65536` wraps to 0, where
the claim has `65536 * 65536 = 4294967296` values. -/
theorem tryCreateVertexBuffer_count_wraps :
    (∃ result buffer,
      tryCreateVertexBuffer examplePolicy (constructed : SoftwareRenderer ℚ) 65536 65536
        = some result
      ∧ result.success = true
      ∧ result.outID = some 0
      ∧ result.renderer.vertexBuffers.get 0 = some buffer
      ∧ buffer.vertices.getCount = 0
      ∧ buffer.vertices.getCount ≠ (65536 : Int) * 65536)
    ∧ (∃ result buffer,
      tryCreateAttributeBuffer examplePolicy (constructed : SoftwareRenderer ℚ) 65536 65536
        = some result
      ∧ result.success = true
      ∧ result.outID = some 0
      ∧ result.renderer.attributeBuffers.get 0 = some buffer
      ∧ buffer.attributes.getCount = 0
      ∧ buffer.attributes.getCount ≠ (65536 : Int) * 65536) := by
  have hallocV : examplePolicy.vertexBuffers (constructed : SoftwareRenderer ℚ).vertexBuffers
      = some 0 := by
    simp [examplePolicy, firstFreeHandle, constructed, RecyclablePool.get,
      RecyclablePool.clear, List.range, List.range.loop, List.find?]
  have hallocA : examplePolicy.attributeBuffers
      (constructed : SoftwareRenderer ℚ).attributeBuffers = some 0 := by
    simp [examplePolicy, firstFreeHandle, constructed, RecyclablePool.get,
      RecyclablePool.clear, List.range, List.range.loop, List.find?]
  have hwrap : wrapInt 4294967296 = 0 := by decide
  have hcountV : ((VertexBuffer.fresh : VertexBuffer ℚ).init 65536 65536).vertices.getCount
      = 0 := by
    simp [VertexBuffer.init, Buffer.init, Buffer.getCount, Buffer.get, hwrap]
  have hcountA : ((AttributeBuffer.fresh : AttributeBuffer ℚ).init 65536
      65536).attributes.getCount = 0 := by
    simp [AttributeBuffer.init, Buffer.init, Buffer.getCount, Buffer.get, hwrap]
  have hcallV : tryCreateVertexBuffer examplePolicy (constructed : SoftwareRenderer ℚ) 65536
      65536
      = some ⟨true, some 0,
          { (constructed : SoftwareRenderer ℚ) with
            vertexBuffers := (constructed : SoftwareRenderer ℚ).vertexBuffers.set 0
              ((VertexBuffer.fresh : VertexBuffer ℚ).init 65536 65536) }⟩ := by
    rw [tryCreateVertexBuffer_eq examplePolicy _ 65536 65536 (by decide) (by decide), hallocV]
  have hcallA : tryCreateAttributeBuffer examplePolicy (constructed : SoftwareRenderer ℚ) 65536
      65536
      = some ⟨true, some 0,
          { (constructed : SoftwareRenderer ℚ) with
            attributeBuffers := (constructed : SoftwareRenderer ℚ).attributeBuffers.set 0
              ((AttributeBuffer.fresh : AttributeBuffer ℚ).init 65536 65536) }⟩ := by
    rw [tryCreateAttributeBuffer_eq examplePolicy _ 65536 65536 (by decide) (by decide),
      hallocA]
  constructor
  · refine ⟨_, (VertexBuffer.fresh : VertexBuffer ℚ).init 65536 65536, hcallV, rfl, rfl,
      RecyclablePool_get_set_same _ _ _, hcountV, ?_⟩
    rw [hcountV]
    decide
  · refine ⟨_, (AttributeBuffer.fresh : AttributeBuffer ℚ).init 65536 65536, hcallA, rfl, rfl,
      RecyclablePool_get_set_same _ _ _, hcountA, ?_⟩
    rw [hcountA]
    decide

/-- C19, amended: after a successful `tryCreateVertexBuffer` or `tryCreateAttributeBuffer` the
buffer at the returned handle holds as many values as the `int` product
`vertexCount * componentsPerVertex` says: exactly `vertexCount * componentsPerVertex` values when
that product is at most `INT_MAX`.  After a successful `tryCreateIndexBuffer` the buffer holds
exactly `indexCount` indices.  `tryCreateIndexBuffer` only returns when `indexCount > 0` and
`indexCount % 3 = 0`; `populateIndexBuffer` changes the count of no index buffer; and in every
reachable renderer every index buffer of the pool holds a positive multiple of 3 indices. -/
theorem buffer_lengths [FloorRing K] (policy : PoolPolicy K) :
    (∀ (r : SoftwareRenderer K) (vertexCount componentsPerVertex : Int)
        (result : TryCreateResult K),
      tryCreateVertexBuffer policy r vertexCount componentsPerVertex = some result →
      result.success = true →
      ∃ id buffer, result.outID = some id
        ∧ result.renderer.vertexBuffers.get id = some buffer
        ∧ buffer.vertices.getCount
            = ((wrapInt (vertexCount * componentsPerVertex)).toNat : Int)
        ∧ (vertexCount * componentsPerVertex ≤ INT_MAX →
            buffer.vertices.getCount = vertexCount * componentsPerVertex))
    ∧ (∀ (r : SoftwareRenderer K) (vertexCount componentsPerVertex : Int)
        (result : TryCreateResult K),
      tryCreateAttributeBuffer policy r vertexCount componentsPerVertex = some result →
      result.success = true →
      ∃ id buffer, result.outID = some id
        ∧ result.renderer.attributeBuffers.get id = some buffer
        ∧ buffer.attributes.getCount
            = ((wrapInt (vertexCount * componentsPerVertex)).toNat : Int)
        ∧ (vertexCount * componentsPerVertex ≤ INT_MAX →
            buffer.attributes.getCount = vertexCount * componentsPerVertex))
    ∧ (∀ (r : SoftwareRenderer K) (indexCount : Int) (result : TryCreateResult K),
      tryCreateIndexBuffer policy r indexCount = some result →
      (0 < indexCount ∧ indexCount % 3 = 0)
      ∧ (result.success = true →
        ∃ id buffer, result.outID = some id
          ∧ result.renderer.indexBuffers.get id = some buffer
          ∧ buffer.indices.getCount = indexCount))
    ∧ (∀ (r r2 : SoftwareRenderer K) (id : Int) (indices : List Int),
      populateIndexBuffer r id indices = some r2 →
      ∀ (other : Int) (buffer2 : IndexBuffer), r2.indexBuffers.get other = some buffer2 →
        ∃ buffer, r.indexBuffers.get other = some buffer
          ∧ buffer2.indices.getCount = buffer.indices.getCount)
    ∧ (∀ r : SoftwareRenderer K, Reachable policy r → IndexBuffersWellFormed r) := by
  have hfits : ∀ vertexCount componentsPerVertex : Int, vertexCount > 0 →
      componentsPerVertex ≥ 2 → vertexCount * componentsPerVertex ≤ INT_MAX →
      ((wrapInt (vertexCount * componentsPerVertex)).toNat : Int)
        = vertexCount * componentsPerVertex := by
    intro vertexCount componentsPerVertex h1 h2 hmax
    have hpos : 0 ≤ vertexCount * componentsPerVertex :=
      mul_nonneg (le_of_lt h1) (by omega)
    have hmin : INT_MIN ≤ vertexCount * componentsPerVertex :=
      le_trans (by decide) hpos
    rw [wrapInt_of_fits _ hmin hmax]
    exact Int.toNat_of_nonneg hpos
  refine ⟨?_, ?_, ?_, ?_, IndexBuffersWellFormed_reachable policy⟩
  · intro r vertexCount componentsPerVertex result hcall hsuccess
    obtain ⟨h1, h2, h | ⟨id, h⟩⟩ := tryCreateVertexBuffer_success policy r _ _ result hcall
    · subst h
      simp at hsuccess
    · subst h
      have hcount : ((VertexBuffer.fresh : VertexBuffer K).init vertexCount
          componentsPerVertex).vertices.getCount
          = ((wrapInt (vertexCount * componentsPerVertex)).toNat : Int) := by
        simp [VertexBuffer.init, Buffer.init, Buffer.getCount, Buffer.get]
      exact ⟨id, _, rfl, RecyclablePool_get_set_same _ _ _, hcount,
        fun hmax => hcount.trans (hfits _ _ h1 h2 hmax)⟩
  · intro r vertexCount componentsPerVertex result hcall hsuccess
    obtain ⟨h1, h2, h | ⟨id, h⟩⟩ := tryCreateAttributeBuffer_success policy r _ _ result hcall
    · subst h
      simp at hsuccess
    · subst h
      have hcount : ((AttributeBuffer.fresh : AttributeBuffer K).init vertexCount
          componentsPerVertex).attributes.getCount
          = ((wrapInt (vertexCount * componentsPerVertex)).toNat : Int) := by
        simp [AttributeBuffer.init, Buffer.init, Buffer.getCount, Buffer.get]
      exact ⟨id, _, rfl, RecyclablePool_get_set_same _ _ _, hcount,
        fun hmax => hcount.trans (hfits _ _ h1 h2 hmax)⟩
  · intro r indexCount result hcall
    obtain ⟨h1, h2, h | ⟨id, h⟩⟩ := tryCreateIndexBuffer_success policy r _ result hcall
    · subst h
      exact ⟨⟨h1, h2⟩, fun hsuccess => by simp at hsuccess⟩
    · subst h
      exact ⟨⟨h1, h2⟩, fun _ => ⟨id, _, rfl, RecyclablePool_get_set_same _ _ _,
        Buffer_init_getCount _ _ (le_of_lt h1)⟩⟩
  · intro r r2 id indices hcall
    exact populateIndexBuffer_getCount r r2 id indices hcall

/-- Witness for C19: an index buffer of six indices and a vertex buffer of `3 * 2` values, each
created in the constructed renderer. -/
theorem buffer_lengths_witness :
    tryCreateIndexBuffer examplePolicy (constructed : SoftwareRenderer ℚ) 6
        = some ⟨true, some 0, rendererWithIndexBuffer⟩
    ∧ Reachable examplePolicy rendererWithIndexBuffer
    ∧ IndexBuffersWellFormed rendererWithIndexBuffer
    ∧ ((0 : Int) < 6 ∧ (6 : Int) % 3 = 0)
    ∧ (∃ id buffer, some (0 : Int) = some id
        ∧ rendererWithIndexBuffer.indexBuffers.get id = some buffer
        ∧ buffer.indices.getCount = 6)
    ∧ (3 : Int) * 2 ≤ INT_MAX
    ∧ ∃ result buffer,
        tryCreateVertexBuffer examplePolicy (constructed : SoftwareRenderer ℚ) 3 2 = some result
        ∧ result.success = true
        ∧ result.renderer.vertexBuffers.get 0 = some buffer
        ∧ buffer.vertices.getCount = 3 * 2 := by
  have halloc : examplePolicy.indexBuffers (constructed : SoftwareRenderer ℚ).indexBuffers
      = some 0 := by
    simp [examplePolicy, firstFreeHandle, constructed, RecyclablePool.get,
      RecyclablePool.clear, List.range, List.range.loop, List.find?]
  have hallocV : examplePolicy.vertexBuffers (constructed : SoftwareRenderer ℚ).vertexBuffers
      = some 0 := by
    simp [examplePolicy, firstFreeHandle, constructed, RecyclablePool.get,
      RecyclablePool.clear, List.range, List.range.loop, List.find?]
  have hcall : tryCreateIndexBuffer examplePolicy (constructed : SoftwareRenderer ℚ) 6
      = some ⟨true, some 0, rendererWithIndexBuffer⟩ := by
    rw [tryCreateIndexBuffer_eq examplePolicy _ 6 (by decide) (by decide), halloc]
    rfl
  have hcallV : tryCreateVertexBuffer examplePolicy (constructed : SoftwareRenderer ℚ) 3 2
      = some ⟨true, some 0,
          { (constructed : SoftwareRenderer ℚ) with
            vertexBuffers := (constructed : SoftwareRenderer ℚ).vertexBuffers.set 0
              ((VertexBuffer.fresh : VertexBuffer ℚ).init 3 2) }⟩ := by
    rw [tryCreateVertexBuffer_eq examplePolicy _ 3 2 (by decide) (by decide), hallocV]
  have hreach : Reachable examplePolicy rendererWithIndexBuffer :=
    Reachable.tryCreateIndexBuffer constructed 6 ⟨true, some 0, rendererWithIndexBuffer⟩
      Reachable.constructed hcall
  have hmax : (3 : Int) * 2 ≤ INT_MAX := by decide
  have h := buffer_lengths examplePolicy
  have h3 := h.2.2.1 constructed 6 _ hcall
  obtain ⟨id, buffer, hid, hget, _, hcount⟩ := h.1 constructed 3 2 _ hcallV rfl
  have hid2 : id = 0 := (Option.some.inj hid).symm
  subst hid2
  exact ⟨hcall, hreach, h.2.2.2.2 rendererWithIndexBuffer hreach, h3.1, h3.2 rfl, hmax,
    _, buffer, hcallV, rfl, hget, hcount hmax⟩

theorem submitFrame_eq_specifiedFrame [FloorRing K] (env : MathEnv K) (utils : RendererUtils K)
    (r : SoftwareRenderer K) (caches : swGeometry.Caches K) (camera : RenderCamera K)
    (opaqueVoxelTriangles alphaTestedVoxelTriangles entityTriangles : List (RenderTriangle K))
    (settings : RenderFrameSettings) (outputBuffer : List Nat)
    (paletteTexture lightTableTexture : ObjectTexture)
    (hpalette : r.objectTextures.get settings.paletteTextureID = some paletteTexture)
    (hlight : r.objectTextures.get settings.lightTableTextureID = some lightTableTexture) :
    ∃ frame, submitFrame env utils r caches camera opaqueVoxelTriangles
        alphaTestedVoxelTriangles entityTriangles settings outputBuffer = some frame
      ∧ frame.outputBuffer
        = (specifiedFrame env utils r.depthBuffer.width r.depthBuffer.height r.materialOf
            r.textureOf paletteTexture lightTableTexture camera opaqueVoxelTriangles
            alphaTestedVoxelTriangles entityTriangles).1.data
      ∧ frame.renderer.depthBuffer.data
        = r.depthBuffer.data.map (fun _ =>
          (specifiedFrame env utils r.depthBuffer.width r.depthBuffer.height r.materialOf
            r.textureOf paletteTexture lightTableTexture camera opaqueVoxelTriangles
            alphaTestedVoxelTriangles entityTriangles).2.data)
      ∧ frame.renderer.depthBuffer.width = r.depthBuffer.width
      ∧ frame.renderer.depthBuffer.height = r.depthBuffer.height := by
  simp only [submitFrame, hpalette, hlight]
  refine ⟨_, rfl, ?_, ?_, ?_, ?_⟩
  · simp only [specifiedFrame, swRender.ClearFrameBuffers, BufferView2D.fill,
      swGeometry.ProcessTrianglesForRasterization_visible]
  · simp only [specifiedFrame, swRender.ClearFrameBuffers, BufferView2D.fill,
      swGeometry.ProcessTrianglesForRasterization_visible]
  · rfl
  · rfl

theorem specifiedFrame_nil [FloorRing K] (env : MathEnv K) (utils : RendererUtils K)
    (width height : Int) (materials : Int → ObjectMaterial) (textures : Int → ObjectTexture)
    (paletteTexture lightTableTexture : ObjectTexture) (camera : RenderCamera K) :
    specifiedFrame env utils width height materials textures paletteTexture lightTableTexture
        camera [] [] []
      = ({ width := width, height := height,
           data := List.replicate (width * height).toNat Color.Black.toARGB },
         { width := width, height := height,
           data := List.replicate (width * height).toNat ⊤ }) := by
  simp [specifiedFrame, swRender.RasterizeTriangles]

theorem Buffer2D_ext {α : Type} (a b : Buffer2D α) (hw : a.width = b.width)
    (hh : a.height = b.height) (hd : a.data = b.data) : a = b := by
  cases a
  cases b
  simp only [Buffer2D.mk.injEq]
  exact ⟨hw, hh, hd⟩

theorem exampleRenderer_palette :
    exampleRenderer.objectTextures.get exampleSettings.paletteTextureID
      = some examplePaletteTexture := by
  simp [exampleRenderer, exampleSettings, RecyclablePool.get, RecyclablePool.set]

theorem exampleRenderer_lightTable :
    exampleRenderer.objectTextures.get exampleSettings.lightTableTextureID
      = some exampleLightTableTexture := by
  simp [exampleRenderer, exampleSettings, RecyclablePool.get, RecyclablePool.set]

/-- C13: `submitFrame` with three empty triangle lists returns, for every camera, every prior
content of the output buffer and of the depth buffer and every content of the caches, with
every pixel of the output buffer equal to `Color::Black` as ARGB and every cell of the depth
buffer equal to `+infinity`. -/
theorem submitFrame_no_triangles [FloorRing K] (env : MathEnv K) (utils : RendererUtils K)
    (r : SoftwareRenderer K) (caches : swGeometry.Caches K) (camera : RenderCamera K)
    (settings : RenderFrameSettings) (outputBuffer : List Nat)
    (paletteTexture lightTableTexture : ObjectTexture)
    (hpalette : r.objectTextures.get settings.paletteTextureID = some paletteTexture)
    (hlight : r.objectTextures.get settings.lightTableTextureID = some lightTableTexture) :
    ∃ frame, submitFrame env utils r caches camera [] [] [] settings outputBuffer = some frame
      ∧ frame.outputBuffer
        = List.replicate (r.depthBuffer.width * r.depthBuffer.height).toNat Color.Black.toARGB
      ∧ (∀ pixel ∈ frame.outputBuffer, pixel = Color.Black.toARGB)
      ∧ (∀ cell ∈ frame.renderer.depthBuffer.get, cell = ⊤)
      ∧ (r.depthBuffer.isValid = true →
          frame.renderer.depthBuffer.get
            = List.replicate (r.depthBuffer.width * r.depthBuffer.height).toNat ⊤)
      ∧ frame.renderer.depthBuffer.width = r.depthBuffer.width
      ∧ frame.renderer.depthBuffer.height = r.depthBuffer.height := by
  obtain ⟨frame, hcall, hout, hdepth, hw, hh⟩ := submitFrame_eq_specifiedFrame env utils r
    caches camera [] [] [] settings outputBuffer paletteTexture lightTableTexture hpalette
    hlight
  rw [specifiedFrame_nil] at hout hdepth
  refine ⟨frame, hcall, hout, ?_, ?_, ?_, hw, hh⟩
  · intro pixel hpixel
    rw [hout] at hpixel
    exact List.eq_of_mem_replicate hpixel
  · intro cell hcell
    unfold Buffer2D.get at hcell
    rw [hdepth] at hcell
    cases hd : r.depthBuffer.data with
    | none => simp [hd] at hcell
    | some cells =>
      simp only [hd, Option.map_some', Option.getD_some] at hcell
      exact List.eq_of_mem_replicate hcell
  · intro hvalid
    unfold Buffer2D.get
    rw [hdepth]
    cases hd : r.depthBuffer.data with
    | none => simp [Buffer2D.isValid, hd] at hvalid
    | some cells => simp

/-- Witness for C13: `exampleRenderer`, whose depth buffer holds depths 5 and 7, and an output
buffer that holds the colors 1 and 2. -/
theorem submitFrame_no_triangles_witness :
    exampleRenderer.objectTextures.get exampleSettings.paletteTextureID
        = some examplePaletteTexture
    ∧ exampleRenderer.objectTextures.get exampleSettings.lightTableTextureID
        = some exampleLightTableTexture
    ∧ ∃ frame, submitFrame exampleEnv exampleUtils exampleRenderer emptyCaches exampleCamera
          [] [] [] exampleSettings [1, 2] = some frame
      ∧ frame.outputBuffer
        = List.replicate (exampleRenderer.depthBuffer.width
            * exampleRenderer.depthBuffer.height).toNat Color.Black.toARGB
      ∧ (∀ pixel ∈ frame.outputBuffer, pixel = Color.Black.toARGB)
      ∧ (∀ cell ∈ frame.renderer.depthBuffer.get, cell = ⊤)
      ∧ (exampleRenderer.depthBuffer.isValid = true →
          frame.renderer.depthBuffer.get
            = List.replicate (exampleRenderer.depthBuffer.width
                * exampleRenderer.depthBuffer.height).toNat ⊤)
      ∧ frame.renderer.depthBuffer.width = exampleRenderer.depthBuffer.width
      ∧ frame.renderer.depthBuffer.height = exampleRenderer.depthBuffer.height :=
  ⟨exampleRenderer_palette, exampleRenderer_lightTable,
    submitFrame_no_triangles exampleEnv exampleUtils exampleRenderer emptyCaches exampleCamera
      exampleSettings [1, 2] examplePaletteTexture exampleLightTableTexture
      exampleRenderer_palette exampleRenderer_lightTable⟩

/-- C14: the color buffer and the depth buffer that `submitFrame` produces do not depend on what
the output buffer and the depth buffer held before the call, nor on what the caches held: two
runs with the same camera, triangle lists, textures and materials end with the same output
buffer and the same depth buffer. -/
theorem submitFrame_independent_of_prior_buffers [FloorRing K] (env : MathEnv K)
    (utils : RendererUtils K) (r : SoftwareRenderer K) (depth1 depth2 : List (WithTop K))
    (caches1 caches2 : swGeometry.Caches K) (camera : RenderCamera K)
    (opaqueVoxelTriangles alphaTestedVoxelTriangles entityTriangles : List (RenderTriangle K))
    (settings : RenderFrameSettings) (outputBuffer1 outputBuffer2 : List Nat)
    (paletteTexture lightTableTexture : ObjectTexture)
    (hpalette : r.objectTextures.get settings.paletteTextureID = some paletteTexture)
    (hlight : r.objectTextures.get settings.lightTableTextureID = some lightTableTexture) :
    ∃ frame1 frame2,
      submitFrame env utils (r.withDepthContents depth1) caches1 camera opaqueVoxelTriangles
        alphaTestedVoxelTriangles entityTriangles settings outputBuffer1 = some frame1
      ∧ submitFrame env utils (r.withDepthContents depth2) caches2 camera opaqueVoxelTriangles
        alphaTestedVoxelTriangles entityTriangles settings outputBuffer2 = some frame2
      ∧ frame1.outputBuffer = frame2.outputBuffer
      ∧ frame1.renderer.depthBuffer = frame2.renderer.depthBuffer := by
  obtain ⟨frame1, hcall1, hout1, hdepth1, hw1, hh1⟩ := submitFrame_eq_specifiedFrame env utils
    (r.withDepthContents depth1) caches1 camera opaqueVoxelTriangles alphaTestedVoxelTriangles
    entityTriangles settings outputBuffer1 paletteTexture lightTableTexture hpalette hlight
  obtain ⟨frame2, hcall2, hout2, hdepth2, hw2, hh2⟩ := submitFrame_eq_specifiedFrame env utils
    (r.withDepthContents depth2) caches2 camera opaqueVoxelTriangles alphaTestedVoxelTriangles
    entityTriangles settings outputBuffer2 paletteTexture lightTableTexture hpalette hlight
  refine ⟨frame1, frame2, hcall1, hcall2, ?_, ?_⟩
  · rw [hout1, hout2]
    rfl
  · apply Buffer2D_ext
    · rw [hw1, hw2]; rfl
    · rw [hh1, hh2]; rfl
    · rw [hdepth1, hdepth2]
      rfl

/-- Witness for C14: `exampleRenderer` with two different depth contents and two different
output buffers. -/
theorem submitFrame_independent_of_prior_buffers_witness :
    exampleRenderer.objectTextures.get exampleSettings.paletteTextureID
        = some examplePaletteTexture
    ∧ exampleRenderer.objectTextures.get exampleSettings.lightTableTextureID
        = some exampleLightTableTexture
    ∧ ∃ frame1 frame2,
      submitFrame exampleEnv exampleUtils
        (exampleRenderer.withDepthContents [((1 : ℚ) : WithTop ℚ), ⊤]) emptyCaches
        exampleCamera [insideTriangle] [] [cornerTriangle] exampleSettings [1, 2] = some frame1
      ∧ submitFrame exampleEnv exampleUtils
        (exampleRenderer.withDepthContents [⊤, ((9 : ℚ) : WithTop ℚ)]) emptyCaches
        exampleCamera [insideTriangle] [] [cornerTriangle] exampleSettings [7, 8] = some frame2
      ∧ frame1.outputBuffer = frame2.outputBuffer
      ∧ frame1.renderer.depthBuffer = frame2.renderer.depthBuffer :=
  ⟨exampleRenderer_palette, exampleRenderer_lightTable,
    submitFrame_independent_of_prior_buffers exampleEnv exampleUtils exampleRenderer
      [((1 : ℚ) : WithTop ℚ), ⊤] [⊤, ((9 : ℚ) : WithTop ℚ)] emptyCaches emptyCaches
      exampleCamera [insideTriangle] [] [cornerTriangle] exampleSettings [1, 2] [7, 8]
      examplePaletteTexture exampleLightTableTexture exampleRenderer_palette
      exampleRenderer_lightTable⟩

end Renderer

end SoftwareRenderer


namespace SoftwareRenderer

section MaterialPool

variable {K : Type}

theorem populateVertexBuffer_objectMaterials (r r2 : SoftwareRenderer K) (id : Int)
    (vertices : List K) (hcall : populateVertexBuffer r id vertices = some r2) :
    r2.objectMaterials = r.objectMaterials := by
  cases hget : r.vertexBuffers.get id with
  | none => simp [populateVertexBuffer, hget] at hcall
  | some buffer =>
    by_cases hcount : (vertices.length : Int) = buffer.vertices.getCount
    · rw [populateVertexBuffer_of_eq r id buffer vertices hget hcount] at hcall
      cases hcall
      rfl
    · rw [populateVertexBuffer_of_ne r id buffer vertices hget hcount] at hcall
      cases hcall
      rfl

theorem populateAttributeBuffer_objectMaterials (r r2 : SoftwareRenderer K) (id : Int)
    (attributes : List K) (hcall : populateAttributeBuffer r id attributes = some r2) :
    r2.objectMaterials = r.objectMaterials := by
  cases hget : r.attributeBuffers.get id with
  | none => simp [populateAttributeBuffer, hget] at hcall
  | some buffer =>
    by_cases hcount : (attributes.length : Int) = buffer.attributes.getCount
    · rw [populateAttributeBuffer_of_eq r id buffer attributes hget hcount] at hcall
      cases hcall
      rfl
    · rw [populateAttributeBuffer_of_ne r id buffer attributes hget hcount] at hcall
      cases hcall
      rfl

theorem populateIndexBuffer_objectMaterials (r r2 : SoftwareRenderer K) (id : Int)
    (indices : List Int) (hcall : populateIndexBuffer r id indices = some r2) :
    r2.objectMaterials = r.objectMaterials := by
  cases hget : r.indexBuffers.get id with
  | none => simp [populateIndexBuffer, hget] at hcall
  | some buffer =>
    by_cases hcount : (indices.length : Int) = buffer.indices.getCount
    · rw [populateIndexBuffer_of_eq r id buffer indices hget hcount] at hcall
      cases hcall
      rfl
    · rw [populateIndexBuffer_of_ne r id buffer indices hget hcount] at hcall
      cases hcall
      rfl

theorem tryCreateObjectTexture_objectMaterials (policy : PoolPolicy K) (r : SoftwareRenderer K)
    (width height : Int) (isPalette : Bool) (result : TryCreateResult K)
    (hcall : tryCreateObjectTexture policy r width height isPalette = some result) :
    result.renderer.objectMaterials = r.objectMaterials := by
  rw [tryCreateObjectTexture_eq] at hcall
  cases h : policy.objectTextures r.objectTextures <;> rw [h] at hcall <;> cases hcall <;> rfl

theorem tryCreateObjectMaterial_success (policy : PoolPolicy K) (r : SoftwareRenderer K)
    (id0 id1 : Int) (result : TryCreateResult K)
    (hcall : tryCreateObjectMaterial policy r id0 id1 = some result) :
    result = ⟨false, none, r⟩
      ∨ (0 ≤ id0 ∧ 0 ≤ id1 ∧ ∃ id, result = ⟨true, some id,
          { r with objectMaterials := r.objectMaterials.set id { id0 := id0, id1 := id1 } }⟩) := by
  by_cases h0 : 0 ≤ id0
  · by_cases h1 : 0 ≤ id1
    · rw [tryCreateObjectMaterial_eq policy r id0 id1 h0 h1] at hcall
      cases h : policy.objectMaterials r.objectMaterials with
      | none => rw [h] at hcall; exact Or.inl (Option.some.inj hcall).symm
      | some id => rw [h] at hcall; exact Or.inr ⟨h0, h1, id, (Option.some.inj hcall).symm⟩
    · have h1' : id1 < 0 := not_le.mp h1
      simp only [tryCreateObjectMaterial, not_lt.mpr h0, h1', if_true, if_false] at hcall
      exact Or.inl (Option.some.inj hcall).symm
  · have h0' : id0 < 0 := not_le.mp h0
    simp only [tryCreateObjectMaterial, h0', if_true] at hcall
    exact Or.inl (Option.some.inj hcall).symm

theorem tryCreateObjectMaterialSingle_success (policy : PoolPolicy K) (r : SoftwareRenderer K)
    (id : Int) (result : TryCreateResult K)
    (hcall : tryCreateObjectMaterialSingle policy r id = some result) :
    result = ⟨false, none, r⟩
      ∨ (0 ≤ id ∧ ∃ outID, result = ⟨true, some outID,
          { r with objectMaterials := r.objectMaterials.set outID { id0 := id, id1 := -1 } }⟩) := by
  by_cases h0 : 0 ≤ id
  · rw [tryCreateObjectMaterialSingle_eq policy r id h0] at hcall
    cases h : policy.objectMaterials r.objectMaterials with
    | none => rw [h] at hcall; exact Or.inl (Option.some.inj hcall).symm
    | some outID => rw [h] at hcall; exact Or.inr ⟨h0, outID, (Option.some.inj hcall).symm⟩
  · have h0' : id < 0 := not_le.mp h0
    simp only [tryCreateObjectMaterialSingle, h0', if_true] at hcall
    exact Or.inl (Option.some.inj hcall).symm

theorem RecyclablePool_get_free_same {ElementT : Type} (pool : RecyclablePool ElementT)
    (id : Int) : (pool.free id).get id = none := by
  simp [RecyclablePool.free, RecyclablePool.get]

theorem RecyclablePool_get_free_other {ElementT : Type} (pool : RecyclablePool ElementT)
    (id other : Int) (h : other ≠ id) : (pool.free id).get other = pool.get other := by
  simp [RecyclablePool.free, RecyclablePool.get, h]

theorem RecyclablePool_get_clear {ElementT : Type} (id : Int) :
    (RecyclablePool.clear : RecyclablePool ElementT).get id = none := rfl

end MaterialPool

section Queries

variable {K : Type} [LinearOrderedField K]

theorem materials_main_handle_reachable [FloorRing K] (policy : PoolPolicy K)
    (r : SoftwareRenderer K) (hr : Reachable policy r) :
    ∀ (id : Int) (material : ObjectMaterial), r.objectMaterials.get id = some material →
      0 ≤ material.id0 := by
  have keep : ∀ (a b : SoftwareRenderer K), b.objectMaterials = a.objectMaterials →
      (∀ (id : Int) (material : ObjectMaterial), a.objectMaterials.get id = some material →
        0 ≤ material.id0) →
      ∀ (id : Int) (material : ObjectMaterial), b.objectMaterials.get id = some material →
        0 ≤ material.id0 := by
    intro a b h ha id material hget
    rw [h] at hget
    exact ha id material hget
  have added : ∀ (a : SoftwareRenderer K) (slot : Int) (created : ObjectMaterial),
      0 ≤ created.id0 →
      (∀ (id : Int) (material : ObjectMaterial), a.objectMaterials.get id = some material →
        0 ≤ material.id0) →
      ∀ (id : Int) (material : ObjectMaterial),
        (a.objectMaterials.set slot created).get id = some material → 0 ≤ material.id0 := by
    intro a slot created hc ha id material hget
    by_cases hid : id = slot
    · subst hid
      rw [RecyclablePool_get_set_same] at hget
      cases hget
      exact hc
    · rw [RecyclablePool_get_set_other _ _ _ _ hid] at hget
      exact ha id material hget
  induction hr with
  | constructed =>
    intro id material hget
    simp [constructed, RecyclablePool.clear, RecyclablePool.get] at hget
  | init r width height _ ih => exact keep r _ rfl ih
  | shutdown r _ ih => exact keep r _ rfl ih
  | resize r width height _ ih => exact keep r _ rfl ih
  | tryCreateVertexBuffer r vertexCount componentsPerVertex result _ hcall ih =>
    obtain ⟨_, _, h | ⟨id, h⟩⟩ := tryCreateVertexBuffer_success policy r _ _ result hcall <;>
      subst h <;> exact keep r _ rfl ih
  | tryCreateAttributeBuffer r vertexCount componentsPerVertex result _ hcall ih =>
    obtain ⟨_, _, h | ⟨id, h⟩⟩ := tryCreateAttributeBuffer_success policy r _ _ result hcall <;>
      subst h <;> exact keep r _ rfl ih
  | tryCreateIndexBuffer r indexCount result _ hcall ih =>
    obtain ⟨_, _, h | ⟨id, h⟩⟩ := tryCreateIndexBuffer_success policy r _ result hcall <;>
      subst h <;> exact keep r _ rfl ih
  | populateVertexBuffer r id vertices r2 _ hcall ih =>
    exact keep r _ (populateVertexBuffer_objectMaterials r r2 id _ hcall) ih
  | populateAttributeBuffer r id attributes r2 _ hcall ih =>
    exact keep r _ (populateAttributeBuffer_objectMaterials r r2 id _ hcall) ih
  | populateIndexBuffer r id indices r2 _ hcall ih =>
    exact keep r _ (populateIndexBuffer_objectMaterials r r2 id _ hcall) ih
  | freeVertexBuffer r id _ ih => exact keep r _ rfl ih
  | freeAttributeBuffer r id _ ih => exact keep r _ rfl ih
  | freeIndexBuffer r id _ ih => exact keep r _ rfl ih
  | tryCreateObjectTexture r width height isPalette result _ hcall ih =>
    exact keep r _ (tryCreateObjectTexture_objectMaterials policy r _ _ _ result hcall) ih
  | tryCreateObjectTextureFromBuilder r textureBuilder result _ hcall ih =>
    exact keep r _ (tryCreateObjectTextureFromBuilder_objectMaterials policy r _ result hcall) ih
  | writeLockedTexture r id cells _ ih =>
    exact keep r _ (writeLockedTexture_objectMaterials r id cells) ih
  | tryCreateObjectMaterial r id0 id1 result _ hcall ih =>
    rcases tryCreateObjectMaterial_success policy r id0 id1 result hcall with
      h | ⟨h0, _, slot, h⟩
    · subst h
      exact ih
    · subst h
      exact added r slot _ h0 ih
  | tryCreateObjectMaterialSingle r id result _ hcall ih =>
    rcases tryCreateObjectMaterialSingle_success policy r id result hcall with
      h | ⟨h0, slot, h⟩
    · subst h
      exact ih
    · subst h
      exact added r slot _ h0 ih
  | freeObjectTexture r id _ ih => exact keep r _ rfl ih
  | freeObjectMaterial r id _ ih =>
    intro other material hget
    by_cases hid : other = id
    · subst hid
      have h2 : (r.objectMaterials.free other).get other = some material := hget
      rw [RecyclablePool_get_free_same] at h2
      cases h2
    · have h2 : (r.objectMaterials.free id).get other = some material := hget
      rw [RecyclablePool_get_free_other _ _ _ hid] at h2
      exact ih other material h2
  | submitFrame env utils r caches camera o a e settings outputBuffer frame _ hcall ih =>
    exact keep r _
      (submitFrame_pools env utils r caches camera o a e settings outputBuffer frame
        hcall).2.2.2.2 ih

/-- C22, as stated, fails.  In the constructed renderer, which holds no texture,
`tryCreateObjectMaterial(5, 7)` succeeds, and the material at the new handle 0 references the
texture handle 5, which is not allocated.  And after a texture was created at handle 0 and a
material of that texture at material handle 0, a state in which every material references
allocated textures, `freeObjectTexture(0)` leaves the material in the pool while its texture
slot is not allocated any more. -/
theorem materials_can_reference_unallocated_textures :
    (tryCreateObjectMaterial examplePolicy constructed 5 7
        = some ⟨true, some 0, rendererWithDanglingMaterial⟩
      ∧ Reachable examplePolicy rendererWithDanglingMaterial
      ∧ rendererWithDanglingMaterial.objectMaterials.get 0 = some ⟨5, 7⟩
      ∧ rendererWithDanglingMaterial.objectTextures.get 5 = none
      ∧ ¬ MaterialsReferenceAllocatedTextures rendererWithDanglingMaterial)
    ∧ (tryCreateObjectTexture examplePolicy constructed 1 1 false
        = some ⟨true, some 0, rendererWithOneTexture⟩
      ∧ tryCreateObjectMaterial examplePolicy rendererWithOneTexture 0 0
        = some ⟨true, some 0, rendererWithOneMaterial⟩
      ∧ MaterialsReferenceAllocatedTextures rendererWithOneMaterial
      ∧ Reachable examplePolicy (rendererWithOneMaterial.freeObjectTexture 0)
      ∧ (rendererWithOneMaterial.freeObjectTexture 0).objectMaterials.get 0 = some ⟨0, 0⟩
      ∧ (rendererWithOneMaterial.freeObjectTexture 0).objectTextures.get 0 = none
      ∧ ¬ MaterialsReferenceAllocatedTextures (rendererWithOneMaterial.freeObjectTexture 0)) := by
  have halloc : ∀ (ElementT : Type),
      firstFreeHandle (RecyclablePool.clear : RecyclablePool ElementT) = some 0 := by
    intro ElementT
    simp [firstFreeHandle, RecyclablePool.get, RecyclablePool.clear, List.range,
      List.range.loop, List.find?]
  have hdangling : tryCreateObjectMaterial examplePolicy (constructed : SoftwareRenderer ℚ) 5 7
      = some ⟨true, some 0, rendererWithDanglingMaterial⟩ := by
    rw [tryCreateObjectMaterial_eq _ _ _ _ (by decide) (by decide)]
    have h : examplePolicy.objectMaterials (constructed : SoftwareRenderer ℚ).objectMaterials
        = some 0 := halloc ObjectMaterial
    rw [h]
    rfl
  have htex : tryCreateObjectTexture examplePolicy (constructed : SoftwareRenderer ℚ) 1 1 false
      = some ⟨true, some 0, rendererWithOneTexture⟩ := by
    rw [tryCreateObjectTexture_eq]
    have h : examplePolicy.objectTextures (constructed : SoftwareRenderer ℚ).objectTextures
        = some 0 := halloc ObjectTexture
    rw [h]
    rfl
  have hmat : tryCreateObjectMaterial examplePolicy rendererWithOneTexture 0 0
      = some ⟨true, some 0, rendererWithOneMaterial⟩ := by
    rw [tryCreateObjectMaterial_eq _ _ _ _ (by decide) (by decide)]
    have h : examplePolicy.objectMaterials rendererWithOneTexture.objectMaterials = some 0 :=
      halloc ObjectMaterial
    rw [h]
    rfl
  have hreach0 : Reachable examplePolicy (constructed : SoftwareRenderer ℚ) :=
    Reachable.constructed
  have hreach1 : Reachable examplePolicy rendererWithOneTexture :=
    Reachable.tryCreateObjectTexture _ 1 1 false _ hreach0 htex
  have hreach2 : Reachable examplePolicy rendererWithOneMaterial :=
    Reachable.tryCreateObjectMaterial _ 0 0 _ hreach1 hmat
  refine ⟨⟨hdangling, Reachable.tryCreateObjectMaterial _ 5 7 _ hreach0 hdangling,
    RecyclablePool_get_set_same _ _ _, rfl, ?_⟩,
    ⟨htex, hmat, ?_, Reachable.freeObjectTexture _ 0 hreach2,
      RecyclablePool_get_set_same _ _ _, RecyclablePool_get_free_same _ _, ?_⟩⟩
  · intro hall
    have h := (hall 0 ⟨5, 7⟩ (RecyclablePool_get_set_same _ _ _)).1.2
    simp [rendererWithDanglingMaterial, constructed, RecyclablePool.clear, RecyclablePool.get]
      at h
  · intro id material hget
    by_cases hid : id = 0
    · subst hid
      have h2 : ((RecyclablePool.clear : RecyclablePool ObjectMaterial).set 0
          { id0 := 0, id1 := 0 }).get 0 = some material := hget
      rw [RecyclablePool_get_set_same] at h2
      cases h2
      simp [rendererWithOneMaterial, rendererWithOneTexture, RecyclablePool.set,
        RecyclablePool.get]
    · have h2 : ((RecyclablePool.clear : RecyclablePool ObjectMaterial).set 0
          { id0 := 0, id1 := 0 }).get id = some material := hget
      rw [RecyclablePool_get_set_other _ _ _ _ hid] at h2
      simp [RecyclablePool.clear, RecyclablePool.get] at h2
  · intro hall
    have h := (hall 0 ⟨0, 0⟩ (RecyclablePool_get_set_same _ _ _)).1.2
    simp [freeObjectTexture, RecyclablePool.free, RecyclablePool.get] at h

/-- C22, amended: in every reachable renderer state every material of the material pool has a
non-negative main texture handle `id0`; `tryCreateObjectMaterial(id0, id1)` returns true only
for `id0 >= 0` and `id1 >= 0`, and `tryCreateObjectMaterial(id)` only for `id >= 0`.  Whether
the handles are allocated in the object texture pool is not checked by any method. -/
theorem materials_reference_nonnegative_handles [FloorRing K] (policy : PoolPolicy K) :
    (∀ r : SoftwareRenderer K, Reachable policy r →
      ∀ (id : Int) (material : ObjectMaterial), r.objectMaterials.get id = some material →
        0 ≤ material.id0)
    ∧ (∀ (r : SoftwareRenderer K) (id0 id1 : Int) (result : TryCreateResult K),
        tryCreateObjectMaterial policy r id0 id1 = some result → result.success = true →
        0 ≤ id0 ∧ 0 ≤ id1)
    ∧ (∀ (r : SoftwareRenderer K) (id : Int) (result : TryCreateResult K),
        tryCreateObjectMaterialSingle policy r id = some result → result.success = true →
        0 ≤ id) := by
  refine ⟨fun r hr => materials_main_handle_reachable policy r hr, ?_, ?_⟩
  · intro r id0 id1 result hcall hsuccess
    rcases tryCreateObjectMaterial_success policy r id0 id1 result hcall with h | ⟨h0, h1, _⟩
    · subst h
      simp at hsuccess
    · exact ⟨h0, h1⟩
  · intro r id result hcall hsuccess
    rcases tryCreateObjectMaterialSingle_success policy r id result hcall with h | ⟨h0, _⟩
    · subst h
      simp at hsuccess
    · exact h0

/-- Witness for C22, amended: the renderer reached from the constructed one by creating the
material of the texture handles 5 and 7. -/
theorem materials_reference_nonnegative_handles_witness :
    tryCreateObjectMaterial examplePolicy constructed 5 7
        = some ⟨true, some 0, rendererWithDanglingMaterial⟩
    ∧ Reachable examplePolicy rendererWithDanglingMaterial
    ∧ rendererWithDanglingMaterial.objectMaterials.get 0 = some ⟨5, 7⟩
    ∧ (0 : Int) ≤ (⟨5, 7⟩ : ObjectMaterial).id0
    ∧ ((0 : Int) ≤ 5 ∧ (0 : Int) ≤ 7) := by
  have halloc : examplePolicy.objectMaterials (constructed : SoftwareRenderer ℚ).objectMaterials
      = some 0 := by
    simp [examplePolicy, constructed, firstFreeHandle, RecyclablePool.get, RecyclablePool.clear,
      List.range, List.range.loop, List.find?]
  have hcall : tryCreateObjectMaterial examplePolicy (constructed : SoftwareRenderer ℚ) 5 7
      = some ⟨true, some 0, rendererWithDanglingMaterial⟩ := by
    rw [tryCreateObjectMaterial_eq _ _ _ _ (by decide) (by decide), halloc]
    rfl
  have hreach : Reachable examplePolicy rendererWithDanglingMaterial :=
    Reachable.tryCreateObjectMaterial _ 5 7 _
      (Reachable.constructed : Reachable examplePolicy (constructed : SoftwareRenderer ℚ)) hcall
  exact ⟨hcall, hreach, RecyclablePool_get_set_same _ _ _,
    (materials_reference_nonnegative_handles examplePolicy).1 _ hreach 0 ⟨5, 7⟩
      (RecyclablePool_get_set_same _ _ _),
    (materials_reference_nonnegative_handles examplePolicy).2.1 _ 5 7 _ hcall rfl⟩

/-- C25: with `pixelPerfect = false`, `tryGetEntitySelectionData` returns true for every
renderer state, every `uv`, every texture handle (allocated or not) and every prior value of
`*outIsSelected`, and sets `*outIsSelected` to exactly
`0 <= uv.x <= 1 and 0 <= uv.y <= 1`; no texture is read. -/
theorem tryGetEntitySelectionData_bounding_box [FloorRing K] (r : SoftwareRenderer K)
    (uv : Double2 K) (textureID : Int) (outIsSelected : Bool) :
    tryGetEntitySelectionData r uv textureID false outIsSelected
      = some ⟨true, decide ((0 ≤ uv.x ∧ uv.x ≤ 1) ∧ (0 ≤ uv.y ∧ uv.y ≤ 1))⟩ := by
  simp [tryGetEntitySelectionData, Bool.decide_and, Bool.and_assoc]

/-- C26: with `pixelPerfect = true` and an allocated texture handle, let
`tx = trunc(uv.x * width)` and `ty = trunc(uv.y * height)`, truncated towards zero.  When
`tx < 0`, `tx >= width`, `ty < 0` or `ty >= height`, `tryGetEntitySelectionData` returns false
and `*outIsSelected` keeps its prior value; otherwise it returns true and sets `*outIsSelected`
to whether the texel at `(tx, ty)`, the cell `tx + ty * width` of the row-major grid, is not
0. -/
theorem tryGetEntitySelectionData_pixel_perfect [FloorRing K] (r : SoftwareRenderer K)
    (uv : Double2 K) (textureID : Int) (outIsSelected : Bool) (texture : ObjectTexture)
    (hget : r.objectTextures.get textureID = some texture) :
    ((staticCastInt (uv.x * (texture.texels.width : K)) < 0
        ∨ staticCastInt (uv.x * (texture.texels.width : K)) ≥ texture.texels.width
        ∨ staticCastInt (uv.y * (texture.texels.height : K)) < 0
        ∨ staticCastInt (uv.y * (texture.texels.height : K)) ≥ texture.texels.height) →
      tryGetEntitySelectionData r uv textureID true outIsSelected
        = some ⟨false, outIsSelected⟩)
    ∧ (¬ (staticCastInt (uv.x * (texture.texels.width : K)) < 0
        ∨ staticCastInt (uv.x * (texture.texels.width : K)) ≥ texture.texels.width
        ∨ staticCastInt (uv.y * (texture.texels.height : K)) < 0
        ∨ staticCastInt (uv.y * (texture.texels.height : K)) ≥ texture.texels.height) →
      tryGetEntitySelectionData r uv textureID true outIsSelected
        = some ⟨true, decide (readAt texture.texels.get
            (staticCastInt (uv.x * (texture.texels.width : K))
              + staticCastInt (uv.y * (texture.texels.height : K)) * texture.texels.width) 0
            ≠ 0)⟩) := by
  constructor
  · intro h
    simp only [tryGetEntitySelectionData, hget, if_true]
    rw [if_pos h]
  · intro h
    simp only [tryGetEntitySelectionData, hget, if_true]
    rw [if_neg h]
    rfl

/-- Witness for C26: the light table of `exampleRenderer`, a grid of 4 x 1 texels `0, 1, 2, 3`
at texture handle 1.  The point `uv = (1/2, 0)` falls on the texel `(2, 0)`, which holds 2; the
point `uv = (3/2, 0)` gives `tx = 6`, outside the grid, and the prior value `true` is kept; the
point `uv = (-1/8, 0)` gives `tx = trunc(-1/2) = 0`, the texel `(0, 0)`, which holds 0. -/
theorem tryGetEntitySelectionData_pixel_perfect_witness :
    exampleRenderer.objectTextures.get 1 = some exampleLightTableTexture
    ∧ tryGetEntitySelectionData exampleRenderer (⟨1 / 2, 0⟩ : Double2 ℚ) 1 true false
        = some ⟨true, true⟩
    ∧ tryGetEntitySelectionData exampleRenderer (⟨3 / 2, 0⟩ : Double2 ℚ) 1 true true
        = some ⟨false, true⟩
    ∧ tryGetEntitySelectionData exampleRenderer (⟨-1 / 8, 0⟩ : Double2 ℚ) 1 true true
        = some ⟨true, false⟩ := by
  have hget : exampleRenderer.objectTextures.get 1 = some exampleLightTableTexture :=
    RecyclablePool_get_set_same _ _ _
  have h1 := (tryGetEntitySelectionData_pixel_perfect exampleRenderer (⟨1 / 2, 0⟩ : Double2 ℚ)
    1 false exampleLightTableTexture hget).2
    (by norm_num [exampleLightTableTexture, staticCastInt, truncTowardZero, INT_MIN, INT_MAX])
  have h2 := (tryGetEntitySelectionData_pixel_perfect exampleRenderer (⟨3 / 2, 0⟩ : Double2 ℚ)
    1 true exampleLightTableTexture hget).1
    (by norm_num [exampleLightTableTexture, staticCastInt, truncTowardZero, INT_MIN, INT_MAX])
  have hceil : ⌈(-(1 / 2) : ℚ)⌉ = 0 := by
    rw [Int.ceil_eq_iff]
    norm_num
  have h3 := (tryGetEntitySelectionData_pixel_perfect exampleRenderer (⟨-1 / 8, 0⟩ : Double2 ℚ)
    1 true exampleLightTableTexture hget).2
    (by norm_num [exampleLightTableTexture, staticCastInt, truncTowardZero, INT_MIN, INT_MAX, hceil])
  refine ⟨hget, ?_, h2, ?_⟩
  · rw [h1]
    norm_num [exampleLightTableTexture, staticCastInt, truncTowardZero, INT_MIN, INT_MAX, readAt, Buffer2D.get]
    decide
  · rw [h3]
    norm_num [exampleLightTableTexture, staticCastInt, truncTowardZero, INT_MIN, INT_MAX, readAt, Buffer2D.get, hceil]

theorem submitFrame_caches [FloorRing K] (env : MathEnv K) (utils : RendererUtils K)
    (r : SoftwareRenderer K) (caches : swGeometry.Caches K) (camera : RenderCamera K)
    (opaqueVoxelTriangles alphaTestedVoxelTriangles entityTriangles : List (RenderTriangle K))
    (settings : RenderFrameSettings) (outputBuffer : List Nat) (frame : SubmittedFrame K)
    (hcall : submitFrame env utils r caches camera opaqueVoxelTriangles
      alphaTestedVoxelTriangles entityTriangles settings outputBuffer = some frame) :
    (frame.renderer.depthBuffer.width = r.depthBuffer.width
      ∧ frame.renderer.depthBuffer.height = r.depthBuffer.height)
    ∧ (frame.caches.g_totalOpaqueVoxelTriangleCount = opaqueVoxelTriangles.length
      ∧ frame.caches.g_totalAlphaTestedVoxelTriangleCount = alphaTestedVoxelTriangles.length
      ∧ frame.caches.g_totalEntityTriangleCount = entityTriangles.length)
    ∧ (frame.caches.g_visibleOpaqueVoxelTriangles
        = visibleTriangles env camera opaqueVoxelTriangles
      ∧ frame.caches.g_visibleAlphaTestedVoxelTriangles
        = visibleTriangles env camera alphaTestedVoxelTriangles
      ∧ frame.caches.g_visibleEntityTriangles
        = visibleTriangles env camera entityTriangles) := by
  unfold submitFrame at hcall
  split at hcall
  · cases hcall
  · split at hcall
    · cases hcall
    · cases hcall
      refine ⟨⟨rfl, rfl⟩, ⟨rfl, rfl, rfl⟩, ?_, ?_, ?_⟩ <;>
        exact swGeometry.ProcessTrianglesForRasterization_visible env camera _ _ _

/-- C27: after `submitFrame` returned, `getProfilerData` reports the width and height of the
depth buffer (which `submitFrame` leaves as they were), thread count 1, as the pre-clip
triangle count the sum of the lengths of the three submitted triangle lists, as the visible
triangle count the sum of the lengths of the three visible lists (of each class the triangles
that pass the back-face test, clipped against the five planes), and visible light count 0. -/
theorem getProfilerData_after_submitFrame [FloorRing K] (env : MathEnv K)
    (utils : RendererUtils K) (r : SoftwareRenderer K) (caches : swGeometry.Caches K)
    (camera : RenderCamera K)
    (opaqueVoxelTriangles alphaTestedVoxelTriangles entityTriangles : List (RenderTriangle K))
    (settings : RenderFrameSettings) (outputBuffer : List Nat) (frame : SubmittedFrame K)
    (hcall : submitFrame env utils r caches camera opaqueVoxelTriangles
      alphaTestedVoxelTriangles entityTriangles settings outputBuffer = some frame) :
    getProfilerData frame.renderer frame.caches
      = { width := frame.renderer.depthBuffer.width,
          height := frame.renderer.depthBuffer.height,
          threadCount := 1,
          potentiallyVisTriangleCount :=
            (opaqueVoxelTriangles.length : Int) + (alphaTestedVoxelTriangles.length : Int)
              + (entityTriangles.length : Int),
          visTriangleCount :=
            (((visibleTriangles env camera opaqueVoxelTriangles).length
              + (visibleTriangles env camera alphaTestedVoxelTriangles).length
              + (visibleTriangles env camera entityTriangles).length : Nat) : Int),
          visLightCount := 0 }
    ∧ frame.renderer.depthBuffer.width = r.depthBuffer.width
    ∧ frame.renderer.depthBuffer.height = r.depthBuffer.height
    ∧ frame.caches.g_visibleOpaqueVoxelTriangles
        = visibleTriangles env camera opaqueVoxelTriangles
    ∧ frame.caches.g_visibleAlphaTestedVoxelTriangles
        = visibleTriangles env camera alphaTestedVoxelTriangles
    ∧ frame.caches.g_visibleEntityTriangles = visibleTriangles env camera entityTriangles := by
  obtain ⟨⟨hw, hh⟩, ⟨c1, c2, c3⟩, v1, v2, v3⟩ := submitFrame_caches env utils r caches camera
    opaqueVoxelTriangles alphaTestedVoxelTriangles entityTriangles settings outputBuffer frame
    hcall
  refine ⟨?_, hw, hh, v1, v2, v3⟩
  simp only [getProfilerData, c1, c2, c3, v1, v2, v3]

theorem clipTriangleAgainstPlanes_all_inside (env : MathEnv K) (eye : Double3 K)
    (triangle : RenderTriangle K) (planes : List (swGeometry.ClippingPlane K))
    (hinside : ∀ plane ∈ planes, ∀ v ∈ triangle.vertices,
      MathUtils.distanceToPlane v plane.point plane.normal ≥ 0) :
    swGeometry.clipTriangleAgainstPlanes env eye planes triangle = [triangle] := by
  unfold swGeometry.clipTriangleAgainstPlanes
  induction planes with
  | nil => rfl
  | cons p ps ih =>
    have h1 := swGeometry.ClipTriangle_all_inside env triangle eye p.point p.normal
      (hinside p (List.mem_cons_self _ _))
    have hstep : swGeometry.clipListAgainstPlane env eye p [triangle].length [triangle]
        = [triangle] := by
      rw [swGeometry.clipListAgainstPlane_length]
      simp [swGeometry.clipStep, h1, swGeometry.TriangleClipResult.emitted,
        swGeometry.TriangleClipResult.one]
    rw [List.foldl_cons, hstep]
    exact ih (fun q hq => hinside q (List.mem_cons_of_mem _ hq))

/-- Witness for C27: a frame of `exampleRenderer`, whose depth buffer is 2 x 1, with
`insideTriangle` in the opaque class and `cornerTriangle` in the entity class.  The first is
visible as it is; the second fails the back-face test of `exampleCamera` and still counts as
submitted. -/
theorem getProfilerData_after_submitFrame_witness :
    visibleTriangles exampleEnv exampleCamera [insideTriangle] = [insideTriangle]
    ∧ visibleTriangles exampleEnv exampleCamera [cornerTriangle] = []
    ∧ ∃ frame, submitFrame exampleEnv exampleUtils exampleRenderer emptyCaches exampleCamera
        [insideTriangle] [] [cornerTriangle] exampleSettings [1, 2] = some frame
      ∧ getProfilerData frame.renderer frame.caches
        = { width := 2, height := 1, threadCount := 1, potentiallyVisTriangleCount := 2,
            visTriangleCount := 1, visLightCount := 0 } := by
  have hinside : ∀ plane ∈ swGeometry.clippingPlanes exampleEnv exampleCamera,
      ∀ v ∈ insideTriangle.vertices,
        MathUtils.distanceToPlane v plane.point plane.normal ≥ 0 := by
    intro plane hplane v hv
    rw [swGeometry.exampleCamera_clippingPlanes] at hplane
    simp only [List.mem_cons, List.mem_singleton, List.not_mem_nil, or_false] at hplane
    simp only [RenderTriangle.vertices, insideTriangle, List.mem_cons, List.mem_singleton,
      List.not_mem_nil, or_false] at hv
    rcases hplane with rfl | rfl | rfl | rfl | rfl <;> rcases hv with rfl | rfl | rfl <;>
      norm_num [MathUtils.distanceToPlane, Double3.dot, Double3_sub_def]
  have hfacing : ((swCamera.GetCameraEye exampleEnv exampleCamera) - insideTriangle.v0).dot
      insideTriangle.normal ≥ exampleEnv.Epsilon := by
    norm_num [swCamera.GetCameraEye, exampleEnv, exampleCamera, insideTriangle, Double3.dot,
      Double3_sub_def]
  have hculled : ¬ (((swCamera.GetCameraEye exampleEnv exampleCamera) - cornerTriangle.v0).dot
      cornerTriangle.normal ≥ exampleEnv.Epsilon) := by
    norm_num [swCamera.GetCameraEye, exampleEnv, exampleCamera, cornerTriangle, Double3.dot,
      Double3_sub_def]
  have hvis1 : visibleTriangles exampleEnv exampleCamera [insideTriangle] = [insideTriangle] := by
    simp only [visibleTriangles, List.filter_cons, hfacing, decide_True, if_true,
      List.filter_nil, List.flatMap_cons, List.flatMap_nil, List.append_nil]
    exact clipTriangleAgainstPlanes_all_inside exampleEnv _ insideTriangle _ hinside
  have hvis2 : visibleTriangles exampleEnv exampleCamera [cornerTriangle] = [] := by
    simp only [visibleTriangles, List.filter_cons, hculled, decide_False, List.filter_nil,
      List.flatMap_nil]
    rfl
  obtain ⟨frame, hcall, _⟩ := submitFrame_eq_specifiedFrame exampleEnv exampleUtils
    exampleRenderer emptyCaches exampleCamera [insideTriangle] [] [cornerTriangle]
    exampleSettings [1, 2] examplePaletteTexture exampleLightTableTexture
    exampleRenderer_palette exampleRenderer_lightTable
  have h := getProfilerData_after_submitFrame exampleEnv exampleUtils exampleRenderer
    emptyCaches exampleCamera [insideTriangle] [] [cornerTriangle] exampleSettings [1, 2] frame
    hcall
  refine ⟨hvis1, hvis2, frame, hcall, ?_⟩
  rw [h.1, h.2.1, h.2.2.1, hvis1, hvis2]
  rfl

end Queries

end SoftwareRenderer

/-! ## Theorems: UVs of clipped triangles -/

namespace swGeometry

variable {K : Type} [LinearOrderedField K]

theorem Double3_add_sub_cancel_left (a d : Double3 K) : (a + d) - a = d := by
  rcases a with ⟨ax, ay, az⟩
  rcases d with ⟨dx, dy, dz⟩
  simp [Double3_add_def, Double3_sub_def]

theorem Double3_lengthSquared_mul (d : Double3 K) (s : K) :
    (d * s).lengthSquared = (s * s) * d.lengthSquared := by
  simp only [Double3.lengthSquared, Double3_mul_def]
  ring

theorem Double3_length_of_sq (sqrt : K → K) (hsqrt : ∀ y : K, 0 ≤ y → sqrt (y * y) = y)
    (d : Double3 K) (L : K) (hL : 0 ≤ L) (h : L * L = d.lengthSquared) :
    d.length sqrt = L := by
  rw [Double3.length, ← h]
  exact hsqrt L hL

theorem Double3_length_mul_of_sq (sqrt : K → K) (hsqrt : ∀ y : K, 0 ≤ y → sqrt (y * y) = y)
    (d : Double3 K) (L : K) (hL : 0 ≤ L) (h : L * L = d.lengthSquared) (s : K) (hs : 0 ≤ s) :
    (d * s).length sqrt = s * L := by
  rw [Double3.length, Double3_lengthSquared_mul, ← h]
  have : s * s * (L * L) = (s * L) * (s * L) := by ring
  rw [this]
  exact hsqrt (s * L) (mul_nonneg hs hL)

theorem edgeParameter_bounds (a b p n : Double3 K)
    (ha : MathUtils.distanceToPlane a p n ≥ 0) (hb : MathUtils.distanceToPlane b p n < 0) :
    0 ≤ edgeParameter a b p n ∧ edgeParameter a b p n ≤ 1 := by
  have hd : 0 < MathUtils.distanceToPlane a p n - MathUtils.distanceToPlane b p n := by
    linarith
  unfold edgeParameter
  refine ⟨div_nonneg ha (le_of_lt hd), ?_⟩
  rw [div_le_one hd]
  linarith

theorem edgeCrossing_eq (a b p n : Double3 K) :
    edgeCrossing a b p n = a + (b - a) * edgeParameter a b p n := rfl

theorem edge_length_pos (a b p n : Double3 K) (L : K)
    (ha : MathUtils.distanceToPlane a p n ≥ 0) (hb : MathUtils.distanceToPlane b p n < 0)
    (hL : 0 ≤ L) (h : L * L = (b - a).lengthSquared) : 0 < L := by
  have hdn : (b - a).dot n
      = MathUtils.distanceToPlane b p n - MathUtils.distanceToPlane a p n := by
    simp only [MathUtils.distanceToPlane, Double3.dot, Double3_sub_def]
    ring
  have hdn0 : (b - a).dot n ≠ 0 := by rw [hdn]; linarith
  have hpos := Double3_lengthSquared_pos_of_dot_ne_zero _ _ hdn0
  rcases lt_or_eq_of_le hL with h1 | h1
  · exact h1
  · rw [← h1] at h
    simp at h
    linarith

theorem MathUtils_rayPlaneIntersection_edge (sqrt : K → K) (a b p n : Double3 K)
    (ha : MathUtils.distanceToPlane a p n ≥ 0) (hb : MathUtils.distanceToPlane b p n < 0)
    (hL : 0 < sqrt (b - a).lengthSquared) :
    MathUtils.rayPlaneIntersection a ((b - a).normalized sqrt) p n = edgeCrossing a b p n := by
  have hdn : (b - a).dot n
      = MathUtils.distanceToPlane b p n - MathUtils.distanceToPlane a p n := by
    simp only [MathUtils.distanceToPlane, Double3.dot, Double3_sub_def]
    ring
  have hpa : (p - a).dot n = - MathUtils.distanceToPlane a p n := by
    simp only [MathUtils.distanceToPlane, Double3.dot, Double3_sub_def]
    ring
  have hL0 : sqrt (b - a).lengthSquared ≠ 0 := ne_of_gt hL
  simp only [MathUtils.rayPlaneIntersection, Double3.normalized, Double3.length, edgeCrossing]
  rw [Double3_mul_mul, Double3_dot_mul_left, hdn, hpa]
  generalize sqrt (b - a).lengthSquared = L at hL0
  generalize MathUtils.distanceToPlane a p n = da at ha
  generalize MathUtils.distanceToPlane b p n = db at hb
  have h1 : da - db ≠ 0 := by linarith
  have h2 : db - da ≠ 0 := by linarith
  have hs : 1 / L * (-da / ((db - da) * (1 / L))) = da / (da - db) := by
    field_simp
    ring
  rw [hs]

theorem crossing_length_ratio (sqrt : K → K) (hsqrt : ∀ y : K, 0 ≤ y → sqrt (y * y) = y)
    (a b p n : Double3 K) (L : K)
    (ha : MathUtils.distanceToPlane a p n ≥ 0) (hb : MathUtils.distanceToPlane b p n < 0)
    (hL : 0 ≤ L) (h : L * L = (b - a).lengthSquared) :
    (edgeCrossing a b p n - a).length sqrt / (b - a).length sqrt = edgeParameter a b p n := by
  have hpos := edge_length_pos a b p n L ha hb hL h
  rw [edgeCrossing_eq, Double3_add_sub_cancel_left,
    Double3_length_mul_of_sq sqrt hsqrt _ L hL h _ (edgeParameter_bounds a b p n ha hb).1,
    Double3_length_of_sq sqrt hsqrt _ L hL h]
  field_simp

theorem clipSmallerTriangle_corners (env : MathEnv K)
    (hsqrt : ∀ y : K, 0 ≤ y → env.sqrt (y * y) = y) (triangle : RenderTriangle K)
    (eye p n : Double3 K) (inside outside0 outside1 : Double3 K × Double2 K)
    (hi : MathUtils.distanceToPlane inside.1 p n ≥ 0)
    (ho0 : MathUtils.distanceToPlane outside0.1 p n < 0)
    (ho1 : MathUtils.distanceToPlane outside1.1 p n < 0)
    (L0 L1 : K) (hL0 : 0 ≤ L0) (h0 : L0 * L0 = (outside0.1 - inside.1).lengthSquared)
    (hL1 : 0 ≤ L1) (h1 : L1 * L1 = (outside1.1 - inside.1).lengthSquared) :
    ∀ c ∈ (clipSmallerTriangle env triangle eye p n inside outside0 outside1).corners,
      c = inside ∨ c = crossingCorner inside outside0 p n
        ∨ c = crossingCorner inside outside1 p n := by
  have hp0 : 0 < env.sqrt (outside0.1 - inside.1).lengthSquared := by
    rw [← h0, hsqrt L0 hL0]
    exact edge_length_pos _ _ p n L0 hi ho0 hL0 h0
  have hp1 : 0 < env.sqrt (outside1.1 - inside.1).lengthSquared := by
    rw [← h1, hsqrt L1 hL1]
    exact edge_length_pos _ _ p n L1 hi ho1 hL1 h1
  intro c hc
  simp only [clipSmallerTriangle,
    MathUtils_rayPlaneIntersection_edge env.sqrt _ _ p n hi ho0 hp0,
    MathUtils_rayPlaneIntersection_edge env.sqrt _ _ p n hi ho1 hp1,
    crossing_length_ratio env.sqrt hsqrt _ _ p n L0 hi ho0 hL0 h0,
    crossing_length_ratio env.sqrt hsqrt _ _ p n L1 hi ho1 hL1 h1] at hc
  split at hc <;>
  · simp only [RenderTriangle.init, RenderTriangle.corners, List.mem_cons, List.mem_singleton,
      List.not_mem_nil, or_false, Prod.mk.eta] at hc
    unfold crossingCorner
    tauto

theorem clipQuad_corners (env : MathEnv K)
    (hsqrt : ∀ y : K, 0 ≤ y → env.sqrt (y * y) = y) (triangle : RenderTriangle K)
    (eye p n : Double3 K) (inside0 inside1 outside0 : Double3 K × Double2 K)
    (hi0 : MathUtils.distanceToPlane inside0.1 p n ≥ 0)
    (hi1 : MathUtils.distanceToPlane inside1.1 p n ≥ 0)
    (ho0 : MathUtils.distanceToPlane outside0.1 p n < 0)
    (L0 L1 : K) (hL0 : 0 ≤ L0) (h0 : L0 * L0 = (outside0.1 - inside0.1).lengthSquared)
    (hL1 : 0 ≤ L1) (h1 : L1 * L1 = (outside0.1 - inside1.1).lengthSquared) :
    ∀ c, (c ∈ (clipQuad env triangle eye p n inside0 inside1 outside0).1.corners
        ∨ c ∈ (clipQuad env triangle eye p n inside0 inside1 outside0).2.corners) →
      c = inside0 ∨ c = inside1 ∨ c = crossingCorner inside0 outside0 p n
        ∨ c = crossingCorner inside1 outside0 p n := by
  have hp0 : 0 < env.sqrt (outside0.1 - inside0.1).lengthSquared := by
    rw [← h0, hsqrt L0 hL0]
    exact edge_length_pos _ _ p n L0 hi0 ho0 hL0 h0
  have hp1 : 0 < env.sqrt (outside0.1 - inside1.1).lengthSquared := by
    rw [← h1, hsqrt L1 hL1]
    exact edge_length_pos _ _ p n L1 hi1 ho0 hL1 h1
  intro c hc
  simp only [clipQuad,
    MathUtils_rayPlaneIntersection_edge env.sqrt _ _ p n hi0 ho0 hp0,
    MathUtils_rayPlaneIntersection_edge env.sqrt _ _ p n hi1 ho0 hp1,
    crossing_length_ratio env.sqrt hsqrt _ _ p n L0 hi0 ho0 hL0 h0,
    crossing_length_ratio env.sqrt hsqrt _ _ p n L1 hi1 ho0 hL1 h1] at hc
  unfold crossingCorner
  rcases hc with hc | hc <;> split at hc <;>
  · simp only [RenderTriangle.init, RenderTriangle.corners, List.mem_cons, List.mem_singleton,
      List.not_mem_nil, or_false, Prod.mk.eta] at hc
    tauto

theorem crossingCorner_facts (env : MathEnv K)
    (hsqrt : ∀ y : K, 0 ≤ y → env.sqrt (y * y) = y) (a b : Double3 K × Double2 K)
    (p n : Double3 K) (L : K)
    (ha : MathUtils.distanceToPlane a.1 p n ≥ 0) (hb : MathUtils.distanceToPlane b.1 p n < 0)
    (hL : 0 ≤ L) (h : L * L = (b.1 - a.1).lengthSquared) :
    0 ≤ edgeParameter a.1 b.1 p n ∧ edgeParameter a.1 b.1 p n ≤ 1
    ∧ (crossingCorner a b p n).1 = a.1 + (b.1 - a.1) * edgeParameter a.1 b.1 p n
    ∧ MathUtils.distanceToPlane (crossingCorner a b p n).1 p n = 0
    ∧ edgeParameter a.1 b.1 p n
        = ((crossingCorner a b p n).1 - a.1).length env.sqrt / (b.1 - a.1).length env.sqrt
    ∧ (crossingCorner a b p n).2 = a.2 + (b.2 - a.2) * edgeParameter a.1 b.1 p n :=
  ⟨(edgeParameter_bounds a.1 b.1 p n ha hb).1, (edgeParameter_bounds a.1 b.1 p n ha hb).2, rfl,
    edgeCrossing_on_plane a.1 b.1 p n ha hb,
    (crossing_length_ratio env.sqrt hsqrt a.1 b.1 p n L ha hb hL h).symm, rfl⟩

theorem ClipTriangle_emitted_corner (env : MathEnv K)
    (hsqrt : ∀ y : K, 0 ≤ y → env.sqrt (y * y) = y) (triangle : RenderTriangle K)
    (eye p n : Double3 K)
    (hlen : ∀ a ∈ triangle.vertices, ∀ b ∈ triangle.vertices,
      MathUtils.distanceToPlane a p n ≥ 0 → MathUtils.distanceToPlane b p n < 0 →
      ∃ L : K, 0 ≤ L ∧ L * L = (b - a).lengthSquared)
    (t : RenderTriangle K) (ht : t ∈ (ClipTriangle env triangle eye p n).emitted)
    (c : Double3 K × Double2 K) (hc : c ∈ t.corners) :
    (c ∈ triangle.corners ∧ MathUtils.distanceToPlane c.1 p n ≥ 0)
    ∨ ∃ a ∈ triangle.corners, ∃ b ∈ triangle.corners,
        MathUtils.distanceToPlane a.1 p n ≥ 0 ∧ MathUtils.distanceToPlane b.1 p n < 0
          ∧ c = crossingCorner a b p n := by
  have m0 : triangle.v0 ∈ triangle.vertices := by simp [RenderTriangle.vertices]
  have m1 : triangle.v1 ∈ triangle.vertices := by simp [RenderTriangle.vertices]
  have m2 : triangle.v2 ∈ triangle.vertices := by simp [RenderTriangle.vertices]
  have c0 : (triangle.v0, triangle.uv0) ∈ triangle.corners := by simp [RenderTriangle.corners]
  have c1 : (triangle.v1, triangle.uv1) ∈ triangle.corners := by simp [RenderTriangle.corners]
  have c2 : (triangle.v2, triangle.uv2) ∈ triangle.corners := by simp [RenderTriangle.corners]
  have small : ∀ (inside outside0 outside1 : Double3 K × Double2 K),
      inside ∈ triangle.corners → outside0 ∈ triangle.corners → outside1 ∈ triangle.corners →
      inside.1 ∈ triangle.vertices → outside0.1 ∈ triangle.vertices →
      outside1.1 ∈ triangle.vertices →
      MathUtils.distanceToPlane inside.1 p n ≥ 0 →
      MathUtils.distanceToPlane outside0.1 p n < 0 →
      MathUtils.distanceToPlane outside1.1 p n < 0 →
      c ∈ (clipSmallerTriangle env triangle eye p n inside outside0 outside1).corners →
      (c ∈ triangle.corners ∧ MathUtils.distanceToPlane c.1 p n ≥ 0)
      ∨ ∃ a ∈ triangle.corners, ∃ b ∈ triangle.corners,
          MathUtils.distanceToPlane a.1 p n ≥ 0 ∧ MathUtils.distanceToPlane b.1 p n < 0
            ∧ c = crossingCorner a b p n := by
    intro inside outside0 outside1 ci co0 co1 vi vo0 vo1 hi ho0 ho1 hmem
    obtain ⟨L0, hL0, h0⟩ := hlen _ vi _ vo0 hi ho0
    obtain ⟨L1, hL1, h1⟩ := hlen _ vi _ vo1 hi ho1
    rcases clipSmallerTriangle_corners env hsqrt triangle eye p n inside outside0 outside1
      hi ho0 ho1 L0 L1 hL0 h0 hL1 h1 c hmem with rfl | rfl | rfl
    · exact Or.inl ⟨ci, hi⟩
    · exact Or.inr ⟨_, ci, _, co0, hi, ho0, rfl⟩
    · exact Or.inr ⟨_, ci, _, co1, hi, ho1, rfl⟩
  have quad : ∀ (inside0 inside1 outside0 : Double3 K × Double2 K),
      inside0 ∈ triangle.corners → inside1 ∈ triangle.corners → outside0 ∈ triangle.corners →
      inside0.1 ∈ triangle.vertices → inside1.1 ∈ triangle.vertices →
      outside0.1 ∈ triangle.vertices →
      MathUtils.distanceToPlane inside0.1 p n ≥ 0 →
      MathUtils.distanceToPlane inside1.1 p n ≥ 0 →
      MathUtils.distanceToPlane outside0.1 p n < 0 →
      (c ∈ (clipQuad env triangle eye p n inside0 inside1 outside0).1.corners
        ∨ c ∈ (clipQuad env triangle eye p n inside0 inside1 outside0).2.corners) →
      (c ∈ triangle.corners ∧ MathUtils.distanceToPlane c.1 p n ≥ 0)
      ∨ ∃ a ∈ triangle.corners, ∃ b ∈ triangle.corners,
          MathUtils.distanceToPlane a.1 p n ≥ 0 ∧ MathUtils.distanceToPlane b.1 p n < 0
            ∧ c = crossingCorner a b p n := by
    intro inside0 inside1 outside0 ci0 ci1 co0 vi0 vi1 vo0 hi0 hi1 ho0 hmem
    obtain ⟨L0, hL0, h0⟩ := hlen _ vi0 _ vo0 hi0 ho0
    obtain ⟨L1, hL1, h1⟩ := hlen _ vi1 _ vo0 hi1 ho0
    rcases clipQuad_corners env hsqrt triangle eye p n inside0 inside1 outside0 hi0 hi1 ho0
      L0 L1 hL0 h0 hL1 h1 c hmem with rfl | rfl | rfl | rfl
    · exact Or.inl ⟨ci0, hi0⟩
    · exact Or.inl ⟨ci1, hi1⟩
    · exact Or.inr ⟨_, ci0, _, co0, hi0, ho0, rfl⟩
    · exact Or.inr ⟨_, ci1, _, co0, hi1, ho0, rfl⟩
  by_cases h0 : MathUtils.distanceToPlane triangle.v0 p n ≥ 0 <;>
  by_cases h1 : MathUtils.distanceToPlane triangle.v1 p n ≥ 0 <;>
  by_cases h2 : MathUtils.distanceToPlane triangle.v2 p n ≥ 0 <;>
  simp only [ClipTriangle, classifyVertices, h0, h1, h2, if_true, if_false,
    TriangleClipResult.zero, TriangleClipResult.one, TriangleClipResult.two,
    TriangleClipResult.emitted, List.take, List.mem_cons, List.mem_singleton,
    List.not_mem_nil, or_false] at ht
  · subst ht
    simp only [RenderTriangle.corners, List.mem_cons, List.mem_singleton, List.not_mem_nil,
      or_false] at hc
    rcases hc with rfl | rfl | rfl
    · exact Or.inl ⟨c0, h0⟩
    · exact Or.inl ⟨c1, h1⟩
    · exact Or.inl ⟨c2, h2⟩
  · exact quad (triangle.v0, triangle.uv0) (triangle.v1, triangle.uv1)
      (triangle.v2, triangle.uv2) c0 c1 c2 m0 m1 m2 h0 h1 (not_le.mp h2)
      (by rcases ht with rfl | rfl; exact Or.inl hc; exact Or.inr hc)
  · exact quad (triangle.v0, triangle.uv0) (triangle.v2, triangle.uv2)
      (triangle.v1, triangle.uv1) c0 c2 c1 m0 m2 m1 h0 h2 (not_le.mp h1)
      (by rcases ht with rfl | rfl; exact Or.inl hc; exact Or.inr hc)
  · subst ht
    exact small (triangle.v0, triangle.uv0) (triangle.v1, triangle.uv1)
      (triangle.v2, triangle.uv2) c0 c1 c2 m0 m1 m2 h0 (not_le.mp h1) (not_le.mp h2) hc
  · exact quad (triangle.v1, triangle.uv1) (triangle.v2, triangle.uv2)
      (triangle.v0, triangle.uv0) c1 c2 c0 m1 m2 m0 h1 h2 (not_le.mp h0)
      (by rcases ht with rfl | rfl; exact Or.inl hc; exact Or.inr hc)
  · subst ht
    exact small (triangle.v1, triangle.uv1) (triangle.v0, triangle.uv0)
      (triangle.v2, triangle.uv2) c1 c0 c2 m1 m0 m2 h1 (not_le.mp h0) (not_le.mp h2) hc
  · subst ht
    exact small (triangle.v2, triangle.uv2) (triangle.v0, triangle.uv0)
      (triangle.v1, triangle.uv1) c2 c0 c1 m2 m0 m1 h2 (not_le.mp h0) (not_le.mp h1) hc

/-- C28: every corner (a vertex with the UV stored for it) of every triangle that `ClipTriangle`
emits is either a corner of the input triangle whose vertex is inside the plane, with its
original UV, or a new corner `(P, uvP)` for an inside corner `(A, uvA)` and an outside corner
`(B, uvB)` of the input: `P = A + (B - A) * s` with `0 <= s <= 1`, `P` lies on the plane,
`s = |P - A| / |B - A|` in 3D Euclidean lengths, and `uvP = uvA + (uvB - uvA) * s` for that same
`s`.  The statement is about corners, so it holds for the normal and for the reversed winding
order.  Arithmetic is exact: `sqrt` returns the root of a square, and the field holds the
lengths of the edges from inside to outside vertices. -/
theorem ClipTriangle_uv_interpolation (env : MathEnv K)
    (hsqrt : ∀ y : K, 0 ≤ y → env.sqrt (y * y) = y) (triangle : RenderTriangle K)
    (eye p n : Double3 K)
    (hlen : ∀ a ∈ triangle.vertices, ∀ b ∈ triangle.vertices,
      MathUtils.distanceToPlane a p n ≥ 0 → MathUtils.distanceToPlane b p n < 0 →
      ∃ L : K, 0 ≤ L ∧ L * L = (b - a).lengthSquared)
    (t : RenderTriangle K) (ht : t ∈ (ClipTriangle env triangle eye p n).emitted)
    (c : Double3 K × Double2 K) (hc : c ∈ t.corners) :
    (c ∈ triangle.corners ∧ MathUtils.distanceToPlane c.1 p n ≥ 0)
    ∨ ∃ a ∈ triangle.corners, ∃ b ∈ triangle.corners, ∃ s : K,
        MathUtils.distanceToPlane a.1 p n ≥ 0 ∧ MathUtils.distanceToPlane b.1 p n < 0
          ∧ 0 ≤ s ∧ s ≤ 1
          ∧ c.1 = a.1 + (b.1 - a.1) * s
          ∧ MathUtils.distanceToPlane c.1 p n = 0
          ∧ s = (c.1 - a.1).length env.sqrt / (b.1 - a.1).length env.sqrt
          ∧ c.2 = a.2 + (b.2 - a.2) * s := by
  have vertex_of_corner : ∀ x ∈ triangle.corners, x.1 ∈ triangle.vertices := by
    intro x hx
    simp only [RenderTriangle.corners, List.mem_cons, List.mem_singleton, List.not_mem_nil,
      or_false] at hx
    rcases hx with rfl | rfl | rfl <;> simp [RenderTriangle.vertices]
  rcases ClipTriangle_emitted_corner env hsqrt triangle eye p n hlen t ht c hc with
    h | ⟨a, ha, b, hb, hda, hdb, rfl⟩
  · exact Or.inl h
  · obtain ⟨L, hL, hLL⟩ := hlen _ (vertex_of_corner a ha) _ (vertex_of_corner b hb) hda hdb
    obtain ⟨f1, f2, f3, f4, f5, f6⟩ := crossingCorner_facts env hsqrt a b p n L hda hdb hL hLL
    exact Or.inr ⟨a, ha, b, hb, edgeParameter a.1 b.1 p n, hda, hdb, f1, f2, f3, f4, f5, f6⟩

/-- Witness for C28: `clipExampleTriangle` against the plane `x = 1` with normal `+x`, seen from
the eye `(1, 1, 5)`.  Only `v1 = (3, 0, 0)` is inside; both edges from it are cut at `s = 2/3`,
and the emitted triangle has the reversed winding order. -/
theorem ClipTriangle_uv_interpolation_witness :
    (∀ y : ℚ, 0 ≤ y → exampleEnv.sqrt (y * y) = y)
    ∧ (∀ a ∈ clipExampleTriangle.vertices, ∀ b ∈ clipExampleTriangle.vertices,
        MathUtils.distanceToPlane a ⟨1, 0, 0⟩ ⟨1, 0, 0⟩ ≥ 0 →
        MathUtils.distanceToPlane b ⟨1, 0, 0⟩ ⟨1, 0, 0⟩ < 0 →
        ∃ L : ℚ, 0 ≤ L ∧ L * L = (b - a).lengthSquared)
    ∧ (ClipTriangle exampleEnv clipExampleTriangle ⟨1, 1, 5⟩ ⟨1, 0, 0⟩ ⟨1, 0, 0⟩).emitted.map
          RenderTriangle.corners
        = [[(⟨1, 8 / 3, 0⟩, ⟨1 / 3, 2 / 3⟩), (⟨1, 0, 0⟩, ⟨1 / 3, 0⟩), (⟨3, 0, 0⟩, ⟨1, 0⟩)]]
    ∧ ∀ t ∈ (ClipTriangle exampleEnv clipExampleTriangle ⟨1, 1, 5⟩ ⟨1, 0, 0⟩
          ⟨1, 0, 0⟩).emitted,
        ∀ c ∈ t.corners,
          (c ∈ clipExampleTriangle.corners
            ∧ MathUtils.distanceToPlane c.1 ⟨1, 0, 0⟩ ⟨1, 0, 0⟩ ≥ 0)
          ∨ ∃ a ∈ clipExampleTriangle.corners, ∃ b ∈ clipExampleTriangle.corners, ∃ s : ℚ,
              MathUtils.distanceToPlane a.1 ⟨1, 0, 0⟩ ⟨1, 0, 0⟩ ≥ 0
                ∧ MathUtils.distanceToPlane b.1 ⟨1, 0, 0⟩ ⟨1, 0, 0⟩ < 0
                ∧ 0 ≤ s ∧ s ≤ 1
                ∧ c.1 = a.1 + (b.1 - a.1) * s
                ∧ MathUtils.distanceToPlane c.1 ⟨1, 0, 0⟩ ⟨1, 0, 0⟩ = 0
                ∧ s = (c.1 - a.1).length exampleEnv.sqrt / (b.1 - a.1).length exampleEnv.sqrt
                ∧ c.2 = a.2 + (b.2 - a.2) * s := by
  have hs : ∀ y : ℚ, 0 ≤ y → exampleEnv.sqrt (y * y) = y :=
    fun y hy => rat_sqrt_of_sq (y * y) y hy rfl
  have hl : ∀ a ∈ clipExampleTriangle.vertices, ∀ b ∈ clipExampleTriangle.vertices,
      MathUtils.distanceToPlane a ⟨1, 0, 0⟩ ⟨1, 0, 0⟩ ≥ 0 →
      MathUtils.distanceToPlane b ⟨1, 0, 0⟩ ⟨1, 0, 0⟩ < 0 →
      ∃ L : ℚ, 0 ≤ L ∧ L * L = (b - a).lengthSquared := by
    intro a ha b hb hda hdb
    simp only [RenderTriangle.vertices, clipExampleTriangle, List.mem_cons, List.mem_singleton,
      List.not_mem_nil, or_false] at ha hb
    rcases ha with rfl | rfl | rfl <;> rcases hb with rfl | rfl | rfl <;>
      first
      | (norm_num [MathUtils.distanceToPlane, Double3.dot, Double3_sub_def] at hda; done)
      | (norm_num [MathUtils.distanceToPlane, Double3.dot, Double3_sub_def] at hdb; done)
      | (refine ⟨3, ?_, ?_⟩ <;> norm_num [Double3.lengthSquared, Double3_sub_def]; done)
      | (refine ⟨5, ?_, ?_⟩ <;> norm_num [Double3.lengthSquared, Double3_sub_def])
  have s9 : Rat.sqrt 9 = 3 := rat_sqrt_of_sq _ _ (by norm_num) (by norm_num)
  have s25 : Rat.sqrt 25 = 5 := rat_sqrt_of_sq _ _ (by norm_num) (by norm_num)
  have s4 : Rat.sqrt 4 = 2 := rat_sqrt_of_sq _ _ (by norm_num) (by norm_num)
  have s100 : Rat.sqrt (100 / 9) = 10 / 3 := rat_sqrt_of_sq _ _ (by norm_num) (by norm_num)
  refine ⟨hs, hl, ?_, fun t ht c hc =>
    ClipTriangle_uv_interpolation exampleEnv hs clipExampleTriangle ⟨1, 1, 5⟩ ⟨1, 0, 0⟩
      ⟨1, 0, 0⟩ hl t ht c hc⟩
  norm_num [ClipTriangle, classifyVertices, MathUtils.distanceToPlane, clipExampleTriangle,
    exampleEnv, Double3.dot, TriangleClipResult.emitted, TriangleClipResult.one,
    clipSmallerTriangle, MathUtils.rayPlaneIntersection, Double3.normalized, Double3.length,
    Double3.lengthSquared, Double3.cross, RenderTriangle.init, RenderTriangle.corners,
    Double2.lerp, Double3_sub_def, Double3_add_def, Double3_mul_def, s9, s25, s4, s100]

end swGeometry

/-! ## Theorems: barycentric weights and shading -/

namespace swRender

variable {K : Type} [LinearOrderedField K]

theorem RasterizeTriangles_frameConstants [FloorRing K] (env : MathEnv K)
    (utils : RendererUtils K) (triangles : List (RenderTriangle K)) (debug_alphaTest : Bool)
    (materials : Int → ObjectMaterial) (textures : Int → ObjectTexture)
    (paletteTexture lightTableTexture : ObjectTexture) (camera : RenderCamera K)
    (colorBuffer : BufferView2D Nat) (depthBuffer : BufferView2D (WithTop K)) :
    RasterizeTriangles env utils triangles debug_alphaTest materials textures paletteTexture
        lightTableTexture camera colorBuffer depthBuffer
      = (({ colorBuffer with data := (triangles.foldl
            (fun buffers triangle =>
              (loopRange (triangleConstants env utils materials textures camera
                  colorBuffer.width colorBuffer.height triangle).yStart
                (triangleConstants env utils materials textures camera colorBuffer.width
                  colorBuffer.height triangle).yEnd).foldl
                (fun buffers y =>
                  (loopRange (triangleConstants env utils materials textures camera
                      colorBuffer.width colorBuffer.height triangle).xStart
                    (triangleConstants env utils materials textures camera colorBuffer.width
                      colorBuffer.height triangle).xEnd).foldl
                    (fun buffers x => rasterizePixel env debug_alphaTest
                      (frameConstants env paletteTexture lightTableTexture camera colorBuffer)
                      (triangleConstants env utils materials textures camera colorBuffer.width
                        colorBuffer.height triangle) x y buffers) buffers)
                buffers)
            ({ colorBuffer := colorBuffer.data, depthBuffer := depthBuffer.data }
              : FrameBuffers K)).colorBuffer } : BufferView2D Nat),
         ({ depthBuffer with data := (triangles.foldl
            (fun buffers triangle =>
              (loopRange (triangleConstants env utils materials textures camera
                  colorBuffer.width colorBuffer.height triangle).yStart
                (triangleConstants env utils materials textures camera colorBuffer.width
                  colorBuffer.height triangle).yEnd).foldl
                (fun buffers y =>
                  (loopRange (triangleConstants env utils materials textures camera
                      colorBuffer.width colorBuffer.height triangle).xStart
                    (triangleConstants env utils materials textures camera colorBuffer.width
                      colorBuffer.height triangle).xEnd).foldl
                    (fun buffers x => rasterizePixel env debug_alphaTest
                      (frameConstants env paletteTexture lightTableTexture camera colorBuffer)
                      (triangleConstants env utils materials textures camera colorBuffer.width
                        colorBuffer.height triangle) x y buffers) buffers)
                buffers)
            ({ colorBuffer := colorBuffer.data, depthBuffer := depthBuffer.data }
              : FrameBuffers K)).depthBuffer } : BufferView2D (WithTop K))) := rfl

/-- C29: for a screen-space triangle `(s0, s1, s2)` whose denominator
`dot00 * dot11 - dot01 * dot01` is not 0 and every point `P`, the weights `(u, v, w)` that the
rasterizer computes from the dot products satisfy `u + v + w = 1` and
`u * s0 + v * s1 + w * s2 = P`; for `P = s0`, `s1`, `s2` they are `(1, 0, 0)`, `(0, 1, 0)` and
`(0, 0, 1)`. -/
theorem barycentricWeights_reconstruct (s0 s1 s2 P : Double2 K)
    (hden : ((s1 - s0).dot (s1 - s0)) * ((s2 - s0).dot (s2 - s0))
      - ((s1 - s0).dot (s2 - s0)) * ((s1 - s0).dot (s2 - s0)) ≠ 0) :
    (barycentricWeights s0 s1 s2 P).1 + (barycentricWeights s0 s1 s2 P).2.1
        + (barycentricWeights s0 s1 s2 P).2.2 = 1
    ∧ s0 * (barycentricWeights s0 s1 s2 P).1 + s1 * (barycentricWeights s0 s1 s2 P).2.1
        + s2 * (barycentricWeights s0 s1 s2 P).2.2 = P
    ∧ barycentricWeights s0 s1 s2 s0 = (1, 0, 0)
    ∧ barycentricWeights s0 s1 s2 s1 = (0, 1, 0)
    ∧ barycentricWeights s0 s1 s2 s2 = (0, 0, 1) := by
  rcases s0 with ⟨ax, ay⟩
  rcases s1 with ⟨bx, by_⟩
  rcases s2 with ⟨cx, cy⟩
  rcases P with ⟨px, py⟩
  simp only [Double2.dot, Double2_sub_def] at hden
  refine ⟨?_, ?_, ?_, ?_, ?_⟩
  · simp only [barycentricWeights]
    ring
  · simp only [barycentricWeights, Double2.dot, Double2_sub_def, Double2_add_def,
      Double2_mul_def, Double2.mk.injEq]
    constructor
    · field_simp
      ring
    · field_simp
      ring
  · simp only [barycentricWeights, Double2.dot, Double2_sub_def, Prod.mk.injEq]
    refine ⟨?_, ?_, ?_⟩ <;> simp
  · simp only [barycentricWeights, Double2.dot, Double2_sub_def, Prod.mk.injEq]
    have hv : ((cx - ax) * (cx - ax) + (cy - ay) * (cy - ay))
          * ((bx - ax) * (bx - ax) + (by_ - ay) * (by_ - ay))
        - ((bx - ax) * (cx - ax) + (by_ - ay) * (cy - ay))
          * ((bx - ax) * (cx - ax) + (by_ - ay) * (cy - ay))
        = ((bx - ax) * (bx - ax) + (by_ - ay) * (by_ - ay))
          * ((cx - ax) * (cx - ax) + (cy - ay) * (cy - ay))
        - ((bx - ax) * (cx - ax) + (by_ - ay) * (cy - ay))
          * ((bx - ax) * (cx - ax) + (by_ - ay) * (cy - ay)) := by ring
    have hw : ((bx - ax) * (bx - ax) + (by_ - ay) * (by_ - ay))
          * ((bx - ax) * (cx - ax) + (by_ - ay) * (cy - ay))
        - ((bx - ax) * (cx - ax) + (by_ - ay) * (cy - ay))
          * ((bx - ax) * (bx - ax) + (by_ - ay) * (by_ - ay)) = 0 := by ring
    have h1 : (((cx - ax) * (cx - ax) + (cy - ay) * (cy - ay))
          * ((bx - ax) * (bx - ax) + (by_ - ay) * (by_ - ay))
        - ((bx - ax) * (cx - ax) + (by_ - ay) * (cy - ay))
          * ((bx - ax) * (cx - ax) + (by_ - ay) * (cy - ay)))
        / (((bx - ax) * (bx - ax) + (by_ - ay) * (by_ - ay))
          * ((cx - ax) * (cx - ax) + (cy - ay) * (cy - ay))
        - ((bx - ax) * (cx - ax) + (by_ - ay) * (cy - ay))
          * ((bx - ax) * (cx - ax) + (by_ - ay) * (cy - ay))) = 1 := by
      rw [hv]
      exact div_self hden
    rw [h1, hw]
    simp
  · simp only [barycentricWeights, Double2.dot, Double2_sub_def, Prod.mk.injEq]
    have hv : ((cx - ax) * (cx - ax) + (cy - ay) * (cy - ay))
          * ((cx - ax) * (bx - ax) + (cy - ay) * (by_ - ay))
        - ((bx - ax) * (cx - ax) + (by_ - ay) * (cy - ay))
          * ((cx - ax) * (cx - ax) + (cy - ay) * (cy - ay)) = 0 := by ring
    have hw : ((bx - ax) * (bx - ax) + (by_ - ay) * (by_ - ay))
          * ((cx - ax) * (cx - ax) + (cy - ay) * (cy - ay))
        - ((bx - ax) * (cx - ax) + (by_ - ay) * (cy - ay))
          * ((cx - ax) * (bx - ax) + (cy - ay) * (by_ - ay))
        = ((bx - ax) * (bx - ax) + (by_ - ay) * (by_ - ay))
          * ((cx - ax) * (cx - ax) + (cy - ay) * (cy - ay))
        - ((bx - ax) * (cx - ax) + (by_ - ay) * (cy - ay))
          * ((bx - ax) * (cx - ax) + (by_ - ay) * (cy - ay)) := by ring
    rw [hv, hw, div_self hden]
    simp

/-- Witness for C29: the triangle `(0, 0), (2, 0), (0, 2)` and the point `(1/2, 1/2)`, with
weights `(1/2, 1/4, 1/4)`. -/
theorem barycentricWeights_reconstruct_witness :
    (((⟨2, 0⟩ : Double2 ℚ) - ⟨0, 0⟩).dot ((⟨2, 0⟩ : Double2 ℚ) - ⟨0, 0⟩))
        * (((⟨0, 2⟩ : Double2 ℚ) - ⟨0, 0⟩).dot ((⟨0, 2⟩ : Double2 ℚ) - ⟨0, 0⟩))
      - (((⟨2, 0⟩ : Double2 ℚ) - ⟨0, 0⟩).dot ((⟨0, 2⟩ : Double2 ℚ) - ⟨0, 0⟩))
        * (((⟨2, 0⟩ : Double2 ℚ) - ⟨0, 0⟩).dot ((⟨0, 2⟩ : Double2 ℚ) - ⟨0, 0⟩)) ≠ 0
    ∧ barycentricWeights (⟨0, 0⟩ : Double2 ℚ) ⟨2, 0⟩ ⟨0, 2⟩ ⟨1 / 2, 1 / 2⟩ = (1 / 2, 1 / 4, 1 / 4)
    ∧ (⟨0, 0⟩ : Double2 ℚ)
          * (barycentricWeights (⟨0, 0⟩ : Double2 ℚ) ⟨2, 0⟩ ⟨0, 2⟩ ⟨1 / 2, 1 / 2⟩).1
        + (⟨2, 0⟩ : Double2 ℚ)
          * (barycentricWeights (⟨0, 0⟩ : Double2 ℚ) ⟨2, 0⟩ ⟨0, 2⟩ ⟨1 / 2, 1 / 2⟩).2.1
        + (⟨0, 2⟩ : Double2 ℚ)
          * (barycentricWeights (⟨0, 0⟩ : Double2 ℚ) ⟨2, 0⟩ ⟨0, 2⟩ ⟨1 / 2, 1 / 2⟩).2.2
        = ⟨1 / 2, 1 / 2⟩
    ∧ barycentricWeights (⟨0, 0⟩ : Double2 ℚ) ⟨2, 0⟩ ⟨0, 2⟩ ⟨2, 0⟩ = (0, 1, 0) := by
  have hden : (((⟨2, 0⟩ : Double2 ℚ) - ⟨0, 0⟩).dot ((⟨2, 0⟩ : Double2 ℚ) - ⟨0, 0⟩))
        * (((⟨0, 2⟩ : Double2 ℚ) - ⟨0, 0⟩).dot ((⟨0, 2⟩ : Double2 ℚ) - ⟨0, 0⟩))
      - (((⟨2, 0⟩ : Double2 ℚ) - ⟨0, 0⟩).dot ((⟨0, 2⟩ : Double2 ℚ) - ⟨0, 0⟩))
        * (((⟨2, 0⟩ : Double2 ℚ) - ⟨0, 0⟩).dot ((⟨0, 2⟩ : Double2 ℚ) - ⟨0, 0⟩)) ≠ 0 := by
    norm_num [Double2.dot, Double2_sub_def]
  refine ⟨hden, ?_,
    (barycentricWeights_reconstruct (⟨0, 0⟩ : Double2 ℚ) ⟨2, 0⟩ ⟨0, 2⟩ ⟨1 / 2, 1 / 2⟩ hden).2.1,
    (barycentricWeights_reconstruct (⟨0, 0⟩ : Double2 ℚ) ⟨2, 0⟩ ⟨0, 2⟩ ⟨1 / 2, 1 / 2⟩
      hden).2.2.2.1⟩
  norm_num [barycentricWeights, Double2.dot, Double2_sub_def]

theorem clamp_of_mem {α : Type} [LinearOrder α] (value lo hi : α) (h1 : lo ≤ value)
    (h2 : value ≤ hi) : clamp value lo hi = value := by
  simp [clamp, not_lt.mpr h1, not_lt.mpr h2]

end swRender

/-! ## Theorems: the clip list and the clip cases -/

namespace swGeometry

variable {K : Type} [LinearOrderedField K]

theorem clipTriangleAgainstPlanes_eq_specifiedClipList (env : MathEnv K) (eye : Double3 K)
    (planes : List (ClippingPlane K)) (triangle : RenderTriangle K) :
    clipTriangleAgainstPlanes env eye planes triangle
      = specifiedClipList env eye planes triangle := by
  unfold clipTriangleAgainstPlanes specifiedClipList
  congr 1
  funext list plane
  rw [clipListAgainstPlane_length]
  rfl

/-- C32: the queue loop of `ProcessTrianglesForRasterization` for one plane, started with `j`
at the size of the clip list, leaves the list equal to the in-order concatenation of the
triangles `ClipTriangle` emits for the triangles that were in the list before that plane:
each is clipped once, and what is appended for a plane is not clipped against it again.  The
clip list of a triangle after the five planes is the specified clip list, and whatever the
two cache vectors held before the call, the returned visible list is the concatenation, in
input order, of these clip lists over the triangles that survive back-face culling. -/
theorem ProcessTriangles_refines_specifiedVisibleList (env : MathEnv K)
    (camera : RenderCamera K) :
    (∀ (eye : Double3 K) (plane : ClippingPlane K) (outClipList : List (RenderTriangle K)),
      clipListAgainstPlane env eye plane outClipList.length outClipList
        = outClipList.flatMap
            (fun t => (ClipTriangle env t eye plane.point plane.normal).emitted))
    ∧ (∀ (eye : Double3 K) (planes : List (ClippingPlane K)) (triangle : RenderTriangle K),
      clipTriangleAgainstPlanes env eye planes triangle
        = specifiedClipList env eye planes triangle)
    ∧ (∀ (triangles outVisibleTriangles outClipList : List (RenderTriangle K)),
      (ProcessTrianglesForRasterization env triangles camera outVisibleTriangles
        outClipList).outVisibleTriangles = specifiedVisibleList env camera triangles) := by
  refine ⟨?_, ?_, ?_⟩
  · intro eye plane outClipList
    rw [clipListAgainstPlane_length]
    rfl
  · intro eye planes triangle
    exact clipTriangleAgainstPlanes_eq_specifiedClipList env eye planes triangle
  · intro triangles outVisibleTriangles outClipList
    rw [ProcessTrianglesForRasterization_visible]
    unfold specifiedVisibleList
    congr 1
    funext triangle
    exact clipTriangleAgainstPlanes_eq_specifiedClipList env _ _ triangle

/-- C33: for every triangle and plane the inside and outside vertex lists of `ClipTriangle`
together hold 3 vertices, and `ClipTriangle` takes one of the four handled cases: no inside
vertex (empty result); three inside and no outside vertices (the triangle itself); one inside
and exactly two outside vertices (the smaller triangle, which reads `insidePoints[0]`,
`outsidePoints[0]` and `outsidePoints[1]`); or two inside and exactly one outside vertex (the
two triangles of the quad, which read `insidePoints[0]`, `insidePoints[1]` and
`outsidePoints[0]`).  The four cases exclude one another by the number of inside vertices, so
the branch for an unhandled case is never taken. -/
theorem ClipTriangle_handled_cases (env : MathEnv K) (triangle : RenderTriangle K)
    (eye planePoint planeNormal : Double3 K) :
    (classifyVertices planePoint planeNormal triangle.corners).1.length
        + (classifyVertices planePoint planeNormal triangle.corners).2.length = 3
    ∧ (((classifyVertices planePoint planeNormal triangle.corners).1 = []
          ∧ (classifyVertices planePoint planeNormal triangle.corners).2.length = 3
          ∧ ClipTriangle env triangle eye planePoint planeNormal = TriangleClipResult.zero)
      ∨ ((classifyVertices planePoint planeNormal triangle.corners).1.length = 3
          ∧ (classifyVertices planePoint planeNormal triangle.corners).2 = []
          ∧ ClipTriangle env triangle eye planePoint planeNormal
            = TriangleClipResult.one triangle)
      ∨ (∃ inside outside0 outside1,
          (classifyVertices planePoint planeNormal triangle.corners).1 = [inside]
          ∧ (classifyVertices planePoint planeNormal triangle.corners).2 = [outside0, outside1]
          ∧ ClipTriangle env triangle eye planePoint planeNormal
            = TriangleClipResult.one (clipSmallerTriangle env triangle eye planePoint
                planeNormal inside outside0 outside1))
      ∨ (∃ inside0 inside1 outside0,
          (classifyVertices planePoint planeNormal triangle.corners).1 = [inside0, inside1]
          ∧ (classifyVertices planePoint planeNormal triangle.corners).2 = [outside0]
          ∧ ClipTriangle env triangle eye planePoint planeNormal
            = TriangleClipResult.two
                (clipQuad env triangle eye planePoint planeNormal inside0 inside1 outside0).1
                (clipQuad env triangle eye planePoint planeNormal inside0 inside1
                  outside0).2)) := by
  by_cases h0 : MathUtils.distanceToPlane triangle.v0 planePoint planeNormal ≥ 0 <;>
  by_cases h1 : MathUtils.distanceToPlane triangle.v1 planePoint planeNormal ≥ 0 <;>
  by_cases h2 : MathUtils.distanceToPlane triangle.v2 planePoint planeNormal ≥ 0
  · have hc : classifyVertices planePoint planeNormal triangle.corners
        = ([(triangle.v0, triangle.uv0), (triangle.v1, triangle.uv1), (triangle.v2, triangle.uv2)],
            []) := by
      simp [classifyVertices, RenderTriangle.corners, h0, h1, h2]
    have hr : ClipTriangle env triangle eye planePoint planeNormal
        = TriangleClipResult.one triangle := by
      simp [ClipTriangle, classifyVertices, h0, h1, h2]
    rw [hc]
    exact ⟨rfl, Or.inr (Or.inl ⟨rfl, rfl, hr⟩)⟩
  · have hc : classifyVertices planePoint planeNormal triangle.corners
        = ([(triangle.v0, triangle.uv0), (triangle.v1, triangle.uv1)],
            [(triangle.v2, triangle.uv2)]) := by
      simp [classifyVertices, RenderTriangle.corners, h0, h1, h2]
    have hr : ClipTriangle env triangle eye planePoint planeNormal
        = TriangleClipResult.two
            (clipQuad env triangle eye planePoint planeNormal (triangle.v0, triangle.uv0)
              (triangle.v1, triangle.uv1) (triangle.v2, triangle.uv2)).1
            (clipQuad env triangle eye planePoint planeNormal (triangle.v0, triangle.uv0)
              (triangle.v1, triangle.uv1) (triangle.v2, triangle.uv2)).2 := by
      simp [ClipTriangle, classifyVertices, h0, h1, h2]
    rw [hc]
    exact ⟨rfl, Or.inr (Or.inr (Or.inr ⟨_, _, _, rfl, rfl, hr⟩))⟩
  · have hc : classifyVertices planePoint planeNormal triangle.corners
        = ([(triangle.v0, triangle.uv0), (triangle.v2, triangle.uv2)],
            [(triangle.v1, triangle.uv1)]) := by
      simp [classifyVertices, RenderTriangle.corners, h0, h1, h2]
    have hr : ClipTriangle env triangle eye planePoint planeNormal
        = TriangleClipResult.two
            (clipQuad env triangle eye planePoint planeNormal (triangle.v0, triangle.uv0)
              (triangle.v2, triangle.uv2) (triangle.v1, triangle.uv1)).1
            (clipQuad env triangle eye planePoint planeNormal (triangle.v0, triangle.uv0)
              (triangle.v2, triangle.uv2) (triangle.v1, triangle.uv1)).2 := by
      simp [ClipTriangle, classifyVertices, h0, h1, h2]
    rw [hc]
    exact ⟨rfl, Or.inr (Or.inr (Or.inr ⟨_, _, _, rfl, rfl, hr⟩))⟩
  · have hc : classifyVertices planePoint planeNormal triangle.corners
        = ([(triangle.v0, triangle.uv0)],
            [(triangle.v1, triangle.uv1), (triangle.v2, triangle.uv2)]) := by
      simp [classifyVertices, RenderTriangle.corners, h0, h1, h2]
    have hr : ClipTriangle env triangle eye planePoint planeNormal
        = TriangleClipResult.one (clipSmallerTriangle env triangle eye planePoint planeNormal
            (triangle.v0, triangle.uv0) (triangle.v1, triangle.uv1) (triangle.v2, triangle.uv2)) := by
      simp [ClipTriangle, classifyVertices, h0, h1, h2]
    rw [hc]
    exact ⟨rfl, Or.inr (Or.inr (Or.inl ⟨_, _, _, rfl, rfl, hr⟩))⟩
  · have hc : classifyVertices planePoint planeNormal triangle.corners
        = ([(triangle.v1, triangle.uv1), (triangle.v2, triangle.uv2)],
            [(triangle.v0, triangle.uv0)]) := by
      simp [classifyVertices, RenderTriangle.corners, h0, h1, h2]
    have hr : ClipTriangle env triangle eye planePoint planeNormal
        = TriangleClipResult.two
            (clipQuad env triangle eye planePoint planeNormal (triangle.v1, triangle.uv1)
              (triangle.v2, triangle.uv2) (triangle.v0, triangle.uv0)).1
            (clipQuad env triangle eye planePoint planeNormal (triangle.v1, triangle.uv1)
              (triangle.v2, triangle.uv2) (triangle.v0, triangle.uv0)).2 := by
      simp [ClipTriangle, classifyVertices, h0, h1, h2]
    rw [hc]
    exact ⟨rfl, Or.inr (Or.inr (Or.inr ⟨_, _, _, rfl, rfl, hr⟩))⟩
  · have hc : classifyVertices planePoint planeNormal triangle.corners
        = ([(triangle.v1, triangle.uv1)],
            [(triangle.v0, triangle.uv0), (triangle.v2, triangle.uv2)]) := by
      simp [classifyVertices, RenderTriangle.corners, h0, h1, h2]
    have hr : ClipTriangle env triangle eye planePoint planeNormal
        = TriangleClipResult.one (clipSmallerTriangle env triangle eye planePoint planeNormal
            (triangle.v1, triangle.uv1) (triangle.v0, triangle.uv0) (triangle.v2, triangle.uv2)) := by
      simp [ClipTriangle, classifyVertices, h0, h1, h2]
    rw [hc]
    exact ⟨rfl, Or.inr (Or.inr (Or.inl ⟨_, _, _, rfl, rfl, hr⟩))⟩
  · have hc : classifyVertices planePoint planeNormal triangle.corners
        = ([(triangle.v2, triangle.uv2)],
            [(triangle.v0, triangle.uv0), (triangle.v1, triangle.uv1)]) := by
      simp [classifyVertices, RenderTriangle.corners, h0, h1, h2]
    have hr : ClipTriangle env triangle eye planePoint planeNormal
        = TriangleClipResult.one (clipSmallerTriangle env triangle eye planePoint planeNormal
            (triangle.v2, triangle.uv2) (triangle.v0, triangle.uv0) (triangle.v1, triangle.uv1)) := by
      simp [ClipTriangle, classifyVertices, h0, h1, h2]
    rw [hc]
    exact ⟨rfl, Or.inr (Or.inr (Or.inl ⟨_, _, _, rfl, rfl, hr⟩))⟩
  · have hc : classifyVertices planePoint planeNormal triangle.corners
        = ([],
            [(triangle.v0, triangle.uv0), (triangle.v1, triangle.uv1), (triangle.v2, triangle.uv2)]) := by
      simp [classifyVertices, RenderTriangle.corners, h0, h1, h2]
    have hr : ClipTriangle env triangle eye planePoint planeNormal
        = TriangleClipResult.zero := by
      simp [ClipTriangle, classifyVertices, h0, h1, h2]
    rw [hc]
    exact ⟨rfl, Or.inl ⟨rfl, rfl, hr⟩⟩

theorem clipSmallerTriangle_material (env : MathEnv K) (triangle : RenderTriangle K)
    (eye p n : Double3 K) (inside outside0 outside1 : Double3 K × Double2 K) :
    (clipSmallerTriangle env triangle eye p n inside outside0 outside1).materialID
        = triangle.materialID
    ∧ (clipSmallerTriangle env triangle eye p n inside outside0 outside1).param0
        = triangle.param0 := by
  simp only [clipSmallerTriangle]
  split <;> exact ⟨rfl, rfl⟩

theorem clipQuad_material (env : MathEnv K) (triangle : RenderTriangle K)
    (eye p n : Double3 K) (inside0 inside1 outside0 : Double3 K × Double2 K) :
    ((clipQuad env triangle eye p n inside0 inside1 outside0).1.materialID
        = triangle.materialID
      ∧ (clipQuad env triangle eye p n inside0 inside1 outside0).1.param0 = triangle.param0)
    ∧ ((clipQuad env triangle eye p n inside0 inside1 outside0).2.materialID
        = triangle.materialID
      ∧ (clipQuad env triangle eye p n inside0 inside1 outside0).2.param0
        = triangle.param0) := by
  simp only [clipQuad]
  constructor <;> split <;> exact ⟨rfl, rfl⟩

theorem ClipTriangle_emitted_material (env : MathEnv K) (triangle : RenderTriangle K)
    (eye p n : Double3 K) (t : RenderTriangle K)
    (ht : t ∈ (ClipTriangle env triangle eye p n).emitted) :
    t.materialID = triangle.materialID ∧ t.param0 = triangle.param0 := by
  by_cases h0 : MathUtils.distanceToPlane triangle.v0 p n ≥ 0 <;>
  by_cases h1 : MathUtils.distanceToPlane triangle.v1 p n ≥ 0 <;>
  by_cases h2 : MathUtils.distanceToPlane triangle.v2 p n ≥ 0 <;>
  simp only [ClipTriangle, classifyVertices, h0, h1, h2, if_true, if_false,
    TriangleClipResult.zero, TriangleClipResult.one, TriangleClipResult.two,
    TriangleClipResult.emitted, List.take, List.mem_cons, List.mem_singleton,
    List.not_mem_nil, or_false] at ht
  · subst ht
    exact ⟨rfl, rfl⟩
  · rcases ht with rfl | rfl
    · exact (clipQuad_material env triangle eye p n _ _ _).1
    · exact (clipQuad_material env triangle eye p n _ _ _).2
  · rcases ht with rfl | rfl
    · exact (clipQuad_material env triangle eye p n _ _ _).1
    · exact (clipQuad_material env triangle eye p n _ _ _).2
  · subst ht
    exact clipSmallerTriangle_material env triangle eye p n _ _ _
  · rcases ht with rfl | rfl
    · exact (clipQuad_material env triangle eye p n _ _ _).1
    · exact (clipQuad_material env triangle eye p n _ _ _).2
  · subst ht
    exact clipSmallerTriangle_material env triangle eye p n _ _ _
  · subst ht
    exact clipSmallerTriangle_material env triangle eye p n _ _ _

theorem specifiedClipList_material (env : MathEnv K) (eye : Double3 K)
    (planes : List (ClippingPlane K)) (triangle : RenderTriangle K) :
    ∀ t ∈ specifiedClipList env eye planes triangle,
      t.materialID = triangle.materialID ∧ t.param0 = triangle.param0 := by
  unfold specifiedClipList
  have key : ∀ (ps : List (ClippingPlane K)) (l : List (RenderTriangle K)),
      (∀ t ∈ l, t.materialID = triangle.materialID ∧ t.param0 = triangle.param0) →
      ∀ t ∈ ps.foldl
        (fun list plane =>
          list.flatMap (fun t => (ClipTriangle env t eye plane.point plane.normal).emitted)) l,
        t.materialID = triangle.materialID ∧ t.param0 = triangle.param0 := by
    intro ps
    induction ps with
    | nil => intro l hl t ht; exact hl t ht
    | cons p ps ih =>
      intro l hl
      rw [List.foldl_cons]
      apply ih
      intro t ht
      rw [List.mem_flatMap] at ht
      obtain ⟨t0, ht0, ht⟩ := ht
      have h1 := ClipTriangle_emitted_material env t0 eye p.point p.normal t ht
      have h2 := hl t0 ht0
      exact ⟨h1.1.trans h2.1, h1.2.trans h2.2⟩
  exact key planes [triangle] (by simp)

/-- C34: every triangle that `ClipTriangle` emits has the `materialID` and the `param0` of the
triangle that was clipped, in all cases and both winding orders; and every triangle of the
visible list of `ProcessTrianglesForRasterization` is in the clip list of an input triangle
that survived back-face culling and has the `materialID` and the `param0` of that input
triangle. -/
theorem ProcessTriangles_keeps_material (env : MathEnv K) (camera : RenderCamera K)
    (triangles outVisibleTriangles outClipList : List (RenderTriangle K)) :
    (∀ (triangle : RenderTriangle K) (eye planePoint planeNormal : Double3 K),
      ∀ t ∈ (ClipTriangle env triangle eye planePoint planeNormal).emitted,
        t.materialID = triangle.materialID ∧ t.param0 = triangle.param0)
    ∧ (∀ t ∈ (ProcessTrianglesForRasterization env triangles camera outVisibleTriangles
          outClipList).outVisibleTriangles,
        ∃ input ∈ triangles,
          ((swCamera.GetCameraEye env camera) - input.v0).dot input.normal ≥ env.Epsilon
          ∧ t ∈ clipTriangleAgainstPlanes env (swCamera.GetCameraEye env camera)
              (clippingPlanes env camera) input
          ∧ t.materialID = input.materialID ∧ t.param0 = input.param0) := by
  refine ⟨fun triangle eye p n t ht => ClipTriangle_emitted_material env triangle eye p n t ht,
    ?_⟩
  intro t ht
  rw [ProcessTrianglesForRasterization_visible, List.mem_flatMap] at ht
  obtain ⟨input, hinput, ht⟩ := ht
  rw [List.mem_filter] at hinput
  have hm := specifiedClipList_material env (swCamera.GetCameraEye env camera)
    (clippingPlanes env camera) input t
    (by rw [← clipTriangleAgainstPlanes_eq_specifiedClipList]; exact ht)
  exact ⟨input, hinput.1, by simpa using hinput.2, ht, hm.1, hm.2⟩

theorem insideTriangle_visible :
    (ProcessTrianglesForRasterization exampleEnv [insideTriangle] exampleCamera [] []
      ).outVisibleTriangles = [insideTriangle] := by
  have hinside : ∀ plane ∈ clippingPlanes exampleEnv exampleCamera,
      ∀ v ∈ insideTriangle.vertices,
        MathUtils.distanceToPlane v plane.point plane.normal ≥ 0 := by
    intro plane hplane v hv
    rw [exampleCamera_clippingPlanes] at hplane
    simp only [List.mem_cons, List.mem_singleton, List.not_mem_nil, or_false] at hplane
    simp only [RenderTriangle.vertices, insideTriangle, List.mem_cons, List.mem_singleton,
      List.not_mem_nil, or_false] at hv
    rcases hplane with rfl | rfl | rfl | rfl | rfl <;> rcases hv with rfl | rfl | rfl <;>
      norm_num [MathUtils.distanceToPlane, Double3.dot, Double3_sub_def]
  have hfacing : ((swCamera.GetCameraEye exampleEnv exampleCamera) - insideTriangle.v0).dot
      insideTriangle.normal ≥ exampleEnv.Epsilon := by
    norm_num [swCamera.GetCameraEye, exampleEnv, exampleCamera, insideTriangle, Double3.dot,
      Double3_sub_def]
  rw [ProcessTrianglesForRasterization_visible]
  simp only [List.filter_cons, hfacing, decide_True, if_true, List.filter_nil,
    List.flatMap_cons, List.flatMap_nil, List.append_nil]
  exact SoftwareRenderer.clipTriangleAgainstPlanes_all_inside exampleEnv _ insideTriangle _
    hinside

theorem fadedClipTriangle_emitted_length :
    (ClipTriangle exampleEnv fadedClipTriangle ⟨1, 1, 5⟩ ⟨1, 0, 0⟩ ⟨1, 0, 0⟩).emitted.length
      = 1 := by
  norm_num [ClipTriangle, classifyVertices, MathUtils.distanceToPlane, fadedClipTriangle,
    clipExampleTriangle, Double3.dot, Double3_sub_def, TriangleClipResult.emitted,
    TriangleClipResult.one]

/-- Witness for C34: `fadedClipTriangle`, with material handle 7 and `param0 = 1/2`, cut by the
plane `x = 1` into one smaller triangle of reversed winding order; and `insideTriangle`, the
one visible triangle of its list for `exampleCamera`. -/
theorem ProcessTriangles_keeps_material_witness :
    (ClipTriangle exampleEnv fadedClipTriangle ⟨1, 1, 5⟩ ⟨1, 0, 0⟩ ⟨1, 0, 0⟩).emitted.length = 1
    ∧ (∀ t ∈ (ClipTriangle exampleEnv fadedClipTriangle ⟨1, 1, 5⟩ ⟨1, 0, 0⟩
          ⟨1, 0, 0⟩).emitted,
        t.materialID = 7 ∧ t.param0 = 1 / 2)
    ∧ insideTriangle ∈ (ProcessTrianglesForRasterization exampleEnv [insideTriangle]
        exampleCamera [] []).outVisibleTriangles
    ∧ ∃ input ∈ [insideTriangle],
        ((swCamera.GetCameraEye exampleEnv exampleCamera) - input.v0).dot input.normal
          ≥ exampleEnv.Epsilon
        ∧ insideTriangle ∈ clipTriangleAgainstPlanes exampleEnv
            (swCamera.GetCameraEye exampleEnv exampleCamera)
            (clippingPlanes exampleEnv exampleCamera) input
        ∧ insideTriangle.materialID = input.materialID
        ∧ insideTriangle.param0 = input.param0 := by
  have hmem : insideTriangle ∈ (ProcessTrianglesForRasterization exampleEnv [insideTriangle]
      exampleCamera [] []).outVisibleTriangles := by
    rw [insideTriangle_visible]
    exact List.mem_singleton.mpr rfl
  exact ⟨fadedClipTriangle_emitted_length,
    fun t ht => (ProcessTriangles_keeps_material exampleEnv exampleCamera [] [] []).1
      fadedClipTriangle ⟨1, 1, 5⟩ ⟨1, 0, 0⟩ ⟨1, 0, 0⟩ t ht,
    hmem,
    (ProcessTriangles_keeps_material exampleEnv exampleCamera [insideTriangle] [] []).2
      insideTriangle hmem⟩

/-- In exact arithmetic `ClipTriangle` is idempotent: every triangle that it emits for a plane
comes back unchanged when it is clipped against the same plane again, from any eye: the result
is the one triangle itself, with `triangleCount = 1` and the same vertices and UVs in the same
order.  `std::sqrt` is positive on positive arguments, so that the new vertices lie on the
plane.  Nothing is said about rounded arithmetic, in which a new vertex can land beside the
plane. -/
theorem ClipTriangle_idempotent (env : MathEnv K)
    (hsqrt : ∀ x : K, 0 < x → 0 < env.sqrt x) (triangle : RenderTriangle K)
    (eye eye2 planePoint planeNormal : Double3 K) :
    ∀ t ∈ (ClipTriangle env triangle eye planePoint planeNormal).emitted,
      ClipTriangle env t eye2 planePoint planeNormal = TriangleClipResult.one t
      ∧ (ClipTriangle env t eye2 planePoint planeNormal).triangleCount = 1
      ∧ (ClipTriangle env t eye2 planePoint planeNormal).emitted = [t] := by
  intro t ht
  have h := ClipTriangle_all_inside env t eye2 planePoint planeNormal
    (fun v hv =>
      (ClipTriangle_emitted_vertex env hsqrt triangle eye planePoint planeNormal t ht v
        hv).on_or_inside)
  rw [h]
  exact ⟨rfl, rfl, rfl⟩

/-- An instance of `ClipTriangle_idempotent`: `fadedClipTriangle` cut by the plane `x = 1`; the
one emitted triangle, clipped against that plane again, comes back as it is. -/
theorem ClipTriangle_idempotent_witness :
    (∀ x : ℚ, 0 < x → 0 < exampleEnv.sqrt x)
    ∧ (ClipTriangle exampleEnv fadedClipTriangle ⟨1, 1, 5⟩ ⟨1, 0, 0⟩ ⟨1, 0, 0⟩).emitted.length
        = 1
    ∧ ∀ t ∈ (ClipTriangle exampleEnv fadedClipTriangle ⟨1, 1, 5⟩ ⟨1, 0, 0⟩
          ⟨1, 0, 0⟩).emitted,
        ClipTriangle exampleEnv t ⟨1, 1, 5⟩ ⟨1, 0, 0⟩ ⟨1, 0, 0⟩ = TriangleClipResult.one t
        ∧ (ClipTriangle exampleEnv t ⟨1, 1, 5⟩ ⟨1, 0, 0⟩ ⟨1, 0, 0⟩).triangleCount = 1
        ∧ (ClipTriangle exampleEnv t ⟨1, 1, 5⟩ ⟨1, 0, 0⟩ ⟨1, 0, 0⟩).emitted = [t] :=
  ⟨fun x hx => rat_sqrt_pos x hx, fadedClipTriangle_emitted_length,
    ClipTriangle_idempotent exampleEnv (fun x hx => rat_sqrt_pos x hx) fadedClipTriangle
      ⟨1, 1, 5⟩ ⟨1, 1, 5⟩ ⟨1, 0, 0⟩ ⟨1, 0, 0⟩⟩

end swGeometry

/-! ## Theorems: index bounds and the depth buffer -/

namespace swRender

variable {K : Type} [LinearOrderedField K]

theorem index_in_grid (x y width height : Int) (hx0 : 0 ≤ x) (hx1 : x ≤ width - 1)
    (hy0 : 0 ≤ y) (hy1 : y ≤ height - 1) :
    0 ≤ x + (y * width) ∧ x + (y * width) < width * height := by
  have hw : 0 ≤ width := by omega
  constructor
  · have := mul_nonneg hy0 hw
    omega
  · have h1 : y * width ≤ (height - 1) * width := mul_le_mul_of_nonneg_right hy1 hw
    have h2 : (height - 1) * width = width * height - width := by ring
    omega

/-- C37: for a light table with `N >= 1` rows and every shading percent `s` (a `param0` of any
size or a clamped distance ratio), the light level index `clamp(trunc(s * N), 0, N - 1)` lies in
`[0, N - 1]`.  For a texel value `<= 255` and a light table width `W >= 256` the read index
`texel + lightLevelIndex * W` lies in `[0, W * N)`.  For a width `W >= 1` and a texel value
`>= W` the read index is at least `(lightLevelIndex + 1) * W`: it falls in a later row of the
table, and past the end of the table when the light level is the last one. -/
theorem shadedTexelIndex_bounds [FloorRing K] (frame : FrameConstants K) (s : K) (texel : Nat)
    (hN : frame.lightLevelCount ≥ 1) :
    (0 ≤ lightLevelIndex frame s ∧ lightLevelIndex frame s ≤ frame.lightLevelCount - 1)
    ∧ (texel ≤ 255 → frame.lightLevelTexelCount ≥ 256 →
        0 ≤ shadedTexelIndex frame texel (lightLevelIndex frame s)
        ∧ shadedTexelIndex frame texel (lightLevelIndex frame s)
            < frame.lightLevelTexelCount * frame.lightLevelCount)
    ∧ (frame.lightLevelTexelCount ≥ 1 → (texel : Int) ≥ frame.lightLevelTexelCount →
        (lightLevelIndex frame s + 1) * frame.lightLevelTexelCount
            ≤ shadedTexelIndex frame texel (lightLevelIndex frame s)
        ∧ shadedTexelIndex frame texel (lightLevelIndex frame s) / frame.lightLevelTexelCount
            ≥ lightLevelIndex frame s + 1
        ∧ (lightLevelIndex frame s = frame.lightLevelCount - 1 →
            shadedTexelIndex frame texel (lightLevelIndex frame s)
              ≥ frame.lightLevelTexelCount * frame.lightLevelCount)) := by
  have hle : (0 : Int) ≤ frame.lightLevelCount - 1 := by omega
  have hL : 0 ≤ lightLevelIndex frame s ∧ lightLevelIndex frame s ≤ frame.lightLevelCount - 1 :=
    clamp_bounds _ 0 (frame.lightLevelCount - 1) hle
  refine ⟨hL, ?_, ?_⟩
  · intro ht hW
    have hgrid := index_in_grid ((texel : Int)) (lightLevelIndex frame s)
      frame.lightLevelTexelCount frame.lightLevelCount (by omega) (by omega) hL.1 hL.2
    exact hgrid
  · intro hW ht
    have h1 : (lightLevelIndex frame s + 1) * frame.lightLevelTexelCount
        ≤ shadedTexelIndex frame texel (lightLevelIndex frame s) := by
      unfold shadedTexelIndex
      have : (lightLevelIndex frame s + 1) * frame.lightLevelTexelCount
          = frame.lightLevelTexelCount
            + lightLevelIndex frame s * frame.lightLevelTexelCount := by ring
      omega
    refine ⟨h1, ?_, ?_⟩
    · exact (Int.le_ediv_iff_mul_le (by omega)).mpr h1
    · intro hlast
      have hrow : (lightLevelIndex frame s + 1) * frame.lightLevelTexelCount
          = frame.lightLevelTexelCount * frame.lightLevelCount := by
        rw [hlast]
        ring
      omega

/-- Witness for C37: with the light table of two rows of 256 texels, the texel 255 at shading
percent `3/2`, beyond 1, reads index `255 + 1 * 256 = 511 < 512`; with the light table of
`exampleFrame`, one row of 4 texels, the texel 5 reads index 5, past the end of the table. -/
theorem shadedTexelIndex_bounds_witness :
    wideLightTableFrame.lightLevelCount ≥ 1
    ∧ lightLevelIndex wideLightTableFrame (3 / 2 : ℚ) = 1
    ∧ shadedTexelIndex wideLightTableFrame 255 (lightLevelIndex wideLightTableFrame (3 / 2 : ℚ))
        = 511
    ∧ (0 ≤ shadedTexelIndex wideLightTableFrame 255
          (lightLevelIndex wideLightTableFrame (3 / 2 : ℚ))
      ∧ shadedTexelIndex wideLightTableFrame 255
          (lightLevelIndex wideLightTableFrame (3 / 2 : ℚ))
        < wideLightTableFrame.lightLevelTexelCount * wideLightTableFrame.lightLevelCount)
    ∧ exampleFrame.lightLevelCount ≥ 1
    ∧ ((5 : Nat) : Int) ≥ exampleFrame.lightLevelTexelCount
    ∧ shadedTexelIndex exampleFrame 5 (lightLevelIndex exampleFrame (0 : ℚ))
        ≥ exampleFrame.lightLevelTexelCount * exampleFrame.lightLevelCount := by
  have hN : wideLightTableFrame.lightLevelCount ≥ 1 := by decide
  have hL : lightLevelIndex wideLightTableFrame (3 / 2 : ℚ) = 1 := by
    norm_num [lightLevelIndex, wideLightTableFrame, staticCastInt, truncTowardZero, INT_MIN, INT_MAX, clamp]
  have hN2 : exampleFrame.lightLevelCount ≥ 1 := by decide
  have ht2 : ((5 : Nat) : Int) ≥ exampleFrame.lightLevelTexelCount := by decide
  have h := shadedTexelIndex_bounds wideLightTableFrame (3 / 2 : ℚ) 255 hN
  have h2 := shadedTexelIndex_bounds exampleFrame (0 : ℚ) 5 hN2
  refine ⟨hN, hL, ?_, h.2.1 (by decide) (by decide), hN2, ht2,
    (h2.2.2 (by decide) ht2).2.2 ?_⟩
  · rw [hL]
    rfl
  · norm_num [lightLevelIndex, exampleFrame, staticCastInt, truncTowardZero, INT_MIN, INT_MAX, clamp]

theorem readAt_writeAt_other {α : Type} (l : List α) (i j : Int) (v d : α) (h : j ≠ i) :
    readAt (writeAt l i v) j d = readAt l j d := by
  unfold readAt writeAt
  by_cases hj : j < 0
  · simp [hj]
  · by_cases hi : i < 0
    · simp [hi]
    · have hne : i.toNat ≠ j.toNat := by omega
      simp [hj, hi, List.getD_eq_getElem?_getD, List.getElem?_set_ne hne]

theorem writeAt_outside {α : Type} (l : List α) (i : Int) (v : α)
    (h : ¬ (0 ≤ i ∧ i.toNat < l.length)) : writeAt l i v = l := by
  unfold writeAt
  by_cases hi : i < 0
  · simp [hi]
  · have hlen : l.length ≤ i.toNat := by
      by_contra hcon
      exact h ⟨by omega, by omega⟩
    simp [hi, List.set_eq_of_length_le hlen]

theorem mem_loopRange (start stop x : Int) :
    x ∈ loopRange start stop ↔ start ≤ x ∧ x < stop := by
  unfold loopRange
  simp only [List.mem_map, List.pure_def, List.bind_eq_flatMap, List.mem_flatMap,
    List.mem_range, List.mem_singleton]
  constructor
  · rintro ⟨i, ⟨n, hn, rfl⟩, rfl⟩
    omega
  · intro h
    exact ⟨x - start, ⟨(x - start).toNat, by omega, by omega⟩, by omega⟩

theorem LoweredWithin_refl (touched : Int → Prop) (buffers : FrameBuffers K) :
    LoweredWithin touched buffers buffers :=
  ⟨rfl, rfl, fun _ => Or.inr ⟨rfl, fun _ => rfl⟩⟩

theorem LoweredWithin_trans (touched : Int → Prop) (a b c : FrameBuffers K)
    (hab : LoweredWithin touched a b) (hbc : LoweredWithin touched b c) :
    LoweredWithin touched a c := by
  refine ⟨hbc.1.trans hab.1, hbc.2.1.trans hab.2.1, fun index => ?_⟩
  rcases hab.2.2 index with ⟨h1, ht⟩ | ⟨h1, hc1⟩
  · rcases hbc.2.2 index with ⟨h2, _⟩ | ⟨h2, _⟩
    · exact Or.inl ⟨h2.trans h1, ht⟩
    · exact Or.inl ⟨h2 ▸ h1, ht⟩
  · rcases hbc.2.2 index with ⟨h2, ht⟩ | ⟨h2, hc2⟩
    · exact Or.inl ⟨h1 ▸ h2, ht⟩
    · exact Or.inr ⟨h2.trans h1, fun d => (hc2 d).trans (hc1 d)⟩

theorem LoweredWithin_mono (touched touched2 : Int → Prop) (a b : FrameBuffers K)
    (hsub : ∀ index, touched index → touched2 index) (hab : LoweredWithin touched a b) :
    LoweredWithin touched2 a b := by
  refine ⟨hab.1, hab.2.1, fun index => ?_⟩
  rcases hab.2.2 index with ⟨h1, ht⟩ | h
  · exact Or.inl ⟨h1, hsub index ht⟩
  · exact Or.inr h

theorem LoweredWithin_length_eq (touched : Int → Prop) (a b : FrameBuffers K)
    (hab : LoweredWithin touched a b) (hlen : a.colorBuffer.length = a.depthBuffer.length) :
    b.colorBuffer.length = b.depthBuffer.length := by
  rw [hab.1, hab.2.1, hlen]

theorem foldl_lowered {β : Type} (touched : Int → Prop)
    (f : FrameBuffers K → β → FrameBuffers K) (l : List β)
    (h : ∀ a ∈ l, ∀ b : FrameBuffers K, b.colorBuffer.length = b.depthBuffer.length →
      LoweredWithin touched b (f b a))
    (b : FrameBuffers K) (hb : b.colorBuffer.length = b.depthBuffer.length) :
    LoweredWithin touched b (l.foldl f b) := by
  induction l generalizing b with
  | nil => exact LoweredWithin_refl touched b
  | cons a rest ih =>
    have hstep := h a (List.mem_cons_self a rest) b hb
    have hrest := ih (fun a2 ha2 => h a2 (List.mem_cons_of_mem a ha2)) (f b a)
      (LoweredWithin_length_eq touched b (f b a) hstep hb)
    exact LoweredWithin_trans touched b (f b a) _ hstep hrest

theorem shadeFragment_lowered [FloorRing K] (env : MathEnv K) (debug_alphaTest : Bool)
    (frame : FrameConstants K) (tri : TriangleConstants K) (x y : Int) (u v w : K)
    (buffers : FrameBuffers K) (hlen : buffers.colorBuffer.length = buffers.depthBuffer.length) :
    LoweredWithin (fun index => index = x + (y * frame.frameBufferWidth)) buffers
      (shadeFragment env debug_alphaTest frame tri x y u v w buffers) := by
  by_cases hlt : ((fragmentDepth tri u v w : K) : WithTop K)
      < readAt buffers.depthBuffer (x + (y * frame.frameBufferWidth)) ⊤
  · by_cases hkeep : debug_alphaTest = true ∧ fragmentTexel tri u v w = 0
    · have hsame : shadeFragment env debug_alphaTest frame tri x y u v w buffers = buffers := by
        simp [shadeFragment, hkeep.1, hkeep.2]
      rw [hsame]
      exact LoweredWithin_refl _ buffers
    · rw [shadeFragment_of_lt env debug_alphaTest frame tri x y u v w buffers hlt hkeep]
      refine ⟨writeAt_length _ _ _, writeAt_length _ _ _, fun index => ?_⟩
      by_cases hidx : index = x + (y * frame.frameBufferWidth)
      · rw [hidx]
        by_cases hin : 0 ≤ x + (y * frame.frameBufferWidth)
            ∧ (x + (y * frame.frameBufferWidth)).toNat < buffers.depthBuffer.length
        · left
          simp only []
          rw [readAt_writeAt_same _ _ _ _ hin.1 hin.2]
          exact ⟨hlt, trivial⟩
        · right
          have hin2 : ¬ (0 ≤ x + (y * frame.frameBufferWidth)
              ∧ (x + (y * frame.frameBufferWidth)).toNat < buffers.colorBuffer.length) := by
            rw [hlen]
            exact hin
          simp only []
          rw [writeAt_outside _ _ _ hin, writeAt_outside _ _ _ hin2]
          exact ⟨rfl, fun _ => rfl⟩
      · right
        exact ⟨readAt_writeAt_other _ _ _ _ _ hidx, fun d => readAt_writeAt_other _ _ _ _ _ hidx⟩
  · rw [shadeFragment_of_not_lt env debug_alphaTest frame tri x y u v w buffers hlt]
    exact LoweredWithin_refl _ buffers

theorem rasterizePixel_lowered [FloorRing K] (env : MathEnv K) (debug_alphaTest : Bool)
    (frame : FrameConstants K) (tri : TriangleConstants K) (x y : Int)
    (buffers : FrameBuffers K) (hlen : buffers.colorBuffer.length = buffers.depthBuffer.length) :
    LoweredWithin (fun index => index = x + (y * frame.frameBufferWidth)) buffers
      (rasterizePixel env debug_alphaTest frame tri x y buffers) := by
  unfold rasterizePixel
  simp only []
  split
  · exact shadeFragment_lowered env debug_alphaTest frame tri x y _ _ _ buffers hlen
  · exact LoweredWithin_refl _ buffers

theorem RasterizeTriangles_lowered [FloorRing K] (env : MathEnv K) (utils : RendererUtils K)
    (triangles : List (RenderTriangle K)) (debug_alphaTest : Bool)
    (materials : Int → ObjectMaterial) (textures : Int → ObjectTexture)
    (paletteTexture lightTableTexture : ObjectTexture) (camera : RenderCamera K)
    (colorBuffer : BufferView2D Nat) (depthBuffer : BufferView2D (WithTop K))
    (hlen : colorBuffer.data.length = depthBuffer.data.length) :
    LoweredWithin
      (fun index => ∃ triangle ∈ triangles, ∃ x y : Int,
        ((triangleConstants env utils materials textures camera colorBuffer.width
            colorBuffer.height triangle).xStart ≤ x
          ∧ x < (triangleConstants env utils materials textures camera colorBuffer.width
            colorBuffer.height triangle).xEnd
          ∧ (triangleConstants env utils materials textures camera colorBuffer.width
            colorBuffer.height triangle).yStart ≤ y
          ∧ y < (triangleConstants env utils materials textures camera colorBuffer.width
            colorBuffer.height triangle).yEnd)
        ∧ index = x + (y * colorBuffer.width))
      { colorBuffer := colorBuffer.data, depthBuffer := depthBuffer.data }
      { colorBuffer := (RasterizeTriangles env utils triangles debug_alphaTest materials textures
          paletteTexture lightTableTexture camera colorBuffer depthBuffer).1.data,
        depthBuffer := (RasterizeTriangles env utils triangles debug_alphaTest materials textures
          paletteTexture lightTableTexture camera colorBuffer depthBuffer).2.data } := by
  unfold RasterizeTriangles
  simp only []
  apply foldl_lowered _ _ _ _ _ hlen
  intro triangle htriangle b hb
  apply foldl_lowered _ _ _ _ _ hb
  intro y hy b2 hb2
  apply foldl_lowered _ _ _ _ _ hb2
  intro x hx b3 hb3
  refine LoweredWithin_mono _ _ _ _ ?_ (rasterizePixel_lowered env debug_alphaTest _ _ x y b3 hb3)
  intro index hindex
  rw [mem_loopRange] at hx hy
  exact ⟨triangle, htriangle, x, y, ⟨hx.1, hx.2, hy.1, hy.2⟩, hindex⟩

theorem rasterizePixel_cases [FloorRing K] (env : MathEnv K) (debug_alphaTest : Bool)
    (frame : FrameConstants K) (tri : TriangleConstants K) (x y : Int)
    (buffers : FrameBuffers K) :
    rasterizePixel env debug_alphaTest frame tri x y buffers = buffers
    ∨ ∃ (color : Nat) (depth : K),
        (depth : WithTop K) < readAt buffers.depthBuffer (x + (y * frame.frameBufferWidth)) ⊤
        ∧ rasterizePixel env debug_alphaTest frame tri x y buffers
          = { colorBuffer := writeAt buffers.colorBuffer (x + (y * frame.frameBufferWidth)) color,
              depthBuffer := writeAt buffers.depthBuffer (x + (y * frame.frameBufferWidth))
                (depth : WithTop K) } := by
  unfold rasterizePixel
  simp only []
  split
  · rename_i hinside
    generalize (barycentricWeights tri.screenSpace0_2D tri.screenSpace1_2D tri.screenSpace2_2D
      _).1 = u
    generalize (barycentricWeights tri.screenSpace0_2D tri.screenSpace1_2D tri.screenSpace2_2D
      _).2.1 = v
    generalize (barycentricWeights tri.screenSpace0_2D tri.screenSpace1_2D tri.screenSpace2_2D
      _).2.2 = w
    by_cases hlt : ((fragmentDepth tri u v w : K) : WithTop K)
        < readAt buffers.depthBuffer (x + (y * frame.frameBufferWidth)) ⊤
    · by_cases hkeep : debug_alphaTest = true ∧ fragmentTexel tri u v w = 0
      · left
        simp [shadeFragment, hkeep.1, hkeep.2]
      · right
        exact ⟨_, _, hlt, shadeFragment_of_lt env debug_alphaTest frame tri x y u v w buffers
          hlt hkeep⟩
    · left
      exact shadeFragment_of_not_lt env debug_alphaTest frame tri x y u v w buffers hlt
  · left
    rfl

theorem index_of_pixel_unique (px py x y width : Int) (hpx0 : 0 ≤ px) (hpx1 : px < width)
    (hx0 : 0 ≤ x) (hx1 : x < width) (h : px + (py * width) = x + (y * width)) :
    px = x ∧ py = y := by
  have hmod : (px + (py * width)) % width = (x + (y * width)) % width := by rw [h]
  rw [Int.add_mul_emod_self, Int.add_mul_emod_self, Int.emod_eq_of_lt hpx0 hpx1,
    Int.emod_eq_of_lt hx0 hx1] at hmod
  refine ⟨hmod, ?_⟩
  rw [hmod] at h
  have hmul : py * width = y * width := by omega
  exact Int.eq_of_mul_eq_mul_right (by omega) hmul

/-- C36: for a color buffer and a depth buffer with the same number of cells,
`RasterizeTriangles` never increases a depth cell: at every index the depth after the call is
`<=` the depth before it.  A cell whose color differs after the call holds a strictly lower
depth.  A cell whose index is not `x + y * width` for a pixel `(x, y)` of the bounding box
`[xStart, xEnd) x [yStart, yEnd)` of some triangle keeps its depth and its color; so does the
cell of a pixel `(px, py)` with `0 <= px < width` that lies in no bounding box, when the boxes
lie within the columns `[0, width]`.  Every step of the pixel loops either leaves both buffers as
they are or writes a color and a depth strictly below the stored one at the same index
`x + y * width`, and a step changes the color of a cell only if it strictly lowers its depth. -/
theorem RasterizeTriangles_depth_never_increases [FloorRing K] (env : MathEnv K)
    (utils : RendererUtils K) (triangles : List (RenderTriangle K)) (debug_alphaTest : Bool)
    (materials : Int → ObjectMaterial) (textures : Int → ObjectTexture)
    (paletteTexture lightTableTexture : ObjectTexture) (camera : RenderCamera K)
    (colorBuffer : BufferView2D Nat) (depthBuffer : BufferView2D (WithTop K))
    (hlen : colorBuffer.data.length = depthBuffer.data.length) :
    (∀ index : Int,
        readAt (RasterizeTriangles env utils triangles debug_alphaTest materials textures
          paletteTexture lightTableTexture camera colorBuffer depthBuffer).2.data index ⊤ ≤ readAt depthBuffer.data index ⊤)
    ∧ (∀ (index : Int) (d : Nat),
        readAt (RasterizeTriangles env utils triangles debug_alphaTest materials textures
          paletteTexture lightTableTexture camera colorBuffer depthBuffer).1.data index d ≠ readAt colorBuffer.data index d →
        readAt (RasterizeTriangles env utils triangles debug_alphaTest materials textures
          paletteTexture lightTableTexture camera colorBuffer depthBuffer).2.data index ⊤ < readAt depthBuffer.data index ⊤)
    ∧ (∀ index : Int,
        (∀ triangle ∈ triangles, ∀ x y : Int,
          (triangleConstants env utils materials textures camera colorBuffer.width
              colorBuffer.height triangle).xStart ≤ x →
          x < (triangleConstants env utils materials textures camera colorBuffer.width
              colorBuffer.height triangle).xEnd →
          (triangleConstants env utils materials textures camera colorBuffer.width
              colorBuffer.height triangle).yStart ≤ y →
          y < (triangleConstants env utils materials textures camera colorBuffer.width
              colorBuffer.height triangle).yEnd →
          index ≠ x + (y * colorBuffer.width)) →
        readAt (RasterizeTriangles env utils triangles debug_alphaTest materials textures
          paletteTexture lightTableTexture camera colorBuffer depthBuffer).2.data index ⊤ = readAt depthBuffer.data index ⊤
        ∧ ∀ d : Nat, readAt (RasterizeTriangles env utils triangles debug_alphaTest materials textures
          paletteTexture lightTableTexture camera colorBuffer depthBuffer).1.data index d = readAt colorBuffer.data index d)
    ∧ (∀ px py : Int, 0 ≤ px → px < colorBuffer.width →
        (∀ triangle ∈ triangles,
          0 ≤ (triangleConstants env utils materials textures camera colorBuffer.width
              colorBuffer.height triangle).xStart
          ∧ (triangleConstants env utils materials textures camera colorBuffer.width
              colorBuffer.height triangle).xEnd ≤ colorBuffer.width) →
        (∀ triangle ∈ triangles,
          ¬ ((triangleConstants env utils materials textures camera colorBuffer.width
              colorBuffer.height triangle).xStart ≤ px
            ∧ px < (triangleConstants env utils materials textures camera colorBuffer.width
              colorBuffer.height triangle).xEnd
            ∧ (triangleConstants env utils materials textures camera colorBuffer.width
              colorBuffer.height triangle).yStart ≤ py
            ∧ py < (triangleConstants env utils materials textures camera colorBuffer.width
              colorBuffer.height triangle).yEnd)) →
        readAt (RasterizeTriangles env utils triangles debug_alphaTest materials textures
          paletteTexture lightTableTexture camera colorBuffer depthBuffer).2.data (px + (py * colorBuffer.width)) ⊤
          = readAt depthBuffer.data (px + (py * colorBuffer.width)) ⊤
        ∧ ∀ d : Nat, readAt (RasterizeTriangles env utils triangles debug_alphaTest materials textures
          paletteTexture lightTableTexture camera colorBuffer depthBuffer).1.data (px + (py * colorBuffer.width)) d
          = readAt colorBuffer.data (px + (py * colorBuffer.width)) d)
    ∧ (∀ (frame : FrameConstants K) (tri : TriangleConstants K) (x y : Int)
        (buffers : FrameBuffers K),
        (rasterizePixel env debug_alphaTest frame tri x y buffers = buffers
          ∨ ∃ (color : Nat) (depth : K),
              (depth : WithTop K)
                < readAt buffers.depthBuffer (x + (y * frame.frameBufferWidth)) ⊤
              ∧ rasterizePixel env debug_alphaTest frame tri x y buffers
                = { colorBuffer :=
                      writeAt buffers.colorBuffer (x + (y * frame.frameBufferWidth)) color,
                    depthBuffer :=
                      writeAt buffers.depthBuffer (x + (y * frame.frameBufferWidth))
                        (depth : WithTop K) })
        ∧ (buffers.colorBuffer.length = buffers.depthBuffer.length →
            ∀ (index : Int) (d : Nat),
              readAt (rasterizePixel env debug_alphaTest frame tri x y buffers).colorBuffer
                  index d ≠ readAt buffers.colorBuffer index d →
              readAt (rasterizePixel env debug_alphaTest frame tri x y buffers).depthBuffer
                  index ⊤ < readAt buffers.depthBuffer index ⊤)) := by
  have h := RasterizeTriangles_lowered env utils triangles debug_alphaTest materials textures
    paletteTexture lightTableTexture camera colorBuffer depthBuffer hlen
  have hindex : ∀ index : Int,
      (∀ triangle ∈ triangles, ∀ x y : Int,
        (triangleConstants env utils materials textures camera colorBuffer.width
              colorBuffer.height triangle).xStart ≤ x →
        x < (triangleConstants env utils materials textures camera colorBuffer.width
              colorBuffer.height triangle).xEnd →
        (triangleConstants env utils materials textures camera colorBuffer.width
              colorBuffer.height triangle).yStart ≤ y →
        y < (triangleConstants env utils materials textures camera colorBuffer.width
              colorBuffer.height triangle).yEnd →
        index ≠ x + (y * colorBuffer.width)) →
      readAt (RasterizeTriangles env utils triangles debug_alphaTest materials textures
          paletteTexture lightTableTexture camera colorBuffer depthBuffer).2.data index ⊤ = readAt depthBuffer.data index ⊤
      ∧ ∀ d : Nat, readAt (RasterizeTriangles env utils triangles debug_alphaTest materials textures
          paletteTexture lightTableTexture camera colorBuffer depthBuffer).1.data index d = readAt colorBuffer.data index d := by
    intro index hout
    rcases h.2.2 index with ⟨_, triangle, htriangle, x, y, hbox, hidx⟩ | hsame
    · exact absurd hidx (hout triangle htriangle x y hbox.1 hbox.2.1 hbox.2.2.1 hbox.2.2.2)
    · exact hsame
  refine ⟨fun index => ?_, fun index d hcolor => ?_, hindex, ?_, ?_⟩
  · rcases h.2.2 index with hlow | hsame
    · exact le_of_lt hlow.1
    · exact le_of_eq hsame.1
  · rcases h.2.2 index with hlow | hsame
    · exact hlow.1
    · exact absurd (hsame.2 d) hcolor
  · intro px py hpx0 hpx1 hclamped hnotin
    apply hindex
    intro triangle htriangle x y hx0 hx1 hy0 hy1 heq
    have hc := hclamped triangle htriangle
    have hxy := index_of_pixel_unique px py x y colorBuffer.width hpx0 hpx1 (by omega)
      (by omega) heq
    apply hnotin triangle htriangle
    rw [hxy.1, hxy.2]
    exact ⟨hx0, hx1, hy0, hy1⟩
  · intro frame tri x y buffers
    refine ⟨rasterizePixel_cases env debug_alphaTest frame tri x y buffers, ?_⟩
    intro hb index d hcolor
    rcases (rasterizePixel_lowered env debug_alphaTest frame tri x y buffers hb).2.2 index
      with hlow | hsame
    · exact hlow.1
    · exact absurd (hsame.2 d) hcolor

/-- Witness for C36: one triangle drawn into the one-pixel buffers with the empty bounding box
that `exampleUtils` gives, so the pixel stays black at depth `+infinity`; and the step of the
pixel loops for a fragment of depth 3 at the pixel `(0, 0)` of the cleared buffers, which
lowers the depth from `+infinity` to 3. -/
theorem RasterizeTriangles_depth_never_increases_witness :
    onePixelColorBuffer.data.length = onePixelDepthBuffer.data.length
    ∧ (∀ index : Int,
        readAt (RasterizeTriangles exampleEnv exampleUtils [shadedTriangle 0] false
          (fun _ => ⟨0, -1⟩) (fun _ => singleTexelTexture 2) examplePaletteTexture
          twoLevelLightTable exampleCamera onePixelColorBuffer onePixelDepthBuffer).2.data index ⊤ ≤ readAt onePixelDepthBuffer.data index ⊤)
    ∧ (readAt (RasterizeTriangles exampleEnv exampleUtils [shadedTriangle 0] false
          (fun _ => ⟨0, -1⟩) (fun _ => singleTexelTexture 2) examplePaletteTexture
          twoLevelLightTable exampleCamera onePixelColorBuffer onePixelDepthBuffer).2.data 0 ⊤ = ⊤
        ∧ ∀ d : Nat, readAt (RasterizeTriangles exampleEnv exampleUtils [shadedTriangle 0] false
          (fun _ => ⟨0, -1⟩) (fun _ => singleTexelTexture 2) examplePaletteTexture
          twoLevelLightTable exampleCamera onePixelColorBuffer onePixelDepthBuffer).1.data 0 d = 0xFF000000)
    ∧ readAt (rasterizePixel exampleEnv false exampleFrame (coveringTriangleConstants 3 2) 0 0
          clearedBuffers).depthBuffer 0 ⊤ = ((3 : ℚ) : WithTop ℚ)
    ∧ ((rasterizePixel exampleEnv false exampleFrame (coveringTriangleConstants 3 2) 0 0
          clearedBuffers) = clearedBuffers
        ∨ ∃ (color : Nat) (depth : ℚ),
            (depth : WithTop ℚ)
              < readAt clearedBuffers.depthBuffer (0 + (0 * exampleFrame.frameBufferWidth)) ⊤
            ∧ (rasterizePixel exampleEnv false exampleFrame (coveringTriangleConstants 3 2) 0 0
          clearedBuffers)
              = { colorBuffer :=
                    writeAt clearedBuffers.colorBuffer (0 + (0 * exampleFrame.frameBufferWidth))
                      color,
                  depthBuffer :=
                    writeAt clearedBuffers.depthBuffer (0 + (0 * exampleFrame.frameBufferWidth))
                      (depth : WithTop ℚ) }) := by
  have hlen : onePixelColorBuffer.data.length = onePixelDepthBuffer.data.length := rfl
  have h := RasterizeTriangles_depth_never_increases exampleEnv exampleUtils [shadedTriangle 0]
    false (fun _ => ⟨0, -1⟩) (fun _ => singleTexelTexture 2) examplePaletteTexture
    twoLevelLightTable exampleCamera onePixelColorBuffer onePixelDepthBuffer hlen
  have hsame := h.2.2.1 0 (by
    intro triangle _ x y hx0 hx1
    have h0 : (0 : Int) ≤ x := hx0
    have h1 : x < (0 : Int) := hx1
    omega)
  refine ⟨hlen, h.1, ⟨?_, ?_⟩, ?_, (h.2.2.2.2 exampleFrame (coveringTriangleConstants 3 2) 0 0
    clearedBuffers).1⟩
  · rw [hsame.1]
    rfl
  · intro d
    rw [hsame.2 d]
    rfl
  · have h3 : (3 : WithTop ℚ) < ⊤ := by exact_mod_cast WithTop.coe_lt_top (3 : ℚ)
    norm_num [rasterizePixel, isPointInHalfSpace, rightPerp, coveringTriangleConstants,
      exampleTriangleConstants, exampleFrame, barycentricWeights, shadeFragment, fragmentDepth,
      perspectiveDepth, readAt, writeAt, clearedBuffers, Double2_sub_def, Double2.dot, h3]

end swRender
/-! ## Theorems: the two hit tests, init and shutdown -/

namespace SoftwareRenderer

section HitTests

variable {K : Type} [LinearOrderedField K]

theorem staticCastInt_lt_of_nonneg [FloorRing K] (value : K) (dim : Int) (h0 : 0 ≤ value)
    (hres : 0 ≤ staticCastInt value) (hlt : staticCastInt value < dim) : value < (dim : K) := by
  rw [staticCastInt_of_nonneg_result value hres, truncTowardZero_of_nonneg value h0] at hlt
  exact Int.floor_lt.mp hlt

/-- The two hit tests agree on the points with non-negative coordinates: there a pixel-perfect
hit is a bounding-box hit. -/
theorem tryGetEntitySelectionData_modes_agree_nonneg [FloorRing K] (r : SoftwareRenderer K)
    (uv : Double2 K) (textureID : Int) (prior prior2 : Bool) (hx : 0 ≤ uv.x) (hy : 0 ≤ uv.y)
    (hhit : tryGetEntitySelectionData r uv textureID true prior = some ⟨true, true⟩) :
    tryGetEntitySelectionData r uv textureID false prior2 = some ⟨true, true⟩ := by
  cases hget : r.objectTextures.get textureID with
  | none => simp [tryGetEntitySelectionData, hget] at hhit
  | some texture =>
    simp only [tryGetEntitySelectionData, hget, if_true] at hhit
    by_cases hout : staticCastInt (uv.x * (texture.texels.width : K)) < 0
        ∨ staticCastInt (uv.x * (texture.texels.width : K)) ≥ texture.texels.width
        ∨ staticCastInt (uv.y * (texture.texels.height : K)) < 0
        ∨ staticCastInt (uv.y * (texture.texels.height : K)) ≥ texture.texels.height
    · rw [if_pos hout] at hhit
      simp at hhit
    · have hx0 : ¬ staticCastInt (uv.x * (texture.texels.width : K)) < 0 :=
        fun h => hout (Or.inl h)
      have hxw : ¬ staticCastInt (uv.x * (texture.texels.width : K)) ≥ texture.texels.width :=
        fun h => hout (Or.inr (Or.inl h))
      have hy0 : ¬ staticCastInt (uv.y * (texture.texels.height : K)) < 0 :=
        fun h => hout (Or.inr (Or.inr (Or.inl h)))
      have hyh : ¬ staticCastInt (uv.y * (texture.texels.height : K)) ≥ texture.texels.height :=
        fun h => hout (Or.inr (Or.inr (Or.inr h)))
      have hw : (0 : Int) < texture.texels.width := by omega
      have hh : (0 : Int) < texture.texels.height := by omega
      have hwK : (0 : K) < (texture.texels.width : K) := by exact_mod_cast hw
      have hhK : (0 : K) < (texture.texels.height : K) := by exact_mod_cast hh
      have hxlt := staticCastInt_lt_of_nonneg (uv.x * (texture.texels.width : K))
        texture.texels.width (mul_nonneg hx (le_of_lt hwK)) (by omega) (by omega)
      have hylt := staticCastInt_lt_of_nonneg (uv.y * (texture.texels.height : K))
        texture.texels.height (mul_nonneg hy (le_of_lt hhK)) (by omega) (by omega)
      have hx1 : uv.x ≤ 1 := by
        by_contra hcon
        have h1 : (1 : K) < uv.x := not_le.mp hcon
        have h2 : (texture.texels.width : K) < uv.x * (texture.texels.width : K) := by
          have := mul_lt_mul_of_pos_right h1 hwK
          simpa using this
        exact lt_irrefl _ (lt_trans h2 hxlt)
      have hy1 : uv.y ≤ 1 := by
        by_contra hcon
        have h1 : (1 : K) < uv.y := not_le.mp hcon
        have h2 : (texture.texels.height : K) < uv.y * (texture.texels.height : K) := by
          have := mul_lt_mul_of_pos_right h1 hhK
          simpa using this
        exact lt_irrefl _ (lt_trans h2 hylt)
      simp [tryGetEntitySelectionData, hx, hy, hx1, hy1]

/-- C38: the two hit tests of `tryGetEntitySelectionData` disagree at a point just outside the
rectangle.  The light table of `exampleRenderer`, a grid of 4 x 1 texels `0, 1, 2, 3`, is at
texture handle 1.  At `uv = (1/2, -1/2)` the pixel-perfect test computes
`textureY = trunc(-1/2 * 1) = 0`, which passes the check `textureY < 0`, reads the texel
`(2, 0) = 2` and returns `true` with `outIsSelected = true`; the bounding-box test at the same
point finds `uv.y >= 0` false and sets `outIsSelected = false`. -/
theorem tryGetEntitySelectionData_modes_disagree :
    exampleRenderer.objectTextures.get 1 = some exampleLightTableTexture
    ∧ staticCastInt ((⟨1 / 2, -1 / 2⟩ : Double2 ℚ).y * (exampleLightTableTexture.texels.height : ℚ))
        = 0
    ∧ tryGetEntitySelectionData exampleRenderer (⟨1 / 2, -1 / 2⟩ : Double2 ℚ) 1 true false
        = some ⟨true, true⟩
    ∧ tryGetEntitySelectionData exampleRenderer (⟨1 / 2, -1 / 2⟩ : Double2 ℚ) 1 false true
        = some ⟨true, false⟩ := by
  have hget : exampleRenderer.objectTextures.get 1 = some exampleLightTableTexture :=
    RecyclablePool_get_set_same _ _ _
  have hceil : ⌈(-(1 / 2) : ℚ)⌉ = 0 := by
    rw [Int.ceil_eq_iff]
    norm_num
  refine ⟨hget, ?_, ?_, ?_⟩
  · norm_num [exampleLightTableTexture, staticCastInt, truncTowardZero, INT_MIN, INT_MAX, hceil]
  · simp only [tryGetEntitySelectionData, hget, if_true]
    norm_num [exampleLightTableTexture, staticCastInt, truncTowardZero, INT_MIN, INT_MAX, readAt, Buffer2D.get, Buffer2D.getAt, hceil]
    decide
  · norm_num [tryGetEntitySelectionData]

end HitTests

section Shutdown

variable {K : Type} [LinearOrderedField K]

/-- C39: `shutdown()` leaves the object materials in place.  After it `isInited()` is false and
the pools of vertex buffers, attribute buffers, index buffers and object textures are empty,
but the pool of object materials is the one from before the call: the material that
`tryCreateObjectMaterial(0, 1)` created at handle 0 of `exampleRenderer` is still allocated
and still reads back its two texture handles.  After `init` with any width and height
`isInited()` is true. -/
theorem shutdown_keeps_objectMaterials :
    (∀ r : SoftwareRenderer K,
        isInited (shutdown r) = false
        ∧ (shutdown r).vertexBuffers = RecyclablePool.clear
        ∧ (shutdown r).attributeBuffers = RecyclablePool.clear
        ∧ (shutdown r).indexBuffers = RecyclablePool.clear
        ∧ (shutdown r).objectTextures = RecyclablePool.clear
        ∧ (shutdown r).objectMaterials = r.objectMaterials)
    ∧ (∀ (r : SoftwareRenderer K) (width height : Int), isInited (init r width height) = true)
    ∧ tryCreateObjectMaterial examplePolicy exampleRenderer 0 1
        = some ⟨true, some 0, exampleRendererWithMaterial⟩
    ∧ (shutdown exampleRendererWithMaterial).objectMaterials.get 0 = some ⟨0, 1⟩
    ∧ (shutdown exampleRendererWithMaterial).objectMaterials
        ≠ (RecyclablePool.clear : RecyclablePool ObjectMaterial)
    ∧ tryGetObjectMaterialTextures (shutdown exampleRendererWithMaterial) 0
        = some ⟨true, 0, 1⟩ := by
  have halloc : examplePolicy.objectMaterials exampleRenderer.objectMaterials = some 0 := by
    simp [examplePolicy, firstFreeHandle, exampleRenderer, RecyclablePool.get,
      RecyclablePool.clear, List.range, List.range.loop, List.find?]
  have hget : (shutdown exampleRendererWithMaterial).objectMaterials.get 0 = some ⟨0, 1⟩ :=
    RecyclablePool_get_set_same _ _ _
  refine ⟨fun r => ⟨rfl, rfl, rfl, rfl, rfl, rfl⟩, fun r width height => rfl, ?_, hget, ?_, ?_⟩
  · rw [tryCreateObjectMaterial_eq _ _ _ _ (by decide) (by decide), halloc]
    rfl
  · intro hclear
    rw [hclear] at hget
    simp [RecyclablePool.get, RecyclablePool.clear] at hget
  · simp [tryGetObjectMaterialTextures, hget]

end Shutdown

end SoftwareRenderer

/-! ## Theorems: the hovered location of the province map -/

namespace ProvinceMapPanel

variable {K : Type} [LinearOrderedField K]

theorem closerThanCurrentClosest_none (sqrt : K → K) (originalPosition point : Int2) :
    closerThanCurrentClosest sqrt originalPosition none point = true := rfl

theorem Int2_sub_def (a b : Int2) : a - b = ⟨wrapInt (a.x - b.x), wrapInt (a.y - b.y)⟩ := rfl

theorem self_le_mul_self (d : Int) : d ≤ d * d := by
  by_cases h : d ≤ 0
  · exact le_trans h (mul_self_nonneg d)
  · have h1 : 1 ≤ d := by omega
    nlinarith

theorem neg_self_le_mul_self (d : Int) : -d ≤ d * d := by
  have h := self_le_mul_self (-d)
  have h2 : -d * -d = d * d := by ring
  omega

/-- When the squared distance fits, every `int` expression of the lambda holds its exact
value, and the root is taken of a number from 0 on. -/
theorem sumOfSquares_of_fits (originalPosition point : Int2)
    (hfit : squaredDistanceFits originalPosition point) :
    wrapInt (wrapInt ((point - originalPosition).x * (point - originalPosition).x)
        + wrapInt ((point - originalPosition).y * (point - originalPosition).y))
      = (point.x - originalPosition.x) * (point.x - originalPosition.x)
        + (point.y - originalPosition.y) * (point.y - originalPosition.y)
    ∧ 0 ≤ (point.x - originalPosition.x) * (point.x - originalPosition.x)
        + (point.y - originalPosition.y) * (point.y - originalPosition.y) := by
  unfold squaredDistanceFits at hfit
  have hxx := mul_self_nonneg (point.x - originalPosition.x)
  have hyy := mul_self_nonneg (point.y - originalPosition.y)
  have hx1 := self_le_mul_self (point.x - originalPosition.x)
  have hx2 := neg_self_le_mul_self (point.x - originalPosition.x)
  have hy1 := self_le_mul_self (point.y - originalPosition.y)
  have hy2 := neg_self_le_mul_self (point.y - originalPosition.y)
  have hmin : INT_MIN = -2147483648 := rfl
  have hmax : INT_MAX = 2147483647 := rfl
  have hdx : wrapInt (point.x - originalPosition.x) = point.x - originalPosition.x :=
    wrapInt_of_fits _ (by omega) (by omega)
  have hdy : wrapInt (point.y - originalPosition.y) = point.y - originalPosition.y :=
    wrapInt_of_fits _ (by omega) (by omega)
  simp only [Int2_sub_def, hdx, hdy]
  rw [wrapInt_of_fits ((point.x - originalPosition.x) * (point.x - originalPosition.x))
      (by omega) (by omega),
    wrapInt_of_fits ((point.y - originalPosition.y) * (point.y - originalPosition.y))
      (by omega) (by omega),
    wrapInt_of_fits _ (by omega) (by omega)]
  exact ⟨rfl, by omega⟩

theorem closerThanCurrentClosest_some (sqrt : K → K) (provinceInst : ProvinceInstance)
    (provinceDef : ProvinceDefinition) (originalPosition : Int2) (i j : Int)
    (hi : squaredDistanceFits originalPosition (locationPoint provinceInst provinceDef i))
    (hj : squaredDistanceFits originalPosition (locationPoint provinceInst provinceDef j)) :
    closerThanCurrentClosest sqrt originalPosition
        (some (locationPoint provinceInst provinceDef i))
        (locationPoint provinceInst provinceDef j)
      = decide (locationDistance sqrt provinceInst provinceDef originalPosition j
          < locationDistance sqrt provinceInst provinceDef originalPosition i) := by
  obtain ⟨hsumi, hposi⟩ := sumOfSquares_of_fits originalPosition _ hi
  obtain ⟨hsumj, hposj⟩ := sumOfSquares_of_fits originalPosition _ hj
  simp only [closerThanCurrentClosest, hsumi, hsumj, sqrtOfInt, not_lt.mpr hposi,
    not_lt.mpr hposj, if_false, doubleLess, locationDistance]

theorem visitLocation_invisible (sqrt : K → K) (provinceInst : ProvinceInstance)
    (provinceDef : ProvinceDefinition) (originalPosition : Int2)
    (state : Option Int2 × Option Int) (i : Int)
    (h : (provinceInst.getLocationInstance i).isVisible = false) :
    visitLocation sqrt provinceInst provinceDef originalPosition state i = state := by
  simp [visitLocation, h]

theorem visitLocation_visible (sqrt : K → K) (provinceInst : ProvinceInstance)
    (provinceDef : ProvinceDefinition) (originalPosition : Int2)
    (state : Option Int2 × Option Int) (i : Int)
    (h : (provinceInst.getLocationInstance i).isVisible = true) :
    visitLocation sqrt provinceInst provinceDef originalPosition state i
      = if closerThanCurrentClosest sqrt originalPosition state.1
            (locationPoint provinceInst provinceDef i) = true
        then (some (locationPoint provinceInst provinceDef i), some i) else state := by
  simp [visitLocation, h, locationPoint]

theorem scanLocations_succ (sqrt : K → K) (provinceInst : ProvinceInstance)
    (provinceDef : ProvinceDefinition) (originalPosition : Int2) (n : Nat) :
    scanLocations sqrt provinceInst provinceDef originalPosition (n + 1)
      = visitLocation sqrt provinceInst provinceDef originalPosition
          (scanLocations sqrt provinceInst provinceDef originalPosition n) (n : Int) := by
  simp [scanLocations, List.range_succ, List.foldl_append]

/-- The state of the loop after the indices below `n`, when the squared distances of the
visible locations below `n` fit: nothing yet when no location below `n` is visible, otherwise
the first of the visible locations below `n` at the least distance. -/
theorem scanLocations_spec (sqrt : K → K) (provinceInst : ProvinceInstance)
    (provinceDef : ProvinceDefinition) (originalPosition : Int2) (n : Nat)
    (hfit : ∀ j : Nat, j < n → (provinceInst.getLocationInstance (j : Int)).isVisible = true →
      squaredDistanceFits originalPosition (locationPoint provinceInst provinceDef (j : Int))) :
    (scanLocations sqrt provinceInst provinceDef originalPosition n = (none, none)
      ∧ ∀ j : Nat, j < n → (provinceInst.getLocationInstance (j : Int)).isVisible = false)
    ∨ ∃ i : Nat, i < n
      ∧ scanLocations sqrt provinceInst provinceDef originalPosition n
          = (some (locationPoint provinceInst provinceDef (i : Int)), some (i : Int))
      ∧ (provinceInst.getLocationInstance (i : Int)).isVisible = true
      ∧ ∀ j : Nat, j < n → (provinceInst.getLocationInstance (j : Int)).isVisible = true →
          locationDistance sqrt provinceInst provinceDef originalPosition (i : Int)
              ≤ locationDistance sqrt provinceInst provinceDef originalPosition (j : Int)
          ∧ (j < i →
              locationDistance sqrt provinceInst provinceDef originalPosition (i : Int)
                < locationDistance sqrt provinceInst provinceDef originalPosition (j : Int)) := by
  induction n with
  | zero =>
    left
    exact ⟨rfl, fun j hj => absurd hj (Nat.not_lt_zero j)⟩
  | succ n ih =>
    have ih := ih (fun j hj hv => hfit j (Nat.lt_succ_of_lt hj) hv)
    rw [scanLocations_succ]
    by_cases hvis : (provinceInst.getLocationInstance (n : Int)).isVisible = true
    · rw [visitLocation_visible _ _ _ _ _ _ hvis]
      rcases ih with ⟨hstate, hnone⟩ | ⟨i, hi, hstate, hivis, hmin⟩
      · right
        rw [hstate]
        refine ⟨n, Nat.lt_succ_self n, by simp [closerThanCurrentClosest], hvis, ?_⟩
        intro j hj hjvis
        have hjn : j = n := by
          by_contra hne
          have hlt : j < n := by omega
          rw [hnone j hlt] at hjvis
          exact Bool.noConfusion hjvis
        subst hjn
        exact ⟨le_refl _, fun h => absurd h (lt_irrefl _)⟩
      · right
        rw [hstate]
        simp only []
        rw [closerThanCurrentClosest_some sqrt provinceInst provinceDef originalPosition _ _
          (hfit i (Nat.lt_succ_of_lt hi) hivis) (hfit n (Nat.lt_succ_self n) hvis)]
        by_cases hcloser : locationDistance sqrt provinceInst provinceDef originalPosition (n : Int)
            < locationDistance sqrt provinceInst provinceDef originalPosition (i : Int)
        · refine ⟨n, Nat.lt_succ_self n, by simp [hcloser], hvis, ?_⟩
          intro j hj hjvis
          by_cases hjn : j = n
          · subst hjn
            exact ⟨le_refl _, fun h => absurd h (lt_irrefl _)⟩
          · have hlt : j < n := by omega
            have hij := (hmin j hlt hjvis).1
            exact ⟨le_of_lt (lt_of_lt_of_le hcloser hij), fun _ => lt_of_lt_of_le hcloser hij⟩
        · refine ⟨i, Nat.lt_succ_of_lt hi, by simp [hcloser], hivis, ?_⟩
          intro j hj hjvis
          by_cases hjn : j = n
          · subst hjn
            exact ⟨not_lt.mp hcloser, fun h => absurd h (by omega)⟩
          · have hlt : j < n := by omega
            exact hmin j hlt hjvis
    · have hinv : (provinceInst.getLocationInstance (n : Int)).isVisible = false := by
        cases h : (provinceInst.getLocationInstance (n : Int)).isVisible
        · rfl
        · exact absurd h hvis
      rw [visitLocation_invisible _ _ _ _ _ _ hinv]
      rcases ih with ⟨hstate, hnone⟩ | ⟨i, hi, hstate, hivis, hmin⟩
      · left
        refine ⟨hstate, fun j hj => ?_⟩
        by_cases hjn : j = n
        · subst hjn
          exact hinv
        · exact hnone j (by omega)
      · right
        refine ⟨i, Nat.lt_succ_of_lt hi, hstate, hivis, ?_⟩
        intro j hj hjvis
        by_cases hjn : j = n
        · subst hjn
          rw [hinv] at hjvis
          exact Bool.noConfusion hjvis
        · exact hmin j (by omega) hjvis

/-- C40, the claim as stated fails: in `farProvinceInstance` both locations are visible,
location 0 at `(46342, 0)` and location 1 at `(1, 0)`, and the position is `(0, 0)`.  For
location 0 the `int` square `46342 * 46342` wraps to `-2147386332` and its root is NaN, so the
comparison `distance < closestDistance` is false for location 1, at distance 1: the panel,
which hovered over location 1, hovers over location 0 afterwards, the farther of the two. -/
theorem updateHoveredLocationID_keeps_farther_location :
    (farProvinceInstance.getLocationInstance 0).isVisible = true
    ∧ (farProvinceInstance.getLocationInstance 1).isVisible = true
    ∧ wrapInt ((46342 : Int) * 46342) = -2147386332
    ∧ locationDistance Rat.sqrt farProvinceInstance farProvinceDefinition ⟨0, 0⟩ 0 = 46342
    ∧ locationDistance Rat.sqrt farProvinceInstance farProvinceDefinition ⟨0, 0⟩ 1 = 1
    ∧ locationDistance Rat.sqrt farProvinceInstance farProvinceDefinition ⟨0, 0⟩ 1
        < locationDistance Rat.sqrt farProvinceInstance farProvinceDefinition ⟨0, 0⟩ 0
    ∧ updateHoveredLocationID Rat.sqrt exampleLocationName farProvinceInstance
        farProvinceDefinition farPanel ⟨0, 0⟩
      = some { hoveredLocationID := 0, hoveredLocationTextBox := "First" } := by
  have hwrap : wrapInt ((46342 : Int) * 46342) = -2147386332 := by decide
  have hd0 : locationDistance Rat.sqrt farProvinceInstance farProvinceDefinition ⟨0, 0⟩ 0
      = 46342 := by
    have hs : Rat.sqrt 2147580964 = 46342 := rat_sqrt_of_sq _ _ (by norm_num) (by norm_num)
    norm_num [locationDistance, locationPoint, farProvinceInstance, farProvinceDefinition, hs]
  have hd1 : locationDistance Rat.sqrt farProvinceInstance farProvinceDefinition ⟨0, 0⟩ 1
      = 1 := by
    have hs : Rat.sqrt 1 = 1 := rat_sqrt_of_sq _ _ (by norm_num) (by norm_num)
    norm_num [locationDistance, locationPoint, farProvinceInstance, farProvinceDefinition, hs]
  have hstep0 : visitLocation Rat.sqrt farProvinceInstance farProvinceDefinition ⟨0, 0⟩
      (none, none) 0 = (some ⟨46342, 0⟩, some 0) := by
    simp [visitLocation, farProvinceInstance, farProvinceDefinition, closerThanCurrentClosest]
  have hw1 : wrapInt ((1 : Int) - 0) = 1 := by decide
  have hw0 : wrapInt ((0 : Int) - 0) = 0 := by decide
  have hwbig : wrapInt ((46342 : Int) - 0) = 46342 := by decide
  have hwone : wrapInt ((1 : Int) * 1) = 1 := by decide
  have hwzero : wrapInt ((0 : Int) * 0) = 0 := by decide
  have hs1 : wrapInt (1 + 0) = 1 := by decide
  have hsbig : wrapInt (-2147386332 + 0) = -2147386332 := by decide
  have hcloser : closerThanCurrentClosest Rat.sqrt (⟨0, 0⟩ : Int2) (some ⟨46342, 0⟩)
      (⟨1, 0⟩ : Int2) = false := by
    simp only [closerThanCurrentClosest, Int2_sub_def, hw1, hw0, hwbig, hwone, hwzero, hwrap,
      hs1, hsbig, sqrtOfInt]
    rfl
  have hstep1 : visitLocation Rat.sqrt farProvinceInstance farProvinceDefinition ⟨0, 0⟩
      (some ⟨46342, 0⟩, some 0) 1 = (some ⟨46342, 0⟩, some 0) := by
    simp [visitLocation, farProvinceInstance, farProvinceDefinition, hcloser]
  have hscan : scanLocations Rat.sqrt farProvinceInstance farProvinceDefinition ⟨0, 0⟩ 2
      = (some ⟨46342, 0⟩, some 0) := by
    rw [scanLocations_succ, scanLocations_succ]
    have hzero : scanLocations Rat.sqrt farProvinceInstance farProvinceDefinition ⟨0, 0⟩ 0
        = (none, none) := rfl
    rw [hzero]
    have h0 : ((0 : Nat) : Int) = 0 := rfl
    have h1 : (((0 : Nat) + 1 : Nat) : Int) = 1 := rfl
    rw [h0, hstep0, h1, hstep1]
  refine ⟨rfl, rfl, hwrap, hd0, hd1, by rw [hd0, hd1]; norm_num, ?_⟩
  have hcount : farProvinceInstance.getLocationCount.toNat = 2 := rfl
  simp only [updateHoveredLocationID, hcount, hscan]
  rfl

/-- C40, amended: given at least one visible location, and with the squared distance
`dx * dx + dy * dy` of every visible location to the given position at most `INT_MAX`,
`updateHoveredLocationID` returns, and sets `hoveredLocationID` to an index `i` of a visible
location whose screen point has the least Euclidean distance `sqrt(dx * dx + dy * dy)` to the
position among all visible locations, and every visible location of a lower index is strictly
farther: `i` is the lowest index among the closest visible locations.  The text box is set to
the name of location `i` when the hovered location changes, and the panel is left as it is when
`i` was hovered already. -/
theorem updateHoveredLocationID_first_closest_visible (sqrt : K → K)
    (getLocationName : Int → String) (provinceInst : ProvinceInstance)
    (provinceDef : ProvinceDefinition) (panel : PanelState) (originalPosition : Int2)
    (hvisible : ∃ k : Int, 0 ≤ k ∧ k < provinceInst.getLocationCount
      ∧ (provinceInst.getLocationInstance k).isVisible = true)
    (hfit : ∀ j : Int, 0 ≤ j → j < provinceInst.getLocationCount →
      (provinceInst.getLocationInstance j).isVisible = true →
      squaredDistanceFits originalPosition (locationPoint provinceInst provinceDef j)) :
    ∃ i : Int, 0 ≤ i ∧ i < provinceInst.getLocationCount
      ∧ (provinceInst.getLocationInstance i).isVisible = true
      ∧ (∀ j : Int, 0 ≤ j → j < provinceInst.getLocationCount →
          (provinceInst.getLocationInstance j).isVisible = true →
          locationDistance sqrt provinceInst provinceDef originalPosition i
              ≤ locationDistance sqrt provinceInst provinceDef originalPosition j
          ∧ (j < i →
              locationDistance sqrt provinceInst provinceDef originalPosition i
                < locationDistance sqrt provinceInst provinceDef originalPosition j))
      ∧ updateHoveredLocationID sqrt getLocationName provinceInst provinceDef panel
          originalPosition
        = some (if panel.hoveredLocationID ≠ i then
            { hoveredLocationID := i, hoveredLocationTextBox := getLocationName i }
          else panel)
      ∧ ∃ after : PanelState,
          updateHoveredLocationID sqrt getLocationName provinceInst provinceDef panel
            originalPosition = some after
          ∧ after.hoveredLocationID = i := by
  obtain ⟨k, hk0, hk1, hkvis⟩ := hvisible
  have hkcast : ((k.toNat : Nat) : Int) = k := Int.toNat_of_nonneg hk0
  have hfitNat : ∀ j : Nat, j < provinceInst.getLocationCount.toNat →
      (provinceInst.getLocationInstance (j : Int)).isVisible = true →
      squaredDistanceFits originalPosition
        (locationPoint provinceInst provinceDef (j : Int)) :=
    fun j hj hv => hfit (j : Int) (by omega) (by omega) hv
  rcases scanLocations_spec sqrt provinceInst provinceDef originalPosition
      provinceInst.getLocationCount.toNat hfitNat with ⟨_, hnone⟩ | ⟨i, hi, hstate, hivis, hmin⟩
  · have hfalse := hnone k.toNat (by omega)
    rw [hkcast, hkvis] at hfalse
    exact Bool.noConfusion hfalse
  · have hcall : updateHoveredLocationID sqrt getLocationName provinceInst provinceDef panel
        originalPosition
        = some (if panel.hoveredLocationID ≠ (i : Int) then
            { hoveredLocationID := (i : Int),
              hoveredLocationTextBox := getLocationName (i : Int) }
          else panel) := by
      simp only [updateHoveredLocationID, hstate]
      split <;> rfl
    refine ⟨(i : Int), by omega, by omega, hivis, ?_, hcall, _, hcall, ?_⟩
    · intro j hj0 hj1 hjvis
      have hjcast : ((j.toNat : Nat) : Int) = j := Int.toNat_of_nonneg hj0
      have h := hmin j.toNat (by omega) (by rw [hjcast]; exact hjvis)
      rw [hjcast] at h
      exact ⟨h.1, fun hlt => h.2 (by omega)⟩
    · split
      · rfl
      · rename_i hsame
        exact not_not.mp hsame

/-- Witness for C40: in `exampleProvinceInstance` the location 0 lies on the position `(0, 0)` but
is not visible, and the visible locations 1 at `(3, 4)` and 2 at `(4, 3)` are both at distance
5, with the squared distance 25.  The panel, which hovered over location 0, hovers over
location 1 afterwards and shows its name. -/
theorem updateHoveredLocationID_first_closest_visible_witness :
    (∃ k : Int, 0 ≤ k ∧ k < exampleProvinceInstance.getLocationCount
      ∧ (exampleProvinceInstance.getLocationInstance k).isVisible = true)
    ∧ (∀ j : Int, 0 ≤ j → j < exampleProvinceInstance.getLocationCount →
        (exampleProvinceInstance.getLocationInstance j).isVisible = true →
        squaredDistanceFits ⟨0, 0⟩
          (locationPoint exampleProvinceInstance exampleProvinceDefinition j))
    ∧ locationDistance Rat.sqrt exampleProvinceInstance exampleProvinceDefinition ⟨0, 0⟩ 1
        = locationDistance Rat.sqrt exampleProvinceInstance exampleProvinceDefinition ⟨0, 0⟩ 2
    ∧ updateHoveredLocationID Rat.sqrt exampleLocationName exampleProvinceInstance
        exampleProvinceDefinition examplePanel ⟨0, 0⟩
      = some { hoveredLocationID := 1, hoveredLocationTextBox := "Second" } := by
  have hvisible : ∃ k : Int, 0 ≤ k ∧ k < exampleProvinceInstance.getLocationCount
      ∧ (exampleProvinceInstance.getLocationInstance k).isVisible = true :=
    ⟨2, by decide, by decide, by decide⟩
  have hcount : exampleProvinceInstance.getLocationCount = 3 := rfl
  have hfit : ∀ j : Int, 0 ≤ j → j < exampleProvinceInstance.getLocationCount →
      (exampleProvinceInstance.getLocationInstance j).isVisible = true →
      squaredDistanceFits ⟨0, 0⟩
        (locationPoint exampleProvinceInstance exampleProvinceDefinition j) := by
    intro j hj0 hj1 _
    rw [hcount] at hj1
    have hcases : j = 0 ∨ j = 1 ∨ j = 2 := by omega
    rcases hcases with h | h | h <;> subst h <;> unfold squaredDistanceFits <;> decide
  have hdist : locationDistance Rat.sqrt exampleProvinceInstance exampleProvinceDefinition
      ⟨0, 0⟩ 1
      = locationDistance Rat.sqrt exampleProvinceInstance exampleProvinceDefinition ⟨0, 0⟩ 2 := by
    norm_num [locationDistance, locationPoint, exampleProvinceInstance,
      exampleProvinceDefinition]
  obtain ⟨i, hi0, hi1, hivis, hmin, hcall, _⟩ :=
    updateHoveredLocationID_first_closest_visible Rat.sqrt exampleLocationName
      exampleProvinceInstance exampleProvinceDefinition examplePanel ⟨0, 0⟩ hvisible hfit
  have hne0 : i ≠ 0 := by
    intro h0
    rw [h0] at hivis
    exact Bool.noConfusion hivis
  have hne2 : i ≠ 2 := by
    intro h2
    have hlt := (hmin 1 (by decide) (by decide) (by decide)).2 (by omega)
    rw [h2, hdist] at hlt
    exact lt_irrefl _ hlt
  have hi : i = 1 := by omega
  rw [hi] at hcall
  exact ⟨hvisible, hfit, hdist, hcall⟩

end ProvinceMapPanel

/-! ## Theorems: one fragment through the three passes -/

namespace swRender

variable {K : Type} [LinearOrderedField K]

end swRender

namespace SoftwareRenderer

section Frame

variable {K : Type} [LinearOrderedField K]

end Frame

end SoftwareRenderer

end OpenTESArena
